import Mathlib

/-! # Verification development for the Direct3D 10 effect runtime (`dlls/d3d10/effect.c`)

Shallow embedding of the binary container reader, the FX10 header parser, the
name/index lookups and the facade operations of the effect engine, followed by
the theorems that settle the specification claims about them.

Conventions of the embedding

* A byte buffer `(data, data_size)` is a `List Nat` of bytes; `data_size` is its length.
* A C pointer into a buffer is the byte offset from the start of that buffer.
* An `HRESULT` is the signed 32-bit integer the C type holds.
* A read or write outside the buffer, or through a NULL pointer, is undefined behaviour
  in C. The embedding makes it observable: such a step ends the run with a `Fault`.
-/

namespace D3D10Effect

/-! ## Result codes -/

/-- Signed 32-bit Windows result code. -/
abbrev HRESULT := Int

/-- Success code `S_OK` (0). -/
def S_OK : HRESULT := 0
/-- Failure code `E_FAIL` (0x80004005). -/
def E_FAIL : HRESULT := -2147467259
/-- Failure code `E_INVALIDARG` (0x80070057). -/
def E_INVALIDARG : HRESULT := -2147024809
/-- Failure code `E_OUTOFMEMORY` (0x8007000E). -/
def E_OUTOFMEMORY : HRESULT := -2147024882
/-- Failure code `E_NOTIMPL` (0x80004001). -/
def E_NOTIMPL : HRESULT := -2147467263

/-- The `FAILED(hr)` test of the Windows headers: the sign bit is set. -/
def FAILED (hr : HRESULT) : Bool := decide (hr < 0)

/-- Undefined behaviour made observable. -/
inductive Fault where
  /-- A 4-byte read at offset `pos` that does not lie inside the buffer. -/
  | oob_read (pos : Nat)
  /-- A load through a NULL pointer. -/
  | null_deref
  /-- A 4-byte write at offset `pos` that does not lie inside the buffer. -/
  | oob_write (pos : Nat)
  /-- The conversion `(int)f` of a NaN, an infinity or a value outside the range of `int`. -/
  | float_to_int
  /-- An access `m[row][col]` outside the 4x4 array of a `struct d3d10_matrix`. -/
  | matrix_index (row col : Nat)
  deriving DecidableEq, Repr

deriving instance DecidableEq for Except

/-! ## Byte buffers -/

/-- Byte `i` of the buffer (0 past the end; only used under a bounds check). -/
def byte_at (data : List Nat) (i : Nat) : Nat := data.getD i 0 % 256

/-- Little-endian 32-bit word stored at offset `p`. -/
def dword_at (data : List Nat) (p : Nat) : Nat :=
  byte_at data p + 256 * byte_at data (p + 1) + 65536 * byte_at data (p + 2)
    + 16777216 * byte_at data (p + 3)

/-- Tag built by `MAKE_TAG(ch0, ch1, ch2, ch3)`. -/
def MAKE_TAG (ch0 ch1 ch2 ch3 : Nat) : Nat := ch0 + 256 * ch1 + 65536 * ch2 + 16777216 * ch3

/-- Container tag `TAG_DXBC = MAKE_TAG('D', 'X', 'B', 'C')`. -/
def TAG_DXBC : Nat := MAKE_TAG 68 88 66 67
/-- Chunk tag `TAG_FX10 = MAKE_TAG('F', 'X', '1', '0')`. -/
def TAG_FX10 : Nat := MAKE_TAG 70 88 49 48

/-- Embedding of `read_dword(&ptr, &d)`: copies the four bytes at `ptr` and advances `ptr` by four.
The C function performs no bounds check; a read that leaves the buffer is reported as a fault. -/
def read_dword (data : List Nat) (ptr : Nat) : Except Fault (Nat × Nat) :=
  if ptr + 4 ≤ data.length then .ok (dword_at data ptr, ptr + 4) else .error (.oob_read ptr)

/-- Subtraction of two `size_t` values (64-bit), wrapping around when the result is negative. -/
def size_t_sub (a b : Nat) : Nat := if b ≤ a then a - b else a + 2 ^ 64 - b

/-- Embedding of `require_space(offset, count, size, data_size)`:
`!count || (data_size - offset) / count >= size`. -/
def require_space (offset count size data_size : Nat) : Bool :=
  count == 0 || decide (size ≤ size_t_sub data_size offset / count)

/-- Embedding of `skip_dword_unknown(location, &ptr, count)`: reads and drops `count` words. -/
def skip_dword_unknown (data : List Nat) : Nat → Nat → Except Fault Nat
  | ptr, 0 => .ok ptr
  | ptr, count + 1 =>
    match read_dword data ptr with
    | .error f => .error f
    | .ok (_, ptr1) => skip_dword_unknown data ptr1 count

/-! ## Binary container reader (`parse_dxbc`) -/

/-- One invocation `chunk_handler(chunk_ptr, chunk_size, chunk_tag, ctx)`. -/
structure chunk_call where
  /-- Offset of the first payload byte of the chunk (`chunk_ptr - data`). -/
  chunk_ptr : Nat
  /-- Declared size of the chunk payload. -/
  chunk_size : Nat
  /-- Four-byte tag of the chunk. -/
  tag : Nat
  deriving DecidableEq, Repr

/-- A chunk handler: receives the payload offset, its size, the tag and the context;
returns its result code (or a fault of its own) and the updated context. -/
abbrev chunk_handler_t (σ : Type) := Nat → Nat → Nat → σ → Except Fault HRESULT × σ

/-- Outcome of a `parse_dxbc` run: the returned code (or the fault that ended the run),
the final context and, in order, the handler invocations that were made. -/
structure dxbc_run (σ : Type) where
  /-- Returned `HRESULT`, or the fault. -/
  outcome : Except Fault HRESULT
  /-- Context after the run. -/
  ctx : σ
  /-- Handler invocations, oldest first. -/
  calls : List chunk_call

/-- Embedding of the chunk loop of `parse_dxbc`:
`for (i = 0; i < chunk_count; ++i) { ... }` followed by `return hr;`.
`remaining` is `chunk_count - i`, `ptr` the position in the chunk offset table and
`hr` the current value of the local `hr`. -/
def parse_dxbc_chunks {σ : Type} (data : List Nat) (handler : chunk_handler_t σ) :
    Nat → Nat → HRESULT → σ → List chunk_call → dxbc_run σ
  | 0, _, hr, ctx, calls => ⟨.ok hr, ctx, calls⟩
  | remaining + 1, ptr, _, ctx, calls =>
    match read_dword data ptr with
    | .error f => ⟨.error f, ctx, calls⟩
    | .ok (chunk_offset, ptr1) =>
      if data.length ≤ chunk_offset || !require_space chunk_offset 2 4 data.length then
        ⟨.ok E_FAIL, ctx, calls⟩
      else
        match read_dword data chunk_offset with
        | .error f => ⟨.error f, ctx, calls⟩
        | .ok (chunk_tag, chunk_ptr0) =>
          match read_dword data chunk_ptr0 with
          | .error f => ⟨.error f, ctx, calls⟩
          | .ok (chunk_size, chunk_ptr) =>
            if !require_space chunk_ptr 1 chunk_size data.length then
              ⟨.ok E_FAIL, ctx, calls⟩
            else
              let calls1 := calls ++ [⟨chunk_ptr, chunk_size, chunk_tag⟩]
              match handler chunk_ptr chunk_size chunk_tag ctx with
              | (.error f, ctx1) => ⟨.error f, ctx1, calls1⟩
              | (.ok hr1, ctx1) =>
                if FAILED hr1 then ⟨.ok hr1, ctx1, calls1⟩
                else parse_dxbc_chunks data handler remaining ptr1 hr1 ctx1 calls1

/-- Embedding of `parse_dxbc(data, data_size, chunk_handler, ctx)`.
`data = none` is the NULL pointer; otherwise `data_size` is the length of the buffer. -/
def parse_dxbc {σ : Type} (data : Option (List Nat)) (handler : chunk_handler_t σ) (ctx : σ) :
    dxbc_run σ :=
  match data with
  | none => ⟨.ok E_FAIL, ctx, []⟩
  | some data =>
    match read_dword data 0 with
    | .error f => ⟨.error f, ctx, []⟩
    | .ok (tag, ptr1) =>
      if tag ≠ TAG_DXBC then ⟨.ok E_FAIL, ctx, []⟩
      else
        match skip_dword_unknown data ptr1 4 with
        | .error f => ⟨.error f, ctx, []⟩
        | .ok ptr2 =>
          match read_dword data ptr2 with
          | .error f => ⟨.error f, ctx, []⟩
          | .ok (version, ptr3) =>
            if version ≠ 1 then ⟨.ok E_FAIL, ctx, []⟩
            else
              match read_dword data ptr3 with
              | .error f => ⟨.error f, ctx, []⟩
              | .ok (total_size, ptr4) =>
                if data.length ≠ total_size then ⟨.ok E_FAIL, ctx, []⟩
                else
                  match read_dword data ptr4 with
                  | .error f => ⟨.error f, ctx, []⟩
                  | .ok (chunk_count, ptr5) =>
                    parse_dxbc_chunks data handler chunk_count ptr5 S_OK ctx []

/-- Little-endian bytes of a 32-bit word (used to write test blobs). -/
def le32 (w : Nat) : List Nat := [w % 256, w / 256 % 256, w / 65536 % 256, w / 16777216 % 256]

/-- A handler that accepts every chunk and counts its invocations in the context. -/
def counting_handler : chunk_handler_t Nat := fun _ _ _ n => (.ok S_OK, n + 1)

/-- A 32-byte container whose header is valid (tag, version 1, total size 32) and which
declares one chunk, although the chunk offset table has no room for its entry. -/
def blob_truncated_table : List Nat :=
  le32 TAG_DXBC ++ List.replicate 16 0 ++ le32 1 ++ le32 32 ++ le32 1

/-! ## FX10 chunk: header (`parse_fx10`) and dispatch (`fx10_chunk_handler`) -/

/-- The fields of `struct d3d10_effect` that `parse_fx10` fills from the 19 header words,
in the order in which they are read (the two words stored in the local `unused`, the pool
variable count and the string count, are not kept). -/
structure fx10_header where
  /-- Compiled target version. -/
  version : Nat
  /-- Number of local constant/texture buffers. -/
  local_buffer_count : Nat
  /-- Total number of variables. -/
  variable_count : Nat
  /-- Number of local object variables. -/
  local_variable_count : Nat
  /-- Number of pool (shared) buffers. -/
  shared_buffer_count : Nat
  /-- Number of pool (shared) objects. -/
  shared_object_count : Nat
  /-- Number of techniques. -/
  technique_count : Nat
  /-- Byte offset of the index table inside the body. -/
  index_offset : Nat
  /-- Number of textures. -/
  texture_count : Nat
  /-- Number of depth-stencil states. -/
  depthstencilstate_count : Nat
  /-- Number of blend states. -/
  blendstate_count : Nat
  /-- Number of rasterizer states. -/
  rasterizerstate_count : Nat
  /-- Number of sampler states. -/
  samplerstate_count : Nat
  /-- Number of render target views. -/
  rendertargetview_count : Nat
  /-- Number of depth-stencil views. -/
  depthstencilview_count : Nat
  /-- Number of used shaders. -/
  used_shader_count : Nat
  /-- Number of anonymous shaders. -/
  anonymous_shader_count : Nat
  deriving DecidableEq, Repr

/-- The header fields of a freshly allocated (zero-initialised) effect. -/
def fx10_header.zero : fx10_header :=
  ⟨0, 0, 0, 0, 0, 0, 0, 0, 0, 0, 0, 0, 0, 0, 0, 0, 0⟩

/-- The nineteen `read_dword` calls of `parse_fx10`, in source order; returns the header
fields and the final value of `ptr`. -/
def parse_fx10_read_header (data : List Nat) : Except Fault (fx10_header × Nat) := do
  let (version, ptr) ← read_dword data 0
  let (local_buffer_count, ptr) ← read_dword data ptr
  let (variable_count, ptr) ← read_dword data ptr
  let (local_variable_count, ptr) ← read_dword data ptr
  let (shared_buffer_count, ptr) ← read_dword data ptr
  let (_, ptr) ← read_dword data ptr
  let (shared_object_count, ptr) ← read_dword data ptr
  let (technique_count, ptr) ← read_dword data ptr
  let (index_offset, ptr) ← read_dword data ptr
  let (_, ptr) ← read_dword data ptr
  let (texture_count, ptr) ← read_dword data ptr
  let (depthstencilstate_count, ptr) ← read_dword data ptr
  let (blendstate_count, ptr) ← read_dword data ptr
  let (rasterizerstate_count, ptr) ← read_dword data ptr
  let (samplerstate_count, ptr) ← read_dword data ptr
  let (rendertargetview_count, ptr) ← read_dword data ptr
  let (depthstencilview_count, ptr) ← read_dword data ptr
  let (used_shader_count, ptr) ← read_dword data ptr
  let (anonymous_shader_count, ptr) ← read_dword data ptr
  return (⟨version, local_buffer_count, variable_count, local_variable_count,
    shared_buffer_count, shared_object_count, technique_count, index_offset, texture_count,
    depthstencilstate_count, blendstate_count, rasterizerstate_count, samplerstate_count,
    rendertargetview_count, depthstencilview_count, used_shader_count,
    anonymous_shader_count⟩, ptr)

/-- The body parser `parse_fx10_body(e, data, data_size)` as seen from `parse_fx10`: it
receives the header fields already stored in the effect, the buffer it is to resolve every
offset against, and the rest of the effect; it returns its result code and the effect. -/
abbrev fx10_body_t (σ : Type) := fx10_header → List Nat → σ → Except Fault HRESULT × σ

/-- Outcome of `parse_fx10`: result code (or fault), header fields of the effect, rest of
the effect, and the buffer handed to `parse_fx10_body` when the body parser was called. -/
structure fx10_run (σ : Type) where
  /-- Returned `HRESULT`, or the fault. -/
  outcome : Except Fault HRESULT
  /-- Header fields of the effect after the run. -/
  header : fx10_header
  /-- Rest of the effect after the run. -/
  effect : σ
  /-- Buffer passed to the body parser, if it was called. -/
  body_data : Option (List Nat)

/-- Embedding of `parse_fx10(e, data, data_size)`. `has_pool` is `e->pool != NULL`,
`hdr0` the header fields of `e` on entry and `e` the rest of the effect. The call
`parse_fx10_body(e, ptr, data_size - (ptr - data))` passes the buffer that starts at `ptr`:
the payload without the bytes already consumed. -/
def parse_fx10 {σ : Type} (body : fx10_body_t σ) (has_pool : Bool) (hdr0 : fx10_header)
    (data : List Nat) (e : σ) : fx10_run σ :=
  if !require_space 0 19 4 data.length then ⟨.ok E_INVALIDARG, hdr0, e, none⟩
  else
    match parse_fx10_read_header data with
    | .error f => ⟨.error f, hdr0, e, none⟩
    | .ok (hdr, ptr) =>
      if !has_pool && (hdr.shared_object_count != 0 || hdr.shared_buffer_count != 0) then
        ⟨.ok E_FAIL, hdr, e, none⟩
      else
        let r := body hdr (data.drop ptr) e
        ⟨r.1, hdr, r.2, some (data.drop ptr)⟩

/-- Embedding of `fx10_chunk_handler(data, data_size, tag, ctx)` as a handler for
`parse_dxbc` over the container `blob`: the chunk payload is the `chunk_size` bytes at
`chunk_ptr`; an `FX10` chunk is parsed, any other tag is accepted and ignored. -/
def fx10_chunk_handler {σ : Type} (body : fx10_body_t σ) (has_pool : Bool) (blob : List Nat) :
    chunk_handler_t (fx10_header × σ) :=
  fun chunk_ptr chunk_size tag ctx =>
    if tag = TAG_FX10 then
      let r := parse_fx10 body has_pool ctx.1 ((blob.drop chunk_ptr).take chunk_size) ctx.2
      (r.outcome, (r.header, r.effect))
    else (.ok S_OK, ctx)

/-- Embedding of `d3d10_effect_parse(This, data, data_size)`. -/
def d3d10_effect_parse {σ : Type} (body : fx10_body_t σ) (has_pool : Bool)
    (data : Option (List Nat)) (This : fx10_header × σ) : dxbc_run (fx10_header × σ) :=
  parse_dxbc data (fx10_chunk_handler body has_pool (data.getD [])) This

/-- The header fields as words of the payload: word `n` of the header is at byte `4 * n`;
words 5 and 9 are not kept. -/
def fx10_header_at (data : List Nat) : fx10_header :=
  ⟨dword_at data 0, dword_at data 4, dword_at data 8, dword_at data 12, dword_at data 16,
   dword_at data 24, dword_at data 28, dword_at data 32, dword_at data 40, dword_at data 44,
   dword_at data 48, dword_at data 52, dword_at data 56, dword_at data 60, dword_at data 64,
   dword_at data 68, dword_at data 72⟩

/-- A body parser that only counts how often it is called. -/
def counting_body : fx10_body_t Nat := fun _ _ n => (.ok S_OK, n + 1)

/-- An 80-byte FX10 payload: target `fx_4_0`, one shared (pool) buffer declared in header
word 4, every other count zero, index table at body offset 0, then four body bytes. -/
def payload_shared_buffer : List Nat :=
  le32 0xfeff1001 ++ le32 0 ++ le32 0 ++ le32 0 ++ le32 1 ++ List.replicate 56 0
    ++ [0, 0, 0, 0]

/-! ## Object graph: types, variables, passes, techniques, effects

The structures are declared in `d3d10_private.h`; the fields below are the ones the code
of `effect.c` reads and writes. An array that the code allocates with `count` entries and
walks with `for (i = 0; i < count; ++i)` is a list, and `count` is its length: this holds
for `members` / `member_count`, `elements` / `element_count` of variables,
`annotations.elements` / `annotations.count`, `passes` / `pass_count`,
`techniques` / `technique_count`, `local_buffers` / `local_buffer_count` and
`local_variables` / `local_variable_count`. -/

/-- A C string without its terminating NUL; a `char *` is an `Option cstring` (NULL = none). -/
abbrev cstring := List Nat

/-- The C string of a Lean string literal (used to write examples). -/
def cstr (s : String) : cstring := s.toList.map Char.toNat

/-- Variable classes `D3D10_SHADER_VARIABLE_CLASS`; `SCALAR` has the value 0. -/
inductive D3D10_SVC where
  | SCALAR | VECTOR | MATRIX_ROWS | MATRIX_COLUMNS | OBJECT | STRUCT
  deriving DecidableEq, Repr

/-- Base types `D3D10_SHADER_VARIABLE_TYPE`; `VOID` has the value 0. -/
inductive D3D10_SVT where
  | VOID | BOOL | INT | FLOAT | STRING | TEXTURE | TEXTURE1D | TEXTURE2D | TEXTURE3D
  | TEXTURECUBE | SAMPLER | PIXELSHADER | VERTEXSHADER | UINT | UINT8 | GEOMETRYSHADER
  | RASTERIZER | DEPTHSTENCIL | BLEND | BUFFER | CBUFFER | TBUFFER | TEXTURE1DARRAY
  | TEXTURE2DARRAY | RENDERTARGETVIEW | DEPTHSTENCILVIEW | TEXTURE2DMS | TEXTURE2DMSARRAY
  | TEXTURECUBEARRAY
  deriving DecidableEq, Repr

mutual
/-- Embedding of `struct d3d10_effect_type`; `member_count` is the length of `members`. -/
inductive d3d10_effect_type where
  | mk (name : Option cstring) (basetype : D3D10_SVT) (type_class : D3D10_SVC)
      (id element_count size_unpacked stride size_packed column_count row_count flags : Nat)
      (elementtype : Option d3d10_effect_type) (members : List d3d10_effect_type_member)
/-- Embedding of `struct d3d10_effect_type_member`. -/
inductive d3d10_effect_type_member where
  | mk (name semantic : Option cstring) (buffer_offset : Nat) (type : d3d10_effect_type)
end

/-- Field `name`. -/
def d3d10_effect_type.name : d3d10_effect_type → Option cstring
  | .mk n _ _ _ _ _ _ _ _ _ _ _ _ => n
/-- Field `basetype`. -/
def d3d10_effect_type.basetype : d3d10_effect_type → D3D10_SVT
  | .mk _ b _ _ _ _ _ _ _ _ _ _ _ => b
/-- Field `type_class`. -/
def d3d10_effect_type.type_class : d3d10_effect_type → D3D10_SVC
  | .mk _ _ c _ _ _ _ _ _ _ _ _ _ => c
/-- Field `element_count`. -/
def d3d10_effect_type.element_count : d3d10_effect_type → Nat
  | .mk _ _ _ _ n _ _ _ _ _ _ _ _ => n
/-- Field `column_count`. -/
def d3d10_effect_type.column_count : d3d10_effect_type → Nat
  | .mk _ _ _ _ _ _ _ _ c _ _ _ _ => c
/-- Field `row_count`. -/
def d3d10_effect_type.row_count : d3d10_effect_type → Nat
  | .mk _ _ _ _ _ _ _ _ _ r _ _ _ => r
/-- Field `elementtype` (NULL = none). -/
def d3d10_effect_type.elementtype : d3d10_effect_type → Option d3d10_effect_type
  | .mk _ _ _ _ _ _ _ _ _ _ _ e _ => e
/-- Field `members`. -/
def d3d10_effect_type.members : d3d10_effect_type → List d3d10_effect_type_member
  | .mk _ _ _ _ _ _ _ _ _ _ _ _ m => m
/-- Field `member_count`. -/
def d3d10_effect_type.member_count (t : d3d10_effect_type) : Nat := t.members.length

/-- Field `name`. -/
def d3d10_effect_type_member.name : d3d10_effect_type_member → Option cstring
  | .mk n _ _ _ => n
/-- Field `semantic`. -/
def d3d10_effect_type_member.semantic : d3d10_effect_type_member → Option cstring
  | .mk _ s _ _ => s
/-- Field `buffer_offset`. -/
def d3d10_effect_type_member.buffer_offset : d3d10_effect_type_member → Nat
  | .mk _ _ o _ => o
/-- Field `type`. -/
def d3d10_effect_type_member.type : d3d10_effect_type_member → d3d10_effect_type
  | .mk _ _ _ t => t

/-- The static `null_type`: every field zero (`VOID`, `SCALAR`, no name, no members). -/
def null_type : d3d10_effect_type :=
  .mk none .VOID .SCALAR 0 0 0 0 0 0 0 0 none []

/-- The virtual tables a `struct d3d10_effect_variable` can carry, one per interface. -/
inductive vtbl_kind where
  | variable | constant_buffer | scalar | vector | matrix | string | shader_resource
  | render_target_view | depth_stencil_view | shader | blend | depth_stencil | rasterizer
  | sampler
  deriving DecidableEq, Repr

/-- Embedding of `struct d3d10_effect_variable` (interface table, names, type, flags,
offsets and the owned arrays of annotations, members and array elements). -/
inductive d3d10_effect_variable where
  | mk (vtbl : vtbl_kind) (name semantic : Option cstring) (type : d3d10_effect_type)
      (flag buffer_offset explicit_bind_point data_size : Nat)
      (annotations members elements : List d3d10_effect_variable)

/-- Field `ID3D10EffectVariable_iface.lpVtbl`. -/
def d3d10_effect_variable.vtbl : d3d10_effect_variable → vtbl_kind
  | .mk k _ _ _ _ _ _ _ _ _ _ => k
/-- Field `name`. -/
def d3d10_effect_variable.name : d3d10_effect_variable → Option cstring
  | .mk _ n _ _ _ _ _ _ _ _ _ => n
/-- Field `semantic`. -/
def d3d10_effect_variable.semantic : d3d10_effect_variable → Option cstring
  | .mk _ _ s _ _ _ _ _ _ _ _ => s
/-- Field `type`. -/
def d3d10_effect_variable.type : d3d10_effect_variable → d3d10_effect_type
  | .mk _ _ _ t _ _ _ _ _ _ _ => t
/-- Field `buffer_offset`. -/
def d3d10_effect_variable.buffer_offset : d3d10_effect_variable → Nat
  | .mk _ _ _ _ _ o _ _ _ _ _ => o
/-- Field `annotations.elements`. -/
def d3d10_effect_variable.annotations : d3d10_effect_variable → List d3d10_effect_variable
  | .mk _ _ _ _ _ _ _ _ a _ _ => a
/-- Field `members`. -/
def d3d10_effect_variable.members : d3d10_effect_variable → List d3d10_effect_variable
  | .mk _ _ _ _ _ _ _ _ _ m _ => m
/-- Field `elements`. -/
def d3d10_effect_variable.elements : d3d10_effect_variable → List d3d10_effect_variable
  | .mk _ _ _ _ _ _ _ _ _ _ e => e

/-- A pointer to a variable interface as handed to the application: the address of one of
the static null objects (`null_variable`, `null_local_buffer`, `null_scalar_variable`, ...,
one per virtual table) or the address of a variable of the object graph. -/
inductive var_ref where
  | sentinel (k : vtbl_kind)
  | obj (v : d3d10_effect_variable)

/-- The static null variable of each kind: only `lpVtbl`, `buffer` and `type = &null_type`
are initialised, everything else is zero. -/
def null_variable_of (k : vtbl_kind) : d3d10_effect_variable :=
  .mk k none none null_type 0 0 0 0 [] [] []

/-- Embedding of `impl_from_ID3D10EffectVariable(iface)`: the structure behind a pointer. -/
def var_ref.deref : var_ref → d3d10_effect_variable
  | .sentinel k => null_variable_of k
  | .obj v => v

/-- Pointer comparison `iface == &null_k`; the address of a graph variable differs from
the address of every static null object. -/
def var_ref.is_null (r : var_ref) (k : vtbl_kind) : Bool :=
  match r with
  | .sentinel k1 => k1 == k
  | .obj _ => false

/-- The `IsValid` entry of virtual table `k` (`d3d10_effect_variable_IsValid`,
`d3d10_effect_constant_buffer_IsValid`, `d3d10_effect_scalar_variable_IsValid`, ...):
`return iface != &null_k;`. -/
def vtbl_IsValid (k : vtbl_kind) (iface : var_ref) : Bool := !iface.is_null k

/-- The call `iface->lpVtbl->IsValid(iface)`. -/
def var_ref.IsValid (iface : var_ref) : Bool := vtbl_IsValid iface.deref.vtbl iface

/-- A pointer to a type interface: `&null_type` or a type of the graph. -/
inductive type_ref where
  | null_type
  | obj (t : d3d10_effect_type)

/-- Embedding of `impl_from_ID3D10EffectType(iface)`. -/
def type_ref.deref : type_ref → d3d10_effect_type
  | .null_type => D3D10Effect.null_type
  | .obj t => t

/-- Embedding of `d3d10_effect_type_IsValid`: `return This != &null_type;`. -/
def d3d10_effect_type_IsValid : type_ref → Bool
  | .null_type => false
  | .obj _ => true

/-! ### Passes and techniques -/

/-- Shader input kinds `D3D10_SHADER_INPUT_TYPE` that `apply_shader_resources` tells
apart; every other value is `OTHER`. -/
inductive D3D10_SIT where
  | CBUFFER | TBUFFER | TEXTURE | SAMPLER | OTHER
  deriving DecidableEq, Repr

/-- Embedding of `struct d3d10_effect_shader_resource`; `variable` is the address of the
bound variable, a position in the table of resource variables that `Apply` works on. -/
structure d3d10_effect_shader_resource where
  /-- Field `in_type`. -/
  in_type : D3D10_SIT
  /-- Field `bind_point`. -/
  bind_point : Nat
  /-- Field `bind_count`. -/
  bind_count : Nat
  /-- Field `variable` (a keyword of Lean, hence the suffix). -/
  variable_ptr : Nat
  deriving DecidableEq, Repr

/-- What `d3d10_effect_pass_set_shader` reads of one (non-array) shader variable:
`type->basetype`, the device shader `u.shader.shader` and `u.shader.resources`. -/
structure shader_element where
  /-- Field `type->basetype`. -/
  basetype : D3D10_SVT
  /-- Field `u.shader.shader` (NULL = none). -/
  shader : Option Nat
  /-- Field `u.shader.resources`. -/
  resources : List d3d10_effect_shader_resource
  deriving DecidableEq, Repr

/-- A shader variable as seen through a pass: `type->element_count`, the variable itself
and its array elements. -/
structure shader_variable where
  /-- Field `type->element_count`. -/
  element_count : Nat
  /-- The variable itself. -/
  self : shader_element
  /-- Field `elements`. -/
  elements : List shader_element
  deriving DecidableEq, Repr

/-- A pointer to a shader variable as stored in a pass: `NULL`, the address of the static
`null_shader_variable`, or the address of a shader variable. -/
inductive shader_ptr where
  | NULL
  | null_shader_variable
  | var (v : shader_variable)
  deriving DecidableEq, Repr

/-- Embedding of `struct d3d10_effect_pass_shader_desc`. -/
structure d3d10_effect_pass_shader_desc where
  /-- Field `shader`. -/
  shader : shader_ptr
  /-- Field `index`. -/
  index : Nat
  deriving DecidableEq, Repr

/-- The chain `pass->technique->effect->device` behind the `technique` pointer of a pass:
`none` is a NULL `technique` pointer, `some none` a technique whose `effect` pointer is
NULL and `some (some d)` the device `d`. -/
abbrev technique_link := Option (Option Nat)

/-- Embedding of `struct d3d10_effect_pass`. The state variables `rasterizer`,
`depth_stencil` and `blend` are pointers to state variables (NULL = none); the embedding
keeps the device state object `u.state.object` of the variable they point to. -/
structure d3d10_effect_pass where
  /-- Field `technique`. -/
  technique : technique_link
  /-- Field `name` (NULL = none). -/
  name : Option cstring
  /-- Field `annotations.elements`. -/
  annotations : List d3d10_effect_variable
  /-- Field `vs`. -/
  vs : d3d10_effect_pass_shader_desc
  /-- Field `ps`. -/
  ps : d3d10_effect_pass_shader_desc
  /-- Field `gs`. -/
  gs : d3d10_effect_pass_shader_desc
  /-- Field `rasterizer`. -/
  rasterizer : Option (Option Nat)
  /-- Field `depth_stencil`. -/
  depth_stencil : Option (Option Nat)
  /-- Field `blend`. -/
  blend : Option (Option Nat)
  /-- Field `stencil_ref`. -/
  stencil_ref : Nat
  /-- Field `sample_mask`. -/
  sample_mask : Nat
  /-- Field `blend_factor` (bit patterns of the four floats). -/
  blend_factor : List Nat

/-- The static `null_pass = {{&d3d10_effect_pass_vtbl}}`: every other field is zero, so the
`technique` pointer, the three shader pointers and the state pointers are NULL. -/
def null_pass : d3d10_effect_pass :=
  { technique := none, name := none, annotations := [], vs := ⟨.NULL, 0⟩, ps := ⟨.NULL, 0⟩,
    gs := ⟨.NULL, 0⟩, rasterizer := none, depth_stencil := none, blend := none,
    stencil_ref := 0, sample_mask := 0, blend_factor := [0, 0, 0, 0] }

/-- A pointer to a pass interface: `&null_pass` or a pass of the graph. -/
inductive pass_ref where
  | null_pass
  | obj (p : d3d10_effect_pass)

/-- Embedding of `impl_from_ID3D10EffectPass(iface)`. -/
def pass_ref.deref : pass_ref → d3d10_effect_pass
  | .null_pass => D3D10Effect.null_pass
  | .obj p => p

/-- Embedding of `d3d10_effect_pass_IsValid`: `return This != &null_pass;`. -/
def d3d10_effect_pass_IsValid : pass_ref → Bool
  | .null_pass => false
  | .obj _ => true

/-- Embedding of `struct d3d10_effect_technique`. -/
structure d3d10_effect_technique where
  /-- Field `name` (NULL = none). -/
  name : Option cstring
  /-- Field `passes`. -/
  passes : List d3d10_effect_pass
  /-- Field `annotations.elements`. -/
  annotations : List d3d10_effect_variable

/-- The static `null_technique = {{&d3d10_effect_technique_vtbl}}`. -/
def null_technique : d3d10_effect_technique := { name := none, passes := [], annotations := [] }

/-- A pointer to a technique interface: `&null_technique` or a technique of the graph. -/
inductive technique_ref where
  | null_technique
  | obj (t : d3d10_effect_technique)

/-- Embedding of `impl_from_ID3D10EffectTechnique(iface)`. -/
def technique_ref.deref : technique_ref → d3d10_effect_technique
  | .null_technique => D3D10Effect.null_technique
  | .obj t => t

/-- Embedding of `d3d10_effect_technique_IsValid`: `return This != &null_technique;`. -/
def d3d10_effect_technique_IsValid : technique_ref → Bool
  | .null_technique => false
  | .obj _ => true

/-! ### Effects -/

/-- The part of `struct d3d10_effect_shader_variable` (`v->u.shader`) that `Optimize`
touches, plus the device shader object: handles are numbers, NULL is `none`. -/
structure d3d10_effect_shader_variable where
  /-- Field `reflection`. -/
  reflection : Option Nat
  /-- Field `bytecode`. -/
  bytecode : Option (List Nat)
  /-- Field `stream_output_declaration`. -/
  stream_output_declaration : Option cstring
  /-- Field `shader` (the device shader object). -/
  shader : Option Nat
  deriving DecidableEq, Repr

/-- Embedding of `struct d3d10_effect`. `used_shaders` is the table of `used_shader_count`
pointers allocated zeroed by `parse_fx10_body`; slot `i` is NULL (`none`) until
`parse_fx10_shader` stores the address of a shader variable in it; the embedding keeps
the `u.shader` part of that variable in the slot. `pool` is the parent pool (NULL = none). -/
inductive d3d10_effect where
  | mk (flags : Nat) (local_buffers local_variables : List d3d10_effect_variable)
      (techniques : List d3d10_effect_technique)
      (used_shaders : List (Option d3d10_effect_shader_variable)) (used_shader_current : Nat)
      (pool : Option d3d10_effect)

/-- Field `flags`. -/
def d3d10_effect.flags : d3d10_effect → Nat
  | .mk f _ _ _ _ _ _ => f
/-- Field `local_buffers`. -/
def d3d10_effect.local_buffers : d3d10_effect → List d3d10_effect_variable
  | .mk _ b _ _ _ _ _ => b
/-- Field `local_variables`. -/
def d3d10_effect.local_variables : d3d10_effect → List d3d10_effect_variable
  | .mk _ _ v _ _ _ _ => v
/-- Field `techniques`. -/
def d3d10_effect.techniques : d3d10_effect → List d3d10_effect_technique
  | .mk _ _ _ t _ _ _ => t
/-- Field `used_shaders`. -/
def d3d10_effect.used_shaders : d3d10_effect → List (Option d3d10_effect_shader_variable)
  | .mk _ _ _ _ u _ _ => u
/-- Field `used_shader_current`. -/
def d3d10_effect.used_shader_current : d3d10_effect → Nat
  | .mk _ _ _ _ _ c _ => c
/-- Field `pool`. -/
def d3d10_effect.pool : d3d10_effect → Option d3d10_effect
  | .mk _ _ _ _ _ _ p => p

/-- The effect object right after `heap_alloc_zero` and the assignments of
`d3d10_create_effect`: creation flags and pool set, everything else zero. -/
def d3d10_effect.create (flags : Nat) (pool : Option d3d10_effect) : d3d10_effect :=
  .mk flags [] [] [] [] 0 pool

/-! ### String comparison -/

/-- The test `strcmp(a, b) == 0`; passing a NULL pointer to `strcmp` is a fault. -/
def strcmp_eq (a b : Option cstring) : Except Fault Bool :=
  match a, b with
  | some x, some y => .ok (x == y)
  | _, _ => .error .null_deref

/-- ASCII `tolower`. -/
def tolower (c : Nat) : Nat := if 65 ≤ c ∧ c ≤ 90 then c + 32 else c

/-- The test `stricmp(a, b) == 0` (case-insensitive comparison). -/
def stricmp_eq (a b : Option cstring) : Except Fault Bool :=
  match a, b with
  | some x, some y => .ok (x.map tolower == y.map tolower)
  | _, _ => .error .null_deref

/-- The loop test `v->name && !strcmp(v->name, name)`: `strcmp` is only reached when the
stored name is not NULL. -/
def name_matches (vname name : Option cstring) : Except Fault Bool :=
  match vname with
  | none => .ok false
  | some _ => strcmp_eq vname name

/-- The loop test `v->semantic && !stricmp(v->semantic, semantic)`. -/
def semantic_matches (vsemantic semantic : Option cstring) : Except Fault Bool :=
  match vsemantic with
  | none => .ok false
  | some _ => stricmp_eq vsemantic semantic

/-- The loop `for (i = 0; i < count; ++i) if (test(&a[i])) return &a[i];` followed by
falling through (result `none`): first element for which the test holds. -/
def find_first {α : Type} (test : α → Except Fault Bool) : List α → Except Fault (Option α)
  | [] => .ok none
  | x :: rest =>
    match test x with
    | .error f => .error f
    | .ok true => .ok (some x)
    | .ok false => find_first test rest

/-! ### Lookup by name (internal helpers) -/

/-- The tail of the name lookups: `return v;` when the loops found `v`, otherwise
`return effect->pool ? lookup(effect->pool, name) : NULL;`, whose value is `rest`. -/
def found_or (found rest : Except Fault (Option d3d10_effect_variable)) :
    Except Fault (Option d3d10_effect_variable) :=
  match found with
  | .error f => .error f
  | .ok (some v) => .ok (some v)
  | .ok none => rest

/-- Embedding of `d3d10_effect_get_buffer_by_name(effect, name)`: the first local buffer
whose name is `name`, else the result for the pool, else NULL. -/
def d3d10_effect_get_buffer_by_name :
    d3d10_effect → Option cstring → Except Fault (Option d3d10_effect_variable)
  | .mk _ local_buffers _ _ _ _ none, name =>
    found_or (find_first (fun l => name_matches l.name name) local_buffers) (.ok none)
  | .mk _ local_buffers _ _ _ _ (some pool), name =>
    found_or (find_first (fun l => name_matches l.name name) local_buffers)
      (d3d10_effect_get_buffer_by_name pool name)

/-- The first loop nest of `d3d10_effect_get_variable_by_name`: for every local buffer in
order, the first member whose name is `name`. -/
def find_buffer_member (test : d3d10_effect_variable → Except Fault Bool) :
    List d3d10_effect_variable → Except Fault (Option d3d10_effect_variable)
  | [] => .ok none
  | l :: rest =>
    match find_first test l.members with
    | .error f => .error f
    | .ok (some v) => .ok (some v)
    | .ok none => find_buffer_member test rest

/-- The search of `d3d10_effect_get_variable_by_name` inside one effect, the pool left out:
members of the local buffers in order, then the local variables in order. -/
def find_local_variable (test : d3d10_effect_variable → Except Fault Bool)
    (local_buffers local_variables : List d3d10_effect_variable) :
    Except Fault (Option d3d10_effect_variable) :=
  match find_buffer_member test local_buffers with
  | .error f => .error f
  | .ok (some v) => .ok (some v)
  | .ok none => find_first test local_variables

/-- Embedding of `d3d10_effect_get_variable_by_name(effect, name)`. -/
def d3d10_effect_get_variable_by_name :
    d3d10_effect → Option cstring → Except Fault (Option d3d10_effect_variable)
  | .mk _ local_buffers local_variables _ _ _ none, name =>
    found_or (find_local_variable (fun v => name_matches v.name name) local_buffers
      local_variables) (.ok none)
  | .mk _ local_buffers local_variables _ _ _ (some pool), name =>
    found_or (find_local_variable (fun v => name_matches v.name name) local_buffers
      local_variables) (d3d10_effect_get_variable_by_name pool name)

/-- Embedding of `d3d10_effect_get_variable_by_semantic(effect, semantic)`. -/
def d3d10_effect_get_variable_by_semantic :
    d3d10_effect → Option cstring → Except Fault (Option d3d10_effect_variable)
  | .mk _ local_buffers local_variables _ _ _ none, semantic =>
    found_or (find_local_variable (fun v => semantic_matches v.semantic semantic)
      local_buffers local_variables) (.ok none)
  | .mk _ local_buffers local_variables _ _ _ (some pool), semantic =>
    found_or (find_local_variable (fun v => semantic_matches v.semantic semantic)
      local_buffers local_variables) (d3d10_effect_get_variable_by_semantic pool semantic)

/-! ### Shared (pool) symbols -/

mutual
/-- Embedding of `d3d10_effect_types_match(t1, t2)`. A NULL `elementtype` of an array type
is dereferenced by the recursive call (fault). -/
def d3d10_effect_types_match : d3d10_effect_type → d3d10_effect_type → Except Fault Bool
  | .mk name1 basetype1 class1 _ element_count1 _ _ _ column_count1 row_count1 _ elementtype1
      members1,
    .mk name2 basetype2 class2 _ element_count2 _ _ _ column_count2 row_count2 _ elementtype2
      members2 =>
    match strcmp_eq name1 name2 with
    | .error f => .error f
    | .ok false => .ok false
    | .ok true =>
      if basetype1 ≠ basetype2 then .ok false
      else if class1 ≠ class2 then .ok false
      else if element_count1 ≠ element_count2 then .ok false
      else if element_count1 ≠ 0 then
        match elementtype1, elementtype2 with
        | some e1, some e2 => d3d10_effect_types_match e1 e2
        | _, _ => .error .null_deref
      else if members1.length ≠ members2.length then .ok false
      else if column_count1 ≠ column_count2 then .ok false
      else if row_count1 ≠ row_count2 then .ok false
      else d3d10_effect_types_match_members members1 members2
/-- The member loop of `d3d10_effect_types_match`, entered with equal member counts. -/
def d3d10_effect_types_match_members :
    List d3d10_effect_type_member → List d3d10_effect_type_member → Except Fault Bool
  | [], _ => .ok true
  | _ :: _, [] => .error (.oob_read 0)
  | .mk name1 _ offset1 type1 :: rest1, .mk name2 _ offset2 type2 :: rest2 =>
    match strcmp_eq name1 name2 with
    | .error f => .error f
    | .ok false => .ok false
    | .ok true =>
      if offset1 ≠ offset2 then .ok false
      else
        match d3d10_effect_types_match type1 type2 with
        | .error f => .error f
        | .ok false => .ok false
        | .ok true => d3d10_effect_types_match_members rest1 rest2
end

/-- The pool lookup of `d3d10_effect_validate_shared_variable`: by buffer name for
`CBUFFER` / `TBUFFER` variables, by variable name otherwise; `effect->pool` is
dereferenced without a test. -/
def shared_variable_lookup (effect : d3d10_effect) (v : d3d10_effect_variable) :
    Except Fault (Option d3d10_effect_variable) :=
  match effect.pool with
  | none => .error .null_deref
  | some pool =>
    match v.type.basetype with
    | .CBUFFER => d3d10_effect_get_buffer_by_name pool v.name
    | .TBUFFER => d3d10_effect_get_buffer_by_name pool v.name
    | _ => d3d10_effect_get_variable_by_name pool v.name

/-- Embedding of `d3d10_effect_validate_shared_variable(effect, v)`. -/
def d3d10_effect_validate_shared_variable (effect : d3d10_effect)
    (v : d3d10_effect_variable) : Except Fault HRESULT :=
  match shared_variable_lookup effect v with
  | .error f => .error f
  | .ok none => .ok E_INVALIDARG
  | .ok (some sv) =>
    match d3d10_effect_types_match sv.type v.type with
    | .error f => .error f
    | .ok false => .ok E_INVALIDARG
    | .ok true => .ok S_OK

/-! ### Lookup by index (internal helpers) -/

/-- Embedding of `d3d10_effect_get_buffer_by_index(effect, index)`. -/
def d3d10_effect_get_buffer_by_index : d3d10_effect → Nat → Option d3d10_effect_variable
  | .mk _ local_buffers _ _ _ _ none, index =>
    if index < local_buffers.length then local_buffers[index]? else none
  | .mk _ local_buffers _ _ _ _ (some pool), index =>
    if index < local_buffers.length then local_buffers[index]?
    else d3d10_effect_get_buffer_by_index pool (index - local_buffers.length)

/-- The first loop of `d3d10_effect_get_variable_by_index`: walks the local buffers,
returning `&v->members[index]` when `index < v->type->member_count` and subtracting the
member count otherwise; the second component is the index left after the loop. -/
def get_buffer_member_by_index :
    List d3d10_effect_variable → Nat → Option d3d10_effect_variable × Nat
  | [], index => (none, index)
  | v :: rest, index =>
    if index < v.members.length then (v.members[index]?, index)
    else get_buffer_member_by_index rest (index - v.members.length)

/-- The second half of `d3d10_effect_get_variable_by_index`, after the buffer loop left
`found` and the remaining index: the local variables, then `rest`, the value of
`effect->pool ? d3d10_effect_get_variable_by_index(effect->pool, index) : NULL` as a
function of the index left. -/
def variable_by_index_tail (found : Option d3d10_effect_variable × Nat)
    (local_variables : List d3d10_effect_variable)
    (rest : Nat → Option d3d10_effect_variable) : Option d3d10_effect_variable :=
  match found with
  | (some v, _) => some v
  | (none, index1) =>
    if index1 < local_variables.length then local_variables[index1]?
    else rest (index1 - local_variables.length)

/-- Embedding of `d3d10_effect_get_variable_by_index(effect, index)`. -/
def d3d10_effect_get_variable_by_index : d3d10_effect → Nat → Option d3d10_effect_variable
  | .mk _ local_buffers local_variables _ _ _ none, index =>
    variable_by_index_tail (get_buffer_member_by_index local_buffers index) local_variables
      (fun _ => none)
  | .mk _ local_buffers local_variables _ _ _ (some pool), index =>
    variable_by_index_tail (get_buffer_member_by_index local_buffers index) local_variables
      (fun index1 => d3d10_effect_get_variable_by_index pool index1)

/-! ### Facade lookups (`ID3D10Effect`, `ID3D10EffectTechnique`, `ID3D10EffectPass`,
`ID3D10EffectVariable`, `ID3D10EffectType`) -/

/-- Conversion of an internal result (`NULL` or a variable) into the returned interface
pointer: `if ((v = lookup(...))) return &v->iface; return &null_k.iface;`. -/
def var_or_null (k : vtbl_kind) : Option d3d10_effect_variable → var_ref
  | some v => .obj v
  | none => .sentinel k

/-- Embedding of `d3d10_effect_GetConstantBufferByIndex`. -/
def d3d10_effect_GetConstantBufferByIndex (effect : d3d10_effect) (index : Nat) : var_ref :=
  var_or_null .constant_buffer (d3d10_effect_get_buffer_by_index effect index)

/-- Embedding of `d3d10_effect_GetConstantBufferByName` (no test for a NULL name). -/
def d3d10_effect_GetConstantBufferByName (effect : d3d10_effect) (name : Option cstring) :
    Except Fault var_ref :=
  match d3d10_effect_get_buffer_by_name effect name with
  | .error f => .error f
  | .ok r => .ok (var_or_null .constant_buffer r)

/-- Embedding of `d3d10_effect_GetVariableByIndex`. -/
def d3d10_effect_GetVariableByIndex (effect : d3d10_effect) (index : Nat) : var_ref :=
  var_or_null .variable (d3d10_effect_get_variable_by_index effect index)

/-- Embedding of `d3d10_effect_GetVariableByName`. -/
def d3d10_effect_GetVariableByName (effect : d3d10_effect) (name : Option cstring) :
    Except Fault var_ref :=
  match name with
  | none => .ok (.sentinel .variable)
  | some _ =>
    match d3d10_effect_get_variable_by_name effect name with
    | .error f => .error f
    | .ok r => .ok (var_or_null .variable r)

/-- Embedding of `d3d10_effect_GetVariableBySemantic`. -/
def d3d10_effect_GetVariableBySemantic (effect : d3d10_effect) (semantic : Option cstring) :
    Except Fault var_ref :=
  match semantic with
  | none => .ok (.sentinel .variable)
  | some _ =>
    match d3d10_effect_get_variable_by_semantic effect semantic with
    | .error f => .error f
    | .ok r => .ok (var_or_null .variable r)

/-- Conversion of a found technique (or none) into the returned interface pointer. -/
def technique_or_null : Option d3d10_effect_technique → technique_ref
  | some t => .obj t
  | none => .null_technique

/-- Embedding of `d3d10_effect_GetTechniqueByIndex`. -/
def d3d10_effect_GetTechniqueByIndex (This : d3d10_effect) (index : Nat) : technique_ref :=
  if This.techniques.length ≤ index then .null_technique
  else technique_or_null This.techniques[index]?

/-- Embedding of `d3d10_effect_GetTechniqueByName`. -/
def d3d10_effect_GetTechniqueByName (This : d3d10_effect) (name : Option cstring) :
    Except Fault technique_ref :=
  match name with
  | none => .ok .null_technique
  | some _ =>
    match find_first (fun t : d3d10_effect_technique => name_matches t.name name)
        This.techniques with
    | .error f => .error f
    | .ok r => .ok (technique_or_null r)

/-- Embedding of `d3d10_annotation_get_by_index(annotations, index)`. -/
def d3d10_annotation_get_by_index (annotations : List d3d10_effect_variable) (index : Nat) :
    var_ref :=
  if annotations.length ≤ index then .sentinel .variable
  else var_or_null .variable annotations[index]?

/-- Embedding of `d3d10_annotation_get_by_name(annotations, name)`. -/
def d3d10_annotation_get_by_name (annotations : List d3d10_effect_variable)
    (name : Option cstring) : Except Fault var_ref :=
  match find_first (fun a => name_matches a.name name) annotations with
  | .error f => .error f
  | .ok r => .ok (var_or_null .variable r)

/-- Embedding of `d3d10_effect_technique_GetAnnotationByIndex`. -/
def d3d10_effect_technique_GetAnnotationByIndex (iface : technique_ref) (index : Nat) :
    var_ref :=
  d3d10_annotation_get_by_index iface.deref.annotations index

/-- Embedding of `d3d10_effect_technique_GetAnnotationByName`. -/
def d3d10_effect_technique_GetAnnotationByName (iface : technique_ref)
    (name : Option cstring) : Except Fault var_ref :=
  d3d10_annotation_get_by_name iface.deref.annotations name

/-- Conversion of a found pass (or none) into the returned interface pointer. -/
def pass_or_null : Option d3d10_effect_pass → pass_ref
  | some p => .obj p
  | none => .null_pass

/-- Embedding of `d3d10_effect_technique_GetPassByIndex`. -/
def d3d10_effect_technique_GetPassByIndex (iface : technique_ref) (index : Nat) : pass_ref :=
  if iface.deref.passes.length ≤ index then .null_pass
  else pass_or_null iface.deref.passes[index]?

/-- Embedding of `d3d10_effect_technique_GetPassByName` (no test for a NULL name). -/
def d3d10_effect_technique_GetPassByName (iface : technique_ref) (name : Option cstring) :
    Except Fault pass_ref :=
  match find_first (fun p : d3d10_effect_pass => name_matches p.name name)
      iface.deref.passes with
  | .error f => .error f
  | .ok r => .ok (pass_or_null r)

/-- Embedding of `d3d10_effect_pass_GetAnnotationByIndex`. -/
def d3d10_effect_pass_GetAnnotationByIndex (iface : pass_ref) (index : Nat) : var_ref :=
  d3d10_annotation_get_by_index iface.deref.annotations index

/-- Embedding of `d3d10_effect_pass_GetAnnotationByName`. -/
def d3d10_effect_pass_GetAnnotationByName (iface : pass_ref) (name : Option cstring) :
    Except Fault var_ref :=
  d3d10_annotation_get_by_name iface.deref.annotations name

/-- Embedding of `d3d10_effect_variable_GetAnnotationByIndex`. -/
def d3d10_effect_variable_GetAnnotationByIndex (iface : var_ref) (index : Nat) : var_ref :=
  d3d10_annotation_get_by_index iface.deref.annotations index

/-- Embedding of `d3d10_effect_variable_GetAnnotationByName`. -/
def d3d10_effect_variable_GetAnnotationByName (iface : var_ref) (name : Option cstring) :
    Except Fault var_ref :=
  d3d10_annotation_get_by_name iface.deref.annotations name

/-- Embedding of `d3d10_effect_variable_GetMemberByIndex`. -/
def d3d10_effect_variable_GetMemberByIndex (iface : var_ref) (index : Nat) : var_ref :=
  if iface.deref.members.length ≤ index then .sentinel .variable
  else var_or_null .variable iface.deref.members[index]?

/-- Embedding of `d3d10_effect_variable_GetMemberByName`. -/
def d3d10_effect_variable_GetMemberByName (iface : var_ref) (name : Option cstring) :
    Except Fault var_ref :=
  match name with
  | none => .ok (.sentinel .variable)
  | some _ =>
    match find_first (fun m => name_matches m.name name) iface.deref.members with
    | .error f => .error f
    | .ok r => .ok (var_or_null .variable r)

/-- Embedding of `d3d10_effect_variable_GetMemberBySemantic`. -/
def d3d10_effect_variable_GetMemberBySemantic (iface : var_ref) (semantic : Option cstring) :
    Except Fault var_ref :=
  match semantic with
  | none => .ok (.sentinel .variable)
  | some _ =>
    match find_first (fun m => semantic_matches m.semantic semantic) iface.deref.members with
    | .error f => .error f
    | .ok r => .ok (var_or_null .variable r)

/-- Embedding of `d3d10_effect_variable_GetElement`. -/
def d3d10_effect_variable_GetElement (iface : var_ref) (index : Nat) : var_ref :=
  if iface.deref.elements.length ≤ index then .sentinel .variable
  else var_or_null .variable iface.deref.elements[index]?

/-- Conversion of a found member type (or none) into the returned interface pointer. -/
def type_or_null : Option d3d10_effect_type_member → type_ref
  | some m => .obj m.type
  | none => .null_type

/-- Embedding of `d3d10_effect_type_GetMemberTypeByIndex`. -/
def d3d10_effect_type_GetMemberTypeByIndex (iface : type_ref) (index : Nat) : type_ref :=
  if iface.deref.member_count ≤ index then .null_type
  else type_or_null iface.deref.members[index]?

/-- Embedding of `d3d10_effect_type_GetMemberTypeByName`. -/
def d3d10_effect_type_GetMemberTypeByName (iface : type_ref) (name : Option cstring) :
    Except Fault type_ref :=
  match name with
  | none => .ok .null_type
  | some _ =>
    match find_first (fun m : d3d10_effect_type_member => name_matches m.name name)
        iface.deref.members with
    | .error f => .error f
    | .ok r => .ok (type_or_null r)

/-- Embedding of `d3d10_effect_type_GetMemberTypeBySemantic`. -/
def d3d10_effect_type_GetMemberTypeBySemantic (iface : type_ref) (semantic : Option cstring) :
    Except Fault type_ref :=
  match semantic with
  | none => .ok .null_type
  | some _ =>
    match find_first (fun m : d3d10_effect_type_member => semantic_matches m.semantic semantic)
        iface.deref.members with
    | .error f => .error f
    | .ok r => .ok (type_or_null r)

/-! ### Symbols of an effect in lookup order (reference lists for the lookup theorems) -/

/-- Buffers visible from an effect in lookup order: its local buffers, then those of its
pool. -/
def all_buffers : d3d10_effect → List d3d10_effect_variable
  | .mk _ local_buffers _ _ _ _ none => local_buffers
  | .mk _ local_buffers _ _ _ _ (some pool) => local_buffers ++ all_buffers pool

/-- Variables of one effect in lookup order: the members of its local buffers, buffer by
buffer, then its local variables. -/
def own_variables (local_buffers local_variables : List d3d10_effect_variable) :
    List d3d10_effect_variable :=
  (local_buffers.map d3d10_effect_variable.members).flatten ++ local_variables

/-- Variables visible from an effect in lookup order: its own, then those of its pool. -/
def all_variables : d3d10_effect → List d3d10_effect_variable
  | .mk _ local_buffers local_variables _ _ _ none =>
    own_variables local_buffers local_variables
  | .mk _ local_buffers local_variables _ _ _ (some pool) =>
    own_variables local_buffers local_variables ++ all_variables pool

/-- The stored name (NULL = none) is `name`. -/
def is_name (name : cstring) : Option cstring → Bool
  | some n => n == name
  | none => false

/-- The stored semantic is `semantic`, compared without regard to case. -/
def is_semantic (semantic : cstring) : Option cstring → Bool
  | some s => s.map tolower == semantic.map tolower
  | none => false

/-- The variable is called `name`. -/
def has_name (name : cstring) (v : d3d10_effect_variable) : Bool := is_name name v.name

/-- The variable has the semantic `semantic`, compared without regard to case. -/
def has_semantic (semantic : cstring) (v : d3d10_effect_variable) : Bool :=
  is_semantic semantic v.semantic

/-! ## FX10 body: strings, annotations, techniques, record loops

Memory allocation (`heap_alloc`, `heap_calloc`) is taken to succeed. -/

/-- The value of `strnlen(p, max_len)` for the bytes `bytes` at `p`: the number of bytes
before the first NUL among the first `max_len` bytes, or `max_len` when there is none. -/
def strnlen (bytes : List Nat) (max_len : Nat) : Nat :=
  ((bytes.take max_len).takeWhile fun b => b % 256 != 0).length

/-- Embedding of `fx10_get_string(data, data_size, offset, &s, &l)`: `none` is the result
`FALSE`; otherwise the pair of `*s` (NULL = none, else the characters before the NUL) and
`*l`. -/
def fx10_get_string (data : List Nat) (offset : Nat) : Option (Option cstring × Nat) :=
  if data.length ≤ offset then none
  else
    let max_len := data.length - offset
    let len := strnlen (data.drop offset) max_len
    if len = 0 then some (none, 0)
    else if len = max_len then none
    else some (some (((data.drop offset).take len).map (· % 256)), len + 1)

/-- Embedding of `fx10_copy_string(data, data_size, offset, &s)`: `none` is the result
`FALSE`, otherwise the value stored in `*s`. -/
def fx10_copy_string (data : List Nat) (offset : Nat) : Option (Option cstring) :=
  match fx10_get_string data offset with
  | none => none
  | some (p, _) => some p

/-- A record parser as called from a loop of the body: from the buffer `data`, the read
position and the effect it produces its result code (or a fault), the new read position,
the record as far as it was filled, and the effect. -/
abbrev record_parser_t (α : Type) :=
  List Nat → Nat → d3d10_effect → Except Fault HRESULT × Nat × α × d3d10_effect

/-- The loop of `parse_fx10_annotations`, entered with `remaining` annotations to parse;
`hr` is the current value of the local `hr` and `acc` the annotations parsed so far. -/
def parse_fx10_annotations_loop ( parse_fx10_annotation : record_parser_t d3d10_effect_variable)
    (data : List Nat) :
    Nat → HRESULT → Nat → List d3d10_effect_variable → d3d10_effect →
      Except Fault HRESULT × Nat × List d3d10_effect_variable × d3d10_effect
  | 0, hr, ptr, acc, e => (.ok hr, ptr, acc, e)
  | remaining + 1, _, ptr, acc, e =>
    match parse_fx10_annotation data ptr e with
    | (.error f, ptr1, a, e1) => (.error f, ptr1, acc ++ [a], e1)
    | (.ok hr1, ptr1, a, e1) =>
      if FAILED hr1 then (.ok hr1, ptr1, acc ++ [a], e1)
      else parse_fx10_annotations_loop parse_fx10_annotation data remaining hr1 ptr1
        (acc ++ [a]) e1

/-- Embedding of `parse_fx10_annotations(data, data_size, ptr, effect, annotations)` with
`annotations->count = count`. The local `hr` is not initialised in the source; its
indeterminate initial value is the parameter `hr_uninit`, which is what the function
returns when `count` is 0. -/
def parse_fx10_annotations ( parse_fx10_annotation : record_parser_t d3d10_effect_variable)
    (hr_uninit : HRESULT) (count : Nat) (data : List Nat) (ptr : Nat) (e : d3d10_effect) :
    Except Fault HRESULT × Nat × List d3d10_effect_variable × d3d10_effect :=
  parse_fx10_annotations_loop parse_fx10_annotation data count hr_uninit ptr [] e

/-- An annotation list parser as called by the record parsers: `count` is the value just
stored in `annotations.count`. -/
abbrev annotations_parser_t :=
  Nat → List Nat → Nat → d3d10_effect →
    Except Fault HRESULT × Nat × List d3d10_effect_variable × d3d10_effect

/-- The pass loop of `parse_fx10_technique`. -/
def parse_fx10_technique_passes (parse_fx10_pass : record_parser_t d3d10_effect_pass)
    (data : List Nat) :
    Nat → Nat → List d3d10_effect_pass → d3d10_effect →
      Except Fault HRESULT × Nat × List d3d10_effect_pass × d3d10_effect
  | 0, ptr, acc, e => (.ok S_OK, ptr, acc, e)
  | remaining + 1, ptr, acc, e =>
    match parse_fx10_pass data ptr e with
    | (.error f, ptr1, p, e1) => (.error f, ptr1, acc ++ [p], e1)
    | (.ok hr, ptr1, p, e1) =>
      if FAILED hr then (.ok hr, ptr1, acc ++ [p], e1)
      else parse_fx10_technique_passes parse_fx10_pass data remaining ptr1 (acc ++ [p]) e1

/-- Embedding of `parse_fx10_technique(data, data_size, ptr, t)`. The technique is
returned as far as it was filled, also when the function fails. -/
def parse_fx10_technique (parse_annotations : annotations_parser_t)
    (parse_fx10_pass : record_parser_t d3d10_effect_pass) :
    record_parser_t d3d10_effect_technique :=
  fun data ptr e =>
    match read_dword data ptr with
    | .error f => (.error f, ptr, D3D10Effect.null_technique, e)
    | .ok (offset, ptr1) =>
      match fx10_copy_string data offset with
      | none => (.ok E_OUTOFMEMORY, ptr1, D3D10Effect.null_technique, e)
      | some name =>
        match read_dword data ptr1 with
        | .error f => (.error f, ptr1, ⟨name, [], []⟩, e)
        | .ok (pass_count, ptr2) =>
          match read_dword data ptr2 with
          | .error f => (.error f, ptr2, ⟨name, [], []⟩, e)
          | .ok (annotation_count, ptr3) =>
            match parse_annotations annotation_count data ptr3 e with
            | (.error f, ptr4, annotations, e1) => (.error f, ptr4, ⟨name, [], annotations⟩, e1)
            | (.ok hr, ptr4, annotations, e1) =>
              if FAILED hr then (.ok hr, ptr4, ⟨name, [], annotations⟩, e1)
              else
                match parse_fx10_technique_passes parse_fx10_pass data pass_count ptr4 [] e1 with
                | (.error f, ptr5, passes, e2) => (.error f, ptr5, ⟨name, passes, annotations⟩, e2)
                | (.ok hr1, ptr5, passes, e2) =>
                  if FAILED hr1 then (.ok hr1, ptr5, ⟨name, passes, annotations⟩, e2)
                  else (.ok S_OK, ptr5, ⟨name, passes, annotations⟩, e2)

/-- The record parsers called by `parse_fx10_body`; the first argument of the buffer
parser is `local`, that of the object variable parser is `shared_type_desc`. -/
structure fx10_record_parsers where
  /-- Embedding of `parse_fx10_buffer(data, data_size, &ptr, local, l)`. -/
  parse_fx10_buffer : Bool → record_parser_t d3d10_effect_variable
  /-- Embedding of `parse_fx10_object_variable(data, data_size, &ptr, shared_type_desc, v)`. -/
  parse_fx10_object_variable : Bool → record_parser_t d3d10_effect_variable
  /-- Embedding of `parse_fx10_technique(data, data_size, &ptr, t)`. -/
  parse_fx10_technique : record_parser_t d3d10_effect_technique

/-- Storing a parsed local buffer in `e->local_buffers`. -/
def d3d10_effect.add_local_buffer : d3d10_effect → d3d10_effect_variable → d3d10_effect
  | .mk f lb lv t u c p, l => .mk f (lb ++ [l]) lv t u c p
/-- Storing a parsed local variable in `e->local_variables`. -/
def d3d10_effect.add_local_variable : d3d10_effect → d3d10_effect_variable → d3d10_effect
  | .mk f lb lv t u c p, v => .mk f lb (lv ++ [v]) t u c p
/-- Storing a parsed technique in `e->techniques`. -/
def d3d10_effect.add_technique : d3d10_effect → d3d10_effect_technique → d3d10_effect
  | .mk f lb lv t u c p, x => .mk f lb lv (t ++ [x]) u c p
/-- The allocation `e->used_shaders = heap_calloc(e->used_shader_count, ...)`: a table of
`count` NULL pointers. -/
def d3d10_effect.alloc_used_shaders : d3d10_effect → Nat → d3d10_effect
  | .mk f lb lv t _ c p, count => .mk f lb lv t (List.replicate count none) c p

/-- One `for` loop of `parse_fx10_body` over `remaining` records: `parse` fills the record,
`store` keeps it in the effect (the identity for the transient shared records) and `check`
is the validation that follows the parse (`S_OK` where the source has none). -/
def parse_fx10_records {α : Type} (parse : record_parser_t α)
    (store : d3d10_effect → α → d3d10_effect)
    (check : d3d10_effect → α → Except Fault HRESULT) (data : List Nat) :
    Nat → Nat → d3d10_effect → Except Fault HRESULT × Nat × d3d10_effect
  | 0, ptr, e => (.ok S_OK, ptr, e)
  | remaining + 1, ptr, e =>
    match parse data ptr e with
    | (.error f, ptr1, a, e1) => (.error f, ptr1, store e1 a)
    | (.ok hr, ptr1, a, e1) =>
      if FAILED hr then (.ok hr, ptr1, store e1 a)
      else
        match check e1 a with
        | .error f => (.error f, ptr1, store e1 a)
        | .ok hr1 =>
          if FAILED hr1 then (.ok hr1, ptr1, store e1 a)
          else parse_fx10_records parse store check data remaining ptr1 (store e1 a)

/-- Embedding of `parse_fx10_body(e, data, data_size)`: the index offset test, the
allocations, then the five record loops in source order (local buffers, local object
variables, shared buffers, shared objects, techniques). -/
def parse_fx10_body (P : fx10_record_parsers) (hdr : fx10_header) (data : List Nat)
    (e : d3d10_effect) : Except Fault HRESULT × d3d10_effect :=
  if data.length ≤ hdr.index_offset then (.ok E_FAIL, e)
  else
    let e0 := e.alloc_used_shaders hdr.used_shader_count
    match parse_fx10_records (P.parse_fx10_buffer true) d3d10_effect.add_local_buffer
        (fun _ _ => .ok S_OK) data hdr.local_buffer_count hdr.index_offset e0 with
    | (.error f, _, e1) => (.error f, e1)
    | (.ok hr1, ptr1, e1) =>
      if FAILED hr1 then (.ok hr1, e1)
      else
        match parse_fx10_records (P.parse_fx10_object_variable false)
            d3d10_effect.add_local_variable (fun _ _ => .ok S_OK) data
            hdr.local_variable_count ptr1 e1 with
        | (.error f, _, e2) => (.error f, e2)
        | (.ok hr2, ptr2, e2) =>
          if FAILED hr2 then (.ok hr2, e2)
          else
            match parse_fx10_records (P.parse_fx10_buffer false) (fun e _ => e)
                d3d10_effect_validate_shared_variable data hdr.shared_buffer_count ptr2 e2 with
            | (.error f, _, e3) => (.error f, e3)
            | (.ok hr3, ptr3, e3) =>
              if FAILED hr3 then (.ok hr3, e3)
              else
                match parse_fx10_records (P.parse_fx10_object_variable true) (fun e _ => e)
                    d3d10_effect_validate_shared_variable data hdr.shared_object_count ptr3
                    e3 with
                | (.error f, _, e4) => (.error f, e4)
                | (.ok hr4, ptr4, e4) =>
                  if FAILED hr4 then (.ok hr4, e4)
                  else
                    match parse_fx10_records P.parse_fx10_technique
                        d3d10_effect.add_technique (fun _ _ => .ok S_OK) data
                        hdr.technique_count ptr4 e4 with
                    | (.error f, _, e5) => (.error f, e5)
                    | (.ok hr5, _, e5) =>
                      if FAILED hr5 then (.ok hr5, e5) else (.ok S_OK, e5)

/-! ## Effect creation -/

/-- Embedding of `d3d10_create_effect(data, data_size, device, pool, flags, &effect)`:
the result code (or fault) and the effect stored in `*effect` on success. -/
def d3d10_create_effect (P : fx10_record_parsers) (data : Option (List Nat))
    (pool : Option d3d10_effect) (flags : Nat) : Except Fault HRESULT × Option d3d10_effect :=
  let r := d3d10_effect_parse (parse_fx10_body P) pool.isSome data
    (fx10_header.zero, d3d10_effect.create flags pool)
  match r.outcome with
  | .error f => (.error f, none)
  | .ok hr => if FAILED hr then (.ok hr, none) else (.ok S_OK, some r.ctx.2)

/-! ## `Optimize` -/

/-- The first loop of `d3d10_effect_Optimize`: for every slot of the used-shader table,
`v = effect->used_shaders[i]` is dereferenced (a NULL slot is a fault) and its reflection,
bytecode and stream-output declaration are released and set to NULL. -/
def optimize_used_shaders :
    List (Option d3d10_effect_shader_variable) →
      Except Fault (List (Option d3d10_effect_shader_variable))
  | [] => .ok []
  | none :: _ => .error .null_deref
  | some v :: rest =>
    match optimize_used_shaders rest with
    | .error f => .error f
    | .ok rest1 =>
      .ok (some { v with reflection := none, bytecode := none,
                         stream_output_declaration := none } :: rest1)

/-- The second loop of `d3d10_effect_Optimize` for one technique: the names of its passes
and its own name are freed and set to NULL. -/
def optimize_technique (t : d3d10_effect_technique) : d3d10_effect_technique :=
  { t with name := none, passes := t.passes.map fun p => { p with name := none } }

/-- Embedding of `d3d10_effect_Optimize(iface)`. The value of the flag bit
`D3D10_EFFECT_OPTIMIZED` is defined in `d3d10_private.h`; it is a parameter here. -/
def d3d10_effect_Optimize (D3D10_EFFECT_OPTIMIZED : Nat) :
    d3d10_effect → Except Fault (HRESULT × d3d10_effect)
  | .mk flags lb lv techniques used_shaders c pool =>
    if flags &&& D3D10_EFFECT_OPTIMIZED ≠ 0 then
      .ok (S_OK, .mk flags lb lv techniques used_shaders c pool)
    else
      match optimize_used_shaders used_shaders with
      | .error f => .error f
      | .ok used_shaders1 =>
        .ok (S_OK, .mk (flags ||| D3D10_EFFECT_OPTIMIZED) lb lv
          (techniques.map optimize_technique) used_shaders1 c pool)

/-- A container with a single `FX10` chunk whose header declares one used shader and
nothing else: 32 header bytes, one table entry (36), the chunk header (tag, size 77) and
the 77-byte payload (76 header bytes with word 17 set to 1, one body byte). -/
def blob_unfilled_shader_table : List Nat :=
  le32 TAG_DXBC ++ List.replicate 16 0 ++ le32 1 ++ le32 121 ++ le32 1 ++ le32 36
    ++ le32 TAG_FX10 ++ le32 77
    ++ (le32 0xfeff1001 ++ List.replicate 64 0 ++ le32 1 ++ le32 0 ++ [0])

/-! ## `Apply` -/

/-- What `apply_shader_resources` reads and writes of a variable bound to a shader (the
members of the union `u` are kept side by side): `type->basetype`, `type->element_count`,
`data_size`, the buffer part `u.buffer`, the view array `u.resource.srv`, the sampler
object `u.state.object.sampler`, the attached texture `u.state.desc.sampler.texture`
(address of a resource variable, NULL = none) and the sampler objects of the elements. -/
structure resource_variable where
  /-- Field `type->basetype`. -/
  basetype : D3D10_SVT
  /-- Field `type->element_count`. -/
  element_count : Nat
  /-- Field `data_size`. -/
  data_size : Nat
  /-- Field `u.buffer.local_buffer`. -/
  local_buffer : Option (List Nat)
  /-- Field `u.buffer.buffer`. -/
  buffer : Option Nat
  /-- Field `u.buffer.resource_view`. -/
  resource_view : Option Nat
  /-- Field `u.buffer.changed`. -/
  changed : Bool
  /-- Field `u.resource.srv`. -/
  srv : List (Option Nat)
  /-- Field `u.state.object.sampler`. -/
  sampler : Option Nat
  /-- Field `u.state.desc.sampler.texture`. -/
  texture : Option Nat
  /-- Field `u.state.object.sampler` of each element of `elements`. -/
  elements : List (Option Nat)
  deriving DecidableEq, Repr

/-- The calls made on the device. -/
inductive device_cmd where
  | UpdateSubresource (buffer : Option Nat) (data : Option (List Nat)) (size : Nat)
  | SetShader (stage : D3D10_SVT) (shader : Option Nat)
  | SetConstantBuffers (stage : D3D10_SVT) (slot : Nat) (buffer : Option Nat)
  | SetShaderResources (stage : D3D10_SVT) (slot count : Nat) (views : List (Option Nat))
  | SetSamplers (stage : D3D10_SVT) (slot : Nat) (sampler : Option Nat)
  | RSSetState (state : Option Nat)
  | OMSetDepthStencilState (state : Option Nat) (stencil_ref : Nat)
  | OMSetBlendState (state : Option Nat) (blend_factor : List Nat) (sample_mask : Nat)
  deriving DecidableEq, Repr

/-- The state `Apply` works on: the resource variables (addressed by position) and the
calls made on the device so far. -/
structure apply_state where
  /-- The resource variables. -/
  vars : List resource_variable
  /-- The device calls, oldest first. -/
  cmds : List device_cmd
  deriving DecidableEq, Repr

/-- The shader stage has a binding call (`VS...`, `PS...`, `GS...`). -/
def is_shader_stage : D3D10_SVT → Bool
  | .VERTEXSHADER => true
  | .PIXELSHADER => true
  | .GEOMETRYSHADER => true
  | _ => false

/-- Embedding of `update_buffer(device, v)` for the resource variable at address `a`. -/
def update_buffer (a : Nat) (st : apply_state) : Except Fault apply_state :=
  match st.vars[a]? with
  | none => .error .null_deref
  | some v =>
    if !v.changed then .ok st
    else .ok { vars := st.vars.set a { v with changed := false },
               cmds := st.cmds ++ [.UpdateSubresource v.buffer v.local_buffer v.data_size] }

/-- Embedding of `set_sampler(device, shader_type, v, bind_point)`, `sampler` being
`v->u.state.object.sampler`. -/
def set_sampler (shader_type : D3D10_SVT) (sampler : Option Nat) (bind_point : Nat)
    (st : apply_state) : apply_state :=
  if is_shader_stage shader_type then
    { st with cmds := st.cmds ++ [.SetSamplers shader_type bind_point sampler] }
  else st

/-- The loop `for (j = 0; j < sr->bind_count; ++j) set_sampler(..., &rsrc_v->elements[j],
sr->bind_point + j)` of `apply_shader_resources`; `j` counts up from `j0`. -/
def set_sampler_array (shader_type : D3D10_SVT) (elements : List (Option Nat))
    (bind_point : Nat) : Nat → Nat → apply_state → Except Fault apply_state
  | 0, _, st => .ok st
  | remaining + 1, j, st =>
    match elements[j]? with
    | none => .error (.oob_read j)
    | some sampler =>
      set_sampler_array shader_type elements bind_point remaining (j + 1)
        (set_sampler shader_type sampler (bind_point + j) st)

/-- The body of the loop of `apply_shader_resources` for one resource `sr` of a shader of
base type `basetype`. -/
def apply_shader_resource (basetype : D3D10_SVT) (sr : d3d10_effect_shader_resource)
    (st : apply_state) : Except Fault apply_state :=
  match sr.in_type with
  | .CBUFFER =>
    match update_buffer sr.variable_ptr st with
    | .error f => .error f
    | .ok st1 =>
      match st1.vars[sr.variable_ptr]? with
      | none => .error .null_deref
      | some v =>
        if is_shader_stage basetype then
          .ok { st1 with cmds := st1.cmds ++ [.SetConstantBuffers basetype sr.bind_point v.buffer] }
        else .ok st1
  | .TBUFFER =>
    match update_buffer sr.variable_ptr st with
    | .error f => .error f
    | .ok st1 =>
      match st1.vars[sr.variable_ptr]? with
      | none => .error .null_deref
      | some v =>
        if is_shader_stage basetype then
          .ok { st1 with cmds := st1.cmds ++
            [.SetShaderResources basetype sr.bind_point sr.bind_count [v.resource_view]] }
        else .ok st1
  | .TEXTURE =>
    match st.vars[sr.variable_ptr]? with
    | none => .error .null_deref
    | some v0 =>
      let target : Option Nat := if v0.basetype = .SAMPLER then v0.texture else some sr.variable_ptr
      match target with
      | none => .error .null_deref
      | some a =>
        match st.vars[a]? with
        | none => .error .null_deref
        | some v =>
          if is_shader_stage basetype then
            .ok { st with cmds := st.cmds ++
              [.SetShaderResources basetype sr.bind_point sr.bind_count v.srv] }
          else .ok st
  | .SAMPLER =>
    match st.vars[sr.variable_ptr]? with
    | none => .error .null_deref
    | some v =>
      if v.element_count = 0 then .ok (set_sampler basetype v.sampler sr.bind_point st)
      else set_sampler_array basetype v.elements sr.bind_point sr.bind_count 0 st
  | .OTHER => .ok st

/-- Embedding of `apply_shader_resources(device, v)`: the resources in order. -/
def apply_shader_resources (basetype : D3D10_SVT) :
    List d3d10_effect_shader_resource → apply_state → Except Fault apply_state
  | [], st => .ok st
  | sr :: rest, st =>
    match apply_shader_resource basetype sr st with
    | .error f => .error f
    | .ok st1 => apply_shader_resources basetype rest st1

/-- Embedding of `d3d10_array_get_element(v, index)` on a shader pointer: `v` itself when
`v->type->element_count` is 0, else `&v->elements[index]`. A NULL `v` is dereferenced;
the static `null_shader_variable` has the type `null_type` and a zero payload. -/
def d3d10_array_get_element (v : shader_ptr) (index : Nat) : Except Fault shader_element :=
  match v with
  | .NULL => .error .null_deref
  | .null_shader_variable => .ok ⟨.VOID, none, []⟩
  | .var sv =>
    if sv.element_count = 0 then .ok sv.self
    else
      match sv.elements[index]? with
      | some x => .ok x
      | none => .error (.oob_read index)

/-- Embedding of `d3d10_effect_pass_set_shader(pass, shader_desc)`. -/
def d3d10_effect_pass_set_shader (shader_desc : d3d10_effect_pass_shader_desc)
    (st : apply_state) : Except Fault apply_state :=
  match d3d10_array_get_element shader_desc.shader shader_desc.index with
  | .error f => .error f
  | .ok v =>
    let st1 : apply_state :=
      if is_shader_stage v.basetype then
        { st with cmds := st.cmds ++ [.SetShader v.basetype v.shader] }
      else st
    apply_shader_resources v.basetype v.resources st1

/-- The step `if (desc.shader != &null_shader_variable) d3d10_effect_pass_set_shader(pass,
&desc);` of `Apply`. -/
def apply_stage (shader_desc : d3d10_effect_pass_shader_desc) (st : apply_state) :
    Except Fault apply_state :=
  if shader_desc.shader = .null_shader_variable then .ok st
  else d3d10_effect_pass_set_shader shader_desc st

/-- The three state bindings at the end of `Apply`. -/
def apply_fixed_state (pass : d3d10_effect_pass) (st : apply_state) : apply_state :=
  let c1 := match pass.rasterizer with
    | some o => [device_cmd.RSSetState o]
    | none => []
  let c2 := match pass.depth_stencil with
    | some o => [device_cmd.OMSetDepthStencilState o pass.stencil_ref]
    | none => []
  let c3 := match pass.blend with
    | some o => [device_cmd.OMSetBlendState o pass.blend_factor pass.sample_mask]
    | none => []
  { st with cmds := st.cmds ++ c1 ++ c2 ++ c3 }

/-- Embedding of `d3d10_effect_pass_Apply(iface, flags)`. The first statement loads
`pass->technique->effect->device`; then the vertex, geometry and pixel stage are bound,
then the fixed-function state. Returns the result code and the state after the call. -/
def d3d10_effect_pass_Apply (iface : pass_ref) (_flags : Nat) (st : apply_state) :
    Except Fault (HRESULT × apply_state) :=
  let pass := iface.deref
  match pass.technique with
  | none => .error .null_deref
  | some none => .error .null_deref
  | some (some _device) =>
    match apply_stage pass.vs st with
    | .error f => .error f
    | .ok st1 =>
      match apply_stage pass.gs st1 with
      | .error f => .error f
      | .ok st2 =>
        match apply_stage pass.ps st2 with
        | .error f => .error f
        | .ok st3 => .ok (S_OK, apply_fixed_state pass st3)

/-- Embedding of the sibling method `d3d10_effect_pass_GetVertexShaderDesc(iface, desc)`
(`desc` not NULL), which tests for the null pass first. -/
def d3d10_effect_pass_GetVertexShaderDesc (iface : pass_ref) :
    HRESULT × Option d3d10_effect_pass_shader_desc :=
  match iface with
  | .null_pass => (E_FAIL, none)
  | .obj p => (S_OK, some p.vs)

/-! ## Contracts of the lookups (used to state the lookup theorems) -/

/-- Contract of a lookup by index over the collection `coll`: an index inside the
collection yields the pointer to that element, which is valid; an index outside yields the
null object `null`, which is not valid. -/
def index_lookup_contract {α ρ : Type} (coll : List α) (lookup : Nat → ρ) (obj : α → ρ)
    (null : ρ) (valid : ρ → Bool) : Prop :=
  ∀ i, (∀ x, coll[i]? = some x → lookup i = obj x ∧ valid (lookup i) = true) ∧
    (coll.length ≤ i → lookup i = null ∧ valid (lookup i) = false)

/-- Contract of a lookup by name (or semantic) over the collection `coll`: a name that no
element of the collection carries yields the null object `null`, which is not valid. -/
def name_lookup_contract {α ρ : Type} (coll : List α) (carries : cstring → α → Bool)
    (lookup : Option cstring → Except Fault ρ) (null : ρ) (valid : ρ → Bool) : Prop :=
  ∀ n, (∀ x ∈ coll, carries n x = false) → lookup (some n) = .ok null ∧ valid null = false

/-- A pass `p0` without shaders and state objects, owned by a technique of an effect on
device 1. -/
def pass_p0 : d3d10_effect_pass :=
  { technique := some (some 1), name := some (cstr "p0"), annotations := [],
    vs := ⟨.null_shader_variable, 0⟩, ps := ⟨.null_shader_variable, 0⟩,
    gs := ⟨.null_shader_variable, 0⟩, rasterizer := none, depth_stencil := none,
    blend := none, stencil_ref := 0, sample_mask := 0, blend_factor := [0, 0, 0, 0] }

/-- A technique `t0` with the single pass `p0`. -/
def technique_t0 : d3d10_effect_technique :=
  { name := some (cstr "t0"), passes := [pass_p0], annotations := [] }

/-- An effect with the single technique `t0` and no variables. -/
def effect_one_technique : d3d10_effect := .mk 0 [] [] [technique_t0] [] 0 none

/-! ## Example blobs for the FX10 body -/

/-- Record parsers for blobs that hold techniques without passes and annotations only:
the technique parser is the embedding of `parse_fx10_technique` over the embedding of
`parse_fx10_annotations` (indeterminate `hr` taken as `S_OK`); the parsers for the records
such blobs do not contain (buffers, object variables, annotations, passes) reject. -/
def technique_only_parsers : fx10_record_parsers :=
  { parse_fx10_buffer := fun _ _ ptr e => (.ok E_FAIL, ptr, null_variable_of .constant_buffer, e),
    parse_fx10_object_variable := fun _ _ ptr e => (.ok E_FAIL, ptr, null_variable_of .variable, e),
    parse_fx10_technique :=
      parse_fx10_technique
        (parse_fx10_annotations
          (fun _ ptr e => (.ok E_FAIL, ptr, null_variable_of .variable, e)) S_OK)
        (fun _ ptr e => (.ok E_FAIL, ptr, D3D10Effect.null_pass, e)) }

/-- A 92-byte FX10 payload with one technique: the 76 header bytes (target `fx_4_0`,
technique count 1 in word 7, index offset 4 in word 8), then the body: the bytes
`00 'T' 00 00`, and at body offset 4 the technique record (name reference 1, no passes, no
annotations). -/
def payload_one_technique : List Nat :=
  le32 0xfeff1001 ++ List.replicate 24 0 ++ le32 1 ++ le32 4 ++ List.replicate 40 0
    ++ [0, 84, 0, 0] ++ le32 1 ++ le32 0 ++ le32 0

/-- The pool symbols among which `d3d10_effect_validate_shared_variable` looks for a
variable of base type `basetype`, in lookup order: the buffers for `CBUFFER` and `TBUFFER`,
the variables otherwise. -/
def shared_symbols (pool : d3d10_effect) (basetype : D3D10_SVT) : List d3d10_effect_variable :=
  match basetype with
  | .CBUFFER => all_buffers pool
  | .TBUFFER => all_buffers pool
  | _ => all_variables pool

/-! ### Example objects -/

/-- The type `float`: a scalar of 4 bytes. -/
def float_type : d3d10_effect_type :=
  .mk (some (cstr "float")) .FLOAT .SCALAR 0 0 4 0 4 1 1 0 none []

/-- The generated type of a constant buffer with the given members. -/
def cbuffer_type (members : List d3d10_effect_type_member) : d3d10_effect_type :=
  .mk (some (cstr "cbuffer")) .CBUFFER .OBJECT 0 0 16 16 4 0 0 0 none members

/-- A float variable called `name` at `buffer_offset`. -/
def float_variable (name : String) (buffer_offset : Nat) : d3d10_effect_variable :=
  .mk .scalar (some (cstr name)) none float_type 0 buffer_offset 0 0 [] [] []

/-- A constant buffer called `name` with the given members. -/
def cbuffer_variable (name : String) (members : List d3d10_effect_variable) :
    d3d10_effect_variable :=
  .mk .constant_buffer (some (cstr name)) none
    (cbuffer_type (members.map fun m => .mk m.name m.semantic m.buffer_offset m.type))
    0 0 0 16 [] members []

/-- A pool with two buffers that are both called `b`: the first holds a float `x`, the
second is empty. -/
def pool_two_b : d3d10_effect :=
  .mk 0 [cbuffer_variable "b" [float_variable "x" 0], cbuffer_variable "b" []] [] [] [] 0 none

/-- A child effect of `pool_two_b` without symbols of its own. -/
def child_of_two_b : d3d10_effect := .mk 0 [] [] [] [] 0 (some pool_two_b)

/-- A pool with the buffer `globals`, which holds the float `x` at offset 16. -/
def pool_x : d3d10_effect :=
  .mk 0 [cbuffer_variable "globals" [float_variable "x" 16]] [] [] [] 0 none

/-- A child effect of `pool_x` whose own buffer `locals` holds a float `x` at offset 0. -/
def child_x : d3d10_effect :=
  .mk 0 [cbuffer_variable "locals" [float_variable "x" 0]] [] [] [] 0 (some pool_x)

/-- A chunk that `parse_dxbc` must reject: its table offset `o` is not inside the buffer,
or fewer than 8 bytes follow it, or its declared size exceeds what follows the 8-byte header. -/
def chunk_invalid (data : List Nat) (o : Nat) : Prop :=
  data.length ≤ o ∨ data.length - o < 8 ∨ data.length - (o + 8) < dword_at data (o + 4)

/-- A chunk handler that always returns a result code (it never ends in a fault). -/
def handler_returns {σ : Type} (handler : chunk_handler_t σ) : Prop :=
  ∀ chunk_ptr chunk_size tag ctx, ∃ hr ctx1,
    handler chunk_ptr chunk_size tag ctx = (.ok hr, ctx1)

instance (data : List Nat) (o : Nat) : Decidable (chunk_invalid data o) := by
  unfold chunk_invalid; infer_instance

/-- A 28-byte header with the right tag and version whose total-size word (99) is wrong. -/
def blob_wrong_size : List Nat :=
  le32 TAG_DXBC ++ List.replicate 16 0 ++ le32 1 ++ le32 99

/-- A 48-byte container with one chunk at offset 36: tag `FX10`, declared size 4. -/
def blob_one_chunk : List Nat :=
  le32 TAG_DXBC ++ List.replicate 16 0 ++ le32 1 ++ le32 48 ++ le32 1 ++ le32 36
    ++ le32 TAG_FX10 ++ le32 4 ++ [1, 2, 3, 4]

/-- A 44-byte container with one chunk at offset 36 whose declared size (5) exceeds the
0 bytes that follow its header. -/
def blob_oversized_chunk : List Nat :=
  le32 TAG_DXBC ++ List.replicate 16 0 ++ le32 1 ++ le32 44 ++ le32 1 ++ le32 36
    ++ le32 TAG_FX10 ++ le32 5

/-! ## Variable trees, buffer offsets and buffer packing -/

/-- Field `id`. -/
def d3d10_effect_type.id : d3d10_effect_type → Nat
  | .mk _ _ _ i _ _ _ _ _ _ _ _ _ => i
/-- Field `size_unpacked`. -/
def d3d10_effect_type.size_unpacked : d3d10_effect_type → Nat
  | .mk _ _ _ _ _ s _ _ _ _ _ _ _ => s
/-- Field `stride`. -/
def d3d10_effect_type.stride : d3d10_effect_type → Nat
  | .mk _ _ _ _ _ _ s _ _ _ _ _ _ => s
/-- Field `size_packed`. -/
def d3d10_effect_type.size_packed : d3d10_effect_type → Nat
  | .mk _ _ _ _ _ _ _ s _ _ _ _ _ => s
/-- Field `flag`. -/
def d3d10_effect_variable.flag : d3d10_effect_variable → Nat
  | .mk _ _ _ _ f _ _ _ _ _ _ => f
/-- Field `explicit_bind_point`. -/
def d3d10_effect_variable.explicit_bind_point : d3d10_effect_variable → Nat
  | .mk _ _ _ _ _ _ e _ _ _ _ => e
/-- Field `data_size`. -/
def d3d10_effect_variable.data_size : d3d10_effect_variable → Nat
  | .mk _ _ _ _ _ _ _ d _ _ _ => d

/-- Flag bits that `effect.c` tests and sets but whose values are defined in headers
(`d3d10_private.h`, `d3d10effect.h`); they are parameters of the embedding. -/
structure effect_flag_bits where
  /-- Bit `D3D10_EFFECT_IS_POOL` of `effect->flags`. -/
  D3D10_EFFECT_IS_POOL : Nat
  /-- Bit `D3D10_EFFECT_VARIABLE_POOLED` of `v->flag`. -/
  D3D10_EFFECT_VARIABLE_POOLED : Nat
  /-- Bit `D3D10_EFFECT_VARIABLE_EXPLICIT_BIND_POINT` of `v->flag`. -/
  D3D10_EFFECT_VARIABLE_EXPLICIT_BIND_POINT : Nat

/-- Embedding of `set_variable_vtbl(v)`: the interface table chosen from `v->type`. -/
def set_variable_vtbl (type : d3d10_effect_type) : vtbl_kind :=
  match type.type_class with
  | .SCALAR => .scalar
  | .VECTOR => .vector
  | .MATRIX_ROWS => .matrix
  | .MATRIX_COLUMNS => .matrix
  | .STRUCT => .variable
  | .OBJECT =>
    match type.basetype with
    | .STRING => .string
    | .TEXTURE => .shader_resource
    | .TEXTURE1D => .shader_resource
    | .TEXTURE1DARRAY => .shader_resource
    | .TEXTURE2D => .shader_resource
    | .TEXTURE2DARRAY => .shader_resource
    | .TEXTURE2DMS => .shader_resource
    | .TEXTURE2DMSARRAY => .shader_resource
    | .TEXTURE3D => .shader_resource
    | .TEXTURECUBE => .shader_resource
    | .BUFFER => .shader_resource
    | .RENDERTARGETVIEW => .render_target_view
    | .DEPTHSTENCILVIEW => .depth_stencil_view
    | .DEPTHSTENCIL => .depth_stencil
    | .VERTEXSHADER => .shader
    | .GEOMETRYSHADER => .shader
    | .PIXELSHADER => .shader
    | .BLEND => .blend
    | .RASTERIZER => .rasterizer
    | .SAMPLER => .sampler
    | _ => .variable

/-- The element loop of `copy_variableinfo_from_type`: `for (i = 0; i < element_count;
++i)` with the running `bufferoffset` (an `unsigned int`), which is advanced by the stride
before every element but the first; `element bufferoffset` builds one element. -/
def copy_variableinfo_elements (element : Nat → Except Fault d3d10_effect_variable)
    (stride : Nat) : Nat → Nat → Nat → Except Fault (List d3d10_effect_variable)
  | 0, _, _ => .ok []
  | remaining + 1, i, bufferoffset =>
    let bufferoffset1 := if i ≠ 0 then (bufferoffset + stride) % 2 ^ 32 else bufferoffset
    match element bufferoffset1 with
    | .error f => .error f
    | .ok var =>
      match copy_variableinfo_elements element stride remaining (i + 1) bufferoffset1 with
      | .error f => .error f
      | .ok rest => .ok (var :: rest)

mutual
/-- The recursion of `copy_variableinfo_from_type(v)` on `v->type`: from the type, the
name, the semantic and the buffer offset of `v` it builds the arrays `v->members` (one
variable per type member) and `v->elements` (`element_count` variables of the element
type). The children are allocated zeroed, so their flags are 0. -/
def copy_variableinfo : d3d10_effect_type → Option cstring → Option cstring → Nat →
    Except Fault (List d3d10_effect_variable × List d3d10_effect_variable)
  | .mk _ _ _ _ element_count _ stride _ _ _ _ elementtype members, name, semantic,
      buffer_offset =>
    match copy_variableinfo_members members buffer_offset with
    | .error f => .error f
    | .ok ms =>
      if element_count = 0 then .ok (ms, [])
      else
        match copy_variableinfo_elements (copy_variableinfo_element elementtype name semantic)
            stride element_count 0 buffer_offset with
        | .error f => .error f
        | .ok es => .ok (ms, es)
/-- One element `var = &v->elements[i]` with `var->type = v->type->elementtype` (a NULL
element type is dereferenced by `set_variable_vtbl`), the name and semantic of `v` and the
buffer offset `bufferoffset`. -/
def copy_variableinfo_element : Option d3d10_effect_type → Option cstring → Option cstring →
    Nat → Except Fault d3d10_effect_variable
  | none, _, _, _ => .error .null_deref
  | some elementtype, name, semantic, bufferoffset =>
    match copy_variableinfo elementtype name semantic bufferoffset with
    | .error f => .error f
    | .ok (ms, es) =>
      .ok (.mk (set_variable_vtbl elementtype) name semantic elementtype 0 bufferoffset 0 0 []
        ms es)
/-- The member loop: `var = &v->members[i]` gets the type, name and semantic of the type
member `typem` and `var->buffer_offset = v->buffer_offset + typem->buffer_offset`. -/
def copy_variableinfo_members : List d3d10_effect_type_member → Nat →
    Except Fault (List d3d10_effect_variable)
  | [], _ => .ok []
  | .mk name semantic offset type :: rest, buffer_offset =>
    match copy_variableinfo type name semantic ((buffer_offset + offset) % 2 ^ 32) with
    | .error f => .error f
    | .ok (ms, es) =>
      match copy_variableinfo_members rest buffer_offset with
      | .error f => .error f
      | .ok vars =>
        .ok (.mk (set_variable_vtbl type) name semantic type 0
          ((buffer_offset + offset) % 2 ^ 32) 0 0 [] ms es :: vars)
end

/-- Embedding of `copy_variableinfo_from_type(v)`: fills `v->members` and `v->elements`. -/
def copy_variableinfo_from_type :
    d3d10_effect_variable → Except Fault (HRESULT × d3d10_effect_variable)
  | .mk vtbl name semantic type flag buffer_offset explicit_bind_point data_size annotations
      _ _ =>
    match copy_variableinfo type name semantic buffer_offset with
    | .error f => .error f
    | .ok (ms, es) =>
      .ok (S_OK, .mk vtbl name semantic type flag buffer_offset explicit_bind_point data_size
        annotations ms es)

mutual
/-- Embedding of `d3d10_effect_variable_update_buffer_offsets(v, offset)`: the members, then
the elements, then `v->buffer_offset += offset` (an `unsigned int`). The loops run over
`v->type->member_count` members and `v->type->element_count` elements, which are the
lengths of `v->members` and `v->elements`. -/
def d3d10_effect_variable_update_buffer_offsets :
    d3d10_effect_variable → Nat → d3d10_effect_variable
  | .mk vtbl name semantic type flag buffer_offset explicit_bind_point data_size annotations
      members elements, offset =>
    .mk vtbl name semantic type flag ((buffer_offset + offset) % 2 ^ 32) explicit_bind_point
      data_size annotations (update_buffer_offsets_all members offset)
      (update_buffer_offsets_all elements offset)
/-- The loops of `d3d10_effect_variable_update_buffer_offsets` over an array of variables. -/
def update_buffer_offsets_all : List d3d10_effect_variable → Nat → List d3d10_effect_variable
  | [], _ => []
  | v :: rest, offset =>
    d3d10_effect_variable_update_buffer_offsets v offset :: update_buffer_offsets_all rest offset
end

/-- A type resolver as called by `parse_fx10_variable_head`: `get_fx10_type(v->effect,
data, data_size, offset)`, NULL being `none`. -/
abbrev type_getter_t := List Nat → Nat → d3d10_effect → Option d3d10_effect_type × d3d10_effect

/-- A variable right after `heap_calloc`, with the interface table `vtbl` set by the
caller. -/
def zeroed_variable (vtbl : vtbl_kind) : d3d10_effect_variable :=
  .mk vtbl none none null_type 0 0 0 0 [] [] []

/-- Embedding of `parse_fx10_variable_head(data, data_size, ptr, v)` for a zeroed `v`. -/
def parse_fx10_variable_head (K : effect_flag_bits) (get_fx10_type : type_getter_t) :
    record_parser_t d3d10_effect_variable :=
  fun data ptr e =>
    match read_dword data ptr with
    | .error f => (.error f, ptr, zeroed_variable .variable, e)
    | .ok (offset, ptr1) =>
      match fx10_copy_string data offset with
      | none => (.ok E_OUTOFMEMORY, ptr1, zeroed_variable .variable, e)
      | some name =>
        match read_dword data ptr1 with
        | .error f => (.error f, ptr1, .mk .variable name none null_type 0 0 0 0 [] [] [], e)
        | .ok (offset1, ptr2) =>
          match get_fx10_type data offset1 e with
          | (none, e1) =>
            (.ok E_FAIL, ptr2, .mk .variable name none null_type 0 0 0 0 [] [] [], e1)
          | (some type, e1) =>
            let flag := if e1.flags &&& K.D3D10_EFFECT_IS_POOL ≠ 0
              then K.D3D10_EFFECT_VARIABLE_POOLED else 0
            let v : d3d10_effect_variable :=
              .mk (set_variable_vtbl type) name none type flag 0 0xffffffff 0 [] [] []
            match copy_variableinfo_from_type v with
            | .error f => (.error f, ptr2, v, e1)
            | .ok (hr, v1) => (.ok hr, ptr2, v1, e1)

/-- The assignments `v->semantic = semantic; v->flag |= flags;` of
`parse_fx10_numeric_variable`. -/
def d3d10_effect_variable.set_semantic_flags :
    d3d10_effect_variable → Option cstring → Nat → d3d10_effect_variable
  | .mk k n _ t f o e d a m el, semantic, flags => .mk k n semantic t (f ||| flags) o e d a m el

/-- The assignment of `v->annotations`. -/
def d3d10_effect_variable.set_annotations :
    d3d10_effect_variable → List d3d10_effect_variable → d3d10_effect_variable
  | .mk k n s t f o e d _ m el, annotations => .mk k n s t f o e d annotations m el

/-- The statement `if (v->flag & D3D10_EFFECT_VARIABLE_EXPLICIT_BIND_POINT)
v->explicit_bind_point = v->buffer_offset;`. -/
def d3d10_effect_variable.set_explicit_bind_point (K : effect_flag_bits) :
    d3d10_effect_variable → d3d10_effect_variable
  | .mk k n s t f o e d a m el =>
    if f &&& K.D3D10_EFFECT_VARIABLE_EXPLICIT_BIND_POINT ≠ 0 then .mk k n s t f o o d a m el
    else .mk k n s t f o e d a m el

/-- Embedding of `parse_fx10_numeric_variable(data, data_size, ptr, local, v)`. -/
def parse_fx10_numeric_variable (K : effect_flag_bits) (get_fx10_type : type_getter_t)
    (parse_annotations : annotations_parser_t) (is_local : Bool) :
    record_parser_t d3d10_effect_variable :=
  fun data ptr e =>
    match parse_fx10_variable_head K get_fx10_type data ptr e with
    | (.error f, ptr1, v, e1) => (.error f, ptr1, v, e1)
    | (.ok hr, ptr1, v, e1) =>
      if FAILED hr then (.ok hr, ptr1, v, e1)
      else
        match read_dword data ptr1 with
        | .error f => (.error f, ptr1, v, e1)
        | .ok (offset, ptr2) =>
          match fx10_copy_string data offset with
          | none => (.ok E_OUTOFMEMORY, ptr2, v, e1)
          | some semantic =>
            match read_dword data ptr2 with
            | .error f => (.error f, ptr2, v.set_semantic_flags semantic 0, e1)
            | .ok (buffer_offset, ptr3) =>
              match read_dword data ptr3 with
              | .error f => (.error f, ptr3, v.set_semantic_flags semantic 0, e1)
              | .ok (_default_value_offset, ptr4) =>
                match read_dword data ptr4 with
                | .error f => (.error f, ptr4, v.set_semantic_flags semantic 0, e1)
                | .ok (flags, ptr5) =>
                  let v1 := d3d10_effect_variable_update_buffer_offsets
                    (v.set_semantic_flags semantic flags) buffer_offset
                  if is_local then
                    match read_dword data ptr5 with
                    | .error f => (.error f, ptr5, v1, e1)
                    | .ok (count, ptr6) =>
                      match parse_annotations count data ptr6 e1 with
                      | (.error f, ptr7, annotations, e2) =>
                        (.error f, ptr7, v1.set_annotations annotations, e2)
                      | (.ok hr1, ptr7, annotations, e2) =>
                        if FAILED hr1 then (.ok hr1, ptr7, v1.set_annotations annotations, e2)
                        else
                          (.ok S_OK, ptr7,
                            (v1.set_annotations annotations).set_explicit_bind_point K, e2)
                  else (.ok S_OK, ptr5, v1.set_explicit_bind_point K, e1)

/-! ### Constant buffers: `parse_fx10_buffer` and the stride of the buffer type -/

/-- The statement `stride = (stride + 0xf) & ~0xf;` on the `unsigned int stride`. -/
def stride_align (stride : Nat) : Nat := ((stride + 0xf) % 2 ^ 32) &&& 0xfffffff0

/-- The value of `stride` at which the packing branch of the member loop of
`parse_fx10_buffer` places the member `v`: after the rounding for a structure and the
rounding for a member that does not fit into the current 16-byte part, right before
`stride += v->type->size_unpacked`. -/
def buffer_member_offset (stride : Nat) (v : d3d10_effect_variable) : Nat :=
  let stride1 := if v.type.type_class = .STRUCT then stride_align stride else stride
  if 0x10 < ((stride1 &&& 0xf) + v.type.size_unpacked) % 2 ^ 32 then stride_align stride1
  else stride1

/-- The update of `stride` for one member `v` in the member loop of `parse_fx10_buffer`
(all operands are 32-bit unsigned). -/
def buffer_stride_step (K : effect_flag_bits) (stride : Nat) (v : d3d10_effect_variable) :
    Nat :=
  if v.flag &&& K.D3D10_EFFECT_VARIABLE_EXPLICIT_BIND_POINT ≠ 0 then
    if stride < (v.type.size_unpacked + v.buffer_offset) % 2 ^ 32 then
      (v.type.size_unpacked + v.buffer_offset) % 2 ^ 32
    else stride
  else (buffer_member_offset stride v + v.type.size_unpacked) % 2 ^ 32

/-- The value `(stride + 0xf) & ~0xf` stored in `l->type->stride` and
`l->type->size_unpacked` after the member loop has run over `members` from `stride = 0`. -/
def buffer_stride (K : effect_flag_bits) (members : List d3d10_effect_variable) : Nat :=
  stride_align (members.foldl (buffer_stride_step K) 0)

/-- The offsets at which the member loop places the members, `stride` being the running
stride before the first of them. -/
def buffer_member_offsets (K : effect_flag_bits) :
    Nat → List d3d10_effect_variable → List Nat
  | _, [] => []
  | stride, v :: rest =>
    buffer_member_offset stride v :: buffer_member_offsets K (buffer_stride_step K stride v) rest

/-- The local state of the member loop of `parse_fx10_buffer`: `l->members`,
`l->type->members`, `l->type->size_packed` and `stride`. -/
structure buffer_members_state where
  /-- The members parsed so far (`l->members`). -/
  members : List d3d10_effect_variable
  /-- The type members filled so far (`l->type->members`). -/
  type_members : List d3d10_effect_type_member
  /-- Field `l->type->size_packed`. -/
  size_packed : Nat
  /-- The local `stride`. -/
  stride : Nat

/-- The member loop of `parse_fx10_buffer`, entered with `remaining` members to parse. -/
def parse_fx10_buffer_members (K : effect_flag_bits)
    (parse_numeric_variable : record_parser_t d3d10_effect_variable) (data : List Nat) :
    Nat → Nat → buffer_members_state → d3d10_effect →
      Except Fault HRESULT × Nat × buffer_members_state × d3d10_effect
  | 0, ptr, s, e => (.ok S_OK, ptr, s, e)
  | remaining + 1, ptr, s, e =>
    match parse_numeric_variable data ptr e with
    | (.error f, ptr1, v, e1) => (.error f, ptr1, { s with members := s.members ++ [v] }, e1)
    | (.ok hr, ptr1, v, e1) =>
      if FAILED hr then (.ok hr, ptr1, { s with members := s.members ++ [v] }, e1)
      else
        parse_fx10_buffer_members K parse_numeric_variable data remaining ptr1
          { members := s.members ++ [v],
            type_members := s.type_members ++ [.mk v.name v.semantic v.buffer_offset v.type],
            size_packed := (s.size_packed + v.type.size_packed) % 2 ^ 32,
            stride := buffer_stride_step K s.stride v } e1

/-- Value `D3D10_CT_CBUFFER` of `D3D10_CBUFFER_TYPE`. -/
def D3D10_CT_CBUFFER : Nat := 0
/-- Value `D3D10_CT_TBUFFER` of `D3D10_CBUFFER_TYPE`. -/
def D3D10_CT_TBUFFER : Nat := 1

/-- The generated type `l->type` of a buffer: allocated zeroed, class `D3D10_SVC_OBJECT`,
then filled in by `parse_fx10_buffer`. -/
def buffer_type (name : Option cstring) (basetype : D3D10_SVT) (size_unpacked stride
    size_packed : Nat) (members : List d3d10_effect_type_member) : d3d10_effect_type :=
  .mk name basetype .OBJECT 0 0 size_unpacked stride size_packed 0 0 0 none members

/-- Embedding of `parse_fx10_buffer(data, data_size, ptr, local, l)` for a zeroed `l` with
the interface table of constant buffers. `create_variable_buffer` is the result of the
call of that name, which creates the backing store and the device buffer. The buffer is
returned as far as it was filled, also when the function fails. -/
def parse_fx10_buffer (K : effect_flag_bits) (parse_annotations : annotations_parser_t)
    (parse_numeric_variable : Bool → record_parser_t d3d10_effect_variable)
    (create_variable_buffer : d3d10_effect_variable → HRESULT) (is_local : Bool) :
    record_parser_t d3d10_effect_variable :=
  fun data ptr e =>
    let type0 := buffer_type none .VOID 0 0 0 []
    let l0 : d3d10_effect_variable := .mk .constant_buffer none none type0 0 0 0 0 [] [] []
    match read_dword data ptr with
    | .error f => (.error f, ptr, l0, e)
    | .ok (offset, ptr1) =>
      match fx10_copy_string data offset with
      | none => (.ok E_OUTOFMEMORY, ptr1, l0, e)
      | some name =>
        match read_dword data ptr1 with
        | .error f => (.error f, ptr1, .mk .constant_buffer name none type0 0 0 0 0 [] [] [], e)
        | .ok (data_size, ptr2) =>
          match read_dword data ptr2 with
          | .error f =>
            (.error f, ptr2, .mk .constant_buffer name none type0 0 0 0 data_size [] [] [], e)
          | .ok (d3d10_cbuffer_type, ptr3) =>
            let kind : Option (D3D10_SVT × cstring) :=
              if d3d10_cbuffer_type = D3D10_CT_CBUFFER then some (.CBUFFER, cstr "cbuffer")
              else if d3d10_cbuffer_type = D3D10_CT_TBUFFER then some (.TBUFFER, cstr "tbuffer")
              else none
            match kind with
            | none =>
              (.ok E_FAIL, ptr3, .mk .constant_buffer name none type0 0 0 0 data_size [] [] [], e)
            | some (basetype, type_name) =>
              let type1 := buffer_type (some type_name) basetype 0 0 0 []
              match read_dword data ptr3 with
              | .error f =>
                (.error f, ptr3, .mk .constant_buffer name none type1 0 0 0 data_size [] [] [], e)
              | .ok (member_count, ptr4) =>
                match read_dword data ptr4 with
                | .error f =>
                  (.error f, ptr4, .mk .constant_buffer name none type1 0 0 0 data_size [] [] [],
                    e)
                | .ok (explicit_bind_point, ptr5) =>
                  let flag := if e.flags &&& K.D3D10_EFFECT_IS_POOL ≠ 0
                    then K.D3D10_EFFECT_VARIABLE_POOLED else 0
                  let annotated : Except Fault HRESULT × Nat × List d3d10_effect_variable
                      × d3d10_effect :=
                    if is_local then
                      match read_dword data ptr5 with
                      | .error f => (.error f, ptr5, [], e)
                      | .ok (count, ptr6) => parse_annotations count data ptr6 e
                    else (.ok S_OK, ptr5, [], e)
                  match annotated with
                  | (.error f, ptr7, annotations, e1) =>
                    (.error f, ptr7, .mk .constant_buffer name none type1 flag 0
                      explicit_bind_point data_size annotations [] [], e1)
                  | (.ok hr, ptr7, annotations, e1) =>
                    if FAILED hr then
                      (.ok hr, ptr7, .mk .constant_buffer name none type1 flag 0
                        explicit_bind_point data_size annotations [] [], e1)
                    else
                      match parse_fx10_buffer_members K (parse_numeric_variable is_local) data
                          member_count ptr7 ⟨[], [], 0, 0⟩ e1 with
                      | (.error f, ptr8, s, e2) =>
                        (.error f, ptr8, .mk .constant_buffer name none
                          (buffer_type (some type_name) basetype 0 0 s.size_packed s.type_members)
                          flag 0 explicit_bind_point data_size annotations s.members [], e2)
                      | (.ok hr1, ptr8, s, e2) =>
                        if FAILED hr1 then
                          (.ok hr1, ptr8, .mk .constant_buffer name none
                            (buffer_type (some type_name) basetype 0 0 s.size_packed
                              s.type_members)
                            flag 0 explicit_bind_point data_size annotations s.members [], e2)
                        else
                          let type2 := buffer_type (some type_name) basetype
                            (stride_align s.stride) (stride_align s.stride) s.size_packed
                            s.type_members
                          let l1 : d3d10_effect_variable := .mk .constant_buffer name none type2
                            flag 0 explicit_bind_point data_size annotations s.members []
                          let hr2 := if is_local && data_size != 0 then create_variable_buffer l1
                            else S_OK
                          if FAILED hr2 then (.ok hr2, ptr8, l1, e2)
                          else
                            let flag1 := if explicit_bind_point ≠ 0xffffffff
                              then flag ||| K.D3D10_EFFECT_VARIABLE_EXPLICIT_BIND_POINT else flag
                            (.ok S_OK, ptr8, .mk .constant_buffer name none type2 flag1 0
                              explicit_bind_point data_size annotations s.members [], e2)

/-- The value of the local `stride` of `parse_fx10_buffer` after `i` rounds of its member
loop, the loop being entered at the read position `ptr` with the effect `e`. -/
def member_loop_stride (K : effect_flag_bits)
    (parse_numeric_variable : record_parser_t d3d10_effect_variable) (data : List Nat)
    (ptr : Nat) (e : d3d10_effect) (i : Nat) : Nat :=
  (parse_fx10_buffer_members K parse_numeric_variable data i ptr ⟨[], [], 0, 0⟩ e).2.2.1.stride

/-- Rounding up to the next multiple of 16, over the natural numbers. -/
def round_up_16 (n : Nat) : Nat := (n + 15) / 16 * 16

/-- The reference packing step, over the natural numbers: a member with an explicit bind
point sets the stride to `max(stride, unpacked size + buffer offset)`; any other member
rounds the stride up to a multiple of 16 if it is a structure, then rounds it up to a
multiple of 16 if `(stride mod 16) + unpacked size > 16`, then adds the unpacked size. -/
def reference_stride_step (K : effect_flag_bits) (stride : Nat) (v : d3d10_effect_variable) :
    Nat :=
  if v.flag &&& K.D3D10_EFFECT_VARIABLE_EXPLICIT_BIND_POINT ≠ 0 then
    max stride (v.type.size_unpacked + v.buffer_offset)
  else
    let stride1 := if v.type.type_class = .STRUCT then round_up_16 stride else stride
    let stride2 := if stride1 % 16 + v.type.size_unpacked > 16 then round_up_16 stride1
      else stride1
    stride2 + v.type.size_unpacked

/-- The reference fold over the members in declaration order: start at 0, apply the
reference step to every member, finally round up to a multiple of 16. -/
def reference_stride (K : effect_flag_bits) (members : List d3d10_effect_variable) : Nat :=
  round_up_16 (members.foldl (reference_stride_step K) 0)

/-- A numeric member of unpacked size `size` (a structure if `is_struct`) without explicit
bind point. -/
def member_of_size (is_struct : Bool) (size : Nat) : d3d10_effect_variable :=
  .mk .variable none none
    (.mk none .FLOAT (if is_struct then .STRUCT else .VECTOR) 0 0 size 0 size 0 0 0 none [])
    0 0 0 0 [] [] []

/-- Flag bits used in the examples (the variable flags have the values of `d3d10effect.h`). -/
def example_flag_bits : effect_flag_bits := ⟨2, 1, 4⟩

/-- A type resolver for the examples, standing in for `get_fx10_type`: the record at
`offset` holds the unpacked size of a float vector type. -/
def example_type_getter : type_getter_t := fun data offset e =>
  (some (.mk none .FLOAT .VECTOR offset 0 (dword_at data offset) 0 (dword_at data offset) 4 1 0
    none []), e)

/-- An annotation list parser for the examples: it accepts the empty list only. -/
def example_annotations : annotations_parser_t := fun count _ ptr e =>
  (.ok (if count = 0 then S_OK else E_FAIL), ptr, [], e)

/-- The record of a shared buffer with unnamed members of the given unpacked sizes, none of
them with an explicit bind point: 4 NUL bytes (the empty string at offset 0), one type
record per member from offset 4 on, then the buffer record (name 0, data size 0, kind
`D3D10_CT_CBUFFER`, member count, no explicit bind point) and the member records (name 0,
type offset, semantic 0, buffer offset 0, default value 0, flags 0). -/
def blob_buffer_of_sizes (sizes : List Nat) : List Nat :=
  [0, 0, 0, 0] ++ (sizes.map le32).flatten
    ++ le32 0 ++ le32 0 ++ le32 D3D10_CT_CBUFFER ++ le32 sizes.length ++ le32 0xffffffff
    ++ ((List.range sizes.length).map fun i =>
          le32 0 ++ le32 (4 + 4 * i) ++ le32 0 ++ le32 0 ++ le32 0 ++ le32 0).flatten

/-- The buffer parsed from `blob_buffer_of_sizes sizes`, the read position being at the
buffer record. -/
def parse_buffer_of_sizes (sizes : List Nat) :
    Except Fault HRESULT × Nat × d3d10_effect_variable × d3d10_effect :=
  parse_fx10_buffer example_flag_bits example_annotations
    (parse_fx10_numeric_variable example_flag_bits example_type_getter example_annotations)
    (fun _ => S_OK) false (blob_buffer_of_sizes sizes) (4 + 4 * sizes.length)
    (d3d10_effect.create 0 none)

/-! ### The shape of a variable tree -/

mutual
/-- The buffer offsets of the tree below a variable follow its type at every depth: the
members correspond to the type members, member `k` having the type of type member `k` and
the buffer offset `parent offset + in-struct offset of type member k`; there are
`element_count` elements, element `i` having the element type of the array type and the
buffer offset `parent offset + i * stride`; all sums are taken modulo 2^32. -/
def offsets_follow_type : d3d10_effect_variable → Prop
  | .mk _ _ _ type _ buffer_offset _ _ _ members elements =>
    members_follow_type buffer_offset type.members members ∧
    elements.length = type.element_count ∧
    elements_follow_type buffer_offset type.stride type.elementtype 0 elements
/-- The members of a variable at `parent_offset` against the members of its type. -/
def members_follow_type (parent_offset : Nat) :
    List d3d10_effect_type_member → List d3d10_effect_variable → Prop
  | [], [] => True
  | typem :: typems, var :: vars =>
    var.buffer_offset = (parent_offset + typem.buffer_offset) % 2 ^ 32 ∧
    var.type = typem.type ∧ offsets_follow_type var ∧
    members_follow_type parent_offset typems vars
  | [], _ :: _ => False
  | _ :: _, [] => False
/-- The elements of an array variable at `parent_offset`, from element `i` on. -/
def elements_follow_type (parent_offset stride : Nat) (elementtype : Option d3d10_effect_type) :
    Nat → List d3d10_effect_variable → Prop
  | _, [] => True
  | i, var :: vars =>
    var.buffer_offset = (parent_offset + i * stride) % 2 ^ 32 ∧
    some var.type = elementtype ∧ offsets_follow_type var ∧
    elements_follow_type parent_offset stride elementtype (i + 1) vars
end

mutual
/-- Every array type below the type has its element type (`elementtype` is not NULL when
`element_count` is not 0), as `parse_fx10_type` builds it. -/
def type_complete : d3d10_effect_type → Prop
  | .mk _ _ _ _ element_count _ _ _ _ _ _ elementtype members =>
    element_type_complete element_count elementtype ∧ type_members_complete members
/-- The element type of a complete array type. -/
def element_type_complete : Nat → Option d3d10_effect_type → Prop
  | element_count, none => element_count = 0
  | _, some elementtype => type_complete elementtype
/-- The member types of a complete type. -/
def type_members_complete : List d3d10_effect_type_member → Prop
  | [] => True
  | .mk _ _ _ type :: rest => type_complete type ∧ type_members_complete rest
end

mutual
/-- The buffer offsets of all nodes of a variable tree: the variable, then the trees of
its members, then the trees of its elements. -/
def tree_buffer_offsets : d3d10_effect_variable → List Nat
  | .mk _ _ _ _ _ buffer_offset _ _ _ members elements =>
    buffer_offset :: (tree_buffer_offsets_all members ++ tree_buffer_offsets_all elements)
/-- The buffer offsets of all nodes of the trees of an array of variables. -/
def tree_buffer_offsets_all : List d3d10_effect_variable → List Nat
  | [] => []
  | v :: rest => tree_buffer_offsets v ++ tree_buffer_offsets_all rest
end

/-- The type `float2`-like vector of two floats used in the examples. -/
def float2_type : d3d10_effect_type :=
  .mk (some (cstr "float2")) .FLOAT .VECTOR 0 0 8 0 8 2 1 0 none []

/-- A structure of 32 bytes with the members `a` (a float at offset 0) and `b` (two floats
at offset 16). -/
def struct_type (element_count : Nat) (elementtype : Option d3d10_effect_type) :
    d3d10_effect_type :=
  .mk (some (cstr "s")) .VOID .STRUCT 0 element_count 32 32 12 0 0 0 elementtype
    [.mk (some (cstr "a")) none 0 float_type, .mk (some (cstr "b")) none 16 float2_type]

/-- A type resolver for the examples: every offset resolves to an array of two structures
`struct_type` with stride 32. -/
def struct_array_getter : type_getter_t := fun _ _ e =>
  (some (struct_type 2 (some (struct_type 0 none))), e)

/-- The record of a member `v` of a shared buffer: name at offset 1 (`"v"`), type offset 0,
no semantic, buffer offset 64, no default value, flags 0; the record starts at offset 4. -/
def blob_struct_array_member : List Nat :=
  [0, 118, 0, 0] ++ le32 1 ++ le32 0 ++ le32 0 ++ le32 64 ++ le32 0 ++ le32 0

/-! ## Typed access to the backing store of a buffer

A `float`, an `int`, a `BOOL` and a `DWORD` are 32-bit words; a `float` is kept as its
IEEE 754 bit pattern. The caller's memory behind a pointer argument is a byte buffer of its
own, addressed from 0. -/

/-- The 32-bit two's complement representation of an `int`. -/
def int_to_dword (i : Int) : Nat := (i % 2 ^ 32).toNat

/-- The `int` represented by a 32-bit word (`*(int *)p`). -/
def dword_to_int (w : Nat) : Int :=
  if w % 2 ^ 32 < 2 ^ 31 then ((w % 2 ^ 32 : Nat) : Int) else ((w % 2 ^ 32 : Nat) : Int) - 2 ^ 32

/-- Position of the highest set bit of `m`, searched with `fuel` halvings (0 for `m < 2`). -/
def highest_bit : Nat → Nat → Nat
  | 0, _ => 0
  | fuel + 1, m => if m < 2 then 0 else highest_bit fuel (m / 2) + 1

/-- The C conversion `(float)i` of an `int` to binary32, rounding to nearest, ties to even:
sign bit, biased exponent `e + 127` and the 23 fraction bits of the magnitude `m` with
`2^e <= m < 2^(e+1)`; a mantissa that rounds up to `2^24` carries into the exponent. -/
def cast_int_to_float (i : Int) : Nat :=
  if i = 0 then 0
  else
    let sign := if i < 0 then 0x80000000 else 0
    let m := i.natAbs
    let e := highest_bit 32 m
    let mantissa :=
      if e ≤ 23 then m * 2 ^ (23 - e)
      else
        let q := m / 2 ^ (e - 23)
        let r := m % 2 ^ (e - 23)
        let half := 2 ^ (e - 24)
        if half < r ∨ (r = half ∧ q % 2 = 1) then q + 1 else q
    sign + (e + 127) * 2 ^ 23 + (mantissa - 2 ^ 23)

/-- The C conversion `(int)f` of a binary32 value: truncation toward zero. The conversion
of a NaN, an infinity or a value outside the range of `int` is undefined. -/
def cast_float_to_int (bits : Nat) : Except Fault Int :=
  let exponent := bits / 2 ^ 23 % 256
  let fraction := bits % 2 ^ 23
  if exponent = 255 then .error .float_to_int
  else if exponent < 127 then .ok 0
  else
    let m : Nat := 2 ^ 23 + fraction
    let magnitude : Nat := if 150 ≤ exponent then m * 2 ^ (exponent - 150) else m / 2 ^ (150 - exponent)
    let value : Int := if 2 ^ 31 ≤ bits % 2 ^ 32 then -(magnitude : Int) else (magnitude : Int)
    if -2 ^ 31 ≤ value ∧ value < 2 ^ 31 then .ok value else .error .float_to_int

/-- Bit pattern of the `float` 1.0: sign 0, exponent field 127, fraction 0. -/
def float_one : Nat := 0x3f800000
/-- Bit pattern of the `float` -1.0: sign 1, exponent field 127, fraction 0. -/
def float_minus_one : Nat := 0xbf800000

/-- Embedding of `get_value_as_bool(src_data, src_type)`, `src_data` pointing to the word
`w`; the result is the `BOOL` (an `int`) -1 or 0. -/
def get_value_as_bool (w : Nat) (src_type : D3D10_SVT) : Int :=
  match src_type with
  | .FLOAT => if w ≠ 0 then -1 else 0
  | .INT => if w ≠ 0 then -1 else 0
  | .BOOL => if w ≠ 0 then -1 else 0
  | _ => 0

/-- Embedding of `get_value_as_int(src_data, src_type)`. -/
def get_value_as_int (w : Nat) (src_type : D3D10_SVT) : Except Fault Int :=
  match src_type with
  | .FLOAT => cast_float_to_int w
  | .INT => .ok (dword_to_int w)
  | .BOOL => .ok (get_value_as_bool w src_type)
  | _ => .ok 0

/-- Embedding of `get_value_as_float(src_data, src_type)`; the result is the bit pattern
of the `float`. -/
def get_value_as_float (w : Nat) (src_type : D3D10_SVT) : Nat :=
  match src_type with
  | .FLOAT => w
  | .INT => cast_int_to_float (dword_to_int w)
  | .BOOL => cast_int_to_float (get_value_as_bool w src_type)
  | _ => 0

/-- The body of the loop of `get_vector_as_type` for one word `w = *src_data_dword`: the
word stored in `*dst_data_dword`. -/
def get_vector_as_type_value (dst_type src_type : D3D10_SVT) (w : Nat) : Except Fault Nat :=
  if dst_type = src_type then .ok w
  else
    match dst_type with
    | .FLOAT => .ok (get_value_as_float w src_type)
    | .INT =>
      match get_value_as_int w src_type with
      | .error f => .error f
      | .ok i => .ok (int_to_dword i)
    | .BOOL => .ok (int_to_dword (get_value_as_bool w src_type))
    | _ => .ok 0

/-- A 4-byte little-endian write of the word `w` at offset `p` of a buffer; a write that
does not lie inside the buffer is a fault. -/
def store_dword (data : List Nat) (p w : Nat) : Except Fault (List Nat) :=
  if p + 4 ≤ data.length then .ok (data.take p ++ le32 w ++ data.drop (p + 4))
  else .error (.oob_write p)

/-- Embedding of `get_vector_as_type(dst_data, dst_type, src_data, src_type, count)`:
`src_data` is offset `sp` of the buffer `src`, `dst_data` offset `dp` of the buffer `dst`;
the result is the buffer `dst` after the call. -/
def get_vector_as_type (dst_type src_type : D3D10_SVT) (src : List Nat) :
    Nat → Nat → Nat → List Nat → Except Fault (List Nat)
  | 0, _, _, dst => .ok dst
  | count + 1, sp, dp, dst =>
    match read_dword src sp with
    | .error f => .error f
    | .ok (w, _) =>
      match get_vector_as_type_value dst_type src_type w with
      | .error f => .error f
      | .ok w1 =>
        match store_dword dst dp w1 with
        | .error f => .error f
        | .ok dst1 => get_vector_as_type dst_type src_type src count (sp + 4) (dp + 4) dst1

/-- A write sequence `write` applied to the backing store `buffer->u.buffer.local_buffer`,
followed by `buffer->u.buffer.changed = TRUE`. A NULL backing store is a fault as soon as
the sequence accesses it. -/
def write_local_buffer (buffer : resource_variable)
    (write : List Nat → Except Fault (List Nat)) : Except Fault resource_variable :=
  match buffer.local_buffer with
  | some dst =>
    match write dst with
    | .error f => .error f
    | .ok dst1 => .ok { buffer with local_buffer := some dst1, changed := true }
  | none =>
    match write [] with
    | .error _ => .error .null_deref
    | .ok _ => .ok { buffer with changed := true }

/-- A read sequence `read` applied to the backing store of the buffer. -/
def read_local_buffer {α : Type} (buffer : resource_variable)
    (read : List Nat → Except Fault α) : Except Fault α :=
  match buffer.local_buffer with
  | some src => read src
  | none =>
    match read [] with
    | .error _ => .error .null_deref
    | .ok r => .ok r

/-- Embedding of `write_variable_to_buffer(variable, src, src_type)`; `var` is
`variable`, `buffer` is `variable->buffer` and `src` the caller's memory. -/
def write_variable_to_buffer (var : d3d10_effect_variable) (buffer : resource_variable)
    (src : List Nat) (src_type : D3D10_SVT) : Except Fault resource_variable :=
  write_local_buffer buffer fun dst =>
    get_vector_as_type var.type.basetype src_type src var.type.column_count 0
      var.buffer_offset dst

/-- Embedding of `read_variable_from_buffer(variable, dst, dst_type)`; the result is the
caller's memory `dst` after the call. -/
def read_variable_from_buffer (var : d3d10_effect_variable) (buffer : resource_variable)
    (dst : List Nat) (dst_type : D3D10_SVT) : Except Fault (List Nat) :=
  read_local_buffer buffer fun src =>
    get_vector_as_type dst_type var.type.basetype src var.type.column_count
      var.buffer_offset 0 dst

/-- The element loop of `write_variable_array_to_buffer`: `cur_element` is the read offset
in the caller's memory, `dp` the write offset in the backing store. -/
def write_variable_array_elements (dst_type src_type : D3D10_SVT) (src : List Nat)
    (column_count element_size stride : Nat) :
    Nat → Nat → Nat → List Nat → Except Fault (List Nat)
  | 0, _, _, dst => .ok dst
  | remaining + 1, cur_element, dp, dst =>
    match get_vector_as_type dst_type src_type src column_count cur_element dp dst with
    | .error f => .error f
    | .ok dst1 =>
      write_variable_array_elements dst_type src_type src column_count element_size stride
        remaining (cur_element + element_size) (dp + stride) dst1

/-- Embedding of `write_variable_array_to_buffer(variable, src, src_type, offset, count)`.
The product `variable->type->stride * offset` is an `unsigned int`. -/
def write_variable_array_to_buffer (var : d3d10_effect_variable)
    (buffer : resource_variable) (src : List Nat) (src_type : D3D10_SVT) (offset count : Nat) :
    Except Fault resource_variable :=
  if var.type.element_count = 0 then write_variable_to_buffer var buffer src src_type
  else if var.type.element_count ≤ offset then .ok buffer
  else
    let count1 := if var.type.element_count - offset < count
      then var.type.element_count - offset else count
    match var.type.elementtype with
    | none => .error .null_deref
    | some elementtype =>
      write_local_buffer buffer fun dst =>
        write_variable_array_elements var.type.basetype src_type src
          var.type.column_count elementtype.size_packed var.type.stride count1 0
          (var.buffer_offset + var.type.stride * offset % 2 ^ 32) dst

/-- The element loop of `read_variable_array_from_buffer`: `cur_element` is the write
offset in the caller's memory, `sp` the read offset in the backing store. -/
def read_variable_array_elements (dst_type src_type : D3D10_SVT) (src : List Nat)
    (column_count element_size stride : Nat) :
    Nat → Nat → Nat → List Nat → Except Fault (List Nat)
  | 0, _, _, dst => .ok dst
  | remaining + 1, cur_element, sp, dst =>
    match get_vector_as_type dst_type src_type src column_count sp cur_element dst with
    | .error f => .error f
    | .ok dst1 =>
      read_variable_array_elements dst_type src_type src column_count element_size stride
        remaining (cur_element + element_size) (sp + stride) dst1

/-- Embedding of `read_variable_array_from_buffer(variable, dst, dst_type, offset, count)`. -/
def read_variable_array_from_buffer (var : d3d10_effect_variable)
    (buffer : resource_variable) (dst : List Nat) (dst_type : D3D10_SVT) (offset count : Nat) :
    Except Fault (List Nat) :=
  if var.type.element_count = 0 then read_variable_from_buffer var buffer dst dst_type
  else if var.type.element_count ≤ offset then .ok dst
  else
    let count1 := if var.type.element_count - offset < count
      then var.type.element_count - offset else count
    match var.type.elementtype with
    | none => .error .null_deref
    | some elementtype =>
      read_local_buffer buffer fun src =>
        read_variable_array_elements dst_type var.type.basetype src
          var.type.column_count elementtype.size_packed var.type.stride count1 0
          (var.buffer_offset + var.type.stride * offset % 2 ^ 32) dst

/-- The result of an interface method that returns `S_OK` after the access `r`. -/
def returning_S_OK {α : Type} (r : Except Fault α) : Except Fault (HRESULT × α) :=
  match r with
  | .error f => .error f
  | .ok a => .ok (S_OK, a)

/-- Embedding of `d3d10_effect_scalar_variable_SetFloat(iface, value)`. -/
def d3d10_effect_scalar_variable_SetFloat (effect_var : d3d10_effect_variable)
    (buffer : resource_variable) (value : Nat) : Except Fault (HRESULT × resource_variable) :=
  returning_S_OK (write_variable_to_buffer effect_var buffer (le32 value) .FLOAT)

/-- Embedding of `d3d10_effect_scalar_variable_GetFloat(iface, value)`; `value` is the
caller's memory behind the pointer. -/
def d3d10_effect_scalar_variable_GetFloat (effect_var : d3d10_effect_variable)
    (buffer : resource_variable) (value : List Nat) : Except Fault (HRESULT × List Nat) :=
  returning_S_OK (read_variable_from_buffer effect_var buffer value .FLOAT)

/-- Embedding of `d3d10_effect_vector_variable_SetFloatVector(iface, value)`. -/
def d3d10_effect_vector_variable_SetFloatVector (effect_var : d3d10_effect_variable)
    (buffer : resource_variable) (value : List Nat) :
    Except Fault (HRESULT × resource_variable) :=
  returning_S_OK (write_variable_to_buffer effect_var buffer value .FLOAT)

/-- Embedding of `d3d10_effect_vector_variable_GetFloatVector(iface, value)`. -/
def d3d10_effect_vector_variable_GetFloatVector (effect_var : d3d10_effect_variable)
    (buffer : resource_variable) (value : List Nat) : Except Fault (HRESULT × List Nat) :=
  returning_S_OK (read_variable_from_buffer effect_var buffer value .FLOAT)

/-- Embedding of `d3d10_effect_vector_variable_SetFloatVectorArray(iface, values, offset,
count)`. -/
def d3d10_effect_vector_variable_SetFloatVectorArray (effect_var : d3d10_effect_variable)
    (buffer : resource_variable) (values : List Nat) (offset count : Nat) :
    Except Fault (HRESULT × resource_variable) :=
  returning_S_OK (write_variable_array_to_buffer effect_var buffer values .FLOAT offset count)

/-- The caller's memory holding the 32-bit words `ws` one after the other. -/
def words (ws : List Nat) : List Nat := (ws.map le32).flatten

/-- A sequence of 4-byte writes `(offset, word)` applied to a buffer in order. -/
def apply_stores : List (Nat × Nat) → List Nat → Except Fault (List Nat)
  | [], dst => .ok dst
  | (p, w) :: rest, dst =>
    match store_dword dst p w with
    | .error f => .error f
    | .ok dst1 => apply_stores rest dst1

/-- Embedding of `d3d10_effect_scalar_variable_SetInt(iface, value)`. -/
def d3d10_effect_scalar_variable_SetInt (effect_var : d3d10_effect_variable)
    (buffer : resource_variable) (value : Int) : Except Fault (HRESULT × resource_variable) :=
  returning_S_OK (write_variable_to_buffer effect_var buffer (le32 (int_to_dword value)) .INT)

/-- Embedding of `d3d10_effect_scalar_variable_GetInt(iface, value)`. -/
def d3d10_effect_scalar_variable_GetInt (effect_var : d3d10_effect_variable)
    (buffer : resource_variable) (value : List Nat) : Except Fault (HRESULT × List Nat) :=
  returning_S_OK (read_variable_from_buffer effect_var buffer value .INT)

/-- Embedding of `d3d10_effect_scalar_variable_SetBool(iface, value)`; a `BOOL` is an
`int`. -/
def d3d10_effect_scalar_variable_SetBool (effect_var : d3d10_effect_variable)
    (buffer : resource_variable) (value : Int) : Except Fault (HRESULT × resource_variable) :=
  returning_S_OK (write_variable_to_buffer effect_var buffer (le32 (int_to_dword value)) .BOOL)

/-- Embedding of `d3d10_effect_scalar_variable_GetBool(iface, value)`. -/
def d3d10_effect_scalar_variable_GetBool (effect_var : d3d10_effect_variable)
    (buffer : resource_variable) (value : List Nat) : Except Fault (HRESULT × List Nat) :=
  returning_S_OK (read_variable_from_buffer effect_var buffer value .BOOL)

/-- A scalar variable of the base type `basetype` at offset 0 of its buffer. -/
def scalar_variable (basetype : D3D10_SVT) : d3d10_effect_variable :=
  .mk .scalar none none (.mk none basetype .SCALAR 0 0 4 0 4 1 1 0 none []) 0 0 0 0 [] [] []

/-- A constant buffer whose backing store holds the bytes `bytes`. -/
def buffer_with (bytes : List Nat) : resource_variable :=
  { basetype := .CBUFFER, element_count := 0, data_size := bytes.length,
    local_buffer := some bytes, buffer := some 1, resource_view := none, changed := false,
    srv := [], sampler := none, texture := none, elements := [] }

/-- The word that a scalar `Get` method stores in the caller's variable, after the scalar
`set` has written to a zeroed buffer of 16 bytes. -/
def set_then_get
    (set : resource_variable → Except Fault (HRESULT × resource_variable))
    (get : resource_variable → List Nat → Except Fault (HRESULT × List Nat)) :
    Except Fault Nat :=
  match set (buffer_with (List.replicate 16 0)) with
  | .error f => .error f
  | .ok (_, buffer) =>
    match get buffer [0, 0, 0, 0] with
    | .error f => .error f
    | .ok (_, value) => .ok (dword_at value 0)

/-- A vector of four floats at offset 16 of its buffer. -/
def float4_variable : d3d10_effect_variable :=
  .mk .vector none none (.mk none .FLOAT .VECTOR 0 0 16 0 16 4 1 0 none []) 0 16 0 0 [] [] []

/-! ### Matrix variables -/

/-- A `struct d3d10_matrix` (`float m[4][4]`): the bit pattern of `m[row][col]`. -/
abbrev d3d10_matrix := Nat → Nat → Nat

/-- The assignment `dst->m[row][col] = w`. -/
def d3d10_matrix.set (m : d3d10_matrix) (row col w : Nat) : d3d10_matrix :=
  fun r c => if r = row ∧ c = col then w else m r c

/-- The local `row_count` of `write_matrix_to_buffer` and `read_matrix_from_buffer`. -/
def matrix_row_count (var : d3d10_effect_variable) (transpose : Bool) : Nat :=
  if !transpose then var.type.row_count else var.type.column_count

/-- The local `col_count` of `write_matrix_to_buffer` and `read_matrix_from_buffer`. -/
def matrix_col_count (var : d3d10_effect_variable) (transpose : Bool) : Nat :=
  if !transpose then var.type.column_count else var.type.row_count

/-- The local `major` of `write_matrix_to_buffer` and `read_matrix_from_buffer`:
`variable->type->type_class == D3D10_SVC_MATRIX_COLUMNS`, negated if `transpose`. -/
def matrix_major (var : d3d10_effect_variable) (transpose : Bool) : Bool :=
  if transpose then !(var.type.type_class == .MATRIX_COLUMNS)
  else var.type.type_class == .MATRIX_COLUMNS

/-- The matrix entry `(row, col)` that the loops access at outer index `a` and inner index
`b`: the outer loop runs over the columns if `major`, over the rows otherwise. -/
def matrix_entry (major : Bool) (a b : Nat) : Nat × Nat := if major then (b, a) else (a, b)

/-- The index of the word of the backing store that holds the entry `(row, col)`:
`(col * 4) + row` if `major`, `(row * 4) + col` otherwise. -/
def matrix_slot (major : Bool) (row col : Nat) : Nat :=
  if major then col * 4 + row else row * 4 + col

/-- The inner loop of `write_matrix_to_buffer` at outer index `a`, from inner index `b` on:
`dst[(a * 4) + b] = src->m[row][col]`, `dst` being the `float` array at offset `base`. -/
def write_matrix_inner (src : d3d10_matrix) (major : Bool) (base a : Nat) :
    Nat → Nat → List Nat → Except Fault (List Nat)
  | 0, _, dst => .ok dst
  | remaining + 1, b, dst =>
    if 4 ≤ (matrix_entry major a b).1 ∨ 4 ≤ (matrix_entry major a b).2 then
      .error (.matrix_index (matrix_entry major a b).1 (matrix_entry major a b).2)
    else
      match store_dword dst (base + 4 * (a * 4 + b))
          (src (matrix_entry major a b).1 (matrix_entry major a b).2) with
      | .error f => .error f
      | .ok dst1 => write_matrix_inner src major base a remaining (b + 1) dst1

/-- The outer loop of `write_matrix_to_buffer`, from outer index `a` on. -/
def write_matrix_outer (src : d3d10_matrix) (major : Bool) (base inner_count : Nat) :
    Nat → Nat → List Nat → Except Fault (List Nat)
  | 0, _, dst => .ok dst
  | remaining + 1, a, dst =>
    match write_matrix_inner src major base a inner_count 0 dst with
    | .error f => .error f
    | .ok dst1 => write_matrix_outer src major base inner_count remaining (a + 1) dst1

/-- Embedding of `write_matrix_to_buffer(variable, dst_void, src, transpose)`, `dst_void`
being offset `base` of the buffer `dst`. -/
def write_matrix_to_buffer (var : d3d10_effect_variable) (src : d3d10_matrix)
    (transpose : Bool) (base : Nat) (dst : List Nat) : Except Fault (List Nat) :=
  if matrix_major var transpose then
    write_matrix_outer src true base (matrix_row_count var transpose)
      (matrix_col_count var transpose) 0 dst
  else
    write_matrix_outer src false base (matrix_col_count var transpose)
      (matrix_row_count var transpose) 0 dst

/-- The inner loop of `read_matrix_from_buffer`: `dst->m[row][col] = src[(a * 4) + b]`. -/
def read_matrix_inner (src : List Nat) (major : Bool) (base a : Nat) :
    Nat → Nat → d3d10_matrix → Except Fault d3d10_matrix
  | 0, _, dst => .ok dst
  | remaining + 1, b, dst =>
    if 4 ≤ (matrix_entry major a b).1 ∨ 4 ≤ (matrix_entry major a b).2 then
      .error (.matrix_index (matrix_entry major a b).1 (matrix_entry major a b).2)
    else
      match read_dword src (base + 4 * (a * 4 + b)) with
      | .error f => .error f
      | .ok (w, _) =>
        read_matrix_inner src major base a remaining (b + 1)
          (dst.set (matrix_entry major a b).1 (matrix_entry major a b).2 w)

/-- The outer loop of `read_matrix_from_buffer`. -/
def read_matrix_outer (src : List Nat) (major : Bool) (base inner_count : Nat) :
    Nat → Nat → d3d10_matrix → Except Fault d3d10_matrix
  | 0, _, dst => .ok dst
  | remaining + 1, a, dst =>
    match read_matrix_inner src major base a inner_count 0 dst with
    | .error f => .error f
    | .ok dst1 => read_matrix_outer src major base inner_count remaining (a + 1) dst1

/-- Embedding of `read_matrix_from_buffer(variable, src_void, dst, transpose)`, `src_void`
being offset `base` of the buffer `src`; the result is the matrix `*dst` after the call. -/
def read_matrix_from_buffer (var : d3d10_effect_variable) (src : List Nat)
    (dst : d3d10_matrix) (transpose : Bool) (base : Nat) : Except Fault d3d10_matrix :=
  if matrix_major var transpose then
    read_matrix_outer src true base (matrix_row_count var transpose)
      (matrix_col_count var transpose) 0 dst
  else
    read_matrix_outer src false base (matrix_col_count var transpose)
      (matrix_row_count var transpose) 0 dst

/-- Embedding of `write_matrix_variable_to_buffer(variable, src_data, transpose)`. -/
def write_matrix_variable_to_buffer (var : d3d10_effect_variable) (buffer : resource_variable)
    (src_data : d3d10_matrix) (transpose : Bool) : Except Fault resource_variable :=
  write_local_buffer buffer (write_matrix_to_buffer var src_data transpose var.buffer_offset)

/-- Embedding of `read_matrix_variable_from_buffer(variable, dst, transpose)`. -/
def read_matrix_variable_from_buffer (var : d3d10_effect_variable) (buffer : resource_variable)
    (dst : d3d10_matrix) (transpose : Bool) : Except Fault d3d10_matrix :=
  read_local_buffer buffer fun src =>
    read_matrix_from_buffer var src dst transpose var.buffer_offset

/-- Embedding of `d3d10_effect_matrix_variable_SetMatrix(iface, data)`. -/
def d3d10_effect_matrix_variable_SetMatrix (var : d3d10_effect_variable)
    (buffer : resource_variable) (data : d3d10_matrix) :
    Except Fault (HRESULT × resource_variable) :=
  returning_S_OK (write_matrix_variable_to_buffer var buffer data false)

/-- Embedding of `d3d10_effect_matrix_variable_GetMatrix(iface, data)`. -/
def d3d10_effect_matrix_variable_GetMatrix (var : d3d10_effect_variable)
    (buffer : resource_variable) (data : d3d10_matrix) : Except Fault (HRESULT × d3d10_matrix) :=
  returning_S_OK (read_matrix_variable_from_buffer var buffer data false)

/-- Embedding of `d3d10_effect_matrix_variable_SetMatrixTranspose(iface, data)`. -/
def d3d10_effect_matrix_variable_SetMatrixTranspose (var : d3d10_effect_variable)
    (buffer : resource_variable) (data : d3d10_matrix) :
    Except Fault (HRESULT × resource_variable) :=
  returning_S_OK (write_matrix_variable_to_buffer var buffer data true)

/-- Embedding of `d3d10_effect_matrix_variable_GetMatrixTranspose(iface, data)`. -/
def d3d10_effect_matrix_variable_GetMatrixTranspose (var : d3d10_effect_variable)
    (buffer : resource_variable) (data : d3d10_matrix) : Except Fault (HRESULT × d3d10_matrix) :=
  returning_S_OK (read_matrix_variable_from_buffer var buffer data true)

/-- The element loop of `write_matrix_variable_array_to_buffer`: `i` is the position in the
caller's array `src` of matrices, `dp` the write offset in the backing store. -/
def write_matrix_variable_array_elements (var : d3d10_effect_variable)
    (src : Nat → d3d10_matrix) (transpose : Bool) :
    Nat → Nat → Nat → List Nat → Except Fault (List Nat)
  | 0, _, _, dst => .ok dst
  | remaining + 1, i, dp, dst =>
    match write_matrix_to_buffer var (src i) transpose dp dst with
    | .error f => .error f
    | .ok dst1 =>
      write_matrix_variable_array_elements var src transpose remaining (i + 1)
        (dp + var.type.stride) dst1

/-- Embedding of `write_matrix_variable_array_to_buffer(variable, src_data, offset, count,
transpose)`; `src_data` is the caller's array of matrices. The product
`variable->type->stride * offset` is an `unsigned int`. -/
def write_matrix_variable_array_to_buffer (var : d3d10_effect_variable)
    (buffer : resource_variable) (src_data : Nat → d3d10_matrix) (offset count : Nat)
    (transpose : Bool) : Except Fault resource_variable :=
  if var.type.element_count = 0 then
    write_matrix_variable_to_buffer var buffer (src_data 0) transpose
  else if var.type.element_count ≤ offset then .ok buffer
  else
    let count1 := if var.type.element_count - offset < count
      then var.type.element_count - offset else count
    write_local_buffer buffer fun dst =>
      write_matrix_variable_array_elements var src_data transpose count1 0
        (if offset ≠ 0 then var.buffer_offset + var.type.stride * offset % 2 ^ 32
          else var.buffer_offset) dst

/-- Embedding of `d3d10_effect_matrix_variable_SetMatrixArray(iface, data, offset,
count)`. -/
def d3d10_effect_matrix_variable_SetMatrixArray (var : d3d10_effect_variable)
    (buffer : resource_variable) (data : Nat → d3d10_matrix) (offset count : Nat) :
    Except Fault (HRESULT × resource_variable) :=
  returning_S_OK (write_matrix_variable_array_to_buffer var buffer data offset count false)

/-- Embedding of `d3d10_effect_matrix_variable_SetMatrixTransposeArray(iface, data, offset,
count)`. -/
def d3d10_effect_matrix_variable_SetMatrixTransposeArray (var : d3d10_effect_variable)
    (buffer : resource_variable) (data : Nat → d3d10_matrix) (offset count : Nat) :
    Except Fault (HRESULT × resource_variable) :=
  returning_S_OK (write_matrix_variable_array_to_buffer var buffer data offset count true)

/-- The writes of the inner loop of `write_matrix_to_buffer` at outer index `a`, from
inner index `b` on. -/
def matrix_inner_stores (src : d3d10_matrix) (major : Bool) (base a n b : Nat) :
    List (Nat × Nat) :=
  (List.range n).map fun k =>
    (base + 4 * (a * 4 + (b + k)),
      src (matrix_entry major a (b + k)).1 (matrix_entry major a (b + k)).2)

/-- The writes of the outer loop of `write_matrix_to_buffer`, from outer index `a` on. -/
def matrix_outer_stores (src : d3d10_matrix) (major : Bool) (base inner_count n a : Nat) :
    List (Nat × Nat) :=
  ((List.range n).map fun k => matrix_inner_stores src major base (a + k) inner_count 0).flatten

/-- A column-major matrix variable with 2 rows and 3 columns at offset 16 of its buffer. -/
def float2x3_variable : d3d10_effect_variable :=
  .mk .matrix none none (.mk none .FLOAT .MATRIX_COLUMNS 0 0 48 0 24 3 2 0 none []) 0 16 0 0
    [] [] []

/-- The matrix whose entry `(row, col)` is `10 * row + col + 1`. -/
def example_matrix : d3d10_matrix := fun row col => 10 * row + col + 1

/-- The word that `get_vector_as_type` stores for the word at offset `p` of the caller's
memory `src` (0 where the conversion is undefined). -/
def converted_word (dst_type src_type : D3D10_SVT) (src : List Nat) (p : Nat) : Nat :=
  match get_vector_as_type_value dst_type src_type (dword_at src p) with
  | .ok w => w
  | .error _ => 0

/-- The writes of the element loop of `write_variable_array_to_buffer` for `n` elements:
element `k` is read at `cur_element + k * element_size` and written at `dp + k * stride`. -/
def array_stores (dst_type src_type : D3D10_SVT) (src : List Nat)
    (column_count element_size stride n cur_element dp : Nat) : List (Nat × Nat) :=
  ((List.range n).map fun k => (List.range column_count).map fun j =>
    (dp + k * stride + 4 * j,
      converted_word dst_type src_type src (cur_element + k * element_size + 4 * j))).flatten

/-- An array of three vectors of two floats with stride 16 at offset 16 of its buffer. -/
def float2_array_variable : d3d10_effect_variable :=
  .mk .vector none none
    (.mk none .FLOAT .VECTOR 0 3 40 16 24 2 1 0
      (some (.mk none .FLOAT .VECTOR 0 0 8 16 8 2 1 0 none [])) []) 0 16 0 0 [] [] []

/-! ### The dirty flag of a buffer -/

/-- The device call is an upload of a backing store (`UpdateSubresource`). -/
def is_upload : device_cmd → Bool
  | .UpdateSubresource _ _ _ => true
  | _ => false

/-- The number of uploads among the device calls. -/
def upload_count (cmds : List device_cmd) : Nat := cmds.countP is_upload

/-- The number of buffers whose dirty flag `u.buffer.changed` is set. -/
def dirty_count (vars : List resource_variable) : Nat := vars.countP fun v => v.changed

/-- The resource variables with their dirty flags disregarded. -/
def without_flags (vars : List resource_variable) : List resource_variable :=
  vars.map fun v => { v with changed := false }

/-- The dirty flag of the variable at address `a` is clear. -/
def is_clean (vars : List resource_variable) (a : Nat) : Prop :=
  ∃ v, vars[a]? = some v ∧ v.changed = false

/-- The resource is a constant buffer or a texture buffer, which `apply_shader_resources`
passes to `update_buffer`. -/
def is_buffer_resource (sr : d3d10_effect_shader_resource) : Bool :=
  sr.in_type == .CBUFFER || sr.in_type == .TBUFFER

/-- The state `s1` arises from `s` by device calls and cleared dirty flags only: apart from
the flags the variables are the same, a clear flag stays clear, the calls of `s` are
followed by new ones, and every upload among the new calls has cleared one dirty flag. -/
def flags_only_cleared (s s1 : apply_state) : Prop :=
  without_flags s1.vars = without_flags s.vars ∧
  (∀ b, is_clean s.vars b → is_clean s1.vars b) ∧
  ∃ cs, s1.cmds = s.cmds ++ cs ∧ upload_count cs + dirty_count s1.vars = dirty_count s.vars

/-- Run from the state `t`, the step `f` succeeds, changes no variable and makes device
calls none of which is an upload. -/
def runs_without_upload (f : apply_state → Except Fault apply_state) (t : apply_state) : Prop :=
  ∃ cs, f t = .ok { vars := t.vars, cmds := t.cmds ++ cs } ∧ upload_count cs = 0

/-- The resources that `Apply` binds for one shader stage of a pass. -/
def stage_resources (shader_desc : d3d10_effect_pass_shader_desc) :
    List d3d10_effect_shader_resource :=
  match d3d10_array_get_element shader_desc.shader shader_desc.index with
  | .ok v => v.resources
  | .error _ => []

/-- A pass whose vertex shader (device object 7) reads the constant buffer at address 0
through slot 0; it has no other shader and no state object. -/
def pass_with_cbuffer : d3d10_effect_pass :=
  { technique := some (some 1), name := some (cstr "p"), annotations := [],
    vs := ⟨.var ⟨0, ⟨.VERTEXSHADER, some 7, [⟨.CBUFFER, 0, 1, 0⟩]⟩, []⟩, 0⟩,
    ps := ⟨.null_shader_variable, 0⟩, gs := ⟨.null_shader_variable, 0⟩, rasterizer := none,
    depth_stencil := none, blend := none, stencil_ref := 0, sample_mask := 0,
    blend_factor := [0, 0, 0, 0] }

/-- A state with one constant buffer of 16 bytes whose dirty flag is set, before any device
call. -/
def state_one_dirty_buffer : apply_state :=
  { vars := [{ buffer_with (List.replicate 16 0) with changed := true }], cmds := [] }

/-- The state after `Apply` of `pass_with_cbuffer` on `state_one_dirty_buffer`: the flag is
cleared, and the shader was bound, the buffer uploaded and bound to slot 0. -/
def state_after_first_apply : apply_state :=
  { vars := [buffer_with (List.replicate 16 0)],
    cmds := [.SetShader .VERTEXSHADER (some 7),
      .UpdateSubresource (some 1) (some (List.replicate 16 0)) 16,
      .SetConstantBuffers .VERTEXSHADER 0 (some 1)] }

/-! ### The order of the device calls of `Apply` -/

/-- The pointers that `apply_shader_resources` follows for the resource `sr` point to
variables (`vars` are the resource variables): the bound variable, for a texture bound
through a sampler the texture attached to the sampler, and for an array of samplers the
first `bind_count` elements. -/
def resource_valid (vars : List resource_variable) (sr : d3d10_effect_shader_resource) : Bool :=
  match sr.in_type with
  | .CBUFFER => decide (sr.variable_ptr < vars.length)
  | .TBUFFER => decide (sr.variable_ptr < vars.length)
  | .TEXTURE =>
    match vars[sr.variable_ptr]? with
    | none => false
    | some v0 =>
      if v0.basetype = .SAMPLER then
        match v0.texture with
        | none => false
        | some a => decide (a < vars.length)
      else true
  | .SAMPLER =>
    match vars[sr.variable_ptr]? with
    | none => false
    | some v => decide (v.element_count = 0) || decide (sr.bind_count ≤ v.elements.length)
  | .OTHER => true

/-- The shader description of a pass is valid for the stage `stage`: it refers to the
static `null_shader_variable`, or to a shader variable (an element inside the array when
it is an array) of the base type of the stage whose resources are valid. -/
def stage_valid (stage : D3D10_SVT) (vars : List resource_variable)
    (shader_desc : d3d10_effect_pass_shader_desc) : Bool :=
  shader_desc.shader = .null_shader_variable ||
  match d3d10_array_get_element shader_desc.shader shader_desc.index with
  | .error _ => false
  | .ok v => decide (v.basetype = stage) && v.resources.all (resource_valid vars)

/-- A valid pass: it belongs to a technique of an effect with a device, and its three
shader descriptions are valid. -/
def pass_valid (vars : List resource_variable) (pass : d3d10_effect_pass) : Bool :=
  (match pass.technique with
    | some (some _) => true
    | _ => false) &&
  stage_valid .VERTEXSHADER vars pass.vs && stage_valid .GEOMETRYSHADER vars pass.gs &&
  stage_valid .PIXELSHADER vars pass.ps

/-- The binding calls of one reflected resource of a shader of the stage `stage`: a
constant buffer is bound to its slot, a texture buffer through its view, a texture through
its views (those of the attached texture when the resource variable is a sampler), a
sampler to its slot and an array of samplers to `bind_count` slots in a row. -/
def resource_binding (stage : D3D10_SVT) (vars : List resource_variable)
    (sr : d3d10_effect_shader_resource) : List device_cmd :=
  match vars[sr.variable_ptr]? with
  | none => []
  | some v =>
    match sr.in_type with
    | .CBUFFER => [.SetConstantBuffers stage sr.bind_point v.buffer]
    | .TBUFFER => [.SetShaderResources stage sr.bind_point sr.bind_count [v.resource_view]]
    | .TEXTURE =>
      if v.basetype = .SAMPLER then
        match v.texture.bind fun a => vars[a]? with
        | none => []
        | some t => [.SetShaderResources stage sr.bind_point sr.bind_count t.srv]
      else [.SetShaderResources stage sr.bind_point sr.bind_count v.srv]
    | .SAMPLER =>
      if v.element_count = 0 then [.SetSamplers stage sr.bind_point v.sampler]
      else (List.range sr.bind_count).map fun j =>
        .SetSamplers stage (sr.bind_point + j) (v.elements.getD j none)
    | .OTHER => []

/-- The binding calls of one stage of a pass: none when the shader description refers to
the static `null_shader_variable`, else the shader followed by its reflected resources in
order. -/
def stage_binding (stage : D3D10_SVT) (vars : List resource_variable)
    (shader_desc : d3d10_effect_pass_shader_desc) : List device_cmd :=
  if shader_desc.shader = .null_shader_variable then []
  else
    match d3d10_array_get_element shader_desc.shader shader_desc.index with
    | .error _ => []
    | .ok v => .SetShader stage v.shader :: (v.resources.map (resource_binding stage vars)).flatten

/-- The state calls at the end of a pass: the rasterizer state, the depth-stencil state
with the stencil reference, the blend state with blend factor and sample mask, each only
if the pass has the state variable. -/
def fixed_state_binding (pass : d3d10_effect_pass) : List device_cmd :=
  (match pass.rasterizer with
    | some o => [.RSSetState o]
    | none => []) ++
  (match pass.depth_stencil with
    | some o => [.OMSetDepthStencilState o pass.stencil_ref]
    | none => []) ++
  (match pass.blend with
    | some o => [.OMSetBlendState o pass.blend_factor pass.sample_mask]
    | none => [])

/-- The device calls other than uploads of a backing store. -/
def binding_calls (cmds : List device_cmd) : List device_cmd :=
  cmds.filter fun c => !is_upload c

/-- A pass with all three stages and all three state objects: the vertex shader reads a
constant buffer (address 0) and an array of two samplers (address 2), the geometry shader
is element 1 of an array of shaders and has no resource, the pixel shader reads a texture
through a sampler (address 1, texture at address 3) and a texture buffer (address 0). -/
def pass_all_stages : d3d10_effect_pass :=
  { technique := some (some 1), name := some (cstr "p"), annotations := [],
    vs := ⟨.var ⟨0, ⟨.VERTEXSHADER, some 7,
      [⟨.CBUFFER, 0, 1, 0⟩, ⟨.SAMPLER, 2, 2, 2⟩]⟩, []⟩, 0⟩,
    gs := ⟨.var ⟨2, ⟨.GEOMETRYSHADER, none, []⟩,
      [⟨.GEOMETRYSHADER, some 8, []⟩, ⟨.GEOMETRYSHADER, some 9, []⟩]⟩, 1⟩,
    ps := ⟨.var ⟨0, ⟨.PIXELSHADER, some 10,
      [⟨.TEXTURE, 3, 1, 1⟩, ⟨.TBUFFER, 4, 1, 0⟩]⟩, []⟩, 0⟩,
    rasterizer := some (some 20), depth_stencil := some (some 21), blend := some none,
    stencil_ref := 5, sample_mask := 0xffff, blend_factor := [0, 0, 0, 0x3f800000] }

/-- The resource variables of `pass_all_stages`: a dirty buffer, a sampler with the texture
at address 3 attached, an array of two samplers and a texture. -/
def vars_all_stages : List resource_variable :=
  [ { buffer_with (List.replicate 16 0) with changed := true, resource_view := some 30 },
    { basetype := .SAMPLER, element_count := 0, data_size := 0, local_buffer := none,
      buffer := none, resource_view := none, changed := false, srv := [], sampler := some 40,
      texture := some 3, elements := [] },
    { basetype := .SAMPLER, element_count := 2, data_size := 0, local_buffer := none,
      buffer := none, resource_view := none, changed := false, srv := [], sampler := none,
      texture := none, elements := [some 41, some 42] },
    { basetype := .TEXTURE2D, element_count := 0, data_size := 0, local_buffer := none,
      buffer := none, resource_view := none, changed := false, srv := [some 50],
      sampler := none, texture := none, elements := [] } ]

/-! ## Stream output declarations

`d3d10_effect_parse_stream_output_declaration` works on a copy of the declaration string,
which it cuts into pieces by writing NUL bytes. The copy is a list of bytes, the pointers
into it (`p`, `end`, `next`, `slot`, `mask`) are offsets. A read or write outside the copy
is a fault. -/

/-- The C library test `isspace(c)` in the "C" locale. -/
def isspace (c : Nat) : Bool := c == 32 || (decide (9 ≤ c) && decide (c ≤ 13))

/-- The C library test `isdigit(c)`. -/
def isdigit (c : Nat) : Bool := decide (48 ≤ c) && decide (c ≤ 57)

/-- The string that starts at the head of `bytes` (which stand at the offset `i`): the
bytes before the first NUL. A string that is not terminated inside the buffer makes
every C library function read past its end. -/
def c_string_from : List Nat → Nat → Except Fault (List Nat)
  | [], i => .error (.oob_read i)
  | b :: rest, i =>
    if b = 0 then .ok []
    else
      match c_string_from rest (i + 1) with
      | .error f => .error f
      | .ok s => .ok (b :: s)

/-- The C string at the offset `p` of the buffer. -/
def c_string (buf : List Nat) (p : Nat) : Except Fault (List Nat) :=
  c_string_from (buf.drop p) p

/-- The position of the first `c` in the string, if there is one. -/
def index_of (c : Nat) : List Nat → Option Nat
  | [] => none
  | b :: rest => if b = c then some 0 else (index_of c rest).map (· + 1)

/-- The C library function `strchr(p, c)` for `c` other than NUL: the offset of the first
`c` in the string at `p` (NULL = none). -/
def strchr (buf : List Nat) (p c : Nat) : Except Fault (Option Nat) :=
  match c_string buf p with
  | .error f => .error f
  | .ok s => .ok ((index_of c s).map (p + ·))

/-- The C library function `strlen(p)`. -/
def strlen (buf : List Nat) (p : Nat) : Except Fault Nat :=
  match c_string buf p with
  | .error f => .error f
  | .ok s => .ok s.length

/-- The value of a string of decimal digits. -/
def decimal_value (digits : List Nat) : Nat :=
  digits.foldl (fun n c => 10 * n + (c - 48)) 0

/-- The C library function `atoi(p)` on a string that starts with a digit or is empty (the
only strings it is called on here): the value of its leading digits. -/
def atoi (buf : List Nat) (p : Nat) : Except Fault Nat :=
  match c_string buf p with
  | .error f => .error f
  | .ok s => .ok (decimal_value (s.takeWhile isdigit))

/-- The C library function `strstr(haystack, needle)` for a constant `haystack`: the
position of the first occurrence of `needle` (NULL = none). -/
def strstr : List Nat → List Nat → Option Nat
  | [], needle => if needle = [] then some 0 else none
  | h :: rest, needle =>
    if needle.isPrefixOf (h :: rest) then some 0 else (strstr rest needle).map (· + 1)

/-- The read `buf[i]` of one character. -/
def read_char (buf : List Nat) (i : Nat) : Except Fault Nat :=
  match buf[i]? with
  | some c => .ok c
  | none => .error (.oob_read i)

/-- The write `buf[i] = c` of one character. -/
def write_char (buf : List Nat) (i c : Nat) : Except Fault (List Nat) :=
  if i < buf.length then .ok (buf.set i c) else .error (.oob_write i)

/-- Embedding of `D3D10_SO_DECLARATION_ENTRY`; `SemanticName` points into the copy of the
declaration and is kept as the string it points to (NULL = none). -/
structure D3D10_SO_DECLARATION_ENTRY where
  /-- Field `SemanticName`. -/
  SemanticName : Option cstring
  /-- Field `SemanticIndex`. -/
  SemanticIndex : Nat
  /-- Field `StartComponent`. -/
  StartComponent : Nat
  /-- Field `ComponentCount`. -/
  ComponentCount : Nat
  /-- Field `OutputSlot`. -/
  OutputSlot : Nat
  deriving DecidableEq, Repr

/-- Embedding of `struct d3d10_effect_so_decl` without `capacity`; `decl` is the copy of
the declaration string (NULL = none). -/
structure d3d10_effect_so_decl where
  /-- Field `entries`. -/
  entries : List D3D10_SO_DECLARATION_ENTRY
  /-- Field `count`. -/
  count : Nat
  /-- Field `stride`. -/
  stride : Nat
  /-- Field `decl`. -/
  decl : Option (List Nat)
  deriving DecidableEq, Repr

/-- The structure after `memset(so_decl, 0, sizeof(*so_decl))`, which is also its state
after `d3d10_effect_cleanup_so_decl`. -/
def d3d10_effect_so_decl.zero : d3d10_effect_so_decl := ⟨[], 0, 0, none⟩

/-- The loop `while (len && isspace(*p)) { len--; p++; }`: the new `p` and `len`. -/
def so_trim_leading (buf : List Nat) : Nat → Nat → Except Fault (Nat × Nat)
  | p, 0 => .ok (p, 0)
  | p, len + 1 =>
    match read_char buf p with
    | .error f => .error f
    | .ok c => if isspace c then so_trim_leading buf (p + 1) len else .ok (p, len + 1)

/-- The loop `while (len && isspace(p[len - 1])) len--;`: the new `len`. -/
def so_trim_trailing (buf : List Nat) (p : Nat) : Nat → Except Fault Nat
  | 0 => .ok 0
  | len + 1 =>
    match read_char buf (p + len) with
    | .error f => .error f
    | .ok c => if isspace c then so_trim_trailing buf p len else .ok (len + 1)

/-- The loop `ptr = p; while (*ptr) { if (!isdigit(*ptr)) goto failed; ptr++; }` on the
bytes from `ptr` on: `false` when the jump is taken. -/
def so_slot_digits : List Nat → Nat → Except Fault Bool
  | [], ptr => .error (.oob_read ptr)
  | c :: rest, ptr =>
    if c = 0 then .ok true
    else if !isdigit c then .ok false
    else so_slot_digits rest (ptr + 1)

/-- The loop `while (isdigit(p[len - 1])) len--;` with the `unsigned int len`: the index
`len - 1` is computed modulo 2^32, so that it is 0xffffffff when `len` is 0. The first
argument bounds the number of rounds; when it is used up, the next read is outside any
buffer of less than 2^32 bytes. -/
def so_index_digits (buf : List Nat) (p : Nat) : Nat → Nat → Except Fault Nat
  | 0, len => .error (.oob_read (p + (len + (2 ^ 32 - 1)) % 2 ^ 32))
  | rounds + 1, len =>
    match read_char buf (p + (len + (2 ^ 32 - 1)) % 2 ^ 32) with
    | .error f => .error f
    | .ok c =>
      if isdigit c then so_index_digits buf p rounds ((len + (2 ^ 32 - 1)) % 2 ^ 32)
      else .ok len

/-- The string "xyzw". -/
def xyzw : List Nat := [120, 121, 122, 119]
/-- The string "rgba". -/
def rgba : List Nat := [114, 103, 98, 97]

/-- The start of a round of the loop of `d3d10_effect_parse_stream_output_declaration`:
`end`, `next` and `len` are computed, the leading and trailing spaces are removed and
`p[len] = 0` ends the entry. The result is `next`, `p` and the buffer. -/
def so_entry_extent (buf : List Nat) (p : Nat) : Except Fault (Nat × Nat × List Nat) :=
  match strchr buf p 59 with
  | .error f => .error f
  | .ok e_nd =>
  match (match e_nd with
    | some e => (.ok (e + 1, e + 1 - p - 1) : Except Fault (Nat × Nat))
    | none =>
      match strlen buf p with
      | .error f => .error f
      | .ok l => .ok (p + l, p + l - p)) with
  | .error f => .error f
  | .ok (next, len) =>
  match so_trim_leading buf p len with
  | .error f => .error f
  | .ok (p, len) =>
  match so_trim_trailing buf p len with
  | .error f => .error f
  | .ok len =>
  match write_char buf (p + len) 0 with
  | .error f => .error f
  | .ok buf => .ok (next, p, buf)

/-- The part `/* Output slot */` of a round: `none` when it jumps to `failed`, otherwise
`e.OutputSlot`, the buffer and `p`. The conversion `to_slot` of the value of the digits to
the type of the field `OutputSlot` (the result of `atoi`, assigned to the field that the
SDK header declares) is passed in. -/
def so_output_slot (to_slot : Nat → Nat) (buf : List Nat) (p : Nat) :
    Except Fault (Option (Nat × List Nat × Nat)) :=
  match strchr buf p 58 with
  | .error f => .error f
  | .ok none => .ok (some (0, buf, p))
  | .ok (some slot) =>
    match write_char buf slot 0 with
    | .error f => .error f
    | .ok buf =>
      match so_slot_digits (buf.drop p) p with
      | .error f => .error f
      | .ok false => .ok none
      | .ok true =>
        match atoi buf p with
        | .error f => .error f
        | .ok n => .ok (some (to_slot n, buf, slot + 1))

/-- The part `/* Mask */` of a round: `none` when it jumps to `failed`, otherwise
`e.StartComponent`, `e.ComponentCount` and the buffer. -/
def so_component_mask (buf : List Nat) (p : Nat) :
    Except Fault (Option (Nat × Nat × List Nat)) :=
  match strchr buf p 46 with
  | .error f => .error f
  | .ok none => .ok (some (0, 4, buf))
  | .ok (some mask) =>
    match write_char buf mask 0 with
    | .error f => .error f
    | .ok buf =>
      match c_string buf (mask + 1) with
      | .error f => .error f
      | .ok m =>
        match strstr xyzw m with
        | some k => .ok (some (k, m.length, buf))
        | none =>
          match strstr rgba m with
          | some k => .ok (some (k, m.length, buf))
          | none => .ok none

/-- The part `/* Semantic index and name */` of a round: `e.SemanticIndex`,
`e.SemanticName` (as the string that the pointer refers to) and the buffer. -/
def so_semantic (buf : List Nat) (p : Nat) :
    Except Fault (Nat × Option cstring × List Nat) :=
  match strlen buf p with
  | .error f => .error f
  | .ok len =>
  match so_index_digits buf p (len + 1) len with
  | .error f => .error f
  | .ok len =>
  match read_char buf (p + len) with
  | .error f => .error f
  | .ok c =>
  match (if c ≠ 0 then
      match atoi buf (p + len) with
      | .error f => .error f
      | .ok n =>
        match write_char buf (p + len) 0 with
        | .error f => .error f
        | .ok buf => .ok (n, buf)
    else (.ok (0, buf) : Except Fault (Nat × List Nat))) with
  | .error f => .error f
  | .ok (SemanticIndex, buf) =>
  match c_string buf p with
  | .error f => .error f
  | .ok name =>
    .ok (SemanticIndex,
      if name.map tolower = (cstr "$SKIP").map tolower then none else some name, buf)

/-- The parts `/* Mask */` and `/* Semantic index and name */` of a round together, for
the output slot and `next` found before: `none` when the round jumps to `failed`, otherwise
the entry `e`, the buffer and `next`. -/
def so_mask_and_semantic (OutputSlot next : Nat) (buf : List Nat) (p : Nat) :
    Except Fault (Option (D3D10_SO_DECLARATION_ENTRY × List Nat × Nat)) :=
  match so_component_mask buf p with
  | .error f => .error f
  | .ok none => .ok none
  | .ok (some (StartComponent, ComponentCount, buf)) =>
  match so_semantic buf p with
  | .error f => .error f
  | .ok (SemanticIndex, SemanticName, buf) =>
    .ok (some (⟨SemanticName, SemanticIndex, StartComponent, ComponentCount, OutputSlot⟩, buf,
      next))

/-- One round of the loop of `d3d10_effect_parse_stream_output_declaration`, entered with
`*p` not NUL: `none` when the round jumps to `failed`, otherwise the entry `e`, the buffer
and `next`. -/
def so_decl_entry (to_slot : Nat → Nat) (buf : List Nat) (p : Nat) :
    Except Fault (Option (D3D10_SO_DECLARATION_ENTRY × List Nat × Nat)) :=
  match so_entry_extent buf p with
  | .error f => .error f
  | .ok (next, p, buf) =>
  match so_output_slot to_slot buf p with
  | .error f => .error f
  | .ok none => .ok none
  | .ok (some (OutputSlot, buf, p)) => so_mask_and_semantic OutputSlot next buf p

/-- The loop `while (p && *p)` of `d3d10_effect_parse_stream_output_declaration`. The
first argument bounds the number of rounds: every round moves `p` forward, so that after
as many rounds as the buffer has bytes the read of `*p` is outside the buffer. Memory
allocation succeeds. `stride` is an `unsigned int`. -/
def so_decl_loop (to_slot : Nat → Nat) :
    Nat → List Nat → Nat → d3d10_effect_so_decl → Except Fault (HRESULT × d3d10_effect_so_decl)
  | 0, _, p, _ => .error (.oob_read p)
  | rounds + 1, buf, p, so_decl =>
    match read_char buf p with
    | .error f => .error f
    | .ok c =>
      if c = 0 then .ok (S_OK, so_decl)
      else
        match so_decl_entry to_slot buf p with
        | .error f => .error f
        | .ok none => .ok (E_FAIL, .zero)
        | .ok (some (e, buf1, next)) =>
          so_decl_loop to_slot rounds buf1 next
            { entries := so_decl.entries ++ [e], count := so_decl.count + 1,
              stride := if e.OutputSlot = 0
                then (so_decl.stride + e.ComponentCount * 4) % 2 ^ 32 else so_decl.stride,
              decl := some buf1 }

/-- Embedding of `d3d10_effect_parse_stream_output_declaration(decl, so_decl)` for the
string `decl` (its bytes without the NUL): the result code and `*so_decl`. The length
`len` of the string is an `unsigned int`; `len + 1` bytes are copied. -/
def d3d10_effect_parse_stream_output_declaration (to_slot : Nat → Nat) (decl : List Nat) :
    Except Fault (HRESULT × d3d10_effect_so_decl) :=
  let len := decl.length % 2 ^ 32
  let buf := (decl ++ [0]).take ((len + 1) % 2 ^ 32)
  so_decl_loop to_slot buf.length buf 0 { d3d10_effect_so_decl.zero with decl := some buf }

/-- The conversion to a `BYTE`, the type of the field `OutputSlot` in the SDK header. -/
def to_byte (n : Nat) : Nat := n % 256

/-! ### The declaration string piece by piece -/

/-- The text of the first entry of a declaration: up to the first semicolon. -/
def so_first_piece (s : List Nat) : List Nat := s.takeWhile fun c => c != 59

/-- The declaration behind its first entry and the semicolon that ends it. -/
def so_rest (s : List Nat) : List Nat := (s.dropWhile fun c => c != 59).drop 1

/-- The entries of a declaration string in the order of declaration: the texts between
the semicolons (a semicolon at the very end starts no entry). The first argument is at
least the length of the string. -/
def so_pieces_upto : Nat → List Nat → List (List Nat)
  | 0, _ => []
  | n + 1, s => if s = [] then [] else so_first_piece s :: so_pieces_upto n (so_rest s)

/-- The entries of a declaration string in the order of declaration. -/
def so_pieces (s : List Nat) : List (List Nat) := so_pieces_upto s.length s

/-- The text without its leading and trailing white space. -/
def so_trim (s : List Nat) : List Nat :=
  ((s.dropWhile isspace).reverse.dropWhile isspace).reverse

/-- The output slot prefix of an entry: the text before the first colon of the trimmed
entry, if it has a colon. -/
def so_slot_text (piece : List Nat) : Option (List Nat) :=
  (index_of 58 (so_trim piece)).map fun j => (so_trim piece).take j

/-- The entry behind its output slot prefix and colon. -/
def so_body (piece : List Nat) : List Nat :=
  match index_of 58 (so_trim piece) with
  | some j => (so_trim piece).drop (j + 1)
  | none => so_trim piece

/-- The component mask of an entry with the body `body`: the text behind the first dot, if
there is a dot. -/
def so_mask (body : List Nat) : Option (List Nat) :=
  (index_of 46 body).map fun m => body.drop (m + 1)

/-- The semantic name of an entry with its index digits: the body up to its first dot. -/
def so_indexed_name (body : List Nat) : List Nat :=
  match index_of 46 body with
  | some m => body.take m
  | none => body

/-- The text occurs at position `k` of "xyzw" or of "rgba", searched in this order. -/
def so_mask_start (mask : List Nat) : Option Nat :=
  match strstr xyzw mask with
  | some k => some k
  | none => strstr rgba mask

/-- The number of decimal digits at the end of a text. -/
def trailing_digits (s : List Nat) : Nat := (s.reverse.takeWhile isdigit).length

/-- What the parser makes of the body of an entry with the output slot `OutputSlot`:
`none` when it reads outside the declaration (the name before the index digits is empty),
`some none` when it rejects the entry (the mask occurs neither in "xyzw" nor in "rgba"),
and the entry otherwise. -/
def so_entry_of_body (OutputSlot : Nat) (body : List Nat) :
    Option (Option D3D10_SO_DECLARATION_ENTRY) :=
  if (so_mask body).any (fun m => (so_mask_start m).isNone) then some none
  else if (so_indexed_name body).all isdigit then none
  else
    let name0 := so_indexed_name body
    let name := name0.take (name0.length - trailing_digits name0)
    some (some
      { SemanticName := if name.map tolower = (cstr "$SKIP").map tolower then none else some name
        SemanticIndex := decimal_value (name0.drop (name0.length - trailing_digits name0))
        StartComponent := match so_mask body with
          | some m => (so_mask_start m).getD 0
          | none => 0
        ComponentCount := match so_mask body with
          | some m => m.length
          | none => 4
        OutputSlot := OutputSlot })

/-- What the parser makes of one entry of a declaration: `some none` when it rejects the
entry because of a character other than a digit in the output slot prefix, otherwise what
it makes of the body with the output slot of the prefix (0 without a prefix). -/
def so_entry_of_piece (to_slot : Nat → Nat) (piece : List Nat) :
    Option (Option D3D10_SO_DECLARATION_ENTRY) :=
  if (so_slot_text piece).any (fun d => !d.all isdigit) then some none
  else
    so_entry_of_body
      (match so_slot_text piece with
        | some d => to_slot (decimal_value d)
        | none => 0)
      (so_body piece)

/-- The entries and the stride that the parser makes of a list of entry texts, from the
entries and the stride so far: `none` when it reads outside the declaration. -/
def so_decl_of_pieces (to_slot : Nat → Nat) :
    List (List Nat) → List D3D10_SO_DECLARATION_ENTRY → Nat →
    Option (HRESULT × List D3D10_SO_DECLARATION_ENTRY × Nat)
  | [], entries, stride => some (S_OK, entries, stride)
  | piece :: rest, entries, stride =>
    match so_entry_of_piece to_slot piece with
    | none => none
    | some none => some (E_FAIL, [], 0)
    | some (some e) =>
      so_decl_of_pieces to_slot rest (entries ++ [e])
        (if e.OutputSlot = 0 then (stride + e.ComponentCount * 4) % 2 ^ 32 else stride)

/-- The result code, the entries, the count and the stride of a result of the parser, if it
returned. -/
def so_decl_view (r : Except Fault (HRESULT × d3d10_effect_so_decl)) :
    Option (HRESULT × List D3D10_SO_DECLARATION_ENTRY × Nat × Nat) :=
  match r with
  | .error _ => none
  | .ok (hr, so_decl) => some (hr, so_decl.entries, so_decl.count, so_decl.stride)

/-- The string `s` stands at the offset `p` of the buffer, followed by its NUL. -/
def str_at (buf : List Nat) (p : Nat) (s : List Nat) : Prop :=
  0 ∉ s ∧ ∃ post, buf.drop p = s ++ 0 :: post

/-- The buffer `buf1` has the length of `buf`, and every string of `buf` that starts at the
offset `n` or behind it stands in `buf1` as well. -/
def same_beyond (buf buf1 : List Nat) (n : Nat) : Prop :=
  buf1.length = buf.length ∧ ∀ q r, n ≤ q → str_at buf q r → str_at buf1 q r

/-- The stride that the loop of the parser adds up, from the stride `stride` so far:
`so_decl->stride += e.ComponentCount * sizeof(float)` (an `unsigned int`) for every entry
with output slot 0. -/
def so_stride_from (stride : Nat) (entries : List D3D10_SO_DECLARATION_ENTRY) : Nat :=
  entries.foldl
    (fun s e => if e.OutputSlot = 0 then (s + e.ComponentCount * 4) % 2 ^ 32 else s) stride

/-- Embedding of `enum d3d10_effect_container_type`. -/
inductive d3d10_effect_container_type where
  | D3D10_C_NONE | D3D10_C_PASS | D3D10_C_RASTERIZER | D3D10_C_DEPTHSTENCIL | D3D10_C_BLEND
  | D3D10_C_SAMPLER
  deriving DecidableEq, Repr

/-- Embedding of `get_var_container_type(v)`. -/
def get_var_container_type (v : d3d10_effect_variable) : d3d10_effect_container_type :=
  match v.type.basetype with
  | .DEPTHSTENCIL => .D3D10_C_DEPTHSTENCIL
  | .BLEND => .D3D10_C_BLEND
  | .RASTERIZER => .D3D10_C_RASTERIZER
  | .SAMPLER => .D3D10_C_SAMPLER
  | _ => .D3D10_C_NONE

/-- Embedding of `struct d3d10_effect_state_property_info`. The field `offset` is `none`
for the initializer `~0u` and the field path of the `FIELD_OFFSET` expression otherwise;
`index_offset` is `none` where the table gives no initializer (the value 0, which as a
destination is written as the empty path). -/
structure d3d10_effect_state_property_info where
  /-- Field `id`. -/
  id : Nat
  /-- Field `name`. -/
  name : String
  /-- Field `type`. -/
  type : D3D10_SVT
  /-- Field `size`. -/
  size : Nat
  /-- Field `count`. -/
  count : Nat
  /-- Field `container_type`. -/
  container_type : d3d10_effect_container_type
  /-- Field `offset`. -/
  offset : Option String
  /-- Field `index_offset`. -/
  index_offset : Option String
  deriving DecidableEq, Repr

/-- The table `property_infos`. -/
def property_infos : List d3d10_effect_state_property_info := [
  ⟨0x00, "Pass.RasterizerState", .RASTERIZER, 1, 1, .D3D10_C_PASS, some "rasterizer", none⟩,
  ⟨0x01, "Pass.DepthStencilState", .DEPTHSTENCIL, 1, 1, .D3D10_C_PASS, some "depth_stencil", none⟩,
  ⟨0x02, "Pass.BlendState", .BLEND, 1, 1, .D3D10_C_PASS, some "blend", none⟩,
  ⟨0x03, "Pass.RenderTargets", .RENDERTARGETVIEW, 1, 8, .D3D10_C_PASS, none, none⟩,
  ⟨0x04, "Pass.DepthStencilView", .DEPTHSTENCILVIEW, 1, 1, .D3D10_C_PASS, none, none⟩,
  ⟨0x05, "Pass.Unknown5", .VOID, 0, 0, .D3D10_C_PASS, none, none⟩,
  ⟨0x06, "Pass.VertexShader", .VERTEXSHADER, 1, 1, .D3D10_C_PASS, some "vs.shader", some "vs.index"⟩,
  ⟨0x07, "Pass.PixelShader", .PIXELSHADER, 1, 1, .D3D10_C_PASS, some "ps.shader", some "ps.index"⟩,
  ⟨0x08, "Pass.GeometryShader", .GEOMETRYSHADER, 1, 1, .D3D10_C_PASS, some "gs.shader", some "gs.index"⟩,
  ⟨0x09, "Pass.StencilRef", .UINT, 1, 1, .D3D10_C_PASS, some "stencil_ref", none⟩,
  ⟨0x0a, "Pass.BlendFactor", .FLOAT, 4, 1, .D3D10_C_PASS, some "blend_factor", none⟩,
  ⟨0x0b, "Pass.SampleMask", .UINT, 1, 1, .D3D10_C_PASS, some "sample_mask", none⟩,
  ⟨0x0c, "RasterizerState.FillMode", .INT, 1, 1, .D3D10_C_RASTERIZER, some "FillMode", none⟩,
  ⟨0x0d, "RasterizerState.CullMode", .INT, 1, 1, .D3D10_C_RASTERIZER, some "CullMode", none⟩,
  ⟨0x0e, "RasterizerState.FrontCounterClockwise", .BOOL, 1, 1, .D3D10_C_RASTERIZER, some "FrontCounterClockwise", none⟩,
  ⟨0x0f, "RasterizerState.DepthBias", .INT, 1, 1, .D3D10_C_RASTERIZER, some "DepthBias", none⟩,
  ⟨0x10, "RasterizerState.DepthBiasClamp", .FLOAT, 1, 1, .D3D10_C_RASTERIZER, some "DepthBiasClamp", none⟩,
  ⟨0x11, "RasterizerState.SlopeScaledDepthBias", .FLOAT, 1, 1, .D3D10_C_RASTERIZER, some "SlopeScaledDepthBias", none⟩,
  ⟨0x12, "RasterizerState.DepthClipEnable", .BOOL, 1, 1, .D3D10_C_RASTERIZER, some "DepthClipEnable", none⟩,
  ⟨0x13, "RasterizerState.ScissorEnable", .BOOL, 1, 1, .D3D10_C_RASTERIZER, some "ScissorEnable", none⟩,
  ⟨0x14, "RasterizerState.MultisampleEnable", .BOOL, 1, 1, .D3D10_C_RASTERIZER, some "MultisampleEnable", none⟩,
  ⟨0x15, "RasterizerState.AntialiasedLineEnable", .BOOL, 1, 1, .D3D10_C_RASTERIZER, some "AntialiasedLineEnable", none⟩,
  ⟨0x16, "DepthStencilState.DepthEnable", .BOOL, 1, 1, .D3D10_C_DEPTHSTENCIL, some "DepthEnable", none⟩,
  ⟨0x17, "DepthStencilState.DepthWriteMask", .INT, 1, 1, .D3D10_C_DEPTHSTENCIL, some "DepthWriteMask", none⟩,
  ⟨0x18, "DepthStencilState.DepthFunc", .INT, 1, 1, .D3D10_C_DEPTHSTENCIL, some "DepthFunc", none⟩,
  ⟨0x19, "DepthStencilState.StencilEnable", .BOOL, 1, 1, .D3D10_C_DEPTHSTENCIL, some "StencilEnable", none⟩,
  ⟨0x1a, "DepthStencilState.StencilReadMask", .UINT8, 1, 1, .D3D10_C_DEPTHSTENCIL, some "StencilReadMask", none⟩,
  ⟨0x1b, "DepthStencilState.StencilWriteMask", .UINT8, 1, 1, .D3D10_C_DEPTHSTENCIL, some "StencilWriteMask", none⟩,
  ⟨0x1c, "DepthStencilState.FrontFaceStencilFail", .INT, 1, 1, .D3D10_C_DEPTHSTENCIL, some "FrontFace.StencilFailOp", none⟩,
  ⟨0x1d, "DepthStencilState.FrontFaceStencilDepthFail", .INT, 1, 1, .D3D10_C_DEPTHSTENCIL, some "FrontFace.StencilDepthFailOp", none⟩,
  ⟨0x1e, "DepthStencilState.FrontFaceStencilPass", .INT, 1, 1, .D3D10_C_DEPTHSTENCIL, some "FrontFace.StencilPassOp", none⟩,
  ⟨0x1f, "DepthStencilState.FrontFaceStencilFunc", .INT, 1, 1, .D3D10_C_DEPTHSTENCIL, some "FrontFace.StencilFunc", none⟩,
  ⟨0x20, "DepthStencilState.BackFaceStencilFail", .INT, 1, 1, .D3D10_C_DEPTHSTENCIL, some "BackFace.StencilFailOp", none⟩,
  ⟨0x21, "DepthStencilState.BackFaceStencilDepthFail", .INT, 1, 1, .D3D10_C_DEPTHSTENCIL, some "BackFace.StencilDepthFailOp", none⟩,
  ⟨0x22, "DepthStencilState.BackFaceStencilPass", .INT, 1, 1, .D3D10_C_DEPTHSTENCIL, some "BackFace.StencilPassOp", none⟩,
  ⟨0x23, "DepthStencilState.BackFaceStencilFunc", .INT, 1, 1, .D3D10_C_DEPTHSTENCIL, some "BackFace.StencilFunc", none⟩,
  ⟨0x24, "BlendState.AlphaToCoverageEnable", .BOOL, 1, 1, .D3D10_C_BLEND, some "AlphaToCoverageEnable", none⟩,
  ⟨0x25, "BlendState.BlendEnable", .BOOL, 1, 8, .D3D10_C_BLEND, some "BlendEnable", none⟩,
  ⟨0x26, "BlendState.SrcBlend", .INT, 1, 1, .D3D10_C_BLEND, some "SrcBlend", none⟩,
  ⟨0x27, "BlendState.DestBlend", .INT, 1, 1, .D3D10_C_BLEND, some "DestBlend", none⟩,
  ⟨0x28, "BlendState.BlendOp", .INT, 1, 1, .D3D10_C_BLEND, some "BlendOp", none⟩,
  ⟨0x29, "BlendState.SrcBlendAlpha", .INT, 1, 1, .D3D10_C_BLEND, some "SrcBlendAlpha", none⟩,
  ⟨0x2a, "BlendState.DestBlendAlpha", .INT, 1, 1, .D3D10_C_BLEND, some "DestBlendAlpha", none⟩,
  ⟨0x2b, "BlendState.BlendOpAlpha", .INT, 1, 1, .D3D10_C_BLEND, some "BlendOpAlpha", none⟩,
  ⟨0x2c, "BlendState.RenderTargetWriteMask", .UINT8, 1, 8, .D3D10_C_BLEND, some "RenderTargetWriteMask", none⟩,
  ⟨0x2d, "SamplerState.Filter", .INT, 1, 1, .D3D10_C_SAMPLER, some "desc.Filter", none⟩,
  ⟨0x2e, "SamplerState.AddressU", .INT, 1, 1, .D3D10_C_SAMPLER, some "desc.AddressU", none⟩,
  ⟨0x2f, "SamplerState.AddressV", .INT, 1, 1, .D3D10_C_SAMPLER, some "desc.AddressV", none⟩,
  ⟨0x30, "SamplerState.AddressW", .INT, 1, 1, .D3D10_C_SAMPLER, some "desc.AddressW", none⟩,
  ⟨0x31, "SamplerState.MipLODBias", .FLOAT, 1, 1, .D3D10_C_SAMPLER, some "desc.MipLODBias", none⟩,
  ⟨0x32, "SamplerState.MaxAnisotropy", .UINT, 1, 1, .D3D10_C_SAMPLER, some "desc.MaxAnisotropy", none⟩,
  ⟨0x33, "SamplerState.ComparisonFunc", .INT, 1, 1, .D3D10_C_SAMPLER, some "desc.ComparisonFunc", none⟩,
  ⟨0x34, "SamplerState.BorderColor", .FLOAT, 4, 1, .D3D10_C_SAMPLER, some "desc.BorderColor", none⟩,
  ⟨0x35, "SamplerState.MinLOD", .FLOAT, 1, 1, .D3D10_C_SAMPLER, some "desc.MinLOD", none⟩,
  ⟨0x36, "SamplerState.MaxLOD", .FLOAT, 1, 1, .D3D10_C_SAMPLER, some "desc.MaxLOD", none⟩,
  ⟨0x37, "SamplerState.Texture", .TEXTURE, 1, 1, .D3D10_C_SAMPLER, some "texture", none⟩]

/-- What is stored in a slot of a container by a property assignment: a pointer to a
variable, a pointer `&variable->elements[index]` to an element of an array variable, the
index of a shader inside an array of shaders, or the words of a constant. -/
inductive property_value where
  | variable_ptr (v : d3d10_effect_variable)
  | element_ptr (v : d3d10_effect_variable) (index : Nat)
  | shader_index (index : Nat)
  | words (ws : List Nat)

/-- One written slot of a container: entry `index` of the array at the offset `field`. -/
structure container_slot where
  /-- The field path of the offset. -/
  field : String
  /-- The position in the array at that offset. -/
  index : Nat
  /-- What is stored there. -/
  value : property_value

/-- The container that `parse_fx10_property_assignment` writes to (`void *container`), as
the list of the slots written so far, the latest first. -/
abbrev property_container := List container_slot

/-- The assignment `((void **)dst)[idx] = value` with `dst = container + offset`. -/
def store_slot (container : property_container) (field : String) (idx : Nat)
    (value : property_value) : property_container :=
  ⟨field, idx, value⟩ :: container.filter fun s => !(s.field == field && s.index == idx)

/-- What the container holds at entry `idx` of the array at the offset `field`. -/
def slot_value (container : property_container) (field : String) (idx : Nat) :
    Option property_value :=
  (container.find? fun s => s.field == field && s.index == idx).map fun s => s.value

/-- Embedding of `is_object_property(property_info)`. -/
def is_object_property (property_info : d3d10_effect_state_property_info) : Bool :=
  match property_info.type with
  | .RASTERIZER => true
  | .DEPTHSTENCIL => true
  | .BLEND => true
  | .RENDERTARGETVIEW => true
  | .DEPTHSTENCILVIEW => true
  | .VERTEXSHADER => true
  | .PIXELSHADER => true
  | .GEOMETRYSHADER => true
  | .TEXTURE => true
  | _ => false

/-- Embedding of `is_object_property_type_matching(property_info, v)`. -/
def is_object_property_type_matching (property_info : d3d10_effect_state_property_info)
    (v : d3d10_effect_variable) : Bool :=
  if property_info.type = v.type.basetype then true
  else
    match v.type.basetype with
    | .TEXTURE1D => decide (property_info.type = .TEXTURE)
    | .TEXTURE1DARRAY => decide (property_info.type = .TEXTURE)
    | .TEXTURE2D => decide (property_info.type = .TEXTURE)
    | .TEXTURE2DARRAY => decide (property_info.type = .TEXTURE)
    | .TEXTURE2DMS => decide (property_info.type = .TEXTURE)
    | .TEXTURE2DMSARRAY => decide (property_info.type = .TEXTURE)
    | .TEXTURE3D => decide (property_info.type = .TEXTURE)
    | .TEXTURECUBE => decide (property_info.type = .TEXTURE)
    | _ => false

/-- The values of `enum d3d10_effect_object_operation`, which the header of the module
defines; as labels of one `switch` they are pairwise different. -/
structure effect_object_operations where
  /-- Value of `D3D10_EOO_CONST`. -/
  D3D10_EOO_CONST : Nat
  /-- Value of `D3D10_EOO_VAR`. -/
  D3D10_EOO_VAR : Nat
  /-- Value of `D3D10_EOO_CONST_INDEX`. -/
  D3D10_EOO_CONST_INDEX : Nat
  /-- Value of `D3D10_EOO_ANONYMOUS_SHADER`. -/
  D3D10_EOO_ANONYMOUS_SHADER : Nat

/-- The parts of `parse_fx10_property_assignment` that are passed in: `read_value_list`
(from the buffer, the offset of the value list, the type, base and size of the output and
the destination: its result and the container as far as it was written) and the case
`D3D10_EOO_ANONYMOUS_SHADER` (from the buffer, the value offset, the table entry and the
index: the result code with which the function returns, the effect and the container). -/
structure assignment_parts where
  /-- Helper `read_value_list(data, data_size, offset, out_type, out_base, out_size, dst)`. -/
  read_value_list : List Nat → Nat → D3D10_SVT → Nat → Nat → String → property_container →
    Bool × property_container
  /-- Case `D3D10_EOO_ANONYMOUS_SHADER`. -/
  anonymous_shader : List Nat → Nat → d3d10_effect_state_property_info → Nat →
    d3d10_effect → property_container →
    Except Fault (HRESULT × d3d10_effect × property_container)

/-- Embedding of `parse_fx10_property_assignment(data, data_size, ptr, container_type,
effect, container)`: the result code, the read position, the effect and the container
after the call. The four words of the record are read without a bounds check. -/
def parse_fx10_property_assignment (K : effect_object_operations) (P : assignment_parts)
    (data : List Nat) (ptr : Nat) (container_type : d3d10_effect_container_type)
    (effect : d3d10_effect) (container : property_container) :
    Except Fault (HRESULT × Nat × d3d10_effect × property_container) :=
  match read_dword data ptr with
  | .error f => .error f
  | .ok (id, ptr1) =>
  match read_dword data ptr1 with
  | .error f => .error f
  | .ok (idx, ptr2) =>
  match read_dword data ptr2 with
  | .error f => .error f
  | .ok (operation, ptr3) =>
  match read_dword data ptr3 with
  | .error f => .error f
  | .ok (value_offset, ptr4) =>
  match property_infos[id]? with
  | none => .ok (E_FAIL, ptr4, effect, container)
  | some property_info =>
  if property_info.container_type ≠ container_type then .ok (E_FAIL, ptr4, effect, container)
  else if property_info.count ≤ idx then .ok (E_FAIL, ptr4, effect, container)
  else
  match property_info.offset with
  | none => .ok (E_NOTIMPL, ptr4, effect, container)
  | some dst =>
  if operation = K.D3D10_EOO_CONST then
    match P.read_value_list data value_offset property_info.type idx property_info.size dst
        container with
    | (false, container1) => .ok (E_FAIL, ptr4, effect, container1)
    | (true, container1) => .ok (S_OK, ptr4, effect, container1)
  else if operation = K.D3D10_EOO_VAR then
    match fx10_get_string data value_offset with
    | none => .ok (E_FAIL, ptr4, effect, container)
    | some (name, _) =>
      match d3d10_effect_get_variable_by_name effect name with
      | .error f => .error f
      | .ok none => .ok (E_FAIL, ptr4, effect, container)
      | .ok (some v) =>
        if is_object_property property_info then
          if v.type.element_count ≠ 0 then .ok (E_FAIL, ptr4, effect, container)
          else if !is_object_property_type_matching property_info v then
            .ok (E_FAIL, ptr4, effect, container)
          else .ok (S_OK, ptr4, effect, store_slot container dst idx (.variable_ptr v))
        else .ok (E_FAIL, ptr4, effect, container)
  else if operation = K.D3D10_EOO_CONST_INDEX then
    if data.length ≤ value_offset || !require_space value_offset 2 4 data.length then
      .ok (E_FAIL, ptr4, effect, container)
    else
      match read_dword data value_offset with
      | .error f => .error f
      | .ok (value_offset1, data_ptr1) =>
      match read_dword data data_ptr1 with
      | .error f => .error f
      | .ok (variable_idx, _) =>
      match fx10_get_string data value_offset1 with
      | none => .ok (E_FAIL, ptr4, effect, container)
      | some (name, _) =>
        match d3d10_effect_get_variable_by_name effect name with
        | .error f => .error f
        | .ok none => .ok (E_FAIL, ptr4, effect, container)
        | .ok (some v) =>
          if v.type.element_count = 0 || decide (v.type.element_count ≤ variable_idx) then
            .ok (E_FAIL, ptr4, effect, container)
          else if is_object_property property_info then
            if !is_object_property_type_matching property_info v then
              .ok (E_FAIL, ptr4, effect, container)
            else if property_info.type = .VERTEXSHADER ∨ property_info.type = .PIXELSHADER
                ∨ property_info.type = .GEOMETRYSHADER then
              .ok (S_OK, ptr4, effect,
                store_slot (store_slot container dst idx (.variable_ptr v))
                  (property_info.index_offset.getD "") 0 (.shader_index variable_idx))
            else
              .ok (S_OK, ptr4, effect, store_slot container dst idx (.element_ptr v variable_idx))
          else .ok (E_FAIL, ptr4, effect, container)
  else if operation = K.D3D10_EOO_ANONYMOUS_SHADER then
    match P.anonymous_shader data value_offset property_info idx effect container with
    | .error f => .error f
    | .ok (hr, effect1, container1) => .ok (hr, ptr4, effect1, container1)
  else .ok (E_FAIL, ptr4, effect, container)

/-- Operation codes used in the examples. -/
def example_operations : effect_object_operations := ⟨1, 2, 3, 7⟩

/-- Parts used in the examples: every value list is rejected and an anonymous shader
fails. -/
def example_parts : assignment_parts :=
  ⟨fun _ _ _ _ _ _ c => (false, c), fun _ _ _ _ e c => .ok (E_FAIL, e, c)⟩

/-- An assignment record: property id, index, operation and value offset. -/
def assignment_record (id idx operation value_offset : Nat) : List Nat :=
  le32 id ++ le32 idx ++ le32 operation ++ le32 value_offset

/-- The variables of the examples of property assignments: a render target view "rt", a
rasterizer state "rs", a 2D texture "tex", an array of two blend states "bl" and a float
"f". -/
def assignment_effect : d3d10_effect :=
  .mk 0 []
    [ .mk .render_target_view (some (cstr "rt")) none
        (.mk none .RENDERTARGETVIEW .OBJECT 0 0 0 0 0 0 0 0 none []) 0 0 0 0 [] [] [],
      .mk .rasterizer (some (cstr "rs")) none
        (.mk none .RASTERIZER .OBJECT 0 0 0 0 0 0 0 0 none []) 0 0 0 0 [] [] [],
      .mk .shader_resource (some (cstr "tex")) none
        (.mk none .TEXTURE2D .OBJECT 0 0 0 0 0 0 0 0 none []) 0 0 0 0 [] [] [],
      .mk .blend (some (cstr "bl")) none
        (.mk none .BLEND .OBJECT 0 2 0 0 0 0 0 0 none []) 0 0 0 0 [] [] [],
      .mk .scalar (some (cstr "f")) none
        (.mk none .FLOAT .SCALAR 0 0 4 0 4 1 1 0 none []) 0 0 0 0 [] [] [] ]
    [] [] 0 none

/-- A buffer for the examples of property assignments: the names "rt", "rs", "tex", "bl"
and "f" at the offsets 1, 4, 7, 11 and 14 behind a NUL byte, then (at offset 16) one
assignment record. -/
def assignment_blob (id idx operation value_offset : Nat) : List Nat :=
  [0] ++ cstr "rt" ++ [0] ++ cstr "rs" ++ [0] ++ cstr "tex" ++ [0] ++ cstr "bl" ++ [0]
    ++ cstr "f" ++ [0] ++ assignment_record id idx operation value_offset

/-- The result code of the example assignment `(id, idx, operation, value_offset)` to a
container of the kind `container_type`, and the container after the call. -/
def example_assignment (container_type : d3d10_effect_container_type)
    (id idx operation value_offset : Nat) : Except Fault (HRESULT × property_container) :=
  (parse_fx10_property_assignment example_operations example_parts
    (assignment_blob id idx operation value_offset) 16 container_type assignment_effect []).map
    fun r => (r.1, r.2.2.2)

/-- The texture types with a dimension: 1D, 1D array, 2D, 2D array, 2DMS, 2DMS array, 3D
and cube. -/
def dimensioned_texture (t : D3D10_SVT) : Bool :=
  t = .TEXTURE1D || t = .TEXTURE1DARRAY || t = .TEXTURE2D || t = .TEXTURE2DARRAY ||
  t = .TEXTURE2DMS || t = .TEXTURE2DMSARRAY || t = .TEXTURE3D || t = .TEXTURECUBE

/-- The variable that the name at `value_offset` refers to: the first variable of that
name among those of the effect and then of its pool, if the offset holds a string. -/
def resolved_variable (effect : d3d10_effect) (data : List Nat) (value_offset : Nat) :
    Option d3d10_effect_variable :=
  match fx10_get_string data value_offset with
  | some (some name, _) => (all_variables effect).find? (has_name name)
  | _ => none

/-- The variable may be assigned by name to the object property: it is not an array and
its base type is the type of the property, or a dimensioned texture type when the
property is of the generic texture type. -/
def object_assignable (property_info : d3d10_effect_state_property_info)
    (v : d3d10_effect_variable) : Bool :=
  is_object_property property_info && decide (v.type.element_count = 0) &&
  (decide (v.type.basetype = property_info.type) ||
    (decide (property_info.type = .TEXTURE) && dimensioned_texture v.type.basetype))

/-! ## Types and the type registry

`get_fx10_type` and `parse_fx10_type` call each other: a structure type resolves the types
of its members. The embedding counts the nesting of these calls down from a budget
(`fuel`); a call that would nest deeper than the budget has the outcome `out_of_fuel`. -/

/-- Macro `D3D10_FX10_TYPE_COLUMN_SHIFT`. -/
def D3D10_FX10_TYPE_COLUMN_SHIFT : Nat := 11
/-- Macro `D3D10_FX10_TYPE_COLUMN_MASK`. -/
def D3D10_FX10_TYPE_COLUMN_MASK : Nat := 0x7 <<< D3D10_FX10_TYPE_COLUMN_SHIFT
/-- Macro `D3D10_FX10_TYPE_ROW_SHIFT`. -/
def D3D10_FX10_TYPE_ROW_SHIFT : Nat := 8
/-- Macro `D3D10_FX10_TYPE_ROW_MASK`. -/
def D3D10_FX10_TYPE_ROW_MASK : Nat := 0x7 <<< D3D10_FX10_TYPE_ROW_SHIFT
/-- Macro `D3D10_FX10_TYPE_BASETYPE_SHIFT`. -/
def D3D10_FX10_TYPE_BASETYPE_SHIFT : Nat := 3
/-- Macro `D3D10_FX10_TYPE_BASETYPE_MASK`. -/
def D3D10_FX10_TYPE_BASETYPE_MASK : Nat := 0x1f <<< D3D10_FX10_TYPE_BASETYPE_SHIFT
/-- Macro `D3D10_FX10_TYPE_CLASS_SHIFT`. -/
def D3D10_FX10_TYPE_CLASS_SHIFT : Nat := 0
/-- Macro `D3D10_FX10_TYPE_CLASS_MASK`. -/
def D3D10_FX10_TYPE_CLASS_MASK : Nat := 0x7 <<< D3D10_FX10_TYPE_CLASS_SHIFT
/-- Macro `D3D10_FX10_TYPE_MATRIX_COLUMN_MAJOR_MASK`. -/
def D3D10_FX10_TYPE_MATRIX_COLUMN_MAJOR_MASK : Nat := 0x4000

/-- Embedding of `d3d10_variable_class(c, is_column_major)`; the default branch returns 0,
the value of `D3D10_SVC_SCALAR`. -/
def d3d10_variable_class (c : Nat) (is_column_major : Bool) : D3D10_SVC :=
  match c with
  | 1 => .SCALAR
  | 2 => .VECTOR
  | 3 => if is_column_major then .MATRIX_COLUMNS else .MATRIX_ROWS
  | _ => .SCALAR

/-- Embedding of `d3d10_variable_type(t, is_object, &flags)`: the base type and the value
stored in `*flags`. The constant `D3D10_EOT_FLAG_GS_SO` is defined in the header of the
module and passed in. -/
def d3d10_variable_type (D3D10_EOT_FLAG_GS_SO : Nat) (t : Nat) (is_object : Bool) :
    D3D10_SVT × Nat :=
  if is_object then
    match t with
    | 1 => (.STRING, 0)
    | 2 => (.BLEND, 0)
    | 3 => (.DEPTHSTENCIL, 0)
    | 4 => (.RASTERIZER, 0)
    | 5 => (.PIXELSHADER, 0)
    | 6 => (.VERTEXSHADER, 0)
    | 7 => (.GEOMETRYSHADER, 0)
    | 8 => (.GEOMETRYSHADER, D3D10_EOT_FLAG_GS_SO)
    | 9 => (.TEXTURE, 0)
    | 10 => (.TEXTURE1D, 0)
    | 11 => (.TEXTURE1DARRAY, 0)
    | 12 => (.TEXTURE2D, 0)
    | 13 => (.TEXTURE2DARRAY, 0)
    | 14 => (.TEXTURE2DMS, 0)
    | 15 => (.TEXTURE2DMSARRAY, 0)
    | 16 => (.TEXTURE3D, 0)
    | 17 => (.TEXTURECUBE, 0)
    | 19 => (.RENDERTARGETVIEW, 0)
    | 20 => (.DEPTHSTENCILVIEW, 0)
    | 21 => (.SAMPLER, 0)
    | 22 => (.BUFFER, 0)
    | _ => (.VOID, 0)
  else
    match t with
    | 1 => (.FLOAT, 0)
    | 2 => (.INT, 0)
    | 3 => (.UINT, 0)
    | 4 => (.BOOL, 0)
    | _ => (.VOID, 0)

/-- Embedding of `copy_name(ptr, &name)` (the allocation succeeds): the value of `*name`
after the call, `name` being its value before. A NULL or empty `ptr` leaves it as it is. -/
def copy_name (ptr : Option cstring) (name : Option cstring) : Option cstring :=
  match ptr with
  | none => name
  | some [] => name
  | some s => some s

/-- The outcome of a call of the type parser: the nesting budget did not suffice, a fault,
or the value with which the call returns. -/
inductive outcome (α : Type) where
  | out_of_fuel
  | fault (f : Fault)
  | returned (a : α)

/-- The type registry `effect->types`: the registered types in the order of their
registration. -/
abbrev type_registry := List d3d10_effect_type

/-- Modelled from the spec: `wine_rb_get(&effect->types, &offset)` of the red-black tree
of `wine/rbtree.h`, which is not among the sources. The registry is keyed by the blob
offset of a type (its `id`): the lookup returns the registered type with that key, or
NULL. -/
def wine_rb_get (types : type_registry) (offset : Nat) : Option d3d10_effect_type :=
  types.find? fun t => t.id == offset

/-- Modelled from the spec: `wine_rb_put(&effect->types, &offset, &type->entry)` of
`wine/rbtree.h`, which is not among the sources: `none` is the result -1 (the key is
registered already), otherwise the registry with the type added. -/
def wine_rb_put (types : type_registry) (offset : Nat) (type : d3d10_effect_type) :
    Option type_registry :=
  match wine_rb_get types offset with
  | some _ => none
  | none => some (types ++ [type])

/-- The call `get_fx10_type(t->effect, data, data_size, offset)` as seen from
`parse_fx10_type`: from the registry and the offset, the type (NULL = none) and the
registry after the call. -/
abbrev type_resolver := type_registry → Nat → outcome (Option d3d10_effect_type × type_registry)

/-- The member loop of `parse_fx10_type` for a structure: `remaining` members are still to
be read, `ptr` is the read position. The result code is `S_OK` when the loop has run to
its end. -/
def parse_fx10_type_members (get : type_resolver) (data : List Nat) :
    Nat → Nat → type_registry →
    outcome (HRESULT × List d3d10_effect_type_member × type_registry)
  | 0, _, types => .returned (S_OK, [], types)
  | remaining + 1, ptr, types =>
    match read_dword data ptr with
    | .error f => .fault f
    | .ok (name_offset, ptr1) =>
    match fx10_copy_string data name_offset with
    | none => .returned (E_OUTOFMEMORY, [], types)
    | some name =>
    match read_dword data ptr1 with
    | .error f => .fault f
    | .ok (semantic_offset, ptr2) =>
    match fx10_copy_string data semantic_offset with
    | none => .returned (E_OUTOFMEMORY, [], types)
    | some semantic =>
    match read_dword data ptr2 with
    | .error f => .fault f
    | .ok (buffer_offset, ptr3) =>
    match read_dword data ptr3 with
    | .error f => .fault f
    | .ok (type_offset, ptr4) =>
    match get types type_offset with
    | .out_of_fuel => .out_of_fuel
    | .fault f => .fault f
    | .returned (none, types1) => .returned (E_FAIL, [], types1)
    | .returned (some type, types1) =>
      match parse_fx10_type_members get data remaining ptr4 types1 with
      | .out_of_fuel => .out_of_fuel
      | .fault f => .fault f
      | .returned (hr, rest, types2) =>
        .returned (hr, .mk name semantic buffer_offset type :: rest, types2)

/-- The last part of `parse_fx10_type`: `if (t->element_count)` the element type is
allocated zeroed and filled from `t`. -/
def parse_fx10_type_elementtype : d3d10_effect_type → d3d10_effect_type
  | .mk name basetype type_class id element_count size_unpacked stride size_packed
      column_count row_count flags elementtype members =>
    if element_count ≠ 0 then
      .mk name basetype type_class id element_count size_unpacked stride size_packed
        column_count row_count flags
        (some (.mk (copy_name name none) basetype type_class 0 0 (size_packed / element_count)
          stride (size_packed / element_count) column_count row_count 0 none members))
        members
    else
      .mk name basetype type_class id element_count size_unpacked stride size_packed
        column_count row_count flags elementtype members

/-- Embedding of `parse_fx10_type(data, data_size, offset, t)` for the record `t` that
`get_fx10_type`, its only caller, passes: zeroed but for `t->id = id`. The result is the
result code, the record when the code is `S_OK`, and the registry. -/
def parse_fx10_type (D3D10_EOT_FLAG_GS_SO : Nat) (get : type_resolver) (data : List Nat)
    (offset id : Nat) (types : type_registry) :
    outcome (HRESULT × Option d3d10_effect_type × type_registry) :=
  if data.length ≤ offset || !require_space offset 6 4 data.length then
    .returned (E_FAIL, none, types)
  else
  match read_dword data offset with
  | .error f => .fault f
  | .ok (name_offset, ptr1) =>
  match fx10_copy_string data name_offset with
  | none => .returned (E_OUTOFMEMORY, none, types)
  | some name =>
  match read_dword data ptr1 with
  | .error f => .fault f
  | .ok (type_kind, ptr2) =>
  match read_dword data ptr2 with
  | .error f => .fault f
  | .ok (element_count, ptr3) =>
  match read_dword data ptr3 with
  | .error f => .fault f
  | .ok (size_unpacked, ptr4) =>
  match read_dword data ptr4 with
  | .error f => .fault f
  | .ok (stride, ptr5) =>
  match read_dword data ptr5 with
  | .error f => .fault f
  | .ok (size_packed, ptr6) =>
  match type_kind with
  | 1 =>
    if !require_space ptr6 1 4 data.length then .returned (E_FAIL, none, types)
    else
    match read_dword data ptr6 with
    | .error f => .fault f
    | .ok (typeinfo, _) =>
      .returned (S_OK, some (parse_fx10_type_elementtype (.mk name
        (d3d10_variable_type D3D10_EOT_FLAG_GS_SO
          ((typeinfo &&& D3D10_FX10_TYPE_BASETYPE_MASK) >>> D3D10_FX10_TYPE_BASETYPE_SHIFT)
          false).1
        (d3d10_variable_class
          ((typeinfo &&& D3D10_FX10_TYPE_CLASS_MASK) >>> D3D10_FX10_TYPE_CLASS_SHIFT)
          (typeinfo &&& D3D10_FX10_TYPE_MATRIX_COLUMN_MAJOR_MASK != 0))
        id element_count size_unpacked stride size_packed
        ((typeinfo &&& D3D10_FX10_TYPE_COLUMN_MASK) >>> D3D10_FX10_TYPE_COLUMN_SHIFT)
        ((typeinfo &&& D3D10_FX10_TYPE_ROW_MASK) >>> D3D10_FX10_TYPE_ROW_SHIFT)
        0 none [])), types)
  | 2 =>
    if !require_space ptr6 1 4 data.length then .returned (E_FAIL, none, types)
    else
    match read_dword data ptr6 with
    | .error f => .fault f
    | .ok (typeinfo, _) =>
      .returned (S_OK, some (parse_fx10_type_elementtype (.mk name
        (d3d10_variable_type D3D10_EOT_FLAG_GS_SO typeinfo true).1 .OBJECT
        id element_count size_unpacked stride size_packed 0 0
        (d3d10_variable_type D3D10_EOT_FLAG_GS_SO typeinfo true).2 none [])), types)
  | 3 =>
    if !require_space ptr6 1 4 data.length then .returned (E_FAIL, none, types)
    else
    match read_dword data ptr6 with
    | .error f => .fault f
    | .ok (member_count, ptr7) =>
      if !require_space ptr7 member_count 16 data.length then .returned (E_FAIL, none, types)
      else
      match parse_fx10_type_members get data member_count ptr7 types with
      | .out_of_fuel => .out_of_fuel
      | .fault f => .fault f
      | .returned (hr, members, types1) =>
        if hr ≠ S_OK then .returned (hr, none, types1)
        else
          .returned (S_OK, some (parse_fx10_type_elementtype (.mk name .VOID .STRUCT
            id element_count size_unpacked stride size_packed 0 0 0 none members)), types1)
  | _ => .returned (E_FAIL, none, types)

/-- Embedding of `get_fx10_type(effect, data, data_size, offset)` on the registry
`effect->types` (the allocation succeeds): the type (NULL = none) and the registry after
the call. The first argument is the nesting budget. -/
def get_fx10_type (D3D10_EOT_FLAG_GS_SO : Nat) :
    Nat → type_registry → List Nat → Nat → outcome (Option d3d10_effect_type × type_registry)
  | 0, _, _, _ => .out_of_fuel
  | fuel + 1, types, data, offset =>
    match wine_rb_get types offset with
    | some type => .returned (some type, types)
    | none =>
      match parse_fx10_type D3D10_EOT_FLAG_GS_SO
          (fun types1 offset1 => get_fx10_type D3D10_EOT_FLAG_GS_SO fuel types1 data offset1)
          data offset offset types with
      | .out_of_fuel => .out_of_fuel
      | .fault f => .fault f
      | .returned (_, none, types1) => .returned (none, types1)
      | .returned (hr, some type, types1) =>
        if FAILED hr then .returned (none, types1)
        else
          match wine_rb_put types1 offset type with
          | none => .returned (none, types1)
          | some types2 => .returned (some type, types2)

/-- Numeric type record: name offset, kind 1, element count, unpacked size, stride, packed
size and the type description word. -/
def numeric_type_record (name element_count size_unpacked stride size_packed typeinfo : Nat) :
    List Nat :=
  le32 name ++ le32 1 ++ le32 element_count ++ le32 size_unpacked ++ le32 stride
    ++ le32 size_packed ++ le32 typeinfo

/-- A blob with one structure type at offset 4 whose only member "s" (name at offset 1)
has the member type offset 4, the offset of the structure itself. -/
def blob_self_referential_struct : List Nat :=
  [0] ++ cstr "s" ++ [0, 0] ++
  le32 1 ++ le32 3 ++ le32 0 ++ le32 16 ++ le32 16 ++ le32 16 ++ le32 1 ++
  le32 1 ++ le32 0 ++ le32 0 ++ le32 4

/-- A blob with two structure types: the one at offset 4 has a member of the type at
offset 48, which has a member of the type at offset 4. -/
def blob_two_structs_in_a_cycle : List Nat :=
  [0] ++ cstr "s" ++ [0, 0] ++
  le32 1 ++ le32 3 ++ le32 0 ++ le32 16 ++ le32 16 ++ le32 16 ++ le32 1 ++
  le32 1 ++ le32 0 ++ le32 0 ++ le32 48 ++
  le32 1 ++ le32 3 ++ le32 0 ++ le32 16 ++ le32 16 ++ le32 16 ++ le32 1 ++
  le32 1 ++ le32 0 ++ le32 0 ++ le32 4

/-- A blob with the name "f" at offset 1, the same numeric type record `float4` (class
vector, base type float, one row, four columns) at the offsets 4 and 32, an array of two
of them at offset 60 (unpacked size 32, stride 16, packed size 24), and at offset 88 a
structure with two members of the types at 4 and 32. -/
def blob_types : List Nat :=
  [0] ++ cstr "f" ++ [0, 0] ++
  numeric_type_record 1 0 16 16 16 0x210a ++
  numeric_type_record 1 0 16 16 16 0x210a ++
  numeric_type_record 1 2 32 16 24 0x210a ++
  le32 1 ++ le32 3 ++ le32 0 ++ le32 32 ++ le32 32 ++ le32 32 ++ le32 2 ++
  le32 1 ++ le32 0 ++ le32 0 ++ le32 4 ++
  le32 1 ++ le32 0 ++ le32 16 ++ le32 32

/-- What is compared of a type in the examples: id, name, base type, class, element count,
unpacked size, stride, packed size, columns, rows and the number of members. -/
def type_summary (t : d3d10_effect_type) :
    Nat × Option cstring × D3D10_SVT × D3D10_SVC × Nat × Nat × Nat × Nat × Nat × Nat × Nat :=
  (t.id, t.name, t.basetype, t.type_class, t.element_count, t.size_unpacked, t.stride,
    t.size_packed, t.column_count, t.row_count, t.members.length)

/-- The returned value of an outcome, if the call returned. -/
def outcome.value {α : Type} : outcome α → Option α
  | .returned a => some a
  | _ => none

/-- The type that the record `float4` of `blob_types` describes, registered under `id`. -/
def float4_type_at (id : Nat) : d3d10_effect_type :=
  .mk (some (cstr "f")) .FLOAT .VECTOR id 0 16 16 16 4 1 0 none []

/-! ### Examples for the string reader -/

/-- A blob that starts with the string "ab". -/
def blob_string_at_zero : List Nat := cstr "ab" ++ [0, 7]

/-- A blob that starts with a NUL byte, followed by the string "ab". -/
def blob_nul_at_zero : List Nat := [0] ++ cstr "ab" ++ [0]

/-! ### Examples of constant-index assignments -/

/-- The variables of the examples of constant-index assignments: an array "bl" of two
blend states and an array "vs" of three vertex shaders. -/
def indexed_effect : d3d10_effect :=
  .mk 0 []
    [ .mk .blend (some (cstr "bl")) none
        (.mk none .BLEND .OBJECT 0 2 0 0 0 0 0 0 none []) 0 0 0 0 [] [] [],
      .mk .shader (some (cstr "vs")) none
        (.mk none .VERTEXSHADER .OBJECT 0 3 0 0 0 0 0 0 none []) 0 0 0 0 [] [] [] ]
    [] [] 0 none

/-- A buffer for the examples of constant-index assignments: the names "bl" and "vs" at
the offsets 1 and 4 behind a NUL byte, at offset 8 the pair of the name reference and the
literal index, at offset 16 an assignment record with the operation 3 whose value offset is
8. -/
def indexed_blob (id idx name_offset variable_idx : Nat) : List Nat :=
  [0] ++ cstr "bl" ++ [0] ++ cstr "vs" ++ [0, 0] ++ le32 name_offset ++ le32 variable_idx
    ++ assignment_record id idx 3 8

/-- The result code of the example constant-index assignment and the container after the
call, as the list of its slots (field, position) with the kind of value stored: the
literal index for the index field, -1 for a pointer to a variable and the position for a
pointer to an element. -/
def indexed_assignment (id idx name_offset variable_idx : Nat) :
    Except Fault (HRESULT × List (String × Nat × Int)) :=
  (parse_fx10_property_assignment example_operations example_parts
    (indexed_blob id idx name_offset variable_idx) 16 .D3D10_C_PASS indexed_effect []).map
    fun r => (r.1, r.2.2.2.map fun s => (s.field, s.index,
      match s.value with
      | .variable_ptr _ => -1
      | .element_ptr _ i => (i : Int)
      | .shader_index i => (i : Int)
      | .words _ => -2))

/-! ### Arrays of scalars -/

/-- Embedding of `d3d10_effect_scalar_variable_SetFloatArray(iface, values, offset,
count)`: the array write is called with the offset 0, whatever `offset` is. -/
def d3d10_effect_scalar_variable_SetFloatArray (effect_var : d3d10_effect_variable)
    (buffer : resource_variable) (values : List Nat) (_offset count : Nat) :
    Except Fault (HRESULT × resource_variable) :=
  returning_S_OK (write_variable_array_to_buffer effect_var buffer values .FLOAT 0 count)

/-- Embedding of `d3d10_effect_scalar_variable_GetFloatArray(iface, values, offset,
count)`. -/
def d3d10_effect_scalar_variable_GetFloatArray (effect_var : d3d10_effect_variable)
    (buffer : resource_variable) (values : List Nat) (_offset count : Nat) :
    Except Fault (HRESULT × List Nat) :=
  returning_S_OK (read_variable_array_from_buffer effect_var buffer values .FLOAT 0 count)

/-- Embedding of `d3d10_effect_scalar_variable_SetIntArray(iface, values, offset, count)`. -/
def d3d10_effect_scalar_variable_SetIntArray (effect_var : d3d10_effect_variable)
    (buffer : resource_variable) (values : List Nat) (_offset count : Nat) :
    Except Fault (HRESULT × resource_variable) :=
  returning_S_OK (write_variable_array_to_buffer effect_var buffer values .INT 0 count)

/-- Embedding of `d3d10_effect_scalar_variable_GetIntArray(iface, values, offset, count)`. -/
def d3d10_effect_scalar_variable_GetIntArray (effect_var : d3d10_effect_variable)
    (buffer : resource_variable) (values : List Nat) (_offset count : Nat) :
    Except Fault (HRESULT × List Nat) :=
  returning_S_OK (read_variable_array_from_buffer effect_var buffer values .INT 0 count)

/-- Embedding of `d3d10_effect_scalar_variable_SetBoolArray(iface, values, offset,
count)`. -/
def d3d10_effect_scalar_variable_SetBoolArray (effect_var : d3d10_effect_variable)
    (buffer : resource_variable) (values : List Nat) (_offset count : Nat) :
    Except Fault (HRESULT × resource_variable) :=
  returning_S_OK (write_variable_array_to_buffer effect_var buffer values .BOOL 0 count)

/-- Embedding of `d3d10_effect_scalar_variable_GetBoolArray(iface, values, offset,
count)`. -/
def d3d10_effect_scalar_variable_GetBoolArray (effect_var : d3d10_effect_variable)
    (buffer : resource_variable) (values : List Nat) (_offset count : Nat) :
    Except Fault (HRESULT × List Nat) :=
  returning_S_OK (read_variable_array_from_buffer effect_var buffer values .BOOL 0 count)

/-- The write of the elements `0 .. n - 1` of an array variable from the caller's array
`src` of the type `src_type`: the element loop of `write_variable_array_to_buffer` run
`n` times from the base offset of the variable. -/
def write_first_elements (var : d3d10_effect_variable) (elementtype : d3d10_effect_type)
    (buffer : resource_variable) (src : List Nat) (src_type : D3D10_SVT) (n : Nat) :
    Except Fault (HRESULT × resource_variable) :=
  returning_S_OK (write_local_buffer buffer fun dst =>
    write_variable_array_elements var.type.basetype src_type src var.type.column_count
      elementtype.size_packed var.type.stride n 0 var.buffer_offset dst)

/-- The read of the elements `0 .. n - 1` of an array variable into the caller's array
`dst` of the type `dst_type`: the element loop of `read_variable_array_from_buffer` run
`n` times from the base offset of the variable. -/
def read_first_elements (var : d3d10_effect_variable) (elementtype : d3d10_effect_type)
    (buffer : resource_variable) (dst : List Nat) (dst_type : D3D10_SVT) (n : Nat) :
    Except Fault (HRESULT × List Nat) :=
  returning_S_OK (read_local_buffer buffer fun src =>
    read_variable_array_elements dst_type var.type.basetype src var.type.column_count
      elementtype.size_packed var.type.stride n 0 var.buffer_offset dst)

/-- An array of three floats with stride 16 at offset 0 of its buffer. -/
def float_array_variable : d3d10_effect_variable :=
  .mk .scalar none none
    (.mk none .FLOAT .SCALAR 0 3 36 16 12 1 1 0
      (some (.mk none .FLOAT .SCALAR 0 0 4 16 4 1 1 0 none [])) []) 0 0 0 0 [] [] []

/-! ### The description of an effect -/

/-- Embedding of `D3D10_EFFECT_DESC`, with the fields that `d3d10_effect_get_desc` and
`d3d10_effect_GetDesc` assign. -/
structure D3D10_EFFECT_DESC where
  /-- Field `IsChildEffect`. -/
  IsChildEffect : Bool
  /-- Field `ConstantBuffers`. -/
  ConstantBuffers : Nat
  /-- Field `SharedConstantBuffers`. -/
  SharedConstantBuffers : Nat
  /-- Field `GlobalVariables`. -/
  GlobalVariables : Nat
  /-- Field `SharedGlobalVariables`. -/
  SharedGlobalVariables : Nat
  /-- Field `Techniques`. -/
  Techniques : Nat
  deriving DecidableEq, Repr

/-- Embedding of `d3d10_effect_get_desc(effect, desc)`: the description it fills in. The
sum of the member counts is a `UINT`. -/
def d3d10_effect_get_desc (effect : d3d10_effect) : D3D10_EFFECT_DESC :=
  { IsChildEffect := effect.pool.isSome
    ConstantBuffers := effect.local_buffers.length
    SharedConstantBuffers := 0
    GlobalVariables := effect.local_buffers.foldl
      (fun n v => (n + v.members.length) % 2 ^ 32) effect.local_variables.length
    SharedGlobalVariables := 0
    Techniques := effect.techniques.length }

/-- Embedding of `d3d10_effect_GetDesc(iface, desc)`; `desc` is the caller's memory behind
the pointer (NULL = none). The result is the result code and that memory after the call. -/
def d3d10_effect_GetDesc (effect : d3d10_effect) (desc : Option D3D10_EFFECT_DESC) :
    HRESULT × Option D3D10_EFFECT_DESC :=
  match desc with
  | none => (E_INVALIDARG, none)
  | some _ =>
    let pool_desc : D3D10_EFFECT_DESC :=
      match effect.pool with
      | some pool => d3d10_effect_get_desc pool
      | none => ⟨false, 0, 0, 0, 0, 0⟩
    (S_OK, some { d3d10_effect_get_desc effect with
      SharedConstantBuffers := pool_desc.ConstantBuffers
      SharedGlobalVariables := pool_desc.GlobalVariables })

/-! ## The used-shader table and `d3d10_get_shader_variable`

Shader variables are told apart by their addresses; the table `effect->used_shaders` holds
the addresses that `parse_fx10_shader` stored (NULL = none). -/

/-- What `d3d10_get_shader_variable` reads of the variable `v`: `type->element_count`, its
address, and the addresses of its array elements. -/
structure shader_variable_address where
  /-- Field `type->element_count`. -/
  element_count : Nat
  /-- The address of the variable. -/
  self : Nat
  /-- The addresses `&v->elements[i]`. -/
  elements : List Nat
  deriving DecidableEq, Repr

/-- Embedding of `d3d10_array_get_element(v, index)` on addresses. -/
def array_element_address (v : shader_variable_address) (index : Nat) : Except Fault Nat :=
  if v.element_count = 0 then .ok v.self
  else
    match v.elements[index]? with
    | some a => .ok a
    | none => .error (.oob_read index)

/-- The loop `for (i = 0; i < v->effect->used_shader_count; ++i) if (v ==
v->effect->used_shaders[i]) break;`: the value of `i` after the loop, which is the position
of the first slot that holds `v`, or the length of the table. -/
def used_shader_position (v : Nat) : List (Option Nat) → Nat
  | [] => 0
  | slot :: rest => if slot = some v then 0 else used_shader_position v rest + 1

/-- Embedding of `d3d10_get_shader_variable(v, shader_index, &s, basetype)`. The table has
`used_shader_count` slots; `shader_index` is a `UINT` and `i + shader_index` an `unsigned
int` sum. The result is the result code and the address of the variable whose `u.shader`
is stored in `*s`. A NULL slot is dereferenced for the base type when `basetype` is not
NULL (`want_basetype`); without it `*s` is an address formed from NULL (`none`). -/
def d3d10_get_shader_variable (used_shaders : List (Option Nat)) (v : shader_variable_address)
    (shader_index : Nat) (want_basetype : Bool) : Except Fault (HRESULT × Option Nat) :=
  match array_element_address v 0 with
  | .error f => .error f
  | .ok v0 =>
    if shader_index = 0 then .ok (S_OK, some v0)
    else
      let i := used_shader_position v0 used_shaders
      if used_shaders.length ≤ (i + shader_index) % 2 ^ 32 then .ok (E_FAIL, none)
      else
        match used_shaders[(i + shader_index) % 2 ^ 32]? with
        | some (some a) => .ok (S_OK, some a)
        | _ => if want_basetype then .error .null_deref else .ok (S_OK, none)

/-! ## The order of the type registry -/

/-- Embedding of `d3d10_effect_type_compare(key, entry)` for the key `*id = key` and the
entry of a type with `t->id = id`: `return *id - t->id;`, the difference of two `DWORD`s
returned as an `int`. -/
def d3d10_effect_type_compare (key id : Nat) : Int :=
  dword_to_int ((key % 2 ^ 32 + 2 ^ 32 - id % 2 ^ 32) % 2 ^ 32)

/-! ## Records without annotations -/

/-- A buffer with the name "T" and, at offset 2, a technique record without passes and
without annotations (name reference 0). -/
def blob_technique_without_annotations : List Nat :=
  cstr "T" ++ [0] ++ le32 0 ++ le32 0 ++ le32 0

end D3D10Effect

/-! # Theorems -/

namespace D3D10Effect

/-! ## Container reader -/

theorem read_dword_ok (data : List Nat) (p : Nat) (h : p + 4 ≤ data.length) :
    read_dword data p = .ok (dword_at data p, p + 4) := by
  simp [read_dword, h]

theorem require_space_two_dwords (o len : Nat) (h : o < len) :
    require_space o 2 4 len = true ↔ o + 8 ≤ len := by
  simp only [require_space, size_t_sub, if_pos (Nat.le_of_lt h)]
  simp [Nat.le_div_iff_mul_le]
  omega

theorem require_space_one (p size len : Nat) (h : p ≤ len) :
    require_space p 1 size len = true ↔ p + size ≤ len := by
  simp only [require_space, size_t_sub, if_pos h]
  simp
  omega

/-- Every handler invocation made by the chunk loop started at table position `ptr` with
`n` entries left comes from one of those entries and lies inside the buffer. -/
theorem parse_dxbc_chunks_calls {σ : Type} (data : List Nat) (handler : chunk_handler_t σ) :
    ∀ (n ptr : Nat) (hr : HRESULT) (ctx : σ) (calls : List chunk_call),
      ∃ new, (parse_dxbc_chunks data handler n ptr hr ctx calls).calls = calls ++ new ∧
        ∀ c ∈ new, ∃ j, j < n ∧
          c.chunk_ptr = dword_at data (ptr + 4 * j) + 8 ∧
          c.tag = dword_at data (dword_at data (ptr + 4 * j)) ∧
          c.chunk_size = dword_at data (dword_at data (ptr + 4 * j) + 4) ∧
          c.chunk_ptr + c.chunk_size ≤ data.length := by
  intro n
  induction n with
  | zero => intro ptr hr ctx calls; exact ⟨[], by simp [parse_dxbc_chunks]⟩
  | succ n ih =>
    intro ptr hr ctx calls
    unfold parse_dxbc_chunks
    by_cases hp : ptr + 4 ≤ data.length
    · rw [read_dword_ok data ptr hp]
      simp only
      split
      · exact ⟨[], by simp⟩
      · rename_i hchk
        simp only [Bool.or_eq_true, decide_eq_true_eq, Bool.not_eq_true', not_or,
          Bool.not_eq_false, not_le] at hchk
        obtain ⟨hlt, hsp⟩ := hchk
        have h8 := (require_space_two_dwords _ _ hlt).1 hsp
        rw [read_dword_ok data _ (by omega)]
        simp only
        rw [read_dword_ok data _ (by omega)]
        simp only
        split
        · exact ⟨[], by simp⟩
        · rename_i hsz
          simp only [Bool.not_eq_true', Bool.not_eq_false] at hsz
          have hfit := (require_space_one _ _ _ (by omega)).1 hsz
          have hc : ∃ j, j < n + 1 ∧
              dword_at data ptr + 4 + 4 = dword_at data (ptr + 4 * j) + 8 ∧
              dword_at data (dword_at data ptr) = dword_at data (dword_at data (ptr + 4 * j)) ∧
              dword_at data (dword_at data ptr + 4)
                = dword_at data (dword_at data (ptr + 4 * j) + 4) ∧
              dword_at data ptr + 4 + 4 + dword_at data (dword_at data ptr + 4)
                ≤ data.length := ⟨0, by omega, by simp, by simp, by simp, hfit⟩
          split
          · refine ⟨[_], rfl, ?_⟩
            intro c hcm
            simp only [List.mem_singleton] at hcm
            subst hcm
            exact hc
          · split
            · refine ⟨[_], rfl, ?_⟩
              intro c hcm
              simp only [List.mem_singleton] at hcm
              subst hcm
              exact hc
            · rename_i hr1 ctx1 _ _
              obtain ⟨new, hnew, hall⟩ := ih (ptr + 4) hr1 ctx1
                (calls ++ [⟨dword_at data ptr + 4 + 4, dword_at data (dword_at data ptr + 4),
                  dword_at data (dword_at data ptr)⟩])
              refine ⟨(⟨dword_at data ptr + 4 + 4, dword_at data (dword_at data ptr + 4),
                  dword_at data (dword_at data ptr)⟩ : chunk_call) :: new, by rw [hnew]; simp, ?_⟩
              intro c hcm
              rcases List.mem_cons.1 hcm with hEq | hIn
              · subst hEq; exact hc
              · obtain ⟨j, hj, h1, h2, h3, h4⟩ := hall c hIn
                have e : ptr + 4 + 4 * j = ptr + 4 * (j + 1) := by omega
                rw [e] at h1 h2 h3
                exact ⟨j + 1, by omega, h1, h2, h3, h4⟩
    · simp only [read_dword, if_neg hp]
      exact ⟨[], by simp⟩

theorem read_dword_eq_ok {data : List Nat} {p v q : Nat} (h : read_dword data p = .ok (v, q)) :
    p + 4 ≤ data.length ∧ v = dword_at data p ∧ q = p + 4 := by
  unfold read_dword at h
  split at h
  · rename_i hb
    simp only [Except.ok.injEq, Prod.mk.injEq] at h
    exact ⟨hb, h.1.symm, h.2.symm⟩
  · simp at h

theorem skip_dword_unknown_eq_ok (data : List Nat) :
    ∀ (n p q : Nat), skip_dword_unknown data p n = .ok q → q = p + 4 * n := by
  intro n
  induction n with
  | zero => intro p q h; simp only [skip_dword_unknown, Except.ok.injEq] at h; omega
  | succ n ih =>
    intro p q h
    unfold skip_dword_unknown at h
    split at h
    · simp at h
    · rename_i v p1 hrd
      obtain ⟨hb, _, hq⟩ := read_dword_eq_ok hrd
      have h2 := ih p1 q h
      omega

theorem skip_dword_unknown_ok (data : List Nat) :
    ∀ (n p : Nat), p + 4 * n ≤ data.length → skip_dword_unknown data p n = .ok (p + 4 * n) := by
  intro n
  induction n with
  | zero => intro p _; simp [skip_dword_unknown]
  | succ n ih =>
    intro p h
    unfold skip_dword_unknown
    rw [read_dword_ok data p (by omega)]
    simp only
    rw [ih (p + 4) (by omega)]
    congr 1
    omega

/-- If entry `i` of the part of the chunk table still to be walked names an invalid chunk,
the loop makes at most `i` further handler calls and does not end with a success code; when
the handler always returns, the loop ends with a failure code. -/
theorem parse_dxbc_chunks_invalid {σ : Type} (data : List Nat) (handler : chunk_handler_t σ) :
    ∀ (i n ptr : Nat) (hr : HRESULT) (ctx : σ) (calls : List chunk_call),
      i < n → ptr + 4 * (i + 1) ≤ data.length →
      chunk_invalid data (dword_at data (ptr + 4 * i)) →
      (parse_dxbc_chunks data handler n ptr hr ctx calls).calls.length ≤ calls.length + i ∧
      (∀ hr1, (parse_dxbc_chunks data handler n ptr hr ctx calls).outcome = .ok hr1 →
        FAILED hr1 = true) ∧
      (handler_returns handler →
        ∃ hr1, (parse_dxbc_chunks data handler n ptr hr ctx calls).outcome = .ok hr1 ∧
          FAILED hr1 = true) := by
  intro i
  induction i with
  | zero =>
    intro n ptr hr ctx calls hn hb hbad
    obtain ⟨m, rfl⟩ : ∃ m, n = m + 1 := ⟨n - 1, by omega⟩
    unfold parse_dxbc_chunks
    rw [read_dword_ok data ptr (by omega)]
    simp only
    simp only [Nat.mul_zero, Nat.add_zero] at hbad
    split
    · exact ⟨by simp, by intro hr1 h; cases h; decide, fun _ => ⟨E_FAIL, rfl, by decide⟩⟩
    · rename_i hchk
      simp only [Bool.or_eq_true, decide_eq_true_eq, Bool.not_eq_true', not_or,
        Bool.not_eq_false, not_le] at hchk
      obtain ⟨hlt, hsp⟩ := hchk
      have h8 := (require_space_two_dwords _ _ hlt).1 hsp
      rw [read_dword_ok data _ (by omega)]
      simp only
      rw [read_dword_ok data _ (by omega)]
      simp only
      have hno : require_space (dword_at data ptr + 4 + 4) 1
          (dword_at data (dword_at data ptr + 4)) data.length = false := by
        rcases hbad with h | h | h
        · omega
        · omega
        · cases hrs : require_space (dword_at data ptr + 4 + 4) 1
            (dword_at data (dword_at data ptr + 4)) data.length
          · rfl
          · have := (require_space_one _ _ _ (by omega)).1 hrs
            omega
      rw [hno]
      exact ⟨by simp, by intro hr1 h; simp at h; cases h; decide,
        fun _ => ⟨E_FAIL, by simp, by decide⟩⟩
  | succ i ih =>
    intro n ptr hr ctx calls hn hb hbad
    obtain ⟨m, rfl⟩ : ∃ m, n = m + 1 := ⟨n - 1, by omega⟩
    unfold parse_dxbc_chunks
    rw [read_dword_ok data ptr (by omega)]
    simp only
    split
    · exact ⟨by simp, by intro hr1 h; cases h; decide, fun _ => ⟨E_FAIL, rfl, by decide⟩⟩
    · rename_i hchk
      simp only [Bool.or_eq_true, decide_eq_true_eq, Bool.not_eq_true', not_or,
        Bool.not_eq_false, not_le] at hchk
      obtain ⟨hlt, hsp⟩ := hchk
      have h8 := (require_space_two_dwords _ _ hlt).1 hsp
      rw [read_dword_ok data _ (by omega)]
      simp only
      rw [read_dword_ok data _ (by omega)]
      simp only
      split
      · exact ⟨by simp, by intro hr1 h; cases h; decide, fun _ => ⟨E_FAIL, rfl, by decide⟩⟩
      · split
        · rename_i f ctx1 hcall
          refine ⟨by simp, ?_, fun hret => ?_⟩
          · intro hr1 h
            simp at h
          obtain ⟨hr2, ctx2, hh⟩ := hret (dword_at data ptr + 4 + 4)
            (dword_at data (dword_at data ptr + 4)) (dword_at data (dword_at data ptr)) ctx
          rw [hh] at hcall
          cases hcall
        · split
          · rename_i hf
            exact ⟨by simp, by intro hr1 h; cases h; exact hf, fun _ => ⟨_, rfl, hf⟩⟩
          · rename_i hr2 ctx1 _ _
            have e : ptr + 4 * (i + 1) = ptr + 4 + 4 * i := by omega
            rw [e] at hbad
            obtain ⟨h1, h2, h3⟩ := ih m (ptr + 4) hr2 ctx1
              (calls ++ [⟨dword_at data ptr + 4 + 4, dword_at data (dword_at data ptr + 4),
                dword_at data (dword_at data ptr)⟩]) (by omega) (by omega) hbad
            refine ⟨?_, h2, h3⟩
            simp only [List.length_append, List.length_singleton] at h1
            omega

/-- With a valid 32-byte header `parse_dxbc` is the chunk loop started at table offset 32. -/
theorem parse_dxbc_valid_header {σ : Type} (data : List Nat) (handler : chunk_handler_t σ)
    (ctx : σ) (hlen : 32 ≤ data.length) (htag : dword_at data 0 = TAG_DXBC)
    (hver : dword_at data 20 = 1) (hsize : dword_at data 24 = data.length) :
    parse_dxbc (some data) handler ctx
      = parse_dxbc_chunks data handler (dword_at data 28) 32 S_OK ctx [] := by
  unfold parse_dxbc
  simp only
  rw [read_dword_ok data 0 (by omega)]
  simp only [htag, ne_eq, not_true_eq_false, if_false]
  rw [skip_dword_unknown_ok data 4 _ (by omega)]
  simp only
  rw [read_dword_ok data _ (by omega)]
  simp only [hver, ne_eq, not_true_eq_false, if_false]
  rw [read_dword_ok data _ (by omega)]
  simp only [hsize, ne_eq, not_true_eq_false, if_false]
  rw [read_dword_ok data _ (by omega)]

/-- Every handler invocation of `parse_dxbc` stems from an entry of the chunk offset table
and receives a byte range inside the buffer. -/
theorem parse_dxbc_calls_in_bounds {σ : Type} (data : List Nat) (handler : chunk_handler_t σ)
    (ctx : σ) :
    ∀ c ∈ (parse_dxbc (some data) handler ctx).calls, ∃ j, j < dword_at data 28 ∧
      c.chunk_ptr = dword_at data (32 + 4 * j) + 8 ∧
      c.tag = dword_at data (dword_at data (32 + 4 * j)) ∧
      c.chunk_size = dword_at data (dword_at data (32 + 4 * j) + 4) ∧
      c.chunk_ptr + c.chunk_size ≤ data.length := by
  unfold parse_dxbc
  simp only
  split
  · simp
  · rename_i tag ptr1 h1
    obtain ⟨_, _, rfl⟩ := read_dword_eq_ok h1
    split
    · simp
    · split
      · simp
      · rename_i ptr2 h2
        have e2 := skip_dword_unknown_eq_ok data 4 _ _ h2
        subst e2
        split
        · simp
        · rename_i version ptr3 h3
          obtain ⟨_, _, rfl⟩ := read_dword_eq_ok h3
          split
          · simp
          · split
            · simp
            · rename_i total ptr4 h4
              obtain ⟨_, _, rfl⟩ := read_dword_eq_ok h4
              split
              · simp
              · split
                · simp
                · rename_i count ptr5 h5
                  obtain ⟨_, rfl, rfl⟩ := read_dword_eq_ok h5
                  obtain ⟨new, hnew, hall⟩ :=
                    parse_dxbc_chunks_calls data handler (dword_at data 28) 32 S_OK ctx []
                  intro c hc
                  have hc2 : c ∈ new := by
                    have : (parse_dxbc_chunks data handler (dword_at data (0 + 4 + 4 * 4 + 4 + 4))
                        (0 + 4 + 4 * 4 + 4 + 4 + 4) S_OK ctx []).calls = new := by
                      simpa using hnew
                    rw [this] at hc
                    exact hc
                  exact hall c hc2

/-- C1 (evaluation at the failing input). The container reader does not check capacity
before reading the chunk offset table: on the 32-byte blob `blob_truncated_table`, whose
header is valid and declares one chunk, `parse_dxbc` reads the table entry at offset 32,
that is, the bytes 32..35 of a 32-byte buffer, whatever the chunk handler is. The same
happens in the fixed header: on the 4-byte buffer holding only the tag `DXBC` the next
read is at offset 4. -/
theorem parse_dxbc_reads_past_end :
    blob_truncated_table.length = 32 ∧
    (∀ (σ : Type) (handler : chunk_handler_t σ) (ctx : σ),
      (parse_dxbc (some blob_truncated_table) handler ctx).outcome = .error (.oob_read 32)) ∧
    (∀ (σ : Type) (handler : chunk_handler_t σ) (ctx : σ),
      (parse_dxbc (some (le32 TAG_DXBC)) handler ctx).outcome = .error (.oob_read 4)) := by
  refine ⟨by decide, ?_, ?_⟩
  · intro σ handler ctx; rfl
  · intro σ handler ctx; rfl

/-- C2. For every buffer that holds the seven header words, starts with the tag `DXBC` and
has version word 1: if the total-size word differs from the length of the buffer,
`parse_dxbc` returns `E_FAIL`, leaves the context untouched and never invokes the handler. -/
theorem parse_dxbc_total_size_mismatch {σ : Type} (data : List Nat)
    (handler : chunk_handler_t σ) (ctx : σ) (hlen : 28 ≤ data.length)
    (htag : dword_at data 0 = TAG_DXBC) (hver : dword_at data 20 = 1)
    (hsize : dword_at data 24 ≠ data.length) :
    (parse_dxbc (some data) handler ctx).outcome = .ok E_FAIL ∧
    FAILED E_FAIL = true ∧
    (parse_dxbc (some data) handler ctx).ctx = ctx ∧
    (parse_dxbc (some data) handler ctx).calls = [] := by
  have h : parse_dxbc (some data) handler ctx = ⟨.ok E_FAIL, ctx, []⟩ := by
    unfold parse_dxbc
    simp only
    rw [read_dword_ok data 0 (by omega)]
    simp only [htag, ne_eq, not_true_eq_false, if_false]
    rw [skip_dword_unknown_ok data 4 _ (by omega)]
    simp only
    rw [read_dword_ok data _ (by omega)]
    simp only [hver, ne_eq, not_true_eq_false, if_false]
    rw [read_dword_ok data _ (by omega)]
    simp only
    rw [if_pos (fun e => hsize e.symm)]
  rw [h]
  exact ⟨rfl, by decide, rfl, rfl⟩

/-- Witness for C2: the 28-byte header `blob_wrong_size` announces a total size of 99. -/
theorem parse_dxbc_total_size_mismatch_witness :
    (parse_dxbc (some blob_wrong_size) counting_handler 0).outcome = .ok E_FAIL ∧
    FAILED E_FAIL = true ∧
    (parse_dxbc (some blob_wrong_size) counting_handler 0).ctx = 0 ∧
    (parse_dxbc (some blob_wrong_size) counting_handler 0).calls = [] :=
  parse_dxbc_total_size_mismatch blob_wrong_size counting_handler 0
    (by decide) (by decide) (by decide) (by decide)

/-- C3. (1) Every invocation of the chunk handler by `parse_dxbc` belongs to an entry `j` of
the chunk offset table: with `o` the offset stored in that entry, the handler receives the
tag read at `o`, the size read at `o + 4` and the payload offset `o + 8`, and the range
`[o + 8, o + 8 + size)` lies inside the buffer. (2) If the header is valid and entry `i` of
the table (itself inside the buffer) names an invalid chunk (offset not inside the buffer,
fewer than 8 bytes left for the tag/size words, or a declared size larger than what follows
them), then `parse_dxbc` invokes the handler at most for the `i` chunks before it and
does not return a success code; it returns a failure code whenever the handler itself
always returns. -/
theorem parse_dxbc_chunk_ranges {σ : Type} (data : List Nat) (handler : chunk_handler_t σ)
    (ctx : σ) :
    (∀ c ∈ (parse_dxbc (some data) handler ctx).calls, ∃ j, j < dword_at data 28 ∧
      c.chunk_ptr = dword_at data (32 + 4 * j) + 8 ∧
      c.tag = dword_at data (dword_at data (32 + 4 * j)) ∧
      c.chunk_size = dword_at data (dword_at data (32 + 4 * j) + 4) ∧
      c.chunk_ptr + c.chunk_size ≤ data.length) ∧
    (∀ i, 32 ≤ data.length → dword_at data 0 = TAG_DXBC → dword_at data 20 = 1 →
      dword_at data 24 = data.length → i < dword_at data 28 →
      32 + 4 * (i + 1) ≤ data.length → chunk_invalid data (dword_at data (32 + 4 * i)) →
      (parse_dxbc (some data) handler ctx).calls.length ≤ i ∧
      (∀ hr, (parse_dxbc (some data) handler ctx).outcome = .ok hr → FAILED hr = true) ∧
      (handler_returns handler →
        ∃ hr, (parse_dxbc (some data) handler ctx).outcome = .ok hr ∧ FAILED hr = true)) := by
  refine ⟨parse_dxbc_calls_in_bounds data handler ctx, ?_⟩
  intro i hlen htag hver hsize hi htab hbad
  rw [parse_dxbc_valid_header data handler ctx hlen htag hver hsize]
  have h := parse_dxbc_chunks_invalid data handler i (dword_at data 28) 32 S_OK ctx []
    hi htab hbad
  simpa using h

/-- Witness for C3: in `blob_one_chunk` the handler is invoked once, for the range
`[44, 48)` of the 48-byte buffer; in `blob_oversized_chunk` chunk 0 declares 5 bytes where
none are left, the parse fails with `E_FAIL` and the handler is not invoked. -/
theorem parse_dxbc_chunk_ranges_witness :
    (∃ j, j < dword_at blob_one_chunk 28 ∧
      (⟨44, 4, TAG_FX10⟩ : chunk_call).chunk_ptr = dword_at blob_one_chunk (32 + 4 * j) + 8 ∧
      (⟨44, 4, TAG_FX10⟩ : chunk_call).tag
        = dword_at blob_one_chunk (dword_at blob_one_chunk (32 + 4 * j)) ∧
      (⟨44, 4, TAG_FX10⟩ : chunk_call).chunk_size
        = dword_at blob_one_chunk (dword_at blob_one_chunk (32 + 4 * j) + 4) ∧
      (⟨44, 4, TAG_FX10⟩ : chunk_call).chunk_ptr + (⟨44, 4, TAG_FX10⟩ : chunk_call).chunk_size
        ≤ blob_one_chunk.length) ∧
    ((parse_dxbc (some blob_oversized_chunk) counting_handler 0).calls.length ≤ 0 ∧
      (∀ hr, (parse_dxbc (some blob_oversized_chunk) counting_handler 0).outcome = .ok hr →
        FAILED hr = true) ∧
      (handler_returns counting_handler →
        ∃ hr, (parse_dxbc (some blob_oversized_chunk) counting_handler 0).outcome = .ok hr ∧
          FAILED hr = true)) :=
  ⟨(parse_dxbc_chunk_ranges blob_one_chunk counting_handler 0).1 ⟨44, 4, TAG_FX10⟩ (by decide),
   (parse_dxbc_chunk_ranges blob_oversized_chunk counting_handler 0).2 0
     (by decide) (by decide) (by decide) (by decide) (by decide) (by decide) (by decide)⟩

/-! ## FX10 header -/

theorem require_space_header (len : Nat) : require_space 0 19 4 len = true ↔ 76 ≤ len := by
  simp only [require_space, size_t_sub, if_pos (Nat.zero_le len)]
  simp [Nat.le_div_iff_mul_le]

/-- With at least 76 bytes the nineteen header reads succeed and end at offset 76. -/
theorem parse_fx10_read_header_ok (data : List Nat) (h : 76 ≤ data.length) :
    parse_fx10_read_header data = .ok (fx10_header_at data, 76) := by
  unfold parse_fx10_read_header
  simp only [bind, Except.bind, pure, Except.pure]
  repeat (rw [read_dword_ok data _ (by omega)]; simp only)
  rfl

/-- C5. For every FX10 payload that holds the 19 header words and declares a non-zero
shared buffer count (word 4) or shared object count (word 6): when the effect has no pool,
`parse_fx10` returns the failure code `E_FAIL` and the body parser is not called, so no
body record is parsed and the rest of the effect is untouched. -/
theorem parse_fx10_shared_without_pool {σ : Type} (body : fx10_body_t σ) (hdr0 : fx10_header)
    (data : List Nat) (e : σ) (hlen : 76 ≤ data.length)
    (hshared : dword_at data 16 ≠ 0 ∨ dword_at data 24 ≠ 0) :
    (parse_fx10 body false hdr0 data e).outcome = .ok E_FAIL ∧
    FAILED E_FAIL = true ∧
    (parse_fx10 body false hdr0 data e).body_data = none ∧
    (parse_fx10 body false hdr0 data e).effect = e := by
  have hsp : require_space 0 19 4 data.length = true := (require_space_header _).2 hlen
  have hc : (!false && ((fx10_header_at data).shared_object_count != 0
      || (fx10_header_at data).shared_buffer_count != 0)) = true := by
    simp only [fx10_header_at, Bool.not_false, Bool.true_and, Bool.or_eq_true, bne_iff_ne]
    tauto
  have h : parse_fx10 body false hdr0 data e = ⟨.ok E_FAIL, fx10_header_at data, e, none⟩ := by
    unfold parse_fx10
    rw [hsp, parse_fx10_read_header_ok data hlen]
    simp only [Bool.not_true, Bool.false_eq_true, if_false]
    rw [if_pos hc]
  rw [h]
  exact ⟨rfl, by decide, rfl, rfl⟩

/-- Witness for C5: `payload_shared_buffer` declares one shared buffer. -/
theorem parse_fx10_shared_without_pool_witness :
    (parse_fx10 counting_body false fx10_header.zero payload_shared_buffer 0).outcome
      = .ok E_FAIL ∧
    FAILED E_FAIL = true ∧
    (parse_fx10 counting_body false fx10_header.zero payload_shared_buffer 0).body_data = none ∧
    (parse_fx10 counting_body false fx10_header.zero payload_shared_buffer 0).effect = 0 :=
  parse_fx10_shared_without_pool counting_body fx10_header.zero payload_shared_buffer 0
    (by decide) (Or.inl (by decide))

/-! ## Lookups by name -/

theorem name_matches_some (vname : Option cstring) (n : cstring) :
    name_matches vname (some n) = .ok (is_name n vname) := by
  cases vname <;> rfl

theorem semantic_matches_some (vsem : Option cstring) (n : cstring) :
    semantic_matches vsem (some n) = .ok (is_semantic n vsem) := by
  cases vsem <;> rfl

/-- A search loop whose test never faults returns the first element passing the test. -/
theorem find_first_eq_find {α : Type} (test : α → Except Fault Bool) (p : α → Bool)
    (h : ∀ x, test x = .ok (p x)) : ∀ l : List α, find_first test l = .ok (l.find? p) := by
  intro l
  induction l with
  | nil => rfl
  | cons x rest ih =>
    unfold find_first
    rw [h x]
    cases hp : p x
    · simp only [List.find?, hp]; exact ih
    · simp only [List.find?, hp]

theorem find_buffer_member_eq_find (test : d3d10_effect_variable → Except Fault Bool)
    (p : d3d10_effect_variable → Bool) (h : ∀ x, test x = .ok (p x)) :
    ∀ l : List d3d10_effect_variable,
      find_buffer_member test l
        = .ok ((l.map d3d10_effect_variable.members).flatten.find? p) := by
  intro l
  induction l with
  | nil => rfl
  | cons b rest ih =>
    unfold find_buffer_member
    rw [find_first_eq_find test p h]
    simp only [List.map_cons, List.flatten_cons, List.find?_append]
    cases hb : List.find? p b.members
    · simp only [Option.none_or]; exact ih
    · rfl

theorem find_local_variable_eq_find (test : d3d10_effect_variable → Except Fault Bool)
    (p : d3d10_effect_variable → Bool) (h : ∀ x, test x = .ok (p x))
    (lb lv : List d3d10_effect_variable) :
    find_local_variable test lb lv = .ok ((own_variables lb lv).find? p) := by
  unfold find_local_variable own_variables
  rw [find_buffer_member_eq_find test p h, List.find?_append]
  cases hb : List.find? p (List.map d3d10_effect_variable.members lb).flatten
  · simp only [Option.none_or]; exact find_first_eq_find test p h lv
  · rfl

theorem found_or_find (p : d3d10_effect_variable → Bool) (l r : List d3d10_effect_variable) :
    found_or (.ok (l.find? p)) (.ok (r.find? p)) = .ok ((l ++ r).find? p) := by
  rw [List.find?_append]
  cases List.find? p l <;> rfl

/-- Buffer lookup by a non-NULL name: first buffer of that name in lookup order. -/
theorem get_buffer_by_name_eq_find (n : cstring) :
    ∀ e : d3d10_effect,
      d3d10_effect_get_buffer_by_name e (some n) = .ok ((all_buffers e).find? (has_name n))
  | .mk _ lb _ _ _ _ none => by
    rw [d3d10_effect_get_buffer_by_name, all_buffers,
      find_first_eq_find _ (has_name n) (fun x => name_matches_some x.name n)]
    cases List.find? (has_name n) lb <;> rfl
  | .mk _ lb _ _ _ _ (some p) => by
    rw [d3d10_effect_get_buffer_by_name, all_buffers, get_buffer_by_name_eq_find n p,
      find_first_eq_find _ (has_name n) (fun x => name_matches_some x.name n), found_or_find]

/-- Variable lookup by a non-NULL name: first variable of that name in lookup order. -/
theorem get_variable_by_name_eq_find (n : cstring) :
    ∀ e : d3d10_effect,
      d3d10_effect_get_variable_by_name e (some n)
        = .ok ((all_variables e).find? (has_name n))
  | .mk _ lb lv _ _ _ none => by
    rw [d3d10_effect_get_variable_by_name, all_variables,
      find_local_variable_eq_find _ (has_name n) (fun x => name_matches_some x.name n)]
    cases List.find? (has_name n) (own_variables lb lv) <;> rfl
  | .mk _ lb lv _ _ _ (some p) => by
    rw [d3d10_effect_get_variable_by_name, all_variables, get_variable_by_name_eq_find n p,
      find_local_variable_eq_find _ (has_name n) (fun x => name_matches_some x.name n),
      found_or_find]

/-- Variable lookup by a non-NULL semantic: first variable with it in lookup order. -/
theorem get_variable_by_semantic_eq_find (n : cstring) :
    ∀ e : d3d10_effect,
      d3d10_effect_get_variable_by_semantic e (some n)
        = .ok ((all_variables e).find? (has_semantic n))
  | .mk _ lb lv _ _ _ none => by
    rw [d3d10_effect_get_variable_by_semantic, all_variables,
      find_local_variable_eq_find _ (has_semantic n)
        (fun x => semantic_matches_some x.semantic n)]
    cases List.find? (has_semantic n) (own_variables lb lv) <;> rfl
  | .mk _ lb lv _ _ _ (some p) => by
    rw [d3d10_effect_get_variable_by_semantic, all_variables,
      get_variable_by_semantic_eq_find n p,
      find_local_variable_eq_find _ (has_semantic n)
        (fun x => semantic_matches_some x.semantic n), found_or_find]

/-- C9. For every effect with a pool and every name: `d3d10_effect_get_variable_by_name`
returns the first variable of that name among the effect's own variables (members of its
local buffers in buffer order, then its local variables) whenever there is one, and the
result of the lookup in the pool otherwise; it returns no variable exactly when neither
the effect's own variables nor the variables visible in the pool contain the name. The
same holds for `d3d10_effect_get_buffer_by_name` and the local buffers. -/
theorem name_lookup_local_before_pool (flags : Nat)
    (local_buffers local_variables : List d3d10_effect_variable)
    (techniques : List d3d10_effect_technique)
    (used_shaders : List (Option d3d10_effect_shader_variable)) (current : Nat)
    (pool : d3d10_effect) (n : cstring) :
    (d3d10_effect_get_variable_by_name
        (.mk flags local_buffers local_variables techniques used_shaders current (some pool))
        (some n)
      = match (own_variables local_buffers local_variables).find? (has_name n) with
        | some v => .ok (some v)
        | none => d3d10_effect_get_variable_by_name pool (some n)) ∧
    (d3d10_effect_get_variable_by_name
        (.mk flags local_buffers local_variables techniques used_shaders current (some pool))
        (some n) = .ok none
      ↔ (∀ v ∈ own_variables local_buffers local_variables, has_name n v = false) ∧
        (∀ v ∈ all_variables pool, has_name n v = false)) ∧
    (d3d10_effect_get_buffer_by_name
        (.mk flags local_buffers local_variables techniques used_shaders current (some pool))
        (some n)
      = match local_buffers.find? (has_name n) with
        | some v => .ok (some v)
        | none => d3d10_effect_get_buffer_by_name pool (some n)) ∧
    (d3d10_effect_get_buffer_by_name
        (.mk flags local_buffers local_variables techniques used_shaders current (some pool))
        (some n) = .ok none
      ↔ (∀ v ∈ local_buffers, has_name n v = false) ∧
        (∀ v ∈ all_buffers pool, has_name n v = false)) := by
  refine ⟨?_, ?_, ?_, ?_⟩
  · rw [get_variable_by_name_eq_find, get_variable_by_name_eq_find, all_variables,
      List.find?_append]
    cases List.find? (has_name n) (own_variables local_buffers local_variables) <;> rfl
  · rw [get_variable_by_name_eq_find, all_variables]
    simp only [Except.ok.injEq, List.find?_eq_none, List.mem_append, Bool.not_eq_true]
    constructor
    · intro h; exact ⟨fun v hv => h v (Or.inl hv), fun v hv => h v (Or.inr hv)⟩
    · rintro ⟨h1, h2⟩ v (hv | hv)
      · exact h1 v hv
      · exact h2 v hv
  · rw [get_buffer_by_name_eq_find, get_buffer_by_name_eq_find, all_buffers,
      List.find?_append]
    cases List.find? (has_name n) local_buffers <;> rfl
  · rw [get_buffer_by_name_eq_find, all_buffers]
    simp only [Except.ok.injEq, List.find?_eq_none, List.mem_append, Bool.not_eq_true]
    constructor
    · intro h; exact ⟨fun v hv => h v (Or.inl hv), fun v hv => h v (Or.inr hv)⟩
    · rintro ⟨h1, h2⟩ v (hv | hv)
      · exact h1 v hv
      · exact h2 v hv

/-- Witness for C9: `x` is declared in the child `child_x` (offset 0) and in its pool
(offset 16); the lookup yields the child's copy. -/
theorem name_lookup_local_before_pool_witness :
    d3d10_effect_get_variable_by_name child_x (some (cstr "x"))
      = .ok (some (float_variable "x" 0)) :=
  (name_lookup_local_before_pool 0 [cbuffer_variable "locals" [float_variable "x" 0]] [] [] []
    0 pool_x (cstr "x")).1.trans (by rfl)

/-! ## Lookups by index -/

theorem get_buffer_by_index_eq (i : Nat) :
    ∀ e : d3d10_effect, d3d10_effect_get_buffer_by_index e i = (all_buffers e)[i]?
  | .mk _ lb _ _ _ _ none => by
    rw [d3d10_effect_get_buffer_by_index, all_buffers]
    split
    · rfl
    · rename_i h; exact (List.getElem?_eq_none (by omega)).symm
  | .mk _ lb _ _ _ _ (some p) => by
    rw [d3d10_effect_get_buffer_by_index, all_buffers, List.getElem?_append]
    split
    · rfl
    · exact get_buffer_by_index_eq _ p

theorem get_buffer_member_by_index_eq :
    ∀ (lb : List d3d10_effect_variable) (i : Nat),
      (i < (lb.map d3d10_effect_variable.members).flatten.length →
        (get_buffer_member_by_index lb i).1
          = (lb.map d3d10_effect_variable.members).flatten[i]?) ∧
      ((lb.map d3d10_effect_variable.members).flatten.length ≤ i →
        get_buffer_member_by_index lb i
          = (none, i - (lb.map d3d10_effect_variable.members).flatten.length)) := by
  intro lb
  induction lb with
  | nil => intro i; simp [get_buffer_member_by_index]
  | cons b rest ih =>
    intro i
    simp only [List.map_cons, List.flatten_cons, List.length_append]
    unfold get_buffer_member_by_index
    by_cases h : i < b.members.length
    · simp only [h, if_true]
      refine ⟨fun _ => ?_, fun h2 => by omega⟩
      rw [List.getElem?_append_left h]
    · simp only [h, if_false]
      obtain ⟨ih1, ih2⟩ := ih (i - b.members.length)
      refine ⟨fun h2 => ?_, fun h2 => ?_⟩
      · rw [ih1 (by omega), List.getElem?_append_right (by omega)]
      · rw [ih2 (by omega)]
        congr 1
        omega

theorem variable_by_index_tail_eq (lb lv : List d3d10_effect_variable)
    (rest : Nat → Option d3d10_effect_variable) (tail : List d3d10_effect_variable)
    (hrest : ∀ j, rest j = tail[j]?) (i : Nat) :
    variable_by_index_tail (get_buffer_member_by_index lb i) lv rest
      = (own_variables lb lv ++ tail)[i]? := by
  obtain ⟨h1, h2⟩ := get_buffer_member_by_index_eq lb i
  unfold own_variables
  by_cases h : i < (lb.map d3d10_effect_variable.members).flatten.length
  · have hx := h1 h
    obtain ⟨x, hxs⟩ : ∃ x, (lb.map d3d10_effect_variable.members).flatten[i]? = some x :=
      ⟨_, List.getElem?_eq_getElem h⟩
    rw [hxs] at hx
    have hpair : get_buffer_member_by_index lb i
        = (some x, (get_buffer_member_by_index lb i).2) := by
      rw [← hx]
    rw [hpair]
    simp only [variable_by_index_tail]
    rw [List.append_assoc, List.getElem?_append_left h, hxs]
  · rw [h2 (by omega)]
    simp only [variable_by_index_tail]
    rw [List.append_assoc, List.getElem?_append_right (by omega), List.getElem?_append]
    split
    · rfl
    · exact hrest _

theorem get_variable_by_index_eq :
    ∀ (e : d3d10_effect) (i : Nat),
      d3d10_effect_get_variable_by_index e i = (all_variables e)[i]?
  | .mk _ lb lv _ _ _ none, i => by
    rw [d3d10_effect_get_variable_by_index, all_variables,
      variable_by_index_tail_eq lb lv _ [] (fun j => by simp) i]
    simp
  | .mk _ lb lv _ _ _ (some p), i => by
    rw [d3d10_effect_get_variable_by_index, all_variables,
      variable_by_index_tail_eq lb lv _ (all_variables p)
        (fun j => get_variable_by_index_eq p j) i]

theorem var_ref_obj_valid (v : d3d10_effect_variable) : (var_ref.obj v).IsValid = true := rfl

theorem var_ref_sentinel_invalid (k : vtbl_kind) : (var_ref.sentinel k).IsValid = false := by
  cases k <;> rfl

/-- Lookup by index in a list of variables, as done by the facade functions. -/
theorem var_index_lookup (coll : List d3d10_effect_variable) (k : vtbl_kind) :
    index_lookup_contract coll (fun i => var_or_null k coll[i]?) var_ref.obj (.sentinel k)
      var_ref.IsValid := by
  intro i
  refine ⟨fun x hx => ?_, fun h => ?_⟩
  · show var_or_null k coll[i]? = .obj x ∧ (var_or_null k coll[i]?).IsValid = true
    rw [hx]; exact ⟨rfl, rfl⟩
  · show var_or_null k coll[i]? = .sentinel k ∧ (var_or_null k coll[i]?).IsValid = false
    rw [List.getElem?_eq_none h]
    exact ⟨rfl, var_ref_sentinel_invalid k⟩

/-- Lookup by name in a list whose test never faults, as done by the facade functions. -/
theorem find_first_none {α : Type} (test : α → Except Fault Bool) (p : α → Bool)
    (h : ∀ x, test x = .ok (p x)) (coll : List α) (hno : ∀ x ∈ coll, p x = false) :
    find_first test coll = .ok none := by
  rw [find_first_eq_find test p h, List.find?_eq_none.2]
  intro x hx
  simp [hno x hx]

/-- A lookup that returns `obj x` for the element `x` at the index and `null` when there is
none meets the contract of a lookup by index. -/
theorem index_contract_of_eq {α ρ : Type} (coll : List α) (lookup : Nat → ρ) (obj : α → ρ)
    (null : ρ) (valid : ρ → Bool) (hobj : ∀ x, valid (obj x) = true)
    (hnull : valid null = false)
    (h : ∀ i, lookup i = match coll[i]? with
      | some x => obj x
      | none => null) :
    index_lookup_contract coll lookup obj null valid := by
  intro i
  refine ⟨fun x hx => ?_, fun hi => ?_⟩
  · have := h i
    rw [hx] at this
    rw [this]
    exact ⟨rfl, hobj x⟩
  · have := h i
    rw [List.getElem?_eq_none hi] at this
    rw [this]
    exact ⟨rfl, hnull⟩

/-- A search by name whose test never faults meets the contract of a lookup by name. -/
theorem name_contract_of_eq {α ρ : Type} (coll : List α) (carries : cstring → α → Bool)
    (lookup : Option cstring → Except Fault ρ) (null : ρ) (valid : ρ → Bool)
    (hnull : valid null = false)
    (h : ∀ n, (∀ x ∈ coll, carries n x = false) → lookup (some n) = .ok null) :
    name_lookup_contract coll carries lookup null valid :=
  fun n hno => ⟨h n hno, hnull⟩

theorem find_none_of_forall {α : Type} (p : α → Bool) (coll : List α)
    (hno : ∀ x ∈ coll, p x = false) : coll.find? p = none := by
  rw [List.find?_eq_none]
  intro x hx
  simp [hno x hx]

/-- C7. For every effect, technique, pass, variable and type (each possibly the null object
of its kind): every lookup by index returns, for an index inside the collection, the
pointer to the element at that index, whose `IsValid` is true, and for an index outside
the collection the null object of the variant, whose `IsValid` is false; every lookup by
name or semantic returns that null object when no element of the collection carries the
name or semantic. The collections are: the buffers and the variables visible from the
effect (its own, then its pool's), its techniques, the passes and annotations of a
technique, the annotations of a pass, the annotations, members and elements of a variable
and the member types of a type. -/
theorem lookups_return_element_or_null (e : d3d10_effect) (t : technique_ref) (p : pass_ref)
    (v : var_ref) (ty : type_ref) :
    index_lookup_contract (all_buffers e) (d3d10_effect_GetConstantBufferByIndex e)
      var_ref.obj (.sentinel .constant_buffer) var_ref.IsValid ∧
    index_lookup_contract (all_variables e) (d3d10_effect_GetVariableByIndex e)
      var_ref.obj (.sentinel .variable) var_ref.IsValid ∧
    index_lookup_contract e.techniques (d3d10_effect_GetTechniqueByIndex e)
      technique_ref.obj .null_technique d3d10_effect_technique_IsValid ∧
    name_lookup_contract (all_buffers e) has_name (d3d10_effect_GetConstantBufferByName e)
      (.sentinel .constant_buffer) var_ref.IsValid ∧
    name_lookup_contract (all_variables e) has_name (d3d10_effect_GetVariableByName e)
      (.sentinel .variable) var_ref.IsValid ∧
    name_lookup_contract (all_variables e) has_semantic (d3d10_effect_GetVariableBySemantic e)
      (.sentinel .variable) var_ref.IsValid ∧
    name_lookup_contract e.techniques (fun n x => is_name n x.name)
      (d3d10_effect_GetTechniqueByName e) .null_technique d3d10_effect_technique_IsValid ∧
    index_lookup_contract t.deref.passes (d3d10_effect_technique_GetPassByIndex t)
      pass_ref.obj .null_pass d3d10_effect_pass_IsValid ∧
    name_lookup_contract t.deref.passes (fun n x => is_name n x.name)
      (d3d10_effect_technique_GetPassByName t) .null_pass d3d10_effect_pass_IsValid ∧
    index_lookup_contract t.deref.annotations (d3d10_effect_technique_GetAnnotationByIndex t)
      var_ref.obj (.sentinel .variable) var_ref.IsValid ∧
    name_lookup_contract t.deref.annotations has_name
      (d3d10_effect_technique_GetAnnotationByName t) (.sentinel .variable) var_ref.IsValid ∧
    index_lookup_contract p.deref.annotations (d3d10_effect_pass_GetAnnotationByIndex p)
      var_ref.obj (.sentinel .variable) var_ref.IsValid ∧
    name_lookup_contract p.deref.annotations has_name
      (d3d10_effect_pass_GetAnnotationByName p) (.sentinel .variable) var_ref.IsValid ∧
    index_lookup_contract v.deref.annotations (d3d10_effect_variable_GetAnnotationByIndex v)
      var_ref.obj (.sentinel .variable) var_ref.IsValid ∧
    name_lookup_contract v.deref.annotations has_name
      (d3d10_effect_variable_GetAnnotationByName v) (.sentinel .variable) var_ref.IsValid ∧
    index_lookup_contract v.deref.members (d3d10_effect_variable_GetMemberByIndex v)
      var_ref.obj (.sentinel .variable) var_ref.IsValid ∧
    name_lookup_contract v.deref.members has_name (d3d10_effect_variable_GetMemberByName v)
      (.sentinel .variable) var_ref.IsValid ∧
    name_lookup_contract v.deref.members has_semantic
      (d3d10_effect_variable_GetMemberBySemantic v) (.sentinel .variable) var_ref.IsValid ∧
    index_lookup_contract v.deref.elements (d3d10_effect_variable_GetElement v)
      var_ref.obj (.sentinel .variable) var_ref.IsValid ∧
    index_lookup_contract ty.deref.members (d3d10_effect_type_GetMemberTypeByIndex ty)
      (fun m => type_ref.obj m.type) .null_type d3d10_effect_type_IsValid ∧
    name_lookup_contract ty.deref.members (fun n m => is_name n m.name)
      (d3d10_effect_type_GetMemberTypeByName ty) .null_type d3d10_effect_type_IsValid ∧
    name_lookup_contract ty.deref.members (fun n m => is_semantic n m.semantic)
      (d3d10_effect_type_GetMemberTypeBySemantic ty) .null_type d3d10_effect_type_IsValid := by
  have annot_index : ∀ a : List d3d10_effect_variable,
      index_lookup_contract a (d3d10_annotation_get_by_index a) var_ref.obj
        (.sentinel .variable) var_ref.IsValid := by
    intro a
    refine index_contract_of_eq _ _ _ _ _ var_ref_obj_valid (var_ref_sentinel_invalid _) ?_
    intro i
    unfold d3d10_annotation_get_by_index
    split
    · rename_i h; rw [List.getElem?_eq_none h]
    · cases a[i]? <;> rfl
  have annot_name : ∀ a : List d3d10_effect_variable,
      name_lookup_contract a has_name (d3d10_annotation_get_by_name a)
        (.sentinel .variable) var_ref.IsValid := by
    intro a
    refine name_contract_of_eq _ _ _ _ _ (var_ref_sentinel_invalid _) ?_
    intro n hno
    unfold d3d10_annotation_get_by_name
    rw [find_first_eq_find _ (has_name n) (fun x => name_matches_some x.name n),
      find_none_of_forall _ _ hno]
    rfl
  refine ⟨?_, ?_, ?_, ?_, ?_, ?_, ?_, ?_, ?_, annot_index _, annot_name _, annot_index _,
    annot_name _, annot_index _, annot_name _, ?_, ?_, ?_, ?_, ?_, ?_, ?_⟩
  · refine index_contract_of_eq _ _ _ _ _ var_ref_obj_valid (var_ref_sentinel_invalid _) ?_
    intro i
    unfold d3d10_effect_GetConstantBufferByIndex
    rw [get_buffer_by_index_eq]
    cases (all_buffers e)[i]? <;> rfl
  · refine index_contract_of_eq _ _ _ _ _ var_ref_obj_valid (var_ref_sentinel_invalid _) ?_
    intro i
    unfold d3d10_effect_GetVariableByIndex
    rw [get_variable_by_index_eq]
    cases (all_variables e)[i]? <;> rfl
  · refine index_contract_of_eq _ _ _ _ _ (fun _ => rfl) rfl ?_
    intro i
    unfold d3d10_effect_GetTechniqueByIndex
    split
    · rename_i h; rw [List.getElem?_eq_none h]
    · cases e.techniques[i]? <;> rfl
  · refine name_contract_of_eq _ _ _ _ _ (var_ref_sentinel_invalid _) ?_
    intro n hno
    unfold d3d10_effect_GetConstantBufferByName
    rw [get_buffer_by_name_eq_find, find_none_of_forall _ _ hno]
    rfl
  · refine name_contract_of_eq _ _ _ _ _ (var_ref_sentinel_invalid _) ?_
    intro n hno
    unfold d3d10_effect_GetVariableByName
    simp only
    rw [get_variable_by_name_eq_find, find_none_of_forall _ _ hno]
    rfl
  · refine name_contract_of_eq _ _ _ _ _ (var_ref_sentinel_invalid _) ?_
    intro n hno
    unfold d3d10_effect_GetVariableBySemantic
    simp only
    rw [get_variable_by_semantic_eq_find, find_none_of_forall _ _ hno]
    rfl
  · refine name_contract_of_eq _ _ _ _ _ rfl ?_
    intro n hno
    unfold d3d10_effect_GetTechniqueByName
    simp only
    rw [find_first_eq_find _ (fun x : d3d10_effect_technique => is_name n x.name)
      (fun x => name_matches_some x.name n), find_none_of_forall _ _ hno]
    rfl
  · refine index_contract_of_eq _ _ _ _ _ (fun _ => rfl) rfl ?_
    intro i
    unfold d3d10_effect_technique_GetPassByIndex
    split
    · rename_i h; rw [List.getElem?_eq_none h]
    · cases t.deref.passes[i]? <;> rfl
  · refine name_contract_of_eq _ _ _ _ _ rfl ?_
    intro n hno
    unfold d3d10_effect_technique_GetPassByName
    rw [find_first_eq_find _ (fun x : d3d10_effect_pass => is_name n x.name)
      (fun x => name_matches_some x.name n), find_none_of_forall _ _ hno]
    rfl
  · refine index_contract_of_eq _ _ _ _ _ var_ref_obj_valid (var_ref_sentinel_invalid _) ?_
    intro i
    unfold d3d10_effect_variable_GetMemberByIndex
    split
    · rename_i h; rw [List.getElem?_eq_none h]
    · cases v.deref.members[i]? <;> rfl
  · refine name_contract_of_eq _ _ _ _ _ (var_ref_sentinel_invalid _) ?_
    intro n hno
    unfold d3d10_effect_variable_GetMemberByName
    simp only
    rw [find_first_eq_find _ (has_name n) (fun x => name_matches_some x.name n),
      find_none_of_forall _ _ hno]
    rfl
  · refine name_contract_of_eq _ _ _ _ _ (var_ref_sentinel_invalid _) ?_
    intro n hno
    unfold d3d10_effect_variable_GetMemberBySemantic
    simp only
    rw [find_first_eq_find _ (has_semantic n) (fun x => semantic_matches_some x.semantic n),
      find_none_of_forall _ _ hno]
    rfl
  · refine index_contract_of_eq _ _ _ _ _ var_ref_obj_valid (var_ref_sentinel_invalid _) ?_
    intro i
    unfold d3d10_effect_variable_GetElement
    split
    · rename_i h; rw [List.getElem?_eq_none h]
    · cases v.deref.elements[i]? <;> rfl
  · refine index_contract_of_eq _ _ _ _ _ (fun _ => rfl) rfl ?_
    intro i
    unfold d3d10_effect_type_GetMemberTypeByIndex d3d10_effect_type.member_count
    split
    · rename_i h; rw [List.getElem?_eq_none h]
    · cases ty.deref.members[i]? <;> rfl
  · refine name_contract_of_eq _ _ _ _ _ rfl ?_
    intro n hno
    unfold d3d10_effect_type_GetMemberTypeByName
    simp only
    rw [find_first_eq_find _ (fun m : d3d10_effect_type_member => is_name n m.name)
      (fun x => name_matches_some x.name n), find_none_of_forall _ _ hno]
    rfl
  · refine name_contract_of_eq _ _ _ _ _ rfl ?_
    intro n hno
    unfold d3d10_effect_type_GetMemberTypeBySemantic
    simp only
    rw [find_first_eq_find _ (fun m : d3d10_effect_type_member => is_semantic n m.semantic)
      (fun x => semantic_matches_some x.semantic n), find_none_of_forall _ _ hno]
    rfl

/-- Witness for C7: in `effect_one_technique` index 0 yields the technique `t0`, which is
valid, and index 1 yields the null technique, which is not. -/
theorem lookups_return_element_or_null_witness :
    (d3d10_effect_GetTechniqueByIndex effect_one_technique 0 = .obj technique_t0 ∧
      d3d10_effect_technique_IsValid (d3d10_effect_GetTechniqueByIndex effect_one_technique 0)
        = true) ∧
    (d3d10_effect_GetTechniqueByIndex effect_one_technique 1 = .null_technique ∧
      d3d10_effect_technique_IsValid (d3d10_effect_GetTechniqueByIndex effect_one_technique 1)
        = false) :=
  ⟨((lookups_return_element_or_null effect_one_technique .null_technique .null_pass
      (.sentinel .variable) .null_type).2.2.1 0).1 technique_t0 rfl,
   ((lookups_return_element_or_null effect_one_technique .null_technique .null_pass
      (.sentinel .variable) .null_type).2.2.1 1).2 (by decide)⟩

/-! ## Shared (pool) symbols -/

/-- The pool lookup of the validation, for a named variable of an effect with a pool: the
first symbol of that name among the pool symbols of the variable's kind. -/
theorem shared_variable_lookup_eq_find (flags : Nat)
    (lb lv : List d3d10_effect_variable) (t : List d3d10_effect_technique)
    (u : List (Option d3d10_effect_shader_variable)) (c : Nat) (pool : d3d10_effect)
    (v : d3d10_effect_variable) (n : cstring) (hname : v.name = some n) :
    shared_variable_lookup (.mk flags lb lv t u c (some pool)) v
      = .ok ((shared_symbols pool v.type.basetype).find? (has_name n)) := by
  unfold shared_variable_lookup shared_symbols
  simp only [d3d10_effect.pool, hname]
  cases v.type.basetype <;>
    first
    | exact get_buffer_by_name_eq_find n pool
    | exact get_variable_by_name_eq_find n pool

/-- C6 (counterexample). The pool `pool_two_b` contains a buffer called `b` whose type is
structurally equal to the type of the shared buffer `b` declared by the child (its second
buffer), and still the validation fails with `E_INVALIDARG`: the lookup stops at the first
buffer called `b`, whose type differs. -/
theorem validate_shared_variable_not_any_match :
    d3d10_effect_validate_shared_variable child_of_two_b (cbuffer_variable "b" [])
      = .ok E_INVALIDARG ∧
    (∃ sv ∈ all_buffers pool_two_b,
      has_name (cstr "b") sv = true ∧ (cbuffer_variable "b" []).name = some (cstr "b") ∧
      d3d10_effect_types_match sv.type (cbuffer_variable "b" []).type = .ok true) := by
  refine ⟨by rfl, cbuffer_variable "b" [], ?_, by rfl, by rfl, by rfl⟩
  simp [all_buffers, pool_two_b]

/-- C6 (amended). For every shared buffer or shared object `v` with a name, declared by a
child effect of `pool`: the validation succeeds if and only if the first symbol of that
name in the pool's lookup order (buffers for `CBUFFER` / `TBUFFER`, variables otherwise)
exists and has a type that `d3d10_effect_types_match` finds equal to the type of `v`;
when no symbol has the name, or the type of that first symbol is found different, the
validation returns the failure code `E_INVALIDARG`. -/
theorem validate_shared_variable_first_match (flags : Nat)
    (lb lv : List d3d10_effect_variable) (t : List d3d10_effect_technique)
    (u : List (Option d3d10_effect_shader_variable)) (c : Nat) (pool : d3d10_effect)
    (v : d3d10_effect_variable) (n : cstring) (hname : v.name = some n) :
    (d3d10_effect_validate_shared_variable (.mk flags lb lv t u c (some pool)) v = .ok S_OK
      ↔ ∃ sv, (shared_symbols pool v.type.basetype).find? (has_name n) = some sv ∧
          d3d10_effect_types_match sv.type v.type = .ok true) ∧
    ((shared_symbols pool v.type.basetype).find? (has_name n) = none →
      d3d10_effect_validate_shared_variable (.mk flags lb lv t u c (some pool)) v
        = .ok E_INVALIDARG) ∧
    (∀ sv, (shared_symbols pool v.type.basetype).find? (has_name n) = some sv →
      d3d10_effect_types_match sv.type v.type = .ok false →
      d3d10_effect_validate_shared_variable (.mk flags lb lv t u c (some pool)) v
        = .ok E_INVALIDARG) ∧
    FAILED E_INVALIDARG = true := by
  have hl := shared_variable_lookup_eq_find flags lb lv t u c pool v n hname
  refine ⟨?_, ?_, ?_, by decide⟩
  · unfold d3d10_effect_validate_shared_variable
    rw [hl]
    cases hf : (shared_symbols pool v.type.basetype).find? (has_name n) with
    | none =>
      simp only [false_iff, not_exists, not_and]
      constructor
      · intro h; exact absurd h (by decide)
      · intro h; exact absurd h (by simp)
    | some sv =>
      simp only [Option.some.injEq, exists_eq_left']
      cases hm : d3d10_effect_types_match sv.type v.type with
      | error f => simp
      | ok b =>
        cases b
        · simp only [Except.ok.injEq, Bool.false_eq_true, iff_false]
          decide
        · simp
  · intro hf
    unfold d3d10_effect_validate_shared_variable
    rw [hl, hf]
  · intro sv hf hm
    unfold d3d10_effect_validate_shared_variable
    rw [hl, hf]
    simp only [hm]

/-- Witness for C6: the pool `pool_x` holds the float `x`; a shared float `x` declared by
its child is accepted. -/
theorem validate_shared_variable_first_match_witness :
    d3d10_effect_validate_shared_variable child_x (float_variable "x" 0) = .ok S_OK :=
  (validate_shared_variable_first_match 0 [cbuffer_variable "locals" [float_variable "x" 0]]
    [] [] [] 0 pool_x (float_variable "x" 0) (cstr "x") (by rfl)).1.2
    ⟨float_variable "x" 16, by rfl, by rfl⟩

/-! ## References inside the FX10 chunk -/

theorem byte_at_drop (data : List Nat) (b k : Nat) :
    byte_at (data.drop b) k = byte_at data (b + k) := by
  unfold byte_at
  simp [List.getD_eq_getElem?_getD, List.getElem?_drop]

theorem dword_at_drop (data : List Nat) (b k : Nat) :
    dword_at (data.drop b) k = dword_at data (b + k) := by
  unfold dword_at
  simp only [byte_at_drop, Nat.add_assoc]

theorem fx10_get_string_drop (data : List Nat) (b k : Nat) :
    fx10_get_string (data.drop b) k = fx10_get_string data (b + k) := by
  unfold fx10_get_string
  have h1 : (data.drop b).length - k = data.length - (b + k) := by
    rw [List.length_drop]; omega
  have h2 : ((data.drop b).length ≤ k) ↔ (data.length ≤ b + k) := by
    rw [List.length_drop]; omega
  simp only [List.drop_drop, h1, h2]

/-- C4 (counterexample). In `payload_one_technique` the technique record holds the name
reference 1. The parse succeeds and names the technique `T`, the string at byte 77 of the
payload (byte 1 after the 76-byte header); the string at byte 1 of the payload, counted
from the byte where the header starts, is the three bytes `10 ff fe` of the version
word. -/
theorem fx10_reference_not_from_header_start :
    (parse_fx10 (parse_fx10_body technique_only_parsers) false fx10_header.zero
        payload_one_technique (d3d10_effect.create 0 none)).outcome = .ok S_OK ∧
    (parse_fx10 (parse_fx10_body technique_only_parsers) false fx10_header.zero
        payload_one_technique (d3d10_effect.create 0 none)).effect.techniques.map
          (fun t => t.name) = [some [84]] ∧
    fx10_get_string payload_one_technique 1 = some (some [16, 255, 254], 4) ∧
    fx10_get_string payload_one_technique (76 + 1) = some (some [84], 2) := by
  refine ⟨by rfl, by rfl, by rfl, by rfl⟩

/-- C4 (amended). Inside the FX10 chunk every reference with value `k` is resolved at byte
`k` counted from the first byte after the 19-word header, that is at byte `76 + k` of the
payload: when the header is accepted, `parse_fx10` hands `parse_fx10_body` the payload
without its first 76 bytes as the buffer `data`, and in that buffer the string, the byte
and the word at offset `k` are the string, the byte and the word at offset `76 + k` of
the payload. -/
theorem fx10_reference_relative_to_body {σ : Type} (body : fx10_body_t σ) (has_pool : Bool)
    (hdr0 : fx10_header) (payload : List Nat) (e : σ) (hlen : 76 ≤ payload.length)
    (hpool : has_pool = true ∨ (dword_at payload 16 = 0 ∧ dword_at payload 24 = 0)) :
    (parse_fx10 body has_pool hdr0 payload e).body_data = some (payload.drop 76) ∧
    (parse_fx10 body has_pool hdr0 payload e).outcome
      = (body (fx10_header_at payload) (payload.drop 76) e).1 ∧
    (∀ k, fx10_get_string (payload.drop 76) k = fx10_get_string payload (76 + k)) ∧
    (∀ k, fx10_copy_string (payload.drop 76) k = fx10_copy_string payload (76 + k)) ∧
    (∀ k, byte_at (payload.drop 76) k = byte_at payload (76 + k)) ∧
    (∀ k, dword_at (payload.drop 76) k = dword_at payload (76 + k)) := by
  have hsp : require_space 0 19 4 payload.length = true := (require_space_header _).2 hlen
  have hc : (!has_pool && ((fx10_header_at payload).shared_object_count != 0
      || (fx10_header_at payload).shared_buffer_count != 0)) = false := by
    rcases hpool with h | ⟨h1, h2⟩
    · simp [h]
    · simp [fx10_header_at, h1, h2]
  have h : parse_fx10 body has_pool hdr0 payload e
      = ⟨(body (fx10_header_at payload) (payload.drop 76) e).1, fx10_header_at payload,
         (body (fx10_header_at payload) (payload.drop 76) e).2, some (payload.drop 76)⟩ := by
    unfold parse_fx10
    rw [hsp, parse_fx10_read_header_ok payload hlen]
    simp only [Bool.not_true, Bool.false_eq_true, if_false]
    rw [hc]
    simp
  rw [h]
  refine ⟨rfl, rfl, fun k => fx10_get_string_drop payload 76 k, fun k => ?_,
    fun k => byte_at_drop payload 76 k, fun k => dword_at_drop payload 76 k⟩
  unfold fx10_copy_string
  rw [fx10_get_string_drop payload 76 k]

/-- Witness for C4: `payload_one_technique` has 92 bytes and declares no shared symbols. -/
theorem fx10_reference_relative_to_body_witness :
    (parse_fx10 (parse_fx10_body technique_only_parsers) false fx10_header.zero
        payload_one_technique (d3d10_effect.create 0 none)).body_data
      = some (payload_one_technique.drop 76) ∧
    fx10_get_string (payload_one_technique.drop 76) 1
      = fx10_get_string payload_one_technique (76 + 1) :=
  ⟨(fx10_reference_relative_to_body (parse_fx10_body technique_only_parsers) false
      fx10_header.zero payload_one_technique (d3d10_effect.create 0 none) (by decide)
      (Or.inr ⟨by decide, by decide⟩)).1,
   (fx10_reference_relative_to_body (parse_fx10_body technique_only_parsers) false
      fx10_header.zero payload_one_technique (d3d10_effect.create 0 none) (by decide)
      (Or.inr ⟨by decide, by decide⟩)).2.2.1 1⟩

/-! ## Null objects -/

/-- C8 (evaluation at the failing input). `Apply` on the null pass, as returned by
`GetPassByIndex` for an index out of range, loads `pass->technique->effect->device`
through the NULL `technique` pointer of `null_pass`, whatever the flags and the state of
the device; the sibling method `GetVertexShaderDesc` tests for the null pass and returns
`E_FAIL`. -/
theorem apply_on_null_pass_dereferences_null :
    d3d10_effect_technique_GetPassByIndex (.obj technique_t0) 1 = .null_pass ∧
    d3d10_effect_pass_Apply (d3d10_effect_technique_GetPassByIndex (.obj technique_t0) 1) 0
      ⟨[], []⟩ = .error .null_deref ∧
    (∀ flags st, d3d10_effect_pass_Apply .null_pass flags st = .error .null_deref) ∧
    d3d10_effect_pass_GetVertexShaderDesc .null_pass = (E_FAIL, none) ∧
    d3d10_effect_pass_Apply (.obj pass_p0) 0 ⟨[], []⟩ = .ok (S_OK, ⟨[], []⟩) := by
  refine ⟨by rfl, by rfl, fun _ _ => rfl, by rfl, by rfl⟩

/-! ## `Optimize` -/

set_option maxRecDepth 100000 in
/-- C10 (evaluation at the failing input). The blob `blob_unfilled_shader_table` declares
one used shader and contains none; whatever the record parsers are, the effect is created
with success and its used-shader table holds one NULL slot. `Optimize` on that effect
dereferences the NULL slot instead of returning `S_OK`, whatever the value of the flag bit
`D3D10_EFFECT_OPTIMIZED`. -/
theorem optimize_dereferences_unfilled_slot :
    (∀ P : fx10_record_parsers,
      d3d10_create_effect P (some blob_unfilled_shader_table) none 0
        = (.ok S_OK, some (.mk 0 [] [] [] [none] 0 none))) ∧
    (∀ OPTIMIZED : Nat,
      d3d10_effect_Optimize OPTIMIZED (.mk 0 [] [] [] [none] 0 none) = .error .null_deref) := by
  refine ⟨fun P => by rfl, fun m => ?_⟩
  rw [d3d10_effect_Optimize]
  simp [optimize_used_shaders]

/-- The used-shader loop touches no slot twice: run on its own result it changes nothing. -/
theorem optimize_used_shaders_idem :
    ∀ (u u1 : List (Option d3d10_effect_shader_variable)),
      optimize_used_shaders u = .ok u1 → optimize_used_shaders u1 = .ok u1 := by
  intro u
  induction u with
  | nil => intro u1 h; simp only [optimize_used_shaders, Except.ok.injEq] at h; subst h; rfl
  | cons x rest ih =>
    intro u1 h
    cases x with
    | none => simp [optimize_used_shaders] at h
    | some v =>
      unfold optimize_used_shaders at h
      cases hr : optimize_used_shaders rest with
      | error f => rw [hr] at h; simp at h
      | ok r =>
        rw [hr] at h
        simp only [Except.ok.injEq] at h
        subst h
        unfold optimize_used_shaders
        rw [ih r hr]

theorem optimize_technique_idem (t : d3d10_effect_technique) :
    optimize_technique (optimize_technique t) = optimize_technique t := by
  simp [optimize_technique, Function.comp_def]

/-- Whenever `Optimize` returns, it returns `S_OK`, and a second call returns `S_OK` too
and leaves the effect as the first call left it. -/
theorem optimize_idempotent (m : Nat) (e e1 : d3d10_effect) (hr : HRESULT)
    (h : d3d10_effect_Optimize m e = .ok (hr, e1)) :
    hr = S_OK ∧ d3d10_effect_Optimize m e1 = .ok (S_OK, e1) := by
  cases e with
  | mk flags lb lv t u c pool =>
    rw [d3d10_effect_Optimize] at h
    by_cases hf : flags &&& m ≠ 0
    · rw [if_pos hf] at h
      cases h
      refine ⟨rfl, ?_⟩
      rw [d3d10_effect_Optimize, if_pos hf]
    · rw [if_neg hf] at h
      cases hu : optimize_used_shaders u with
      | error f => rw [hu] at h; cases h
      | ok u1 =>
        rw [hu] at h
        cases h
        refine ⟨rfl, ?_⟩
        rw [d3d10_effect_Optimize]
        split
        · rfl
        · rw [optimize_used_shaders_idem u u1 hu]
          simp only [List.map_map, Nat.or_assoc, Nat.or_self]
          congr 3
          apply congrArg (fun f => List.map f t)
          funext x
          exact optimize_technique_idem x

/-- After `Optimize` has cleared the names, no technique is found by name and every
technique is still found by index. -/
theorem optimized_technique_lookups (flags : Nat) (lb lv : List d3d10_effect_variable)
    (t : List d3d10_effect_technique) (u : List (Option d3d10_effect_shader_variable))
    (c : Nat) (pool : Option d3d10_effect) (name : Option cstring) (i : Nat) :
    d3d10_effect_GetTechniqueByName (.mk flags lb lv (t.map optimize_technique) u c pool) name
      = .ok .null_technique ∧
    (∀ x, t[i]? = some x →
      d3d10_effect_GetTechniqueByIndex (.mk flags lb lv (t.map optimize_technique) u c pool) i
        = .obj (optimize_technique x)) := by
  constructor
  · unfold d3d10_effect_GetTechniqueByName
    cases name with
    | none => rfl
    | some n =>
      simp only [d3d10_effect.techniques]
      rw [find_first_eq_find _ (fun x : d3d10_effect_technique => is_name n x.name)
        (fun x => name_matches_some x.name n), find_none_of_forall]
      · rfl
      · intro x hx
        obtain ⟨y, _, rfl⟩ := List.mem_map.1 hx
        rfl
  · intro x hx
    unfold d3d10_effect_GetTechniqueByIndex
    simp only [d3d10_effect.techniques, List.length_map, List.getElem?_map, hx, Option.map_some']
    have hi : i < t.length := by
      by_contra hc
      rw [List.getElem?_eq_none (by omega)] at hx
      cases hx
    rw [if_neg (by omega)]
    rfl

/-! ## Buffer packing -/

theorem and_0xf (x : Nat) : x &&& 0xf = x % 16 := by
  have := Nat.and_pow_two_sub_one_eq_mod x 4
  simpa using this

theorem and_0xfffffff0 (x : Nat) (h : x < 2 ^ 32) : x &&& 0xfffffff0 = x / 16 * 16 := by
  have hm : (0xfffffff0 : Nat) = (2 ^ 28 - 1) <<< 4 := by decide
  have hx : x / 16 * 16 = (x >>> 4) <<< 4 := by
    rw [Nat.shiftLeft_eq, Nat.shiftRight_eq_div_pow]
  rw [hx, hm]
  apply Nat.eq_of_testBit_eq
  intro i
  rw [Nat.testBit_and, Nat.testBit_shiftLeft, Nat.testBit_shiftLeft, Nat.testBit_shiftRight,
    Nat.testBit_two_pow_sub_one]
  by_cases h4 : 4 ≤ i
  · have e : 4 + (i - 4) = i := by omega
    rw [e]
    by_cases h32 : i < 32
    · have : i - 4 < 28 := by omega
      simp [h4, this]
    · have hlt : x < 2 ^ i := lt_of_lt_of_le h (Nat.pow_le_pow_right (by decide) (by omega))
      rw [Nat.testBit_eq_false_of_lt hlt]
      simp
  · simp [h4]

theorem stride_align_eq (s : Nat) : stride_align s = (s + 15) % 2 ^ 32 / 16 * 16 := by
  unfold stride_align
  exact and_0xfffffff0 _ (Nat.mod_lt _ (by decide))

theorem stride_align_mod (s : Nat) : stride_align s % 16 = 0 := by
  rw [stride_align_eq]; omega

theorem stride_align_fits (s : Nat) (h : s + 15 < 2 ^ 32) : stride_align s = round_up_16 s := by
  rw [stride_align_eq, Nat.mod_eq_of_lt h]; rfl

theorem reference_stride_step_ge (K : effect_flag_bits) (s : Nat) (v : d3d10_effect_variable) :
    s ≤ reference_stride_step K s v := by
  unfold reference_stride_step round_up_16
  split
  · exact le_max_left _ _
  · simp only []
    split <;> split <;> omega

theorem reference_foldl_ge (K : effect_flag_bits) (ms : List d3d10_effect_variable) :
    ∀ s, s ≤ ms.foldl (reference_stride_step K) s := by
  induction ms with
  | nil => intro s; exact le_refl _
  | cons v rest ih =>
    intro s
    exact le_trans (reference_stride_step_ge K s v) (ih _)

theorem buffer_stride_step_eq_reference (K : effect_flag_bits) (s : Nat)
    (v : d3d10_effect_variable) (h : reference_stride_step K s v + 15 < 2 ^ 32) :
    buffer_stride_step K s v = reference_stride_step K s v := by
  have hs := reference_stride_step_ge K s v
  unfold reference_stride_step at h ⊢
  unfold buffer_stride_step buffer_member_offset
  by_cases hx : v.flag &&& K.D3D10_EFFECT_VARIABLE_EXPLICIT_BIND_POINT ≠ 0
  · rw [if_pos hx] at h ⊢
    rw [if_pos hx]
    have hm : v.type.size_unpacked + v.buffer_offset < 2 ^ 32 := by
      have := le_max_right s (v.type.size_unpacked + v.buffer_offset)
      omega
    rw [Nat.mod_eq_of_lt hm]
    split
    · exact (max_eq_right (by omega)).symm
    · exact (max_eq_left (by omega)).symm
  · rw [if_neg hx] at h ⊢
    rw [if_neg hx]
    simp only [and_0xf] at h ⊢
    by_cases hc : v.type.type_class = .STRUCT
    · simp only [hc, if_true] at h ⊢
      have h1 : s + 15 < 2 ^ 32 := by
        unfold round_up_16 at h
        split at h <;> omega
      rw [stride_align_fits s h1]
      have h2 : round_up_16 s % 16 = 0 := by unfold round_up_16; omega
      have h3 : round_up_16 s + 15 < 2 ^ 32 := by
        split at h
        · unfold round_up_16 at h ⊢; omega
        · unfold round_up_16 at h ⊢; omega
      rw [stride_align_fits _ h3]
      have h4 : (round_up_16 s % 16 + v.type.size_unpacked) % 2 ^ 32
          = round_up_16 s % 16 + v.type.size_unpacked := by
        apply Nat.mod_eq_of_lt
        split at h <;> omega
      rw [h4]
      split
      · rename_i hg
        rw [if_pos hg] at h
        apply Nat.mod_eq_of_lt
        omega
      · rename_i hg
        rw [if_neg hg] at h
        apply Nat.mod_eq_of_lt
        omega
    · simp only [hc, if_false] at h ⊢
      by_cases hgt : s % 16 + v.type.size_unpacked > 16
      · rw [if_pos hgt] at h ⊢
        have h1 : s + 15 < 2 ^ 32 := by unfold round_up_16 at h; omega
        have h4 : (s % 16 + v.type.size_unpacked) % 2 ^ 32 = s % 16 + v.type.size_unpacked := by
          apply Nat.mod_eq_of_lt
          unfold round_up_16 at h
          omega
        rw [h4, if_pos (by omega), stride_align_fits s h1]
        apply Nat.mod_eq_of_lt
        omega
      · rw [if_neg hgt] at h ⊢
        have h4 : (s % 16 + v.type.size_unpacked) % 2 ^ 32 = s % 16 + v.type.size_unpacked := by
          apply Nat.mod_eq_of_lt
          omega
        rw [h4, if_neg (by omega)]
        apply Nat.mod_eq_of_lt
        omega

theorem buffer_foldl_eq_reference (K : effect_flag_bits) (ms : List d3d10_effect_variable) :
    ∀ s, ms.foldl (reference_stride_step K) s + 15 < 2 ^ 32 →
      ms.foldl (buffer_stride_step K) s = ms.foldl (reference_stride_step K) s := by
  induction ms with
  | nil => intro s _; rfl
  | cons v rest ih =>
    intro s h
    simp only [List.foldl_cons] at h ⊢
    have h1 := reference_foldl_ge K rest (reference_stride_step K s v)
    rw [buffer_stride_step_eq_reference K s v (by omega)]
    exact ih _ h

theorem buffer_stride_eq_reference (K : effect_flag_bits) (ms : List d3d10_effect_variable)
    (h : reference_stride K ms < 2 ^ 32) : buffer_stride K ms = reference_stride K ms := by
  unfold reference_stride at h ⊢
  unfold buffer_stride
  have h1 : ms.foldl (reference_stride_step K) 0 + 15 < 2 ^ 32 := by
    unfold round_up_16 at h; omega
  rw [buffer_foldl_eq_reference K ms 0 h1, stride_align_fits _ h1]

theorem parse_fx10_buffer_members_stride (K : effect_flag_bits)
    (P : record_parser_t d3d10_effect_variable) (data : List Nat) :
    ∀ (n ptr : Nat) (s : buffer_members_state) (e : d3d10_effect) (hr : HRESULT) (ptr1 : Nat)
      (s1 : buffer_members_state) (e1 : d3d10_effect),
      parse_fx10_buffer_members K P data n ptr s e = (.ok hr, ptr1, s1, e1) →
      FAILED hr = false →
      s.stride = s.members.foldl (buffer_stride_step K) 0 →
      s1.stride = s1.members.foldl (buffer_stride_step K) 0 := by
  intro n
  induction n with
  | zero =>
    intro ptr s e hr ptr1 s1 e1 h _ hs
    simp only [parse_fx10_buffer_members, Prod.mk.injEq] at h
    obtain ⟨_, _, rfl, _⟩ := h
    exact hs
  | succ n ih =>
    intro ptr s e hr ptr1 s1 e1 h hok hs
    rw [parse_fx10_buffer_members] at h
    split at h
    · simp at h
    · rename_i hr0 ptr0 v e0 _
      split at h
      · rename_i hf
        simp only [Prod.mk.injEq, Except.ok.injEq] at h
        obtain ⟨rfl, _⟩ := h
        rw [hok] at hf
        exact absurd hf (by decide)
      · refine ih _ _ _ _ _ _ _ h hok ?_
        simp only [List.foldl_append, List.foldl_cons, List.foldl_nil, hs]

theorem parse_fx10_buffer_stride (K : effect_flag_bits) (A : annotations_parser_t)
    (P : Bool → record_parser_t d3d10_effect_variable)
    (create_variable_buffer : d3d10_effect_variable → HRESULT) (is_local : Bool)
    (data : List Nat) (ptr : Nat) (e : d3d10_effect) (hr : HRESULT) (ptr1 : Nat)
    (l : d3d10_effect_variable) (e1 : d3d10_effect)
    (h : parse_fx10_buffer K A P create_variable_buffer is_local data ptr e
      = (.ok hr, ptr1, l, e1))
    (hok : FAILED hr = false) :
    l.type.stride = buffer_stride K l.members ∧
    l.type.size_unpacked = buffer_stride K l.members := by
  unfold parse_fx10_buffer at h
  simp only [] at h
  repeat' split at h
  all_goals first
    | (simp only [Prod.mk.injEq, Except.ok.injEq, reduceCtorEq, false_and] at h; done)
    | skip
  all_goals
    simp only [Prod.mk.injEq, Except.ok.injEq] at h
    obtain ⟨rfl, -, rfl, -⟩ := h
  all_goals first
    | exact absurd hok (by decide)
    | (simp only [hok, Bool.false_eq_true] at *; done)
    | skip
  all_goals
    have hs := parse_fx10_buffer_members_stride K _ data _ _ _ _ _ _ _ _ (by assumption)
      (by simp only [Bool.not_eq_true] at *; assumption) rfl
    exact ⟨congrArg stride_align hs, congrArg stride_align hs⟩

theorem buffer_member_offset_aligned (stride : Nat) (v : d3d10_effect_variable) :
    (1 ≤ v.type.size_unpacked ∧ v.type.size_unpacked ≤ 16 →
      buffer_member_offset stride v / 16
        = (buffer_member_offset stride v + v.type.size_unpacked - 1) / 16) ∧
    (v.type.type_class = .STRUCT → buffer_member_offset stride v % 16 = 0) := by
  unfold buffer_member_offset
  simp only [and_0xf]
  constructor
  · intro hsz
    generalize (if v.type.type_class = .STRUCT then stride_align stride else stride) = s1
    by_cases hc : 16 < (s1 % 16 + v.type.size_unpacked) % 2 ^ 32
    · rw [if_pos hc]
      have := stride_align_mod s1
      omega
    · rw [if_neg hc]
      have hlt : s1 % 16 + v.type.size_unpacked < 2 ^ 32 := by omega
      rw [Nat.mod_eq_of_lt hlt] at hc
      omega
  · intro hc
    simp only [hc, if_true]
    split
    · exact stride_align_mod _
    · exact stride_align_mod _

/-- **C11**, counterexample. A buffer with three members of the unpacked sizes 4,
0xfffffffe and 4, none of which has an explicit bind point, parses successfully. The
32-bit arithmetic of `parse_fx10_buffer` wraps around at the second member and stores the
stride 16 (also as unpacked size), whereas the fold over the members described by the claim
gives 0x100000020. -/
theorem buffer_stride_wraps_around :
    (parse_buffer_of_sizes [4, 0xfffffffe, 4]).1 = .ok S_OK ∧
    (parse_buffer_of_sizes [4, 0xfffffffe, 4]).2.2.1.members.map
        (fun v => (v.type.size_unpacked,
          v.flag &&& example_flag_bits.D3D10_EFFECT_VARIABLE_EXPLICIT_BIND_POINT))
      = [(4, 0), (0xfffffffe, 0), (4, 0)] ∧
    (parse_buffer_of_sizes [4, 0xfffffffe, 4]).2.2.1.type.stride = 16 ∧
    (parse_buffer_of_sizes [4, 0xfffffffe, 4]).2.2.1.type.size_unpacked = 16 ∧
    reference_stride example_flag_bits (parse_buffer_of_sizes [4, 0xfffffffe, 4]).2.2.1.members
      = 0x100000020 := by
  refine ⟨by rfl, by rfl, by rfl, by rfl, by rfl⟩

/-- **C11**, amended. Whenever `parse_fx10_buffer` succeeds and the reference fold over the
parsed members stays below 2^32 (no 32-bit overflow), the stride it stores, which is also
the unpacked size of the buffer type, equals the reference fold over the members in
declaration order: a member with an explicit bind point sets the stride to `max(stride,
unpacked size + buffer offset)`; any other member rounds the stride up to a multiple of 16
if it is a structure, then rounds it up if `(stride mod 16) + unpacked size > 16`, then adds
the unpacked size; the result is rounded up to a multiple of 16. The members of the sizes
4, 4, 4, 16 are placed at 0, 4, 8, 16 with stride 32, and the sizes 4, 4, 4, 8, 4, 0x14, 4
give the stride 0x40. -/
theorem buffer_stride_is_reference_fold (K : effect_flag_bits) (A : annotations_parser_t)
    (P : Bool → record_parser_t d3d10_effect_variable)
    (create_variable_buffer : d3d10_effect_variable → HRESULT) (is_local : Bool)
    (data : List Nat) (ptr : Nat) (e : d3d10_effect) (hr : HRESULT) (ptr1 : Nat)
    (l : d3d10_effect_variable) (e1 : d3d10_effect)
    (h : parse_fx10_buffer K A P create_variable_buffer is_local data ptr e
      = (.ok hr, ptr1, l, e1))
    (hok : FAILED hr = false) (hfit : reference_stride K l.members < 2 ^ 32) :
    l.type.stride = reference_stride K l.members ∧
    l.type.size_unpacked = reference_stride K l.members ∧
    buffer_member_offsets example_flag_bits 0 ([4, 4, 4, 16].map (member_of_size false))
      = [0, 4, 8, 16] ∧
    buffer_stride example_flag_bits ([4, 4, 4, 16].map (member_of_size false)) = 32 ∧
    buffer_stride example_flag_bits
      ([0x4, 0x4, 0x4, 0x8, 0x4, 0x14, 0x4].map (member_of_size false)) = 0x40 := by
  obtain ⟨h1, h2⟩ := parse_fx10_buffer_stride K A P create_variable_buffer is_local data ptr e
    hr ptr1 l e1 h hok
  rw [h1, h2, buffer_stride_eq_reference K l.members hfit]
  exact ⟨rfl, rfl, by decide, by decide, by decide⟩

set_option maxRecDepth 100000 in
/-- **C11**, witness: the shared buffer with four members of the sizes 4, 4, 4 and 16 is
parsed from its record; its stride and unpacked size are the reference fold, 32. -/
theorem buffer_stride_is_reference_fold_witness :
    (parse_buffer_of_sizes [4, 4, 4, 16]).1 = .ok S_OK ∧
    (parse_buffer_of_sizes [4, 4, 4, 16]).2.2.1.type.stride = 32 ∧
    reference_stride example_flag_bits (parse_buffer_of_sizes [4, 4, 4, 16]).2.2.1.members = 32 ∧
    (parse_buffer_of_sizes [4, 4, 4, 16]).2.2.1.type.stride
      = reference_stride example_flag_bits (parse_buffer_of_sizes [4, 4, 4, 16]).2.2.1.members :=
  ⟨by rfl, by rfl, by rfl,
    (buffer_stride_is_reference_fold example_flag_bits example_annotations
      (parse_fx10_numeric_variable example_flag_bits example_type_getter example_annotations)
      (fun _ => S_OK) false (blob_buffer_of_sizes [4, 4, 4, 16]) 20 (d3d10_effect.create 0 none)
      S_OK (parse_buffer_of_sizes [4, 4, 4, 16]).2.1 (parse_buffer_of_sizes [4, 4, 4, 16]).2.2.1
      (parse_buffer_of_sizes [4, 4, 4, 16]).2.2.2 (by rfl) (by decide) (by decide)).1⟩

theorem parse_fx10_buffer_members_rounds (K : effect_flag_bits)
    (P : record_parser_t d3d10_effect_variable) (data : List Nat) :
    ∀ (n ptr : Nat) (s : buffer_members_state) (e : d3d10_effect) (hr : HRESULT) (ptr1 : Nat)
      (s1 : buffer_members_state) (e1 : d3d10_effect),
      parse_fx10_buffer_members K P data n ptr s e = (.ok hr, ptr1, s1, e1) →
      FAILED hr = false →
      s1.members.length = s.members.length + n ∧
      ∀ i, i ≤ n → ∃ hr_i ptr_i s_i e_i,
        parse_fx10_buffer_members K P data i ptr s e = (.ok hr_i, ptr_i, s_i, e_i) ∧
        FAILED hr_i = false ∧
        s_i.members = s1.members.take (s.members.length + i) := by
  intro n
  induction n with
  | zero =>
    intro ptr s e hr ptr1 s1 e1 h hok
    simp only [parse_fx10_buffer_members, Prod.mk.injEq] at h
    obtain ⟨_, _, rfl, _⟩ := h
    refine ⟨rfl, fun i hi => ?_⟩
    have : i = 0 := by omega
    subst this
    exact ⟨S_OK, ptr, s, e, rfl, by decide, by simp⟩
  | succ n ih =>
    intro ptr s e hr ptr1 s1 e1 h hok
    rw [parse_fx10_buffer_members] at h
    split at h
    · simp at h
    · rename_i hr0 ptr0 v e0 hparse
      split at h
      · rename_i hf
        simp only [Prod.mk.injEq, Except.ok.injEq] at h
        obtain ⟨rfl, _⟩ := h
        rw [hok] at hf
        exact absurd hf (by decide)
      · rename_i hf
        obtain ⟨hlen, hall⟩ := ih _ _ _ _ _ _ _ h hok
        simp only [List.length_append, List.length_singleton] at hlen hall
        refine ⟨by omega, fun i hi => ?_⟩
        cases i with
        | zero =>
          refine ⟨S_OK, ptr, s, e, rfl, by decide, ?_⟩
          obtain ⟨_, _, s_0, _, h0, _, hm⟩ := hall 0 (Nat.zero_le n)
          simp only [parse_fx10_buffer_members, Prod.mk.injEq] at h0
          obtain ⟨_, _, rfl, _⟩ := h0
          simp only [Nat.add_zero] at hm ⊢
          have := congrArg (List.take s.members.length) hm
          rw [List.take_take, Nat.min_eq_left (Nat.le_succ _)] at this
          rw [← this]
          simp
        | succ j =>
          obtain ⟨hr_j, ptr_j, s_j, e_j, hj, hfj, hm⟩ := hall j (by omega)
          have hrun : parse_fx10_buffer_members K P data (j + 1) ptr s e
              = (.ok hr_j, ptr_j, s_j, e_j) := by
            rw [parse_fx10_buffer_members, hparse]
            simp only
            rw [if_neg hf]
            exact hj
          refine ⟨hr_j, ptr_j, s_j, e_j, hrun, hfj, ?_⟩
          rw [hm]
          congr 1
          omega

theorem member_loop_round (K : effect_flag_bits)
    (P : record_parser_t d3d10_effect_variable) (data : List Nat) (n ptr : Nat)
    (e : d3d10_effect) (hr : HRESULT) (ptr1 : Nat) (s1 : buffer_members_state)
    (e1 : d3d10_effect)
    (h : parse_fx10_buffer_members K P data n ptr ⟨[], [], 0, 0⟩ e = (.ok hr, ptr1, s1, e1))
    (hok : FAILED hr = false) (i : Nat) (hi : i ≤ n) :
    (parse_fx10_buffer_members K P data i ptr ⟨[], [], 0, 0⟩ e).2.2.1.members
      = s1.members.take i ∧
    member_loop_stride K P data ptr e i = (s1.members.take i).foldl (buffer_stride_step K) 0 := by
  obtain ⟨-, hall⟩ := parse_fx10_buffer_members_rounds K P data n ptr _ e hr ptr1 s1 e1 h hok
  obtain ⟨hr_i, ptr_i, s_i, e_i, hrun, hf, hm⟩ := hall i hi
  have hs := parse_fx10_buffer_members_stride K P data i ptr _ e hr_i ptr_i s_i e_i hrun hf rfl
  unfold member_loop_stride
  rw [hrun]
  simp only [List.length_nil, Nat.zero_add] at hm
  rw [← hm]
  exact ⟨rfl, hs⟩

theorem read_dword_eq_ok_iff (data : List Nat) (p v q : Nat) :
    read_dword data p = .ok (v, q) ↔ p + 4 ≤ data.length ∧ v = dword_at data p ∧ q = p + 4 := by
  constructor
  · exact read_dword_eq_ok
  · rintro ⟨h1, rfl, rfl⟩
    simp [read_dword, h1]

theorem parse_fx10_buffer_member_loop (K : effect_flag_bits) (A : annotations_parser_t)
    (P : Bool → record_parser_t d3d10_effect_variable)
    (create_variable_buffer : d3d10_effect_variable → HRESULT) (is_local : Bool)
    (data : List Nat) (ptr : Nat) (e : d3d10_effect) (hr : HRESULT) (ptr1 : Nat)
    (l : d3d10_effect_variable) (e1 : d3d10_effect)
    (h : parse_fx10_buffer K A P create_variable_buffer is_local data ptr e
      = (.ok hr, ptr1, l, e1))
    (hok : FAILED hr = false) :
    ∃ n ptr0 e0 hr0 s,
      parse_fx10_buffer_members K (P is_local) data n ptr0 ⟨[], [], 0, 0⟩ e0
        = (.ok hr0, ptr1, s, e1) ∧
      FAILED hr0 = false ∧ l.members = s.members ∧ l.type.stride = stride_align s.stride ∧
      (is_local = false → ptr0 = ptr + 20 ∧ e0 = e) := by
  unfold parse_fx10_buffer at h
  simp only [] at h
  repeat' split at h
  all_goals first
    | (simp only [Prod.mk.injEq, Except.ok.injEq, reduceCtorEq, false_and] at h; done)
    | skip
  all_goals
    simp only [Prod.mk.injEq, Except.ok.injEq] at h
    obtain ⟨rfl, rfl, rfl, rfl⟩ := h
  all_goals first
    | exact absurd hok (by decide)
    | (simp only [hok, Bool.false_eq_true] at *; done)
    | skip
  all_goals
    refine ⟨_, _, _, _, _, by assumption,
      by simp only [Bool.not_eq_true] at *; assumption, rfl, rfl, ?_⟩
    intro hl
    simp only [read_dword_eq_ok_iff] at *
    subst hl
    simp_all

/-- **C12** (`parse_fx10_buffer`, member loop). When `parse_fx10_buffer` has parsed a
buffer whose members are all without explicit bind point, its member loop, entered at some
read position with an empty member list and the running stride 0 (for a shared buffer at
the position 20 bytes behind the start of the record), has run one round per member and
left the read position and the effect that the function returns; the stride of the buffer
type is the running stride after the last round, rounded up. The member `v` at index `i` is
the one that round `i` has parsed, and in this round the packing branch moves the running
stride to an offset `p` and then adds the unpacked size `s` of the member to it (in 32-bit
arithmetic): for `1 <= s <= 16`, `p div 16 = (p + s - 1) div 16`, so that the member does not
cross a 16-byte boundary, and for a structure `p` is a multiple of 16. -/
theorem member_loop_places_within_16_byte_part (K : effect_flag_bits)
    (A : annotations_parser_t) (P : Bool → record_parser_t d3d10_effect_variable)
    (create_variable_buffer : d3d10_effect_variable → HRESULT) (is_local : Bool)
    (data : List Nat) (ptr : Nat) (e : d3d10_effect) (hr : HRESULT) (ptr1 : Nat)
    (l : d3d10_effect_variable) (e1 : d3d10_effect)
    (h : parse_fx10_buffer K A P create_variable_buffer is_local data ptr e
      = (.ok hr, ptr1, l, e1))
    (hok : FAILED hr = false)
    (hne : ∀ m ∈ l.members, m.flag &&& K.D3D10_EFFECT_VARIABLE_EXPLICIT_BIND_POINT = 0) :
    ∃ ptr0 e0 hr0 s,
      parse_fx10_buffer_members K (P is_local) data l.members.length ptr0 ⟨[], [], 0, 0⟩ e0
        = (.ok hr0, ptr1, s, e1) ∧
      FAILED hr0 = false ∧ s.members = l.members ∧
      (is_local = false → ptr0 = ptr + 20 ∧ e0 = e) ∧
      l.type.stride
        = stride_align (member_loop_stride K (P is_local) data ptr0 e0 l.members.length) ∧
      member_loop_stride K (P is_local) data ptr0 e0 0 = 0 ∧
      ∀ (i : Nat) (v : d3d10_effect_variable), l.members[i]? = some v →
        (parse_fx10_buffer_members K (P is_local) data (i + 1) ptr0 ⟨[], [], 0, 0⟩
          e0).2.2.1.members = l.members.take i ++ [v] ∧
        ∃ p, p = buffer_member_offset (member_loop_stride K (P is_local) data ptr0 e0 i) v ∧
          member_loop_stride K (P is_local) data ptr0 e0 (i + 1)
            = (p + v.type.size_unpacked) % 2 ^ 32 ∧
          (1 ≤ v.type.size_unpacked ∧ v.type.size_unpacked ≤ 16 →
            p / 16 = (p + v.type.size_unpacked - 1) / 16) ∧
          (v.type.type_class = .STRUCT → p % 16 = 0) := by
  obtain ⟨n, ptr0, e0, hr0, s, hloop, hf, hmem, hstride, hstart⟩ :=
    parse_fx10_buffer_member_loop K A P create_variable_buffer is_local data ptr e hr ptr1 l e1
      h hok
  obtain ⟨hlen, -⟩ := parse_fx10_buffer_members_rounds K _ data n ptr0 _ e0 hr0 ptr1 s e1
    hloop hf
  simp only [List.length_nil, Nat.zero_add] at hlen
  have hn : l.members.length = n := by rw [hmem, hlen]
  refine ⟨ptr0, e0, hr0, s, by rw [hn]; exact hloop, hf, hmem.symm, hstart, ?_, rfl, ?_⟩
  · rw [hstride, hn, (member_loop_round K _ data n ptr0 e0 hr0 ptr1 s e1 hloop hf n
      (Nat.le_refl n)).2, ← hlen, List.take_length]
    congr 1
    exact (parse_fx10_buffer_members_stride K _ data n ptr0 _ e0 hr0 ptr1 s e1 hloop hf rfl)
  · intro i v hv
    have hi : i < n := by
      rw [← hn]
      by_contra hge
      rw [List.getElem?_eq_none (by omega)] at hv
      cases hv
    have hvs : s.members[i]? = some v := by rw [← hmem]; exact hv
    have h1 := (member_loop_round K _ data n ptr0 e0 hr0 ptr1 s e1 hloop hf i (by omega)).2
    have h2 := member_loop_round K _ data n ptr0 e0 hr0 ptr1 s e1 hloop hf (i + 1) (by omega)
    have htake : s.members.take (i + 1) = s.members.take i ++ [v] := by
      rw [List.take_succ, hvs]
      rfl
    have hflag := hne v (List.mem_iff_getElem?.mpr ⟨i, hv⟩)
    refine ⟨by rw [h2.1, htake, hmem], _, rfl, ?_, buffer_member_offset_aligned _ v⟩
    rw [h2.2, htake, List.foldl_append, List.foldl_cons, List.foldl_nil, ← h1, buffer_stride_step,
      if_neg (by rw [hflag]; simp)]

set_option maxRecDepth 100000 in
/-- **C12**, witness: the shared buffer with four members of the unpacked sizes 4, 4, 4 and
16 is parsed from its record, whose member records start at offset 40. The running stride
of the member loop is 0, 4, 8, 12 before the four rounds and 32 after the last one: the
fourth member does not fit behind offset 12, is placed at offset 16 and so lies inside the
second 16-byte part. -/
theorem member_loop_places_within_16_byte_part_witness :
    (parse_buffer_of_sizes [4, 4, 4, 16]).1 = .ok S_OK ∧
    (parse_buffer_of_sizes [4, 4, 4, 16]).2.2.1.members.map (fun v => v.type.size_unpacked)
      = [4, 4, 4, 16] ∧
    (List.range 5).map (member_loop_stride example_flag_bits
        (parse_fx10_numeric_variable example_flag_bits example_type_getter example_annotations
          false)
        (blob_buffer_of_sizes [4, 4, 4, 16]) 40 (d3d10_effect.create 0 none))
      = [0, 4, 8, 12, 32] ∧
    (parse_buffer_of_sizes [4, 4, 4, 16]).2.2.1.type.stride = 32 ∧
    ∃ v p, (parse_buffer_of_sizes [4, 4, 4, 16]).2.2.1.members[3]? = some v ∧
      v.type.size_unpacked = 16 ∧
      p = buffer_member_offset (member_loop_stride example_flag_bits
        (parse_fx10_numeric_variable example_flag_bits example_type_getter example_annotations
          false)
        (blob_buffer_of_sizes [4, 4, 4, 16]) 40 (d3d10_effect.create 0 none) 3) v ∧
      p = 16 ∧ p / 16 = (p + v.type.size_unpacked - 1) / 16 := by
  obtain ⟨ptr0, e0, hr0, s, -, -, -, hstart, -, -, hall⟩ :=
    member_loop_places_within_16_byte_part example_flag_bits example_annotations
      (parse_fx10_numeric_variable example_flag_bits example_type_getter example_annotations)
      (fun _ => S_OK) false (blob_buffer_of_sizes [4, 4, 4, 16]) 20 (d3d10_effect.create 0 none)
      S_OK (parse_buffer_of_sizes [4, 4, 4, 16]).2.1 (parse_buffer_of_sizes [4, 4, 4, 16]).2.2.1
      (parse_buffer_of_sizes [4, 4, 4, 16]).2.2.2 (by rfl) (by decide) (by decide)
  obtain ⟨rfl, rfl⟩ := hstart rfl
  refine ⟨by rfl, by rfl, by rfl, by rfl, ?_⟩
  obtain ⟨-, p, hp, -, h16, -⟩ := hall 3 _ (by rfl)
  exact ⟨_, p, by rfl, by rfl, hp, hp.trans (by rfl), h16 ⟨by decide, by decide⟩⟩

/-! ## Variable trees -/

theorem copy_variableinfo_elements_ok (element : Nat → Except Fault d3d10_effect_variable)
    (elementtype : Option d3d10_effect_type) (o stride : Nat) (ho : o < 2 ^ 32)
    (hel : ∀ bo, bo < 2 ^ 32 → ∃ var, element bo = .ok var ∧ var.buffer_offset = bo ∧
      some var.type = elementtype ∧ offsets_follow_type var) :
    ∀ (n i bo : Nat), (i = 0 → bo = o) → (i ≠ 0 → bo = (o + (i - 1) * stride) % 2 ^ 32) →
      ∃ es, copy_variableinfo_elements element stride n i bo = .ok es ∧ es.length = n ∧
        elements_follow_type o stride elementtype i es := by
  intro n
  induction n with
  | zero =>
    intro i bo _ _
    exact ⟨[], rfl, rfl, by rw [elements_follow_type]; trivial⟩
  | succ n ih =>
    intro i bo h0 h1
    have hb : (if i ≠ 0 then (bo + stride) % 2 ^ 32 else bo) = (o + i * stride) % 2 ^ 32 := by
      by_cases hi : i = 0
      · subst hi
        rw [if_neg (by simp), h0 rfl, Nat.zero_mul, Nat.add_zero, Nat.mod_eq_of_lt ho]
      · rw [if_pos hi, h1 hi, Nat.mod_add_mod]
        obtain ⟨j, rfl⟩ : ∃ j, i = j + 1 := ⟨i - 1, by omega⟩
        congr 1
        simp only [Nat.add_sub_cancel]
        ring
    rw [copy_variableinfo_elements]
    simp only [hb]
    obtain ⟨var, hv, hvo, hvt, hvf⟩ := hel ((o + i * stride) % 2 ^ 32) (Nat.mod_lt _ (by decide))
    obtain ⟨es, he, hlen, hf⟩ := ih (i + 1) ((o + i * stride) % 2 ^ 32) (by omega)
      (fun _ => by simp)
    rw [hv]
    simp only [he]
    refine ⟨var :: es, rfl, by simp [hlen], ?_⟩
    rw [elements_follow_type]
    exact ⟨hvo, hvt, hvf, hf⟩

mutual
theorem copy_variableinfo_ok : ∀ (t : d3d10_effect_type) (name semantic : Option cstring)
    (o : Nat), o < 2 ^ 32 → type_complete t →
    ∃ ms es, copy_variableinfo t name semantic o = .ok (ms, es) ∧
      members_follow_type o t.members ms ∧ es.length = t.element_count ∧
      elements_follow_type o t.stride t.elementtype 0 es
  | .mk _ _ _ _ element_count _ stride _ _ _ _ elementtype members, name, semantic, o, ho,
      hc => by
    rw [type_complete] at hc
    obtain ⟨ms, hm, hmf⟩ := copy_variableinfo_members_ok members o ho hc.2
    rw [copy_variableinfo, hm]
    by_cases h0 : element_count = 0
    · subst h0
      refine ⟨ms, [], by simp, hmf, rfl, ?_⟩
      rw [elements_follow_type]; trivial
    · obtain ⟨es, he, hlen, hf⟩ := copy_variableinfo_elements_ok
        (copy_variableinfo_element elementtype name semantic) elementtype o stride ho
        (copy_variableinfo_element_ok elementtype name semantic element_count h0 hc.1)
        element_count 0 o (fun _ => rfl) (fun h => absurd rfl h)
      refine ⟨ms, es, ?_, hmf, hlen, hf⟩
      simp only [h0, if_false, he]
theorem copy_variableinfo_element_ok : ∀ (elementtype : Option d3d10_effect_type)
    (name semantic : Option cstring) (element_count : Nat), element_count ≠ 0 →
    element_type_complete element_count elementtype →
    ∀ bo, bo < 2 ^ 32 → ∃ var, copy_variableinfo_element elementtype name semantic bo = .ok var ∧
      var.buffer_offset = bo ∧ some var.type = elementtype ∧ offsets_follow_type var
  | none, _, _, element_count, h0, hc => by
    rw [element_type_complete] at hc
    exact absurd hc h0
  | some et, name, semantic, _, _, hc => by
    intro bo hbo
    rw [element_type_complete] at hc
    obtain ⟨ms, es, h, hmf, hlen, hef⟩ := copy_variableinfo_ok et name semantic bo hbo hc
    rw [copy_variableinfo_element, h]
    refine ⟨_, rfl, rfl, rfl, ?_⟩
    rw [offsets_follow_type]
    exact ⟨hmf, hlen, hef⟩
theorem copy_variableinfo_members_ok : ∀ (typems : List d3d10_effect_type_member) (o : Nat),
    o < 2 ^ 32 → type_members_complete typems →
    ∃ ms, copy_variableinfo_members typems o = .ok ms ∧ members_follow_type o typems ms
  | [], o, _, _ => ⟨[], by rw [copy_variableinfo_members], by rw [members_follow_type]; trivial⟩
  | .mk name semantic offset type :: rest, o, ho, hc => by
    rw [type_members_complete] at hc
    obtain ⟨ms, es, h, hmf, hlen, hef⟩ := copy_variableinfo_ok type name semantic
      ((o + offset) % 2 ^ 32) (Nat.mod_lt _ (by decide)) hc.1
    obtain ⟨vars, hr, hrf⟩ := copy_variableinfo_members_ok rest o ho hc.2
    rw [copy_variableinfo_members, h]
    simp only [hr]
    refine ⟨_, rfl, ?_⟩
    rw [members_follow_type]
    refine ⟨rfl, rfl, ?_, hrf⟩
    rw [offsets_follow_type]
    exact ⟨hmf, hlen, hef⟩
end

theorem update_buffer_offsets_buffer_offset (v : d3d10_effect_variable) (B : Nat) :
    (d3d10_effect_variable_update_buffer_offsets v B).buffer_offset
      = (v.buffer_offset + B) % 2 ^ 32 := by
  cases v; rw [d3d10_effect_variable_update_buffer_offsets]; rfl

theorem update_buffer_offsets_type (v : d3d10_effect_variable) (B : Nat) :
    (d3d10_effect_variable_update_buffer_offsets v B).type = v.type := by
  cases v; rw [d3d10_effect_variable_update_buffer_offsets]; rfl

theorem update_buffer_offsets_all_length :
    ∀ (vars : List d3d10_effect_variable) (B : Nat),
      (update_buffer_offsets_all vars B).length = vars.length
  | [], _ => by rw [update_buffer_offsets_all]
  | _ :: rest, B => by
    rw [update_buffer_offsets_all, List.length_cons, List.length_cons,
      update_buffer_offsets_all_length rest B]

mutual
theorem update_offsets_follow : ∀ (v : d3d10_effect_variable) (B : Nat),
    offsets_follow_type v →
    offsets_follow_type (d3d10_effect_variable_update_buffer_offsets v B)
  | .mk _ _ _ type _ o _ _ _ members elements, B, h => by
    rw [offsets_follow_type] at h
    rw [d3d10_effect_variable_update_buffer_offsets, offsets_follow_type]
    refine ⟨update_members_follow members type.members o B h.1, ?_,
      update_elements_follow elements o type.stride type.elementtype 0 B h.2.2⟩
    rw [update_buffer_offsets_all_length]; exact h.2.1
theorem update_members_follow : ∀ (vars : List d3d10_effect_variable)
    (typems : List d3d10_effect_type_member) (o B : Nat), members_follow_type o typems vars →
    members_follow_type ((o + B) % 2 ^ 32) typems (update_buffer_offsets_all vars B)
  | [], [], _, _, _ => by rw [update_buffer_offsets_all, members_follow_type]; trivial
  | [], _ :: _, _, _, h => by rw [members_follow_type] at h; exact h.elim
  | _ :: _, [], _, _, h => by rw [members_follow_type] at h; exact h.elim
  | var :: vars, typem :: typems, o, B, h => by
    rw [members_follow_type] at h
    rw [update_buffer_offsets_all, members_follow_type]
    refine ⟨?_, ?_, update_offsets_follow var B h.2.2.1,
      update_members_follow vars typems o B h.2.2.2⟩
    · rw [update_buffer_offsets_buffer_offset, h.1]; omega
    · rw [update_buffer_offsets_type]; exact h.2.1
theorem update_elements_follow : ∀ (vars : List d3d10_effect_variable) (o stride : Nat)
    (elementtype : Option d3d10_effect_type) (i B : Nat),
    elements_follow_type o stride elementtype i vars →
    elements_follow_type ((o + B) % 2 ^ 32) stride elementtype i
      (update_buffer_offsets_all vars B)
  | [], _, _, _, _, _, _ => by rw [update_buffer_offsets_all, elements_follow_type]; trivial
  | var :: vars, o, stride, elementtype, i, B, h => by
    rw [elements_follow_type] at h
    rw [update_buffer_offsets_all, elements_follow_type]
    refine ⟨?_, ?_, update_offsets_follow var B h.2.2.1,
      update_elements_follow vars o stride elementtype (i + 1) B h.2.2.2⟩
    · rw [update_buffer_offsets_buffer_offset, h.1]
      generalize i * stride = k
      omega
    · rw [update_buffer_offsets_type]; exact h.2.1
end

mutual
theorem update_tree_buffer_offsets : ∀ (v : d3d10_effect_variable) (B : Nat),
    tree_buffer_offsets (d3d10_effect_variable_update_buffer_offsets v B)
      = (tree_buffer_offsets v).map fun o => (o + B) % 2 ^ 32
  | .mk _ _ _ _ _ o _ _ _ members elements, B => by
    rw [d3d10_effect_variable_update_buffer_offsets, tree_buffer_offsets, tree_buffer_offsets,
      update_tree_buffer_offsets_all members B, update_tree_buffer_offsets_all elements B]
    simp only [List.map_cons, List.map_append]
theorem update_tree_buffer_offsets_all : ∀ (vars : List d3d10_effect_variable) (B : Nat),
    tree_buffer_offsets_all (update_buffer_offsets_all vars B)
      = (tree_buffer_offsets_all vars).map fun o => (o + B) % 2 ^ 32
  | [], _ => by rw [update_buffer_offsets_all, tree_buffer_offsets_all]; rfl
  | v :: rest, B => by
    rw [update_buffer_offsets_all, tree_buffer_offsets_all, tree_buffer_offsets_all,
      update_tree_buffer_offsets v B, update_tree_buffer_offsets_all rest B, List.map_append]
end

theorem copy_variableinfo_from_type_ok (v : d3d10_effect_variable)
    (ho : v.buffer_offset < 2 ^ 32) (hc : type_complete v.type) :
    ∃ v1, copy_variableinfo_from_type v = .ok (S_OK, v1) ∧ offsets_follow_type v1 ∧
      v1.buffer_offset = v.buffer_offset ∧ v1.type = v.type := by
  cases v with
  | mk k n s t f o e d a m el =>
    obtain ⟨ms, es, h, hmf, hlen, hef⟩ := copy_variableinfo_ok t n s o ho hc
    rw [copy_variableinfo_from_type, h]
    refine ⟨_, rfl, ?_, rfl, rfl⟩
    rw [offsets_follow_type]
    exact ⟨hmf, hlen, hef⟩

theorem dword_at_lt (data : List Nat) (p : Nat) : dword_at data p < 2 ^ 32 := by
  unfold dword_at byte_at
  omega

theorem offsets_follow_set_semantic_flags (v : d3d10_effect_variable) (s : Option cstring)
    (f : Nat) : offsets_follow_type (v.set_semantic_flags s f) ↔ offsets_follow_type v := by
  cases v
  rw [d3d10_effect_variable.set_semantic_flags, offsets_follow_type, offsets_follow_type]

theorem offsets_follow_set_annotations (v : d3d10_effect_variable)
    (a : List d3d10_effect_variable) :
    offsets_follow_type (v.set_annotations a) ↔ offsets_follow_type v := by
  cases v
  rw [d3d10_effect_variable.set_annotations, offsets_follow_type, offsets_follow_type]

theorem offsets_follow_set_explicit_bind_point (K : effect_flag_bits)
    (v : d3d10_effect_variable) :
    offsets_follow_type (v.set_explicit_bind_point K) ↔ offsets_follow_type v := by
  cases v
  rw [d3d10_effect_variable.set_explicit_bind_point]
  split
  · rw [offsets_follow_type, offsets_follow_type]
  · exact Iff.rfl

theorem buffer_offset_set_semantic_flags (v : d3d10_effect_variable) (s : Option cstring)
    (f : Nat) : (v.set_semantic_flags s f).buffer_offset = v.buffer_offset := by
  cases v; rfl

theorem buffer_offset_set_annotations (v : d3d10_effect_variable)
    (a : List d3d10_effect_variable) : (v.set_annotations a).buffer_offset = v.buffer_offset := by
  cases v; rfl

theorem buffer_offset_set_explicit_bind_point (K : effect_flag_bits)
    (v : d3d10_effect_variable) :
    (v.set_explicit_bind_point K).buffer_offset = v.buffer_offset := by
  cases v
  rw [d3d10_effect_variable.set_explicit_bind_point]
  split <;> rfl

/-- What `parse_fx10_variable_head` returns on success: the read position has advanced by
two words and the tree of the variable, whose own buffer offset is 0, follows its type. -/
theorem parse_fx10_variable_head_ok (K : effect_flag_bits) (G : type_getter_t)
    (hG : ∀ data offset e t e1, G data offset e = (some t, e1) → type_complete t)
    (data : List Nat) (ptr : Nat) (e : d3d10_effect) (hr : HRESULT) (ptr1 : Nat)
    (v : d3d10_effect_variable) (e1 : d3d10_effect)
    (h : parse_fx10_variable_head K G data ptr e = (.ok hr, ptr1, v, e1))
    (hok : FAILED hr = false) :
    ptr1 = ptr + 8 ∧ v.buffer_offset = 0 ∧ offsets_follow_type v := by
  unfold parse_fx10_variable_head at h
  simp only [] at h
  split at h
  · simp at h
  · rename_i offset p1 h1
    obtain ⟨-, -, rfl⟩ := read_dword_eq_ok h1
    split at h
    · simp only [Prod.mk.injEq, Except.ok.injEq] at h
      obtain ⟨rfl, -⟩ := h
      exact absurd hok (by decide)
    · split at h
      · simp at h
      · rename_i offset1 p2 h2
        obtain ⟨-, -, rfl⟩ := read_dword_eq_ok h2
        split at h
        · simp only [Prod.mk.injEq, Except.ok.injEq] at h
          obtain ⟨rfl, -⟩ := h
          exact absurd hok (by decide)
        · rename_i t e2 hg
          have hc := hG _ _ _ _ _ hg
          obtain ⟨v1, hv1, hf, ho, -⟩ := copy_variableinfo_from_type_ok
            (.mk (set_variable_vtbl t) ‹Option cstring› none t
              (if e2.flags &&& K.D3D10_EFFECT_IS_POOL ≠ 0 then K.D3D10_EFFECT_VARIABLE_POOLED
                else 0) 0 0xffffffff 0 [] [] [])
            (by show (0 : Nat) < 2 ^ 32; decide) hc
          rw [hv1] at h
          simp only [Prod.mk.injEq, Except.ok.injEq] at h
          obtain ⟨-, rfl, rfl, -⟩ := h
          exact ⟨by omega, ho, hf⟩

theorem tree_offsets_set_semantic_flags (v : d3d10_effect_variable) (s : Option cstring)
    (f : Nat) : tree_buffer_offsets (v.set_semantic_flags s f) = tree_buffer_offsets v := by
  cases v
  rw [d3d10_effect_variable.set_semantic_flags, tree_buffer_offsets, tree_buffer_offsets]

theorem tree_offsets_set_annotations (v : d3d10_effect_variable)
    (a : List d3d10_effect_variable) :
    tree_buffer_offsets (v.set_annotations a) = tree_buffer_offsets v := by
  cases v
  rw [d3d10_effect_variable.set_annotations, tree_buffer_offsets, tree_buffer_offsets]

theorem tree_offsets_set_explicit_bind_point (K : effect_flag_bits)
    (v : d3d10_effect_variable) :
    tree_buffer_offsets (v.set_explicit_bind_point K) = tree_buffer_offsets v := by
  cases v
  rw [d3d10_effect_variable.set_explicit_bind_point]
  split
  · rw [tree_buffer_offsets, tree_buffer_offsets]
  · rfl

/-- What `parse_fx10_numeric_variable` returns on success, in terms of the variable `v0`
that `parse_fx10_variable_head` returned. -/
theorem parse_fx10_numeric_variable_ok (K : effect_flag_bits) (G : type_getter_t)
    (A : annotations_parser_t) (is_local : Bool)
    (hG : ∀ data offset e t e1, G data offset e = (some t, e1) → type_complete t)
    (data : List Nat) (ptr : Nat) (e : d3d10_effect) (hr : HRESULT) (ptr1 : Nat)
    (v : d3d10_effect_variable) (e1 : d3d10_effect)
    (h : parse_fx10_numeric_variable K G A is_local data ptr e = (.ok hr, ptr1, v, e1))
    (hok : FAILED hr = false) :
    ∃ hr0 v0 e0, parse_fx10_variable_head K G data ptr e = (.ok hr0, ptr + 8, v0, e0) ∧
      v0.buffer_offset = 0 ∧ offsets_follow_type v0 ∧
      v.buffer_offset = dword_at data (ptr + 12) ∧ offsets_follow_type v ∧
      tree_buffer_offsets v
        = (tree_buffer_offsets v0).map fun o => (o + dword_at data (ptr + 12)) % 2 ^ 32 := by
  unfold parse_fx10_numeric_variable at h
  simp only [] at h
  split at h
  · simp at h
  · rename_i hr0 p1 v0 e0 hh
    split at h
    · rename_i hf
      simp only [Prod.mk.injEq, Except.ok.injEq] at h
      obtain ⟨rfl, -⟩ := h
      rw [hok] at hf; exact absurd hf (by decide)
    · rename_i hnf
      obtain ⟨rfl, hv0, hf0⟩ := parse_fx10_variable_head_ok K G hG data ptr e hr0 p1 v0 e0 hh
        (by simpa using hnf)
      refine ⟨hr0, v0, e0, hh, hv0, hf0, ?_⟩
      have key : ∀ (sem : Option cstring) (flags : Nat),
          (d3d10_effect_variable_update_buffer_offsets (v0.set_semantic_flags sem flags)
              (dword_at data (ptr + 8 + 4))).buffer_offset = dword_at data (ptr + 12) ∧
          offsets_follow_type (d3d10_effect_variable_update_buffer_offsets
            (v0.set_semantic_flags sem flags) (dword_at data (ptr + 8 + 4))) ∧
          tree_buffer_offsets (d3d10_effect_variable_update_buffer_offsets
              (v0.set_semantic_flags sem flags) (dword_at data (ptr + 8 + 4)))
            = (tree_buffer_offsets v0).map fun o => (o + dword_at data (ptr + 12)) % 2 ^ 32 := by
        intro sem flags
        have e12 : ptr + 8 + 4 = ptr + 12 := by omega
        rw [e12]
        refine ⟨?_, ?_, ?_⟩
        · rw [update_buffer_offsets_buffer_offset, buffer_offset_set_semantic_flags, hv0,
            Nat.zero_add, Nat.mod_eq_of_lt (dword_at_lt _ _)]
        · exact update_offsets_follow _ _ ((offsets_follow_set_semantic_flags _ _ _).2 hf0)
        · rw [update_tree_buffer_offsets, tree_offsets_set_semantic_flags]
      split at h
      · simp at h
      · rename_i offset p2 h2
        obtain ⟨-, -, rfl⟩ := read_dword_eq_ok h2
        split at h
        · simp only [Prod.mk.injEq, Except.ok.injEq] at h
          obtain ⟨rfl, -⟩ := h
          exact absurd hok (by decide)
        · rename_i sem hsem
          split at h
          · simp at h
          · rename_i B p3 h3
            obtain ⟨-, rfl, rfl⟩ := read_dword_eq_ok h3
            split at h
            · simp at h
            · rename_i dv p4 h4
              obtain ⟨-, -, rfl⟩ := read_dword_eq_ok h4
              split at h
              · simp at h
              · rename_i flags p5 h5
                obtain ⟨-, -, rfl⟩ := read_dword_eq_ok h5
                obtain ⟨k1, k2, k3⟩ := key sem flags
                split at h
                · split at h
                  · simp at h
                  · split at h
                    · simp at h
                    · split at h
                      · rename_i hf
                        simp only [Prod.mk.injEq, Except.ok.injEq] at h
                        obtain ⟨rfl, -⟩ := h
                        rw [hok] at hf; exact absurd hf (by decide)
                      · simp only [Prod.mk.injEq, Except.ok.injEq] at h
                        obtain ⟨-, -, rfl, -⟩ := h
                        refine ⟨?_, ?_, ?_⟩
                        · rw [buffer_offset_set_explicit_bind_point,
                            buffer_offset_set_annotations]; exact k1
                        · exact (offsets_follow_set_explicit_bind_point _ _).2
                            ((offsets_follow_set_annotations _ _).2 k2)
                        · rw [tree_offsets_set_explicit_bind_point,
                            tree_offsets_set_annotations]; exact k3
                · simp only [Prod.mk.injEq, Except.ok.injEq] at h
                  obtain ⟨-, -, rfl, -⟩ := h
                  refine ⟨?_, ?_, ?_⟩
                  · rw [buffer_offset_set_explicit_bind_point]; exact k1
                  · exact (offsets_follow_set_explicit_bind_point _ _).2 k2
                  · rw [tree_offsets_set_explicit_bind_point]; exact k3

theorem members_follow_type_getElem (o : Nat) :
    ∀ (typems : List d3d10_effect_type_member) (vars : List d3d10_effect_variable) (i : Nat)
      (m : d3d10_effect_variable), members_follow_type o typems vars → vars[i]? = some m →
      ∃ typem, typems[i]? = some typem ∧
        m.buffer_offset = (o + typem.buffer_offset) % 2 ^ 32 ∧ m.type = typem.type ∧
        offsets_follow_type m
  | [], [], _, _, _, hm => by simp at hm
  | [], _ :: _, _, _, h, _ => by rw [members_follow_type] at h; exact h.elim
  | _ :: _, [], _, _, _, hm => by simp at hm
  | typem :: typems, var :: vars, 0, m, h, hm => by
    rw [members_follow_type] at h
    simp only [List.getElem?_cons_zero, Option.some.injEq] at hm
    subst hm
    exact ⟨typem, by simp, h.1, h.2.1, h.2.2.1⟩
  | typem :: typems, var :: vars, i + 1, m, h, hm => by
    rw [members_follow_type] at h
    simp only [List.getElem?_cons_succ] at hm ⊢
    exact members_follow_type_getElem o typems vars i m h.2.2.2 hm

theorem members_follow_type_length (o : Nat) :
    ∀ (typems : List d3d10_effect_type_member) (vars : List d3d10_effect_variable),
      members_follow_type o typems vars → vars.length = typems.length
  | [], [], _ => rfl
  | [], _ :: _, h => by rw [members_follow_type] at h; exact h.elim
  | _ :: _, [], h => by rw [members_follow_type] at h; exact h.elim
  | _ :: typems, _ :: vars, h => by
    rw [members_follow_type] at h
    rw [List.length_cons, List.length_cons, members_follow_type_length o typems vars h.2.2.2]

theorem elements_follow_type_getElem (o stride : Nat) (elementtype : Option d3d10_effect_type) :
    ∀ (vars : List d3d10_effect_variable) (i0 j : Nat) (el : d3d10_effect_variable),
      elements_follow_type o stride elementtype i0 vars → vars[j]? = some el →
      el.buffer_offset = (o + (i0 + j) * stride) % 2 ^ 32 ∧ some el.type = elementtype ∧
        offsets_follow_type el
  | [], _, _, _, _, hm => by simp at hm
  | var :: vars, i0, 0, el, h, hm => by
    rw [elements_follow_type] at h
    simp only [List.getElem?_cons_zero, Option.some.injEq] at hm
    subst hm
    exact ⟨h.1, h.2.1, h.2.2.1⟩
  | var :: vars, i0, j + 1, el, h, hm => by
    rw [elements_follow_type] at h
    simp only [List.getElem?_cons_succ] at hm
    have := elements_follow_type_getElem o stride elementtype vars (i0 + 1) j el h.2.2.2 hm
    have e : i0 + 1 + j = i0 + (j + 1) := by omega
    rw [e] at this
    exact this

theorem offsets_follow_type_index (v : d3d10_effect_variable) (h : offsets_follow_type v) :
    v.members.length = v.type.member_count ∧ v.elements.length = v.type.element_count ∧
    (∀ (i : Nat) (m : d3d10_effect_variable), v.members[i]? = some m → ∃ typem : d3d10_effect_type_member,
      v.type.members[i]? = some typem ∧
      m.buffer_offset = (v.buffer_offset + typem.buffer_offset) % 2 ^ 32 ∧
      m.type = typem.type ∧ offsets_follow_type m) ∧
    (∀ (i : Nat) (el : d3d10_effect_variable), v.elements[i]? = some el →
      el.buffer_offset = (v.buffer_offset + i * v.type.stride) % 2 ^ 32 ∧
      some el.type = v.type.elementtype ∧ offsets_follow_type el) := by
  cases v with
  | mk k n s t f o e d a ms es =>
    rw [offsets_follow_type] at h
    refine ⟨?_, h.2.1, fun i m hm => members_follow_type_getElem o _ _ i m h.1 hm, ?_⟩
    · exact members_follow_type_length o _ _ h.1
    · intro i el hel
      have := elements_follow_type_getElem o t.stride t.elementtype es 0 i el h.2.2 hel
      rw [Nat.zero_add] at this
      exact this

/-- **C13**. After `parse_fx10_numeric_variable` has parsed a buffer member whose record
holds the buffer offset `B` (the word at `ptr + 12`), the variable has the buffer offset
`B` and its tree follows its type at every depth: member `k` has the type of type member
`k` and the buffer offset `parent offset + in-struct offset`, there are `element_count`
elements, element `i` has the single element type of the array type and the buffer offset
`parent offset + i * stride`, all modulo 2^32. The tree was built by
`copy_variableinfo_from_type` at offset 0 and `d3d10_effect_variable_update_buffer_offsets`
added `B` to the offset of every node exactly once. -/
theorem variable_tree_buffer_offsets (K : effect_flag_bits) (G : type_getter_t)
    (A : annotations_parser_t) (is_local : Bool)
    (hG : ∀ data offset e t e1, G data offset e = (some t, e1) → type_complete t)
    (data : List Nat) (ptr : Nat) (e : d3d10_effect) (hr : HRESULT) (ptr1 : Nat)
    (v : d3d10_effect_variable) (e1 : d3d10_effect)
    (h : parse_fx10_numeric_variable K G A is_local data ptr e = (.ok hr, ptr1, v, e1))
    (hok : FAILED hr = false) :
    v.buffer_offset = dword_at data (ptr + 12) ∧ offsets_follow_type v ∧
    (∃ hr0 v0 e0, parse_fx10_variable_head K G data ptr e = (.ok hr0, ptr + 8, v0, e0) ∧
      v0.buffer_offset = 0 ∧ offsets_follow_type v0 ∧
      tree_buffer_offsets v
        = (tree_buffer_offsets v0).map fun o => (o + dword_at data (ptr + 12)) % 2 ^ 32) ∧
    (∀ w : d3d10_effect_variable, offsets_follow_type w →
      w.members.length = w.type.member_count ∧ w.elements.length = w.type.element_count ∧
      (∀ (i : Nat) (m : d3d10_effect_variable), w.members[i]? = some m → ∃ typem : d3d10_effect_type_member,
        w.type.members[i]? = some typem ∧
        m.buffer_offset = (w.buffer_offset + typem.buffer_offset) % 2 ^ 32 ∧
        m.type = typem.type ∧ offsets_follow_type m) ∧
      (∀ (i : Nat) (el : d3d10_effect_variable), w.elements[i]? = some el →
        el.buffer_offset = (w.buffer_offset + i * w.type.stride) % 2 ^ 32 ∧
        some el.type = w.type.elementtype ∧ offsets_follow_type el)) ∧
    (∀ (w : d3d10_effect_variable) (B : Nat),
      tree_buffer_offsets (d3d10_effect_variable_update_buffer_offsets w B)
        = (tree_buffer_offsets w).map (fun o => (o + B) % 2 ^ 32) ∧
      (offsets_follow_type w →
        offsets_follow_type (d3d10_effect_variable_update_buffer_offsets w B))) ∧
    (∀ w : d3d10_effect_variable, w.buffer_offset < 2 ^ 32 → type_complete w.type →
      ∃ w1, copy_variableinfo_from_type w = .ok (S_OK, w1) ∧ offsets_follow_type w1 ∧
        w1.buffer_offset = w.buffer_offset ∧ w1.type = w.type) := by
  obtain ⟨hr0, v0, e0, hh, hv0, hf0, hb, hf, ht⟩ :=
    parse_fx10_numeric_variable_ok K G A is_local hG data ptr e hr ptr1 v e1 h hok
  exact ⟨hb, hf, ⟨hr0, v0, e0, hh, hv0, hf0, ht⟩, offsets_follow_type_index,
    fun w B => ⟨update_tree_buffer_offsets w B, update_offsets_follow w B⟩,
    copy_variableinfo_from_type_ok⟩

theorem struct_array_getter_complete :
    ∀ data offset e t e1, struct_array_getter data offset e = (some t, e1) → type_complete t := by
  intro data offset e t e1 h
  simp only [struct_array_getter, Prod.mk.injEq, Option.some.injEq] at h
  obtain ⟨rfl, -⟩ := h
  simp [struct_type, float_type, float2_type, type_complete, element_type_complete,
    type_members_complete]

set_option maxRecDepth 100000 in
/-- **C13**, witness: the member `v` of the example record is an array of two structures
with stride 32 at buffer offset 64. Its nodes (the variable, its two members, then the two
elements each followed by its members) have the buffer offsets 64, 64, 80, 64, 64, 80, 96,
96 and 112. -/
theorem variable_tree_buffer_offsets_witness :
    (parse_fx10_numeric_variable example_flag_bits struct_array_getter example_annotations
      false blob_struct_array_member 4 (d3d10_effect.create 0 none)).1 = .ok S_OK ∧
    tree_buffer_offsets (parse_fx10_numeric_variable example_flag_bits struct_array_getter
      example_annotations false blob_struct_array_member 4 (d3d10_effect.create 0 none)).2.2.1
      = [64, 64, 80, 64, 64, 80, 96, 96, 112] ∧
    offsets_follow_type (parse_fx10_numeric_variable example_flag_bits struct_array_getter
      example_annotations false blob_struct_array_member 4 (d3d10_effect.create 0 none)).2.2.1 :=
  ⟨by rfl, by rfl,
    (variable_tree_buffer_offsets example_flag_bits struct_array_getter example_annotations
      false struct_array_getter_complete blob_struct_array_member 4 (d3d10_effect.create 0 none)
      S_OK _ _ _ (by rfl) (by decide)).2.1⟩

/-! ## Typed access to the backing store -/

/-- The conversions between `int` and `float` on some values: -1, 1, two values that need
rounding (2^24 + 1 is a tie and rounds to even, 2^24 + 3 rounds up), the limits of `int`,
3.14159274 (truncated to 3), 2^31 (out of range) and a NaN. -/
theorem cast_examples :
    cast_int_to_float (-1) = 0xbf800000 ∧ cast_int_to_float 1 = 0x3f800000 ∧
    cast_int_to_float 16777217 = 0x4b800000 ∧ cast_int_to_float 16777219 = 0x4b800002 ∧
    cast_int_to_float (-2147483648) = 0xcf000000 ∧ cast_int_to_float 2147483647 = 0x4f000000 ∧
    cast_float_to_int 0xbf800000 = .ok (-1) ∧ cast_float_to_int 0xcf000000 = .ok (-2147483648) ∧
    cast_float_to_int 0x40490fdb = .ok 3 ∧ cast_float_to_int 0x4f000000 = .error .float_to_int ∧
    cast_float_to_int 0x7fc00000 = .error .float_to_int := by
  refine ⟨by decide, by decide, by decide, by decide, by decide, by decide, by decide,
    by decide, by decide, by decide, by decide⟩

theorem le32_length (w : Nat) : (le32 w).length = 4 := rfl

theorem store_dword_eq_ok {data : List Nat} {p w : Nat} {data1 : List Nat}
    (h : store_dword data p w = .ok data1) :
    p + 4 ≤ data.length ∧ data1 = data.take p ++ le32 w ++ data.drop (p + 4) := by
  unfold store_dword at h
  split at h
  · rename_i hb
    simp only [Except.ok.injEq] at h
    exact ⟨hb, h.symm⟩
  · simp at h

theorem store_dword_ok (data : List Nat) (p w : Nat) (h : p + 4 ≤ data.length) :
    store_dword data p w = .ok (data.take p ++ le32 w ++ data.drop (p + 4)) := by
  unfold store_dword
  rw [if_pos h]

theorem store_dword_length {data : List Nat} {p w : Nat} {data1 : List Nat}
    (h : store_dword data p w = .ok data1) : data1.length = data.length := by
  obtain ⟨hb, rfl⟩ := store_dword_eq_ok h
  simp only [List.length_append, List.length_take, List.length_drop, le32_length]
  omega

theorem store_dword_other {data : List Nat} {p w : Nat} {data1 : List Nat}
    (h : store_dword data p w = .ok data1) (b : Nat) (hb : b < p ∨ p + 4 ≤ b) :
    data1[b]? = data[b]? := by
  obtain ⟨hp, rfl⟩ := store_dword_eq_ok h
  rcases hb with hb | hb
  · rw [List.append_assoc, List.getElem?_append_left (by simp; omega), List.getElem?_take]
    simp [hb]
  · rw [List.getElem?_append_right (by simp [le32_length]; omega), List.getElem?_drop]
    simp only [List.length_append, List.length_take, le32_length]
    congr 1
    omega

theorem store_dword_same {data : List Nat} {p w : Nat} {data1 : List Nat}
    (h : store_dword data p w = .ok data1) : dword_at data1 p = w % 2 ^ 32 := by
  obtain ⟨hp, rfl⟩ := store_dword_eq_ok h
  have hl : (data.take p).length = p := by simp; omega
  have hk : ∀ k, k < 4 →
      (data.take p ++ le32 w ++ data.drop (p + 4)).getD (p + k) 0 = (le32 w).getD k 0 := by
    intro k hk
    rw [List.getD_eq_getElem?_getD, List.getD_eq_getElem?_getD, List.append_assoc,
      List.getElem?_append_right (by omega), hl, Nat.add_sub_cancel_left,
      List.getElem?_append_left (by rw [le32_length]; exact hk)]
  unfold dword_at byte_at
  have h0 : (data.take p ++ le32 w ++ data.drop (p + 4)).getD p 0 = (le32 w).getD 0 0 :=
    hk 0 (by decide)
  rw [h0, hk 1 (by decide), hk 2 (by decide), hk 3 (by decide)]
  simp only [le32, List.getD_cons_zero, List.getD_cons_succ]
  omega

theorem dword_at_congr (a b : List Nat) (q : Nat) (h : ∀ k, k < 4 → a[q + k]? = b[q + k]?) :
    dword_at a q = dword_at b q := by
  unfold dword_at byte_at
  have h0 : a[q]? = b[q]? := h 0 (by decide)
  simp only [List.getD_eq_getElem?_getD, h0, h 1 (by decide), h 2 (by decide), h 3 (by decide)]

theorem apply_stores_append (l1 l2 : List (Nat × Nat)) :
    ∀ dst, apply_stores (l1 ++ l2) dst =
      match apply_stores l1 dst with
      | .error f => .error f
      | .ok dst1 => apply_stores l2 dst1 := by
  induction l1 with
  | nil => intro dst; rfl
  | cons x rest ih =>
    intro dst
    obtain ⟨p, w⟩ := x
    simp only [List.cons_append, apply_stores]
    cases store_dword dst p w with
    | error f => rfl
    | ok dst1 => exact ih dst1

theorem apply_stores_ok (l : List (Nat × Nat)) :
    ∀ dst : List Nat, (∀ x ∈ l, x.1 + 4 ≤ dst.length) →
      ∃ dst1, apply_stores l dst = .ok dst1 ∧ dst1.length = dst.length ∧
        (∀ b, (∀ x ∈ l, b < x.1 ∨ x.1 + 4 ≤ b) → dst1[b]? = dst[b]?) ∧
        (∀ x ∈ l, (∀ y ∈ l, y = x ∨ x.1 + 4 ≤ y.1 ∨ y.1 + 4 ≤ x.1) →
          dword_at dst1 x.1 = x.2 % 2 ^ 32) := by
  induction l with
  | nil =>
    intro dst _
    exact ⟨dst, rfl, rfl, fun _ _ => rfl, fun x hx => absurd hx (List.not_mem_nil x)⟩
  | cons x rest ih =>
    intro dst hb
    obtain ⟨p, w⟩ := x
    have hp : p + 4 ≤ dst.length := hb (p, w) (List.mem_cons_self _ _)
    have hs := store_dword_ok dst p w hp
    have hl := store_dword_length hs
    obtain ⟨dst1, h1, hlen, hframe, hval⟩ := ih (dst.take p ++ le32 w ++ dst.drop (p + 4))
      (fun y hy => by rw [hl]; exact hb y (List.mem_cons_of_mem _ hy))
    refine ⟨dst1, by rw [apply_stores, hs]; exact h1, by rw [hlen, hl], ?_, ?_⟩
    · intro b hfree
      rw [hframe b (fun y hy => hfree y (List.mem_cons_of_mem _ hy))]
      exact store_dword_other hs b (hfree (p, w) (List.mem_cons_self _ _))
    · intro y hy hdis
      by_cases hyr : y ∈ rest
      · exact hval y hyr (fun z hz => hdis z (List.mem_cons_of_mem _ hz))
      · have hyx : y = (p, w) := by
          rcases List.mem_cons.1 hy with h | h
          · exact h
          · exact absurd h hyr
        subst hyx
        have hcongr : dword_at dst1 p = dword_at (dst.take p ++ le32 w ++ dst.drop (p + 4)) p := by
          apply dword_at_congr
          intro k hk
          apply hframe
          intro z hz
          have hz1 := hdis z (List.mem_cons_of_mem _ hz)
          rcases hz1 with h | h | h
          · subst h; exact absurd hz hyr
          · left; simp only at h ⊢; omega
          · right; simp only at h ⊢; omega
        rw [hcongr]
        exact store_dword_same hs

theorem get_vector_as_type_eq_stores (dst_type src_type : D3D10_SVT) (src : List Nat) :
    ∀ (count sp dp : Nat) (dst : List Nat) (val : Nat → Nat),
      (∀ j, j < count → sp + 4 * j + 4 ≤ src.length ∧
        get_vector_as_type_value dst_type src_type (dword_at src (sp + 4 * j)) = .ok (val j)) →
      get_vector_as_type dst_type src_type src count sp dp dst
        = apply_stores ((List.range count).map fun j => (dp + 4 * j, val j)) dst := by
  intro count
  induction count with
  | zero => intro sp dp dst val _; rfl
  | succ n ih =>
    intro sp dp dst val h
    obtain ⟨h0, hv0⟩ := h 0 (Nat.succ_pos n)
    rw [Nat.mul_zero, Nat.add_zero] at h0 hv0
    rw [get_vector_as_type, read_dword_ok src sp h0]
    simp only [hv0, List.range_succ_eq_map, List.map_cons, List.map_map, Nat.mul_zero,
      Nat.add_zero, apply_stores]
    cases hs : store_dword dst dp (val 0) with
    | error f => rfl
    | ok dst1 =>
      simp only []
      rw [ih (sp + 4) (dp + 4) dst1 (fun j => val (j + 1))]
      · congr 1
        apply List.map_congr_left
        intro j _
        simp only [Function.comp, Prod.mk.injEq, and_true]
        show dp + 4 + 4 * j = dp + 4 * (j + 1)
        omega
      · intro j hj
        have := h (j + 1) (by omega)
        have e : sp + 4 * (j + 1) = sp + 4 + 4 * j := by omega
        rw [e] at this
        exact this

theorem vector_stores_ok (c p : Nat) (val : Nat → Nat) (dst : List Nat)
    (h : p + 4 * c ≤ dst.length) :
    ∃ dst1, apply_stores ((List.range c).map fun j => (p + 4 * j, val j)) dst = .ok dst1 ∧
      dst1.length = dst.length ∧
      (∀ b, b < p ∨ p + 4 * c ≤ b → dst1[b]? = dst[b]?) ∧
      (∀ j, j < c → dword_at dst1 (p + 4 * j) = val j % 2 ^ 32) := by
  obtain ⟨dst1, h1, hlen, hframe, hval⟩ :=
    apply_stores_ok ((List.range c).map fun j => (p + 4 * j, val j)) dst (by
      intro x hx
      obtain ⟨j, hj, rfl⟩ := List.mem_map.1 hx
      have := List.mem_range.1 hj
      simp only; omega)
  refine ⟨dst1, h1, hlen, ?_, ?_⟩
  · intro b hb
    apply hframe
    intro x hx
    obtain ⟨j, hj, rfl⟩ := List.mem_map.1 hx
    have := List.mem_range.1 hj
    simp only; omega
  · intro j hj
    have := hval (p + 4 * j, val j) (List.mem_map.2 ⟨j, List.mem_range.2 hj, rfl⟩) (by
      intro y hy
      obtain ⟨i, hi, rfl⟩ := List.mem_map.1 hy
      by_cases hij : i = j
      · left; rw [hij]
      · right; simp only; omega)
    exact this

theorem byte_at_append_right (a b : List Nat) (k : Nat) :
    byte_at (a ++ b) (a.length + k) = byte_at b k := by
  unfold byte_at
  rw [List.getD_eq_getElem?_getD, List.getD_eq_getElem?_getD,
    List.getElem?_append_right (by omega), Nat.add_sub_cancel_left]

theorem dword_at_append_right (a b : List Nat) (k : Nat) :
    dword_at (a ++ b) (a.length + k) = dword_at b k := by
  unfold dword_at
  simp only [Nat.add_assoc, byte_at_append_right]

theorem dword_at_le32_append (w : Nat) (rest : List Nat) :
    dword_at (le32 w ++ rest) 0 = w % 2 ^ 32 := by
  unfold dword_at byte_at le32
  simp only [List.cons_append, List.getD_cons_zero, List.getD_cons_succ, Nat.zero_add]
  omega

theorem words_length (ws : List Nat) : (words ws).length = 4 * ws.length := by
  induction ws with
  | nil => rfl
  | cons w rest ih =>
    show (le32 w ++ words rest).length = _
    rw [List.length_append, ih, le32_length, List.length_cons]
    omega

theorem dword_at_words : ∀ (ws : List Nat) (j : Nat) (h : j < ws.length),
    dword_at (words ws) (4 * j) = ws[j] % 2 ^ 32
  | [], _, h => absurd h (Nat.not_lt_zero _)
  | w :: rest, 0, _ => dword_at_le32_append w (words rest)
  | w :: rest, j + 1, h => by
    have e : 4 * (j + 1) = (le32 w).length + 4 * j := by rw [le32_length]; omega
    show dword_at (le32 w ++ words rest) (4 * (j + 1)) = _
    rw [e, dword_at_append_right]
    exact dword_at_words rest j (Nat.lt_of_succ_lt_succ h)

theorem get_vector_as_type_value_same (t : D3D10_SVT) (w : Nat) :
    get_vector_as_type_value t t w = .ok w := by
  unfold get_vector_as_type_value
  rw [if_pos rfl]

theorem read_local_buffer_some {α : Type} (buffer : resource_variable) (buf : List Nat)
    (read : List Nat → Except Fault α) (h : buffer.local_buffer = some buf) :
    read_local_buffer buffer read = read buf := by
  unfold read_local_buffer
  rw [h]

theorem write_local_buffer_some (buffer : resource_variable) (buf : List Nat)
    (write : List Nat → Except Fault (List Nat)) (h : buffer.local_buffer = some buf) :
    write_local_buffer buffer write =
      match write buf with
      | .error f => .error f
      | .ok dst1 => .ok { buffer with local_buffer := some dst1, changed := true } := by
  unfold write_local_buffer
  rw [h]

/-- A write of `c` words through `write_variable_to_buffer` with the type of the variable,
followed by a read through `read_variable_from_buffer` with the same type. -/
theorem write_then_read_same_type (effect_var : d3d10_effect_variable)
    (buffer : resource_variable) (buf : List Nat) (ws value : List Nat)
    (hb : buffer.local_buffer = some buf)
    (hc : ws.length = effect_var.type.column_count)
    (hin : effect_var.buffer_offset + 4 * effect_var.type.column_count ≤ buf.length)
    (hv : 4 * effect_var.type.column_count ≤ value.length) :
    ∃ buffer1 value1,
      write_variable_to_buffer effect_var buffer (words ws) effect_var.type.basetype
        = .ok buffer1 ∧
      read_variable_from_buffer effect_var buffer1 value effect_var.type.basetype
        = .ok value1 ∧
      buffer1.changed = true ∧ value1.length = value.length ∧
      (∀ j (h : j < ws.length), dword_at value1 (4 * j) = ws[j] % 2 ^ 32) ∧
      (∀ b, 4 * effect_var.type.column_count ≤ b → value1[b]? = value[b]?) := by
  have hsrc : ∀ j, j < effect_var.type.column_count →
      0 + 4 * j + 4 ≤ (words ws).length ∧
      get_vector_as_type_value effect_var.type.basetype effect_var.type.basetype
        (dword_at (words ws) (0 + 4 * j)) = .ok (dword_at (words ws) (0 + 4 * j)) := by
    intro j hj
    rw [words_length, hc]
    exact ⟨by omega, get_vector_as_type_value_same _ _⟩
  obtain ⟨buf1, h1, hlen1, -, hval1⟩ := vector_stores_ok effect_var.type.column_count
    effect_var.buffer_offset (fun j => dword_at (words ws) (0 + 4 * j)) buf hin
  have hw : write_variable_to_buffer effect_var buffer (words ws) effect_var.type.basetype
      = .ok { buffer with local_buffer := some buf1, changed := true } := by
    unfold write_variable_to_buffer
    rw [write_local_buffer_some buffer buf _ hb,
      get_vector_as_type_eq_stores _ _ _ _ _ _ _ _ hsrc, h1]
  have hsrc2 : ∀ j, j < effect_var.type.column_count →
      effect_var.buffer_offset + 4 * j + 4 ≤ buf1.length ∧
      get_vector_as_type_value effect_var.type.basetype effect_var.type.basetype
        (dword_at buf1 (effect_var.buffer_offset + 4 * j))
        = .ok (dword_at buf1 (effect_var.buffer_offset + 4 * j)) := by
    intro j hj
    rw [hlen1]
    exact ⟨by omega, get_vector_as_type_value_same _ _⟩
  obtain ⟨value1, h2, hlen2, hframe2, hval2⟩ := vector_stores_ok effect_var.type.column_count 0
    (fun j => dword_at buf1 (effect_var.buffer_offset + 4 * j)) value (by omega)
  refine ⟨_, value1, hw, ?_, rfl, hlen2, ?_, ?_⟩
  · unfold read_variable_from_buffer
    rw [read_local_buffer_some _ buf1 _ rfl,
      get_vector_as_type_eq_stores _ _ _ _ _ _ _ _ hsrc2, h2]
  · intro j hj
    have hj1 : j < effect_var.type.column_count := by omega
    have a1 := hval2 j hj1
    have a2 := hval1 j hj1
    rw [Nat.zero_add] at a1 a2
    rw [a1, a2, Nat.mod_mod, dword_at_words ws j hj, Nat.mod_mod]
  · intro b hb1
    exact hframe2 b (Or.inr (by omega))

/-- **C14**. For every float-typed variable with `c` columns whose `c` words lie inside the
backing store of its buffer, and every `c` 32-bit words `ws`: `SetFloatVector` stores
them and returns `S_OK`, and a following `GetFloatVector` returns `S_OK` and stores the
same `c` words, bit for bit, in the caller's array (the rest of which is unchanged). The
scalar methods `SetFloat` and `GetFloat` are the same accesses on one word. -/
theorem float_write_read_round_trip (effect_var : d3d10_effect_variable)
    (buffer : resource_variable) (buf : List Nat) (ws value : List Nat)
    (hb : buffer.local_buffer = some buf) (ht : effect_var.type.basetype = .FLOAT)
    (hc : ws.length = effect_var.type.column_count) (hw : ∀ w ∈ ws, w < 2 ^ 32)
    (hin : effect_var.buffer_offset + 4 * effect_var.type.column_count ≤ buf.length)
    (hv : 4 * effect_var.type.column_count ≤ value.length) :
    (∃ buffer1 value1,
      d3d10_effect_vector_variable_SetFloatVector effect_var buffer (words ws)
        = .ok (S_OK, buffer1) ∧
      d3d10_effect_vector_variable_GetFloatVector effect_var buffer1 value
        = .ok (S_OK, value1) ∧
      value1.length = value.length ∧
      (∀ j (h : j < ws.length), dword_at value1 (4 * j) = ws[j]) ∧
      (∀ b, 4 * effect_var.type.column_count ≤ b → value1[b]? = value[b]?)) ∧
    (∀ w, d3d10_effect_scalar_variable_SetFloat effect_var buffer w
      = d3d10_effect_vector_variable_SetFloatVector effect_var buffer (words [w])) ∧
    (∀ buffer1, d3d10_effect_scalar_variable_GetFloat effect_var buffer1 value
      = d3d10_effect_vector_variable_GetFloatVector effect_var buffer1 value) := by
  obtain ⟨buffer1, value1, h1, h2, -, hlen, hval, hframe⟩ :=
    write_then_read_same_type effect_var buffer buf ws value hb hc hin hv
  rw [ht] at h1 h2
  refine ⟨⟨buffer1, value1, ?_, ?_, hlen, ?_, hframe⟩, fun _ => rfl, fun _ => rfl⟩
  · unfold d3d10_effect_vector_variable_SetFloatVector returning_S_OK
    rw [h1]
  · unfold d3d10_effect_vector_variable_GetFloatVector returning_S_OK
    rw [h2]
  · intro j hj
    rw [hval j hj]
    exact Nat.mod_eq_of_lt (hw _ (List.getElem_mem hj))

/-- **C14**, witness: the four words 1, 2, 3 and 0x3f800000 written to the float vector at
offset 16 of a 32-byte buffer are read back unchanged. -/
theorem float_write_read_round_trip_witness :
    ∃ buffer1 value1,
      d3d10_effect_vector_variable_SetFloatVector float4_variable
        (buffer_with (List.replicate 32 0)) (words [1, 2, 3, 0x3f800000]) = .ok (S_OK, buffer1) ∧
      d3d10_effect_vector_variable_GetFloatVector float4_variable buffer1 (List.replicate 16 7)
        = .ok (S_OK, value1) ∧
      value1.length = (List.replicate 16 7).length ∧
      (∀ j (h : j < [1, 2, 3, 0x3f800000].length),
        dword_at value1 (4 * j) = [1, 2, 3, 0x3f800000][j]) ∧
      (∀ b, 4 * float4_variable.type.column_count ≤ b →
        value1[b]? = (List.replicate 16 7)[b]?) :=
  (float_write_read_round_trip float4_variable (buffer_with (List.replicate 32 0))
    (List.replicate 32 0) [1, 2, 3, 0x3f800000] (List.replicate 16 7) rfl rfl rfl (by decide)
    (by decide) (by decide)).1

/-- **C15**, counterexample. The word 1 converted from bool to bool is returned as 1, not
as 0xFFFFFFFF, and a nonzero word of base type uint converted to bool gives 0. Through the
accessors: `SetBool(1)` on a bool variable followed by `GetBool` yields 1, and `GetBool` on
a uint variable that holds 5 yields 0. -/
theorem bool_conversion_not_canonical :
    get_vector_as_type_value .BOOL .BOOL 1 = .ok 1 ∧
    get_vector_as_type_value .BOOL .UINT 1 = .ok 0 ∧
    set_then_get (fun b => d3d10_effect_scalar_variable_SetBool (scalar_variable .BOOL) b 1)
      (d3d10_effect_scalar_variable_GetBool (scalar_variable .BOOL)) = .ok 1 ∧
    d3d10_effect_scalar_variable_GetBool (scalar_variable .UINT)
      (buffer_with (le32 5 ++ List.replicate 12 0)) [9, 9, 9, 9] = .ok (S_OK, [0, 0, 0, 0]) := by
  refine ⟨by decide, by decide, by decide, by decide⟩

/-- **C15**, amended. A word `w` of the source base type float or int converted to bool
through `get_vector_as_type` gives 0xFFFFFFFF when `w` is nonzero and 0 when it is zero; a
word of the source base type bool is copied unchanged; a word of any other source base
type (such as uint) gives 0. The helper `get_value_as_bool` itself, which converts a bool
source for an int or float destination, gives -1 for every nonzero word of base type
float, int or bool and 0 otherwise. -/
theorem value_as_bool (src_type : D3D10_SVT) (w : Nat) :
    get_vector_as_type_value .BOOL src_type w =
      .ok (if src_type = .BOOL then w
        else if src_type = .FLOAT ∨ src_type = .INT then (if w ≠ 0 then 0xffffffff else 0)
        else 0) ∧
    get_value_as_bool w src_type =
      (if (src_type = .FLOAT ∨ src_type = .INT ∨ src_type = .BOOL) ∧ w ≠ 0 then -1 else 0) := by
  by_cases hw : w = 0
  · subst hw
    cases src_type <;> exact ⟨by decide, by decide⟩
  · cases src_type <;>
      simp [get_vector_as_type_value, get_value_as_bool, hw, int_to_dword]

/-- **C16**, counterexample. The word 1 converted from bool to int gives 0xFFFFFFFF; the
word 1 converted from uint to int, from int to uint or from bool to uint gives 0. Through
the accessors: `SetBool(1)` on a bool variable followed by `GetInt` yields 0xFFFFFFFF (the
int -1), and `SetInt(1)` on a uint variable followed by `GetInt` yields 0. -/
theorem int_conversion_not_bit_identical :
    get_vector_as_type_value .INT .BOOL 1 = .ok 0xffffffff ∧
    get_vector_as_type_value .INT .UINT 1 = .ok 0 ∧
    get_vector_as_type_value .UINT .INT 1 = .ok 0 ∧
    get_vector_as_type_value .UINT .BOOL 1 = .ok 0 ∧
    set_then_get (fun b => d3d10_effect_scalar_variable_SetBool (scalar_variable .BOOL) b 1)
      (d3d10_effect_scalar_variable_GetInt (scalar_variable .BOOL)) = .ok 0xffffffff ∧
    set_then_get (fun b => d3d10_effect_scalar_variable_SetInt (scalar_variable .UINT) b 1)
      (d3d10_effect_scalar_variable_GetInt (scalar_variable .UINT)) = .ok 0 := by
  refine ⟨by decide, by decide, by decide, by decide, by decide, by decide⟩

/-- **C16**, amended. For every 32-bit word `w`: converting `w` from int to int or from
uint to uint yields `w` unchanged; converting it from bool to int yields 0xFFFFFFFF when
`w` is nonzero and 0 when it is zero; converting it from uint to int, from int to uint or
from bool to uint yields 0. -/
theorem value_as_int_or_uint (w : Nat) :
    get_vector_as_type_value .INT .INT w = .ok w ∧
    get_vector_as_type_value .UINT .UINT w = .ok w ∧
    get_vector_as_type_value .INT .BOOL w = .ok (if w ≠ 0 then 0xffffffff else 0) ∧
    get_vector_as_type_value .INT .UINT w = .ok 0 ∧
    get_vector_as_type_value .UINT .INT w = .ok 0 ∧
    get_vector_as_type_value .UINT .BOOL w = .ok 0 := by
  by_cases hw : w = 0
  · subst hw
    refine ⟨by decide, by decide, by decide, by decide, by decide, by decide⟩
  · simp [get_vector_as_type_value, get_value_as_int, get_value_as_bool, hw, int_to_dword]

/-- **C17**, counterexample. The bool word 1 (true) converted to float gives the bit
pattern 0xBF800000 of -1.0, not the bit pattern 0x3F800000 of 1.0; so does `SetBool(1)` on
a bool variable followed by `GetFloat`. -/
theorem bool_true_as_float_is_minus_one :
    get_vector_as_type_value .FLOAT .BOOL 1 = .ok float_minus_one ∧
    float_minus_one ≠ float_one ∧
    cast_float_to_int float_minus_one = .ok (-1) ∧
    cast_float_to_int float_one = .ok 1 ∧
    set_then_get (fun b => d3d10_effect_scalar_variable_SetBool (scalar_variable .BOOL) b 1)
      (d3d10_effect_scalar_variable_GetFloat (scalar_variable .BOOL)) = .ok float_minus_one := by
  refine ⟨by decide, by decide, by decide, by decide, by decide⟩

/-- **C17**, amended. Converting a bool-typed word to float through the typed accessors
yields 0.0 (all bits zero) when the word is zero and -1.0 (sign 1, exponent field 127,
fraction 0) when it is nonzero. -/
theorem value_bool_as_float (w : Nat) :
    get_vector_as_type_value .FLOAT .BOOL w = .ok (if w = 0 then 0 else float_minus_one) ∧
    get_value_as_float w .BOOL = cast_int_to_float (get_value_as_bool w .BOOL) ∧
    cast_int_to_float (-1) = float_minus_one ∧ cast_int_to_float 0 = 0 ∧
    cast_float_to_int float_minus_one = .ok (-1) := by
  by_cases hw : w = 0
  · subst hw
    refine ⟨by decide, by decide, by decide, by decide, by decide⟩
  · refine ⟨?_, rfl, by decide, by decide, by decide⟩
    have h1 : cast_int_to_float (-1) = float_minus_one := by decide
    simp [get_vector_as_type_value, get_value_as_float, get_value_as_bool, hw, h1]

/-! ## Matrix variables -/

theorem matrix_entry_lt (major : Bool) (a b : Nat) (ha : a < 4) (hb : b < 4) :
    ¬(4 ≤ (matrix_entry major a b).1 ∨ 4 ≤ (matrix_entry major a b).2) := by
  unfold matrix_entry
  cases major <;> simp <;> omega

theorem write_matrix_inner_eq_stores (src : d3d10_matrix) (major : Bool) (base a : Nat)
    (ha : a < 4) :
    ∀ (n b : Nat) (dst : List Nat), b + n ≤ 4 →
      write_matrix_inner src major base a n b dst
        = apply_stores (matrix_inner_stores src major base a n b) dst := by
  intro n
  induction n with
  | zero => intro b dst _; rfl
  | succ n ih =>
    intro b dst hb
    rw [write_matrix_inner, if_neg (matrix_entry_lt major a b ha (by omega))]
    unfold matrix_inner_stores
    simp only [List.range_succ_eq_map, List.map_cons, List.map_map, Nat.add_zero, apply_stores]
    cases store_dword dst (base + 4 * (a * 4 + b))
        (src (matrix_entry major a b).1 (matrix_entry major a b).2) with
    | error f => rfl
    | ok dst1 =>
      simp only []
      rw [ih (b + 1) dst1 (by omega)]
      unfold matrix_inner_stores
      congr 1
      apply List.map_congr_left
      intro k _
      have e : b + 1 + k = b + (k + 1) := by omega
      simp only [Function.comp, e]

theorem write_matrix_outer_eq_stores (src : d3d10_matrix) (major : Bool)
    (base inner_count : Nat) (hi : inner_count ≤ 4) :
    ∀ (n a : Nat) (dst : List Nat), a + n ≤ 4 →
      write_matrix_outer src major base inner_count n a dst
        = apply_stores (matrix_outer_stores src major base inner_count n a) dst := by
  intro n
  induction n with
  | zero => intro a dst _; rfl
  | succ n ih =>
    intro a dst ha
    rw [write_matrix_outer,
      write_matrix_inner_eq_stores src major base a (by omega) inner_count 0 dst (by omega)]
    unfold matrix_outer_stores
    simp only [List.range_succ_eq_map, List.map_cons, List.map_map, Nat.add_zero,
      List.flatten_cons]
    rw [apply_stores_append]
    cases apply_stores (matrix_inner_stores src major base a inner_count 0) dst with
    | error f => rfl
    | ok dst1 =>
      simp only []
      rw [ih (a + 1) dst1 (by omega)]
      unfold matrix_outer_stores
      congr 2
      apply List.map_congr_left
      intro k _
      have e : a + 1 + k = a + (k + 1) := by omega
      simp only [Function.comp, e]

theorem mem_matrix_outer_stores (src : d3d10_matrix) (major : Bool)
    (base inner_count n : Nat) (x : Nat × Nat) :
    x ∈ matrix_outer_stores src major base inner_count n 0 ↔
      ∃ a b, a < n ∧ b < inner_count ∧
        x = (base + 4 * (a * 4 + b), src (matrix_entry major a b).1 (matrix_entry major a b).2) := by
  unfold matrix_outer_stores matrix_inner_stores
  simp only [List.mem_flatten, List.mem_map, List.mem_range, Nat.zero_add]
  constructor
  · rintro ⟨l, ⟨a, ha, rfl⟩, hx⟩
    obtain ⟨b, hb, rfl⟩ := List.mem_map.1 hx
    exact ⟨a, b, ha, List.mem_range.1 hb, rfl⟩
  · rintro ⟨a, b, ha, hb, rfl⟩
    exact ⟨_, ⟨a, ha, rfl⟩, List.mem_map.2 ⟨b, List.mem_range.2 hb, rfl⟩⟩

/-- The effect of the two loops of `write_matrix_to_buffer`. -/
theorem write_matrix_outer_ok (src : d3d10_matrix) (major : Bool)
    (base inner_count outer_count : Nat) (dst : List Nat) (hi : inner_count ≤ 4)
    (ho : outer_count ≤ 4)
    (hin : ∀ a b, a < outer_count → b < inner_count → base + 4 * (a * 4 + b) + 4 ≤ dst.length) :
    ∃ dst1, write_matrix_outer src major base inner_count outer_count 0 dst = .ok dst1 ∧
      dst1.length = dst.length ∧
      (∀ a b, a < outer_count → b < inner_count →
        dword_at dst1 (base + 4 * (a * 4 + b))
          = src (matrix_entry major a b).1 (matrix_entry major a b).2 % 2 ^ 32) ∧
      (∀ p, (∀ a b, a < outer_count → b < inner_count →
          p < base + 4 * (a * 4 + b) ∨ base + 4 * (a * 4 + b) + 4 ≤ p) →
        dst1[p]? = dst[p]?) := by
  obtain ⟨dst1, h1, hlen, hframe, hval⟩ :=
    apply_stores_ok (matrix_outer_stores src major base inner_count outer_count 0) dst (by
      intro x hx
      obtain ⟨a, b, ha, hb, rfl⟩ := (mem_matrix_outer_stores _ _ _ _ _ _).1 hx
      exact hin a b ha hb)
  refine ⟨dst1, ?_, hlen, ?_, ?_⟩
  · rw [write_matrix_outer_eq_stores src major base inner_count hi outer_count 0 dst (by omega)]
    exact h1
  · intro a b ha hb
    refine hval _ ((mem_matrix_outer_stores _ _ _ _ _ _).2 ⟨a, b, ha, hb, rfl⟩) ?_
    intro y hy
    obtain ⟨a1, b1, ha1, hb1, rfl⟩ := (mem_matrix_outer_stores _ _ _ _ _ _).1 hy
    by_cases hab : a1 = a ∧ b1 = b
    · left; rw [hab.1, hab.2]
    · right; simp only; omega
  · intro p hp
    apply hframe
    intro x hx
    obtain ⟨a, b, ha, hb, rfl⟩ := (mem_matrix_outer_stores _ _ _ _ _ _).1 hx
    exact hp a b ha hb

theorem matrix_entry_inj (major : Bool) (a b a1 b1 : Nat)
    (h : matrix_entry major a b = matrix_entry major a1 b1) : a = a1 ∧ b = b1 := by
  unfold matrix_entry at h
  cases major <;> simp at h <;> omega

theorem read_matrix_inner_ok (src : List Nat) (major : Bool) (base a : Nat) (ha : a < 4) :
    ∀ (n b : Nat) (dst : d3d10_matrix), b + n ≤ 4 →
      (∀ k, b ≤ k → k < b + n → base + 4 * (a * 4 + k) + 4 ≤ src.length) →
      ∃ m1, read_matrix_inner src major base a n b dst = .ok m1 ∧
        (∀ k, b ≤ k → k < b + n →
          m1 (matrix_entry major a k).1 (matrix_entry major a k).2
            = dword_at src (base + 4 * (a * 4 + k))) ∧
        (∀ r c, (∀ k, b ≤ k → k < b + n → matrix_entry major a k ≠ (r, c)) →
          m1 r c = dst r c) := by
  intro n
  induction n with
  | zero =>
    intro b dst _ _
    exact ⟨dst, rfl, fun k h1 h2 => by omega, fun _ _ _ => rfl⟩
  | succ n ih =>
    intro b dst hb hin
    rw [read_matrix_inner, if_neg (matrix_entry_lt major a b ha (by omega)),
      read_dword_ok src _ (hin b (le_refl _) (by omega))]
    simp only []
    obtain ⟨m1, h1, hval, hframe⟩ := ih (b + 1)
      (dst.set (matrix_entry major a b).1 (matrix_entry major a b).2
        (dword_at src (base + 4 * (a * 4 + b)))) (by omega)
      (fun k h1 h2 => hin k (by omega) (by omega))
    refine ⟨m1, h1, ?_, ?_⟩
    · intro k hk1 hk2
      by_cases hkb : k = b
      · subst hkb
        rw [hframe _ _ (fun k1 h1 _ he => by
          have := (matrix_entry_inj major a k1 a k he).2
          omega)]
        simp [d3d10_matrix.set]
      · exact hval k (by omega) (by omega)
    · intro r c hne
      rw [hframe r c (fun k h1 h2 => hne k (by omega) (by omega))]
      have hb0 := hne b (le_refl _) (by omega)
      unfold d3d10_matrix.set
      rw [if_neg]
      intro hrc
      apply hb0
      rw [hrc.1, hrc.2]

theorem read_matrix_outer_ok (src : List Nat) (major : Bool) (base inner_count : Nat)
    (hi : inner_count ≤ 4) :
    ∀ (n a : Nat) (dst : d3d10_matrix), a + n ≤ 4 →
      (∀ a1 k, a ≤ a1 → a1 < a + n → k < inner_count →
        base + 4 * (a1 * 4 + k) + 4 ≤ src.length) →
      ∃ m1, read_matrix_outer src major base inner_count n a dst = .ok m1 ∧
        (∀ a1 k, a ≤ a1 → a1 < a + n → k < inner_count →
          m1 (matrix_entry major a1 k).1 (matrix_entry major a1 k).2
            = dword_at src (base + 4 * (a1 * 4 + k))) ∧
        (∀ r c, (∀ a1 k, a ≤ a1 → a1 < a + n → k < inner_count →
            matrix_entry major a1 k ≠ (r, c)) → m1 r c = dst r c) := by
  intro n
  induction n with
  | zero =>
    intro a dst _ _
    exact ⟨dst, rfl, fun a1 k h1 h2 => by omega, fun _ _ _ => rfl⟩
  | succ n ih =>
    intro a dst ha hin
    obtain ⟨m0, h0, hval0, hframe0⟩ := read_matrix_inner_ok src major base a (by omega)
      inner_count 0 dst (by omega) (fun k _ hk => hin a k (le_refl _) (by omega) (by omega))
    obtain ⟨m1, h1, hval1, hframe1⟩ := ih (a + 1) m0 (by omega)
      (fun a1 k h1 h2 hk => hin a1 k (by omega) (by omega) hk)
    rw [read_matrix_outer, h0]
    refine ⟨m1, h1, ?_, ?_⟩
    · intro a1 k ha1 ha2 hk
      by_cases haa : a1 = a
      · subst haa
        rw [hframe1 _ _ (fun a2 k2 h1 _ _ he => by
          have := (matrix_entry_inj major a2 k2 a1 k he).1
          omega)]
        exact hval0 k (Nat.zero_le _) (by omega)
      · exact hval1 a1 k (by omega) (by omega) hk
    · intro r c hne
      rw [hframe1 r c (fun a1 k h1 h2 hk => hne a1 k (by omega) (by omega) hk)]
      exact hframe0 r c (fun k _ hk => hne a k (le_refl _) (by omega) (by omega))

/-- The effect of `write_matrix_to_buffer` in terms of rows and columns. -/
theorem write_matrix_to_buffer_ok (var : d3d10_effect_variable) (src : d3d10_matrix)
    (transpose : Bool) (base : Nat) (dst : List Nat) (hR : var.type.row_count ≤ 4)
    (hC : var.type.column_count ≤ 4)
    (hin : ∀ row col, row < matrix_row_count var transpose →
      col < matrix_col_count var transpose →
      base + 4 * matrix_slot (matrix_major var transpose) row col + 4 ≤ dst.length) :
    ∃ dst1, write_matrix_to_buffer var src transpose base dst = .ok dst1 ∧
      dst1.length = dst.length ∧
      (∀ row col, row < matrix_row_count var transpose → col < matrix_col_count var transpose →
        dword_at dst1 (base + 4 * matrix_slot (matrix_major var transpose) row col)
          = src row col % 2 ^ 32) ∧
      (∀ p, (∀ row col, row < matrix_row_count var transpose →
          col < matrix_col_count var transpose →
          p < base + 4 * matrix_slot (matrix_major var transpose) row col ∨
          base + 4 * matrix_slot (matrix_major var transpose) row col + 4 ≤ p) →
        dst1[p]? = dst[p]?) := by
  have hr : matrix_row_count var transpose ≤ 4 := by
    unfold matrix_row_count; split <;> assumption
  have hc : matrix_col_count var transpose ≤ 4 := by
    unfold matrix_col_count; split <;> assumption
  unfold write_matrix_to_buffer
  cases hm : matrix_major var transpose with
  | true =>
    rw [hm] at hin
    simp only [matrix_slot, if_true] at hin ⊢
    obtain ⟨dst1, h1, hlen, hval, hframe⟩ := write_matrix_outer_ok src true base
      (matrix_row_count var transpose) (matrix_col_count var transpose) dst hr hc
      (fun a b ha hb => hin b a hb ha)
    exact ⟨dst1, h1, hlen, fun row col h1 h2 => hval col row h2 h1,
      fun p hp => hframe p (fun a b ha hb => hp b a hb ha)⟩
  | false =>
    rw [hm] at hin
    simp only [matrix_slot, Bool.false_eq_true, if_false] at hin ⊢
    obtain ⟨dst1, h1, hlen, hval, hframe⟩ := write_matrix_outer_ok src false base
      (matrix_col_count var transpose) (matrix_row_count var transpose) dst hc hr
      (fun a b ha hb => hin a b ha hb)
    exact ⟨dst1, h1, hlen, fun row col h1 h2 => hval row col h1 h2,
      fun p hp => hframe p (fun a b ha hb => hp a b ha hb)⟩

/-- The effect of `read_matrix_from_buffer` in terms of rows and columns. -/
theorem read_matrix_from_buffer_ok (var : d3d10_effect_variable) (src : List Nat)
    (dst : d3d10_matrix) (transpose : Bool) (base : Nat) (hR : var.type.row_count ≤ 4)
    (hC : var.type.column_count ≤ 4)
    (hin : ∀ row col, row < matrix_row_count var transpose →
      col < matrix_col_count var transpose →
      base + 4 * matrix_slot (matrix_major var transpose) row col + 4 ≤ src.length) :
    ∃ m1, read_matrix_from_buffer var src dst transpose base = .ok m1 ∧
      (∀ row col, row < matrix_row_count var transpose → col < matrix_col_count var transpose →
        m1 row col
          = dword_at src (base + 4 * matrix_slot (matrix_major var transpose) row col)) ∧
      (∀ row col, ¬(row < matrix_row_count var transpose ∧
          col < matrix_col_count var transpose) → m1 row col = dst row col) := by
  have hr : matrix_row_count var transpose ≤ 4 := by
    unfold matrix_row_count; split <;> assumption
  have hc : matrix_col_count var transpose ≤ 4 := by
    unfold matrix_col_count; split <;> assumption
  unfold read_matrix_from_buffer
  cases hm : matrix_major var transpose with
  | true =>
    rw [hm] at hin
    simp only [matrix_slot, if_true] at hin ⊢
    obtain ⟨m1, h1, hval, hframe⟩ := read_matrix_outer_ok src true base
      (matrix_row_count var transpose) hr (matrix_col_count var transpose) 0 dst (by omega)
      (fun a b _ ha hb => hin b a hb (by omega))
    refine ⟨m1, h1, fun row col h1 h2 => hval col row (Nat.zero_le _) (by omega) h1, ?_⟩
    intro row col hn
    apply hframe
    intro a b _ ha hb he
    apply hn
    simp only [matrix_entry, if_true, Prod.mk.injEq] at he
    rw [← he.1, ← he.2]
    exact ⟨hb, by omega⟩
  | false =>
    rw [hm] at hin
    simp only [matrix_slot, Bool.false_eq_true, if_false] at hin ⊢
    obtain ⟨m1, h1, hval, hframe⟩ := read_matrix_outer_ok src false base
      (matrix_col_count var transpose) hc (matrix_row_count var transpose) 0 dst (by omega)
      (fun a b _ ha hb => hin a b (by omega) hb)
    refine ⟨m1, h1, fun row col h1 h2 => hval row col (Nat.zero_le _) (by omega) h2, ?_⟩
    intro row col hn
    apply hframe
    intro a b _ ha hb he
    apply hn
    simp only [matrix_entry, Bool.false_eq_true, if_false, Prod.mk.injEq] at he
    rw [← he.1, ← he.2]
    exact ⟨by omega, hb⟩

/-- **C18**. For every matrix variable with at most 4 rows and 4 columns, of either
declared major order, whose accessed words lie inside the backing store, and every 4x4
source `M`: the major order used is the declared order XOR the transpose flag; a write
with transpose flag `t` stores `M[row][col]` in the word `major * 4 + minor` of the
variable for the accessed rows and columns and leaves every other byte of the backing
store unchanged; reading back with the same `t` returns `M` on the accessed block (and
leaves the rest of the caller's matrix unchanged); writing with the transpose flag set
and reading with it clear returns the transpose, `result[i][j] = M[j][i]` for `i` below
the row count and `j` below the column count. -/
theorem matrix_write_read_transpose (var : d3d10_effect_variable) (buffer : resource_variable)
    (buf : List Nat) (M old : d3d10_matrix) (hb : buffer.local_buffer = some buf)
    (hR : var.type.row_count ≤ 4) (hC : var.type.column_count ≤ 4)
    (hM : ∀ row col, row < 4 → col < 4 → M row col < 2 ^ 32)
    (hin : ∀ transpose row col, row < matrix_row_count var transpose →
      col < matrix_col_count var transpose →
      var.buffer_offset + 4 * matrix_slot (matrix_major var transpose) row col + 4
        ≤ buf.length) :
    (∀ t, matrix_major var t = xor (var.type.type_class == .MATRIX_COLUMNS) t) ∧
    (∀ t, ∃ buffer1 buf1,
      write_matrix_variable_to_buffer var buffer M t = .ok buffer1 ∧
      buffer1.local_buffer = some buf1 ∧ buffer1.changed = true ∧ buf1.length = buf.length ∧
      (∀ row col, row < matrix_row_count var t → col < matrix_col_count var t →
        dword_at buf1 (var.buffer_offset + 4 * matrix_slot (matrix_major var t) row col)
          = M row col) ∧
      (∀ p, (∀ row col, row < matrix_row_count var t → col < matrix_col_count var t →
          p < var.buffer_offset + 4 * matrix_slot (matrix_major var t) row col ∨
          var.buffer_offset + 4 * matrix_slot (matrix_major var t) row col + 4 ≤ p) →
        buf1[p]? = buf[p]?) ∧
      ∃ m1, read_matrix_variable_from_buffer var buffer1 old t = .ok m1 ∧
        (∀ row col, row < matrix_row_count var t → col < matrix_col_count var t →
          m1 row col = M row col) ∧
        (∀ row col, ¬(row < matrix_row_count var t ∧ col < matrix_col_count var t) →
          m1 row col = old row col)) ∧
    (∃ buffer1 m1,
      d3d10_effect_matrix_variable_SetMatrixTranspose var buffer M = .ok (S_OK, buffer1) ∧
      d3d10_effect_matrix_variable_GetMatrix var buffer1 old = .ok (S_OK, m1) ∧
      ∀ i j, i < var.type.row_count → j < var.type.column_count → m1 i j = M j i) := by
  have hw : ∀ t, ∃ buf1,
      write_matrix_variable_to_buffer var buffer M t
        = .ok { buffer with local_buffer := some buf1, changed := true } ∧
      buf1.length = buf.length ∧
      (∀ row col, row < matrix_row_count var t → col < matrix_col_count var t →
        dword_at buf1 (var.buffer_offset + 4 * matrix_slot (matrix_major var t) row col)
          = M row col) ∧
      (∀ p, (∀ row col, row < matrix_row_count var t → col < matrix_col_count var t →
          p < var.buffer_offset + 4 * matrix_slot (matrix_major var t) row col ∨
          var.buffer_offset + 4 * matrix_slot (matrix_major var t) row col + 4 ≤ p) →
        buf1[p]? = buf[p]?) := by
    intro t
    obtain ⟨buf1, h1, hlen, hval, hframe⟩ := write_matrix_to_buffer_ok var M t
      var.buffer_offset buf hR hC (hin t)
    refine ⟨buf1, ?_, hlen, ?_, hframe⟩
    · unfold write_matrix_variable_to_buffer
      rw [write_local_buffer_some buffer buf _ hb, h1]
    · intro row col h1 h2
      rw [hval row col h1 h2]
      have hr4 : matrix_row_count var t ≤ 4 := by unfold matrix_row_count; split <;> assumption
      have hc4 : matrix_col_count var t ≤ 4 := by unfold matrix_col_count; split <;> assumption
      exact Nat.mod_eq_of_lt (hM row col (by omega) (by omega))
  have hr : ∀ (t : Bool) (buf1 : List Nat) (b1 : resource_variable),
      b1.local_buffer = some buf1 → buf1.length = buf.length →
      ∃ m1, read_matrix_variable_from_buffer var b1 old t = .ok m1 ∧
        (∀ row col, row < matrix_row_count var t → col < matrix_col_count var t →
          m1 row col
            = dword_at buf1 (var.buffer_offset + 4 * matrix_slot (matrix_major var t) row col)) ∧
        (∀ row col, ¬(row < matrix_row_count var t ∧ col < matrix_col_count var t) →
          m1 row col = old row col) := by
    intro t buf1 b1 hb1 hlen
    obtain ⟨m1, h1, hval, hframe⟩ := read_matrix_from_buffer_ok var buf1 old t
      var.buffer_offset hR hC (by rw [hlen]; exact hin t)
    refine ⟨m1, ?_, hval, hframe⟩
    unfold read_matrix_variable_from_buffer
    rw [read_local_buffer_some b1 buf1 _ hb1, h1]
  refine ⟨?_, ?_, ?_⟩
  · intro t
    unfold matrix_major
    cases t <;> cases (var.type.type_class == D3D10_SVC.MATRIX_COLUMNS) <;> rfl
  · intro t
    obtain ⟨buf1, h1, hlen, hval, hframe⟩ := hw t
    obtain ⟨m1, h2, hval2, hframe2⟩ :=
      hr t buf1 { buffer with local_buffer := some buf1, changed := true } rfl hlen
    refine ⟨{ buffer with local_buffer := some buf1, changed := true }, buf1, h1, rfl, rfl,
      hlen, hval, hframe, m1, h2, ?_, hframe2⟩
    intro row col hrow hcol
    rw [hval2 row col hrow hcol, hval row col hrow hcol]
  · obtain ⟨buf1, h1, hlen, hval, -⟩ := hw true
    obtain ⟨m1, h2, hval2, -⟩ :=
      hr false buf1 { buffer with local_buffer := some buf1, changed := true } rfl hlen
    refine ⟨{ buffer with local_buffer := some buf1, changed := true }, m1, ?_, ?_, ?_⟩
    · unfold d3d10_effect_matrix_variable_SetMatrixTranspose returning_S_OK
      rw [h1]
    · unfold d3d10_effect_matrix_variable_GetMatrix returning_S_OK
      rw [h2]
    · intro i j hi hj
      have a1 := hval2 i j (by simpa [matrix_row_count] using hi)
        (by simpa [matrix_col_count] using hj)
      have a2 := hval j i (by simpa [matrix_row_count] using hj)
        (by simpa [matrix_col_count] using hi)
      have hs : matrix_slot (matrix_major var false) i j
          = matrix_slot (matrix_major var true) j i := by
        unfold matrix_major matrix_slot
        cases (var.type.type_class == D3D10_SVC.MATRIX_COLUMNS) <;> simp
      rw [a1, hs, a2]

/-- **C18**, witness: for the column-major 2x3 matrix variable at offset 16 of a 64-byte
buffer, `SetMatrixTranspose` followed by `GetMatrix` returns the transpose of the source
on the 2x3 block. -/
theorem matrix_write_read_transpose_witness :
    ∃ buffer1 m1,
      d3d10_effect_matrix_variable_SetMatrixTranspose float2x3_variable
        (buffer_with (List.replicate 64 0)) example_matrix = .ok (S_OK, buffer1) ∧
      d3d10_effect_matrix_variable_GetMatrix float2x3_variable buffer1 (fun _ _ => 0)
        = .ok (S_OK, m1) ∧
      ∀ i j, i < float2x3_variable.type.row_count → j < float2x3_variable.type.column_count →
        m1 i j = example_matrix j i :=
  (matrix_write_read_transpose float2x3_variable (buffer_with (List.replicate 64 0))
    (List.replicate 64 0) example_matrix (fun _ _ => 0) rfl (by decide) (by decide)
    (by
      intro row col h1 h2
      show 10 * row + col + 1 < 2 ^ 32
      omega)
    (by
      intro t row col h1 h2
      cases t
      · have h3 : row < 2 := h1
        have h4 : col < 3 := h2
        show 16 + 4 * (col * 4 + row) + 4 ≤ 64
        omega
      · have h3 : row < 3 := h1
        have h4 : col < 2 := h2
        show 16 + 4 * (row * 4 + col) + 4 ≤ 64
        omega)).2.2

/-! ## Array variables -/

theorem write_variable_array_elements_eq_stores (dst_type src_type : D3D10_SVT)
    (src : List Nat) (c E S : Nat) :
    ∀ (n cur dp : Nat) (dst : List Nat),
      (∀ k j, k < n → j < c → cur + k * E + 4 * j + 4 ≤ src.length ∧
        ∃ w, get_vector_as_type_value dst_type src_type (dword_at src (cur + k * E + 4 * j))
          = .ok w) →
      write_variable_array_elements dst_type src_type src c E S n cur dp dst
        = apply_stores (array_stores dst_type src_type src c E S n cur dp) dst := by
  intro n
  induction n with
  | zero => intro cur dp dst _; rfl
  | succ n ih =>
    intro cur dp dst h
    have h0 : ∀ j, j < c → cur + 4 * j + 4 ≤ src.length ∧
        get_vector_as_type_value dst_type src_type (dword_at src (cur + 4 * j))
          = .ok (converted_word dst_type src_type src (cur + 4 * j)) := by
      intro j hj
      obtain ⟨hb, w, hw⟩ := h 0 j (Nat.succ_pos n) hj
      simp only [Nat.zero_mul, Nat.add_zero] at hb hw
      refine ⟨hb, ?_⟩
      unfold converted_word
      rw [hw]
    rw [write_variable_array_elements, get_vector_as_type_eq_stores _ _ _ _ _ _ _ _ h0]
    unfold array_stores
    simp only [List.range_succ_eq_map, List.map_cons, List.map_map, List.flatten_cons,
      Nat.zero_mul, Nat.add_zero]
    rw [apply_stores_append]
    cases apply_stores ((List.range c).map fun j =>
        (dp + 4 * j, converted_word dst_type src_type src (cur + 4 * j))) dst with
    | error f => rfl
    | ok dst1 =>
      simp only []
      rw [ih (cur + E) (dp + S) dst1 (fun k j hk hj => by
        have := h (k + 1) j (by omega) hj
        have e : cur + (k + 1) * E = cur + E + k * E := by ring
        rw [e] at this
        exact this)]
      unfold array_stores
      congr 2
      apply List.map_congr_left
      intro k _
      apply List.map_congr_left
      intro j _
      have e1 : dp + (k + 1) * S = dp + S + k * S := by ring
      have e2 : cur + (k + 1) * E = cur + E + k * E := by ring
      simp only [Function.comp, e1, e2]

theorem mem_array_stores (dst_type src_type : D3D10_SVT) (src : List Nat)
    (c E S n cur dp : Nat) (x : Nat × Nat) :
    x ∈ array_stores dst_type src_type src c E S n cur dp ↔
      ∃ k j, k < n ∧ j < c ∧
        x = (dp + k * S + 4 * j, converted_word dst_type src_type src (cur + k * E + 4 * j)) := by
  unfold array_stores
  simp only [List.mem_flatten, List.mem_map, List.mem_range]
  constructor
  · rintro ⟨l, ⟨k, hk, rfl⟩, hx⟩
    obtain ⟨j, hj, rfl⟩ := List.mem_map.1 hx
    exact ⟨k, j, hk, List.mem_range.1 hj, rfl⟩
  · rintro ⟨k, j, hk, hj, rfl⟩
    exact ⟨_, ⟨k, hk, rfl⟩, List.mem_map.2 ⟨j, List.mem_range.2 hj, rfl⟩⟩

theorem mul_stride_lt (S k k1 : Nat) (h : k < k1) : k * S + S ≤ k1 * S := by
  have : (k + 1) * S ≤ k1 * S := Nat.mul_le_mul_right S h
  rw [Nat.add_mul, Nat.one_mul] at this
  exact this

/-- The effect of the element loop of `write_variable_array_to_buffer` on a backing store
that holds the written elements. -/
theorem array_stores_ok (dst_type src_type : D3D10_SVT) (src : List Nat)
    (c E S n dp : Nat) (dst : List Nat)
    (hin : ∀ k, k < n → dp + k * S + 4 * c ≤ dst.length) :
    ∃ dst1, apply_stores (array_stores dst_type src_type src c E S n 0 dp) dst = .ok dst1 ∧
      dst1.length = dst.length ∧
      (∀ p, (∀ k, k < n → p < dp + k * S ∨ dp + k * S + 4 * c ≤ p) → dst1[p]? = dst[p]?) ∧
      (4 * c ≤ S → ∀ k j, k < n → j < c →
        dword_at dst1 (dp + k * S + 4 * j)
          = converted_word dst_type src_type src (k * E + 4 * j) % 2 ^ 32) := by
  obtain ⟨dst1, h1, hlen, hframe, hval⟩ :=
    apply_stores_ok (array_stores dst_type src_type src c E S n 0 dp) dst (by
      intro x hx
      obtain ⟨k, j, hk, hj, rfl⟩ := (mem_array_stores _ _ _ _ _ _ _ _ _ _).1 hx
      have := hin k hk
      simp only; omega)
  refine ⟨dst1, h1, hlen, ?_, ?_⟩
  · intro p hp
    apply hframe
    intro x hx
    obtain ⟨k, j, hk, hj, rfl⟩ := (mem_array_stores _ _ _ _ _ _ _ _ _ _).1 hx
    have := hp k hk
    simp only; omega
  · intro hS k j hk hj
    have := hval _ ((mem_array_stores _ _ _ _ _ _ _ _ _ _).2 ⟨k, j, hk, hj, rfl⟩) (by
      intro y hy
      obtain ⟨k1, j1, hk1, hj1, rfl⟩ := (mem_array_stores _ _ _ _ _ _ _ _ _ _).1 hy
      rcases Nat.lt_trichotomy k1 k with hlt | heq | hgt
      · right; right
        have := mul_stride_lt S k1 k hlt
        simp only; omega
      · subst heq
        by_cases hjj : j1 = j
        · left; rw [hjj]
        · right; simp only; omega
      · right; left
        have := mul_stride_lt S k k1 hgt
        simp only; omega)
    rw [Nat.zero_add] at this
    exact this

/-- **C19**. For every array variable with `n` elements, stride `S`, base offset `B` and
`c` columns whose `n` elements lie inside the backing store, and every `offset < n`:
`write_variable_array_to_buffer(offset, count)` does not fail, sets the dirty flag and
writes exactly the elements `i` with `offset <= i < min(offset + count, n)`: every byte
outside the ranges `[B + i*S, B + i*S + 4c)` of these elements is unchanged and, the
elements being disjoint (`4c <= S`), the `c` words of element `i` hold the converted words
read at `(i - offset) * (packed size of the element type)` of the caller's array. With
`offset >= n` nothing is written and the buffer, dirty flag included, is unchanged. -/
theorem array_write_elements (var : d3d10_effect_variable) (buffer : resource_variable)
    (buf src : List Nat) (src_type : D3D10_SVT) (offset count : Nat)
    (elementtype : d3d10_effect_type)
    (hb : buffer.local_buffer = some buf) (hlen : buf.length < 2 ^ 32)
    (het : var.type.elementtype = some elementtype)
    (hoff : offset < var.type.element_count)
    (hin : var.buffer_offset + (var.type.element_count - 1) * var.type.stride
      + 4 * var.type.column_count ≤ buf.length)
    (hsrc : ∀ k j, k < min count (var.type.element_count - offset) →
      j < var.type.column_count →
      k * elementtype.size_packed + 4 * j + 4 ≤ src.length ∧
      ∃ w, get_vector_as_type_value var.type.basetype src_type
        (dword_at src (k * elementtype.size_packed + 4 * j)) = .ok w) :
    (∃ buffer1 buf1,
      write_variable_array_to_buffer var buffer src src_type offset count = .ok buffer1 ∧
      buffer1.local_buffer = some buf1 ∧ buffer1.changed = true ∧ buf1.length = buf.length ∧
      (∀ p, (∀ i, offset ≤ i → i < min (offset + count) var.type.element_count →
          p < var.buffer_offset + i * var.type.stride ∨
          var.buffer_offset + i * var.type.stride + 4 * var.type.column_count ≤ p) →
        buf1[p]? = buf[p]?) ∧
      (4 * var.type.column_count ≤ var.type.stride →
        ∀ i j, offset ≤ i → i < min (offset + count) var.type.element_count →
          j < var.type.column_count →
          ∃ w, get_vector_as_type_value var.type.basetype src_type
              (dword_at src ((i - offset) * elementtype.size_packed + 4 * j)) = .ok w ∧
            dword_at buf1 (var.buffer_offset + i * var.type.stride + 4 * j) = w % 2 ^ 32) ∧
      (src_type = .FLOAT →
        d3d10_effect_vector_variable_SetFloatVectorArray var buffer src offset count
          = .ok (S_OK, buffer1))) ∧
    (∀ offset1, var.type.element_count ≤ offset1 →
      write_variable_array_to_buffer var buffer src src_type offset1 count = .ok buffer) := by
  have hn0 : var.type.element_count ≠ 0 := by omega
  constructor
  · have hm : (if var.type.element_count - offset < count
          then var.type.element_count - offset else count)
        = min count (var.type.element_count - offset) := by
      split
      · exact (min_eq_right (by omega)).symm
      · exact (min_eq_left (by omega)).symm
    have hmul : var.type.stride * offset ≤ (var.type.element_count - 1) * var.type.stride := by
      rw [Nat.mul_comm]
      exact Nat.mul_le_mul_right _ (by omega)
    have hwrap : var.type.stride * offset % 2 ^ 32 = offset * var.type.stride := by
      rw [Nat.mod_eq_of_lt (by omega), Nat.mul_comm]
    have hsrc0 : ∀ k j, k < min count (var.type.element_count - offset) →
        j < var.type.column_count →
        0 + k * elementtype.size_packed + 4 * j + 4 ≤ src.length ∧
        ∃ w, get_vector_as_type_value var.type.basetype src_type
          (dword_at src (0 + k * elementtype.size_packed + 4 * j)) = .ok w := by
      intro k j hk hj
      rw [Nat.zero_add]
      exact hsrc k j hk hj
    obtain ⟨buf1, h1, hl1, hframe, hval⟩ := array_stores_ok var.type.basetype src_type src
      var.type.column_count elementtype.size_packed var.type.stride
      (min count (var.type.element_count - offset))
      (var.buffer_offset + offset * var.type.stride) buf (by
        intro k hk
        have hk1 : offset + k ≤ var.type.element_count - 1 := by
          have := Nat.min_le_right count (var.type.element_count - offset)
          omega
        have h2 : (offset + k) * var.type.stride
            ≤ (var.type.element_count - 1) * var.type.stride :=
          Nat.mul_le_mul_right _ hk1
        rw [Nat.add_mul] at h2
        omega)
    have hw : write_variable_array_to_buffer var buffer src src_type offset count
        = .ok { buffer with local_buffer := some buf1, changed := true } := by
      unfold write_variable_array_to_buffer
      rw [if_neg hn0, if_neg (by omega), het]
      simp only [hm, hwrap]
      rw [write_local_buffer_some buffer buf _ hb,
        write_variable_array_elements_eq_stores _ _ _ _ _ _ _ _ _ _ hsrc0, h1]
    refine ⟨{ buffer with local_buffer := some buf1, changed := true }, buf1, hw, rfl, rfl, hl1,
      ?_, ?_, ?_⟩
    · intro p hp
      apply hframe
      intro k hk
      have hk2 := Nat.min_le_left count (var.type.element_count - offset)
      have hk3 := Nat.min_le_right count (var.type.element_count - offset)
      have := hp (offset + k) (by omega) (by
        rw [Nat.lt_min]; omega)
      rw [Nat.add_mul] at this
      omega
    · intro hS i j hi1 hi2 hj
      rw [Nat.lt_min] at hi2
      have hk : i - offset < min count (var.type.element_count - offset) := by
        rw [Nat.lt_min]; omega
      obtain ⟨-, w, hw1⟩ := hsrc (i - offset) j hk hj
      refine ⟨w, hw1, ?_⟩
      have a := hval hS (i - offset) j hk hj
      have e : var.buffer_offset + offset * var.type.stride + (i - offset) * var.type.stride
          = var.buffer_offset + i * var.type.stride := by
        rw [Nat.add_assoc, ← Nat.add_mul]
        congr 2
        omega
      rw [e] at a
      rw [a]
      unfold converted_word
      rw [hw1]
    · intro hf
      subst hf
      unfold d3d10_effect_vector_variable_SetFloatVectorArray returning_S_OK
      rw [hw]
  · intro offset1 h1
    unfold write_variable_array_to_buffer
    rw [if_neg hn0, if_pos h1]

/-- **C19**, witness: in the array of three float vectors with stride 16 at offset 16 of
a 64-byte buffer, a write of 5 elements from element 1 on is clamped to the elements 1 and
2: the words 1, 2 are stored at offset 32, the words 3, 4 at offset 48 and every byte
outside these two elements is unchanged. -/
theorem array_write_elements_witness :
    (∃ buffer1 buf1,
      write_variable_array_to_buffer float2_array_variable (buffer_with (List.replicate 64 0))
        (words [1, 2, 3, 4]) .FLOAT 1 5 = .ok buffer1 ∧
      buffer1.local_buffer = some buf1 ∧ buffer1.changed = true ∧ buf1.length = 64 ∧
      (∀ p, (∀ i, 1 ≤ i → i < min (1 + 5) 3 → p < 16 + i * 16 ∨ 16 + i * 16 + 4 * 2 ≤ p) →
        buf1[p]? = (List.replicate 64 0)[p]?) ∧
      (4 * 2 ≤ 16 → ∀ i j, 1 ≤ i → i < min (1 + 5) 3 → j < 2 →
        ∃ w, get_vector_as_type_value .FLOAT .FLOAT
            (dword_at (words [1, 2, 3, 4]) ((i - 1) * 8 + 4 * j)) = .ok w ∧
          dword_at buf1 (16 + i * 16 + 4 * j) = w % 2 ^ 32) ∧
      (D3D10_SVT.FLOAT = .FLOAT →
        d3d10_effect_vector_variable_SetFloatVectorArray float2_array_variable
          (buffer_with (List.replicate 64 0)) (words [1, 2, 3, 4]) 1 5 = .ok (S_OK, buffer1))) ∧
    (write_variable_array_to_buffer float2_array_variable (buffer_with (List.replicate 64 0))
        (words [1, 2, 3, 4]) .FLOAT 1 5).toOption.bind (fun b => b.local_buffer)
      = some (List.replicate 32 0 ++ words [1, 2] ++ List.replicate 8 0 ++ words [3, 4]
        ++ List.replicate 8 0) :=
  ⟨(array_write_elements float2_array_variable (buffer_with (List.replicate 64 0))
    (List.replicate 64 0) (words [1, 2, 3, 4]) .FLOAT 1 5
    (.mk none .FLOAT .VECTOR 0 0 8 16 8 2 1 0 none []) rfl (by decide) rfl (by decide)
    (by decide) (by
      intro k j hk hj
      have hk2 : k < 2 := hk
      have hj2 : j < 2 := hj
      refine ⟨?_, _, get_vector_as_type_value_same _ _⟩
      show k * 8 + 4 * j + 4 ≤ 16
      omega)).1, by rfl⟩

/-! ## The dirty flag -/

theorem write_local_buffer_changed (buffer buffer1 : resource_variable)
    (write : List Nat → Except Fault (List Nat))
    (h : write_local_buffer buffer write = .ok buffer1) : buffer1.changed = true := by
  unfold write_local_buffer at h
  split at h
  · split at h
    · simp at h
    · simp only [Except.ok.injEq] at h
      rw [← h]
  · split at h
    · simp at h
    · simp only [Except.ok.injEq] at h
      rw [← h]

theorem update_buffer_eq (a : Nat) (st : apply_state) (v : resource_variable)
    (h : st.vars[a]? = some v) :
    update_buffer a st = .ok (if v.changed then
      { vars := st.vars.set a { v with changed := false },
        cmds := st.cmds ++ [.UpdateSubresource v.buffer v.local_buffer v.data_size] }
      else st) := by
  unfold update_buffer
  rw [h]
  cases hc : v.changed <;> simp [hc]

theorem without_flags_set (vars : List resource_variable) (a : Nat) (v : resource_variable)
    (h : vars[a]? = some v) :
    without_flags (vars.set a { v with changed := false }) = without_flags vars := by
  unfold without_flags
  apply List.ext_getElem?
  intro i
  rw [List.getElem?_map, List.getElem?_map, List.getElem?_set]
  by_cases hi : a = i
  · subst hi
    rw [if_pos rfl, h]
    have hl : a < vars.length := by
      rcases Nat.lt_or_ge a vars.length with hl | hl
      · exact hl
      · rw [List.getElem?_eq_none hl] at h; cases h
    rw [if_pos hl]
    rfl
  · rw [if_neg hi]

theorem flags_only_cleared_refl (s : apply_state) : flags_only_cleared s s :=
  ⟨rfl, fun _ h => h, [], by simp, by simp [upload_count]⟩

theorem flags_only_cleared_trans {s s1 s2 : apply_state} (h1 : flags_only_cleared s s1)
    (h2 : flags_only_cleared s1 s2) : flags_only_cleared s s2 := by
  obtain ⟨a1, b1, cs1, c1, d1⟩ := h1
  obtain ⟨a2, b2, cs2, c2, d2⟩ := h2
  refine ⟨a2.trans a1, fun b hb => b2 b (b1 b hb), cs1 ++ cs2, ?_, ?_⟩
  · rw [c2, c1, List.append_assoc]
  · unfold upload_count at *
    rw [List.countP_append]
    omega

theorem flags_only_cleared_cmds (s : apply_state) (cs : List device_cmd)
    (h : upload_count cs = 0) : flags_only_cleared s { s with cmds := s.cmds ++ cs } :=
  ⟨rfl, fun _ hb => hb, cs, rfl, by rw [h, Nat.zero_add]⟩

theorem dirty_count_set : ∀ (vars : List resource_variable) (a : Nat) (v : resource_variable),
    vars[a]? = some v → v.changed = true →
    dirty_count (vars.set a { v with changed := false }) + 1 = dirty_count vars
  | [], _, _, h, _ => by simp at h
  | x :: rest, 0, v, h, hc => by
    simp only [List.getElem?_cons_zero, Option.some.injEq] at h
    subst h
    simp [dirty_count, List.countP_cons, hc]
  | x :: rest, a + 1, v, h, hc => by
    simp only [List.getElem?_cons_succ] at h
    have ih := dirty_count_set rest a v h hc
    simp only [dirty_count, List.set_cons_succ, List.countP_cons] at ih ⊢
    omega

theorem is_clean_set (vars : List resource_variable) (a b : Nat) (v : resource_variable)
    (h : vars[a]? = some v) (hb : is_clean vars b ∨ b = a) :
    is_clean (vars.set a { v with changed := false }) b := by
  have hl : a < vars.length := by
    rcases Nat.lt_or_ge a vars.length with hl | hl
    · exact hl
    · rw [List.getElem?_eq_none hl] at h; cases h
  unfold is_clean
  rw [List.getElem?_set]
  by_cases hab : a = b
  · rw [if_pos hab, if_pos hl]
    exact ⟨_, rfl, rfl⟩
  · rw [if_neg hab]
    rcases hb with hb | hb
    · exact hb
    · exact absurd hb.symm hab

theorem update_buffer_first (a : Nat) (s s1 : apply_state) (h : update_buffer a s = .ok s1) :
    flags_only_cleared s s1 ∧ is_clean s1.vars a := by
  cases hv : s.vars[a]? with
  | none =>
    unfold update_buffer at h
    rw [hv] at h
    simp at h
  | some v =>
    rw [update_buffer_eq a s v hv] at h
    simp only [Except.ok.injEq] at h
    cases hc : v.changed with
    | false =>
      rw [hc] at h
      simp only [Bool.false_eq_true, if_false] at h
      subst h
      exact ⟨flags_only_cleared_refl s, v, hv, hc⟩
    | true =>
      rw [hc] at h
      simp only [if_true] at h
      subst h
      refine ⟨⟨without_flags_set s.vars a v hv, fun b hb => is_clean_set s.vars a b v hv (Or.inl hb),
        _, rfl, ?_⟩, is_clean_set s.vars a a v hv (Or.inr rfl)⟩
      have := dirty_count_set s.vars a v hv hc
      show upload_count [device_cmd.UpdateSubresource v.buffer v.local_buffer v.data_size]
        + dirty_count (s.vars.set a { v with changed := false }) = dirty_count s.vars
      have hu : upload_count [device_cmd.UpdateSubresource v.buffer v.local_buffer v.data_size]
          = 1 := rfl
      omega

theorem update_buffer_clean (a : Nat) (t : apply_state) (h : is_clean t.vars a) :
    update_buffer a t = .ok t := by
  obtain ⟨v, hv, hc⟩ := h
  rw [update_buffer_eq a t v hv, hc]
  rfl

theorem without_flags_getElem {vars vars1 : List resource_variable}
    (h : without_flags vars1 = without_flags vars) (a : Nat) :
    (vars1[a]?).map (fun v => { v with changed := false })
      = (vars[a]?).map (fun v => { v with changed := false }) := by
  have := congrArg (fun l => l[a]?) h
  simp only [without_flags, List.getElem?_map] at this
  exact this

theorem without_flags_some {vars vars1 : List resource_variable}
    (h : without_flags vars1 = without_flags vars) (a : Nat) (v : resource_variable)
    (hv : vars[a]? = some v) :
    ∃ v1, vars1[a]? = some v1 ∧ v1.basetype = v.basetype ∧
      v1.element_count = v.element_count ∧ v1.buffer = v.buffer ∧
      v1.resource_view = v.resource_view ∧ v1.srv = v.srv ∧ v1.sampler = v.sampler ∧
      v1.texture = v.texture ∧ v1.elements = v.elements := by
  have h1 := without_flags_getElem h a
  rw [hv] at h1
  cases hv1 : vars1[a]? with
  | none => rw [hv1] at h1; simp at h1
  | some v1 =>
    rw [hv1] at h1
    simp only [Option.map_some', Option.some.injEq] at h1
    refine ⟨v1, rfl, ?_⟩
    have e1 := congrArg resource_variable.basetype h1
    have e2 := congrArg resource_variable.element_count h1
    have e3 := congrArg resource_variable.buffer h1
    have e4 := congrArg resource_variable.resource_view h1
    have e5 := congrArg resource_variable.srv h1
    have e6 := congrArg resource_variable.sampler h1
    have e7 := congrArg resource_variable.texture h1
    have e8 := congrArg resource_variable.elements h1
    exact ⟨e1, e2, e3, e4, e5, e6, e7, e8⟩

theorem set_sampler_eq (shader_type : D3D10_SVT) (sampler : Option Nat) (bind_point : Nat)
    (t : apply_state) :
    ∃ cs, set_sampler shader_type sampler bind_point t
        = { vars := t.vars, cmds := t.cmds ++ cs } ∧ upload_count cs = 0 := by
  unfold set_sampler
  split
  · exact ⟨[.SetSamplers shader_type bind_point sampler], rfl, rfl⟩
  · exact ⟨[], by simp, rfl⟩

theorem set_sampler_array_eq (shader_type : D3D10_SVT) (elements : List (Option Nat))
    (bind_point : Nat) :
    ∀ (n j : Nat) (s s1 : apply_state),
      set_sampler_array shader_type elements bind_point n j s = .ok s1 →
      ∀ t : apply_state, ∃ cs, set_sampler_array shader_type elements bind_point n j t
        = .ok { vars := t.vars, cmds := t.cmds ++ cs } ∧ upload_count cs = 0 := by
  intro n
  induction n with
  | zero =>
    intro j s s1 _ t
    exact ⟨[], by simp [set_sampler_array], rfl⟩
  | succ n ih =>
    intro j s s1 h t
    rw [set_sampler_array] at h ⊢
    cases he : elements[j]? with
    | none => rw [he] at h; simp at h
    | some sampler =>
      rw [he] at h
      simp only [] at h ⊢
      obtain ⟨cs0, h0, u0⟩ := set_sampler_eq shader_type sampler (bind_point + j) t
      obtain ⟨cs1, h1, u1⟩ := ih (j + 1) _ s1 h { vars := t.vars, cmds := t.cmds ++ cs0 }
      rw [h0, h1]
      refine ⟨cs0 ++ cs1, by simp [List.append_assoc], ?_⟩
      unfold upload_count at *
      rw [List.countP_append]
      omega

theorem flags_only_cleared_of_cmds (s s1 : apply_state) (cs : List device_cmd)
    (h : s1 = { vars := s.vars, cmds := s.cmds ++ cs }) (hu : upload_count cs = 0) :
    flags_only_cleared s s1 := by
  subst h
  exact flags_only_cleared_cmds s cs hu

theorem apply_shader_resource_first (basetype : D3D10_SVT) (sr : d3d10_effect_shader_resource)
    (s s1 : apply_state) (h : apply_shader_resource basetype sr s = .ok s1) :
    flags_only_cleared s s1 ∧ (is_buffer_resource sr = true → is_clean s1.vars sr.variable_ptr) := by
  unfold apply_shader_resource at h
  cases hk : sr.in_type with
  | CBUFFER =>
    rw [hk] at h
    simp only [] at h
    cases hu : update_buffer sr.variable_ptr s with
    | error f => rw [hu] at h; simp at h
    | ok st1 =>
      rw [hu] at h
      simp only [] at h
      obtain ⟨hf, hc⟩ := update_buffer_first _ _ _ hu
      cases hv : st1.vars[sr.variable_ptr]? with
      | none => rw [hv] at h; simp at h
      | some v =>
        rw [hv] at h
        simp only [] at h
        split at h
        · simp only [Except.ok.injEq] at h
          subst h
          exact ⟨flags_only_cleared_trans hf (flags_only_cleared_cmds st1 _ rfl), fun _ => hc⟩
        · simp only [Except.ok.injEq] at h
          subst h
          exact ⟨hf, fun _ => hc⟩
  | TBUFFER =>
    rw [hk] at h
    simp only [] at h
    cases hu : update_buffer sr.variable_ptr s with
    | error f => rw [hu] at h; simp at h
    | ok st1 =>
      rw [hu] at h
      simp only [] at h
      obtain ⟨hf, hc⟩ := update_buffer_first _ _ _ hu
      cases hv : st1.vars[sr.variable_ptr]? with
      | none => rw [hv] at h; simp at h
      | some v =>
        rw [hv] at h
        simp only [] at h
        split at h
        · simp only [Except.ok.injEq] at h
          subst h
          exact ⟨flags_only_cleared_trans hf (flags_only_cleared_cmds st1 _ rfl), fun _ => hc⟩
        · simp only [Except.ok.injEq] at h
          subst h
          exact ⟨hf, fun _ => hc⟩
  | TEXTURE =>
    rw [hk] at h
    simp only [] at h
    refine ⟨?_, fun hb => by simp [is_buffer_resource, hk] at hb⟩
    cases hv : s.vars[sr.variable_ptr]? with
    | none => rw [hv] at h; simp at h
    | some v0 =>
      rw [hv] at h
      simp only [] at h
      split at h
      · simp at h
      · split at h
        · simp at h
        · split at h
          · simp only [Except.ok.injEq] at h
            subst h
            exact flags_only_cleared_cmds s _ rfl
          · simp only [Except.ok.injEq] at h
            subst h
            exact flags_only_cleared_refl s
  | SAMPLER =>
    rw [hk] at h
    simp only [] at h
    refine ⟨?_, fun hb => by simp [is_buffer_resource, hk] at hb⟩
    cases hv : s.vars[sr.variable_ptr]? with
    | none => rw [hv] at h; simp at h
    | some v =>
      rw [hv] at h
      simp only [] at h
      split at h
      · simp only [Except.ok.injEq] at h
        obtain ⟨cs, hcs, hu⟩ := set_sampler_eq basetype v.sampler sr.bind_point s
        exact flags_only_cleared_of_cmds s s1 cs (h.symm.trans hcs) hu
      · obtain ⟨cs, hcs, hu⟩ := set_sampler_array_eq basetype v.elements sr.bind_point
          sr.bind_count 0 s s1 h s
        rw [h] at hcs
        simp only [Except.ok.injEq] at hcs
        exact flags_only_cleared_of_cmds s s1 cs hcs hu
  | OTHER =>
    rw [hk] at h
    simp only [Except.ok.injEq] at h
    subst h
    exact ⟨flags_only_cleared_refl s, fun hb => by simp [is_buffer_resource, hk] at hb⟩

theorem apply_shader_resource_again (basetype : D3D10_SVT) (sr : d3d10_effect_shader_resource)
    (s s1 : apply_state) (h : apply_shader_resource basetype sr s = .ok s1) (t : apply_state)
    (ht : without_flags t.vars = without_flags s.vars)
    (hc : is_buffer_resource sr = true → is_clean t.vars sr.variable_ptr) :
    runs_without_upload (apply_shader_resource basetype sr) t := by
  unfold runs_without_upload
  unfold apply_shader_resource at h ⊢
  cases hk : sr.in_type with
  | CBUFFER =>
    have hcl := hc (by simp [is_buffer_resource, hk])
    obtain ⟨v, hv, -⟩ := id hcl
    simp only []
    rw [update_buffer_clean _ t hcl]
    simp only [hv]
    split
    · exact ⟨_, rfl, rfl⟩
    · exact ⟨[], by simp, rfl⟩
  | TBUFFER =>
    have hcl := hc (by simp [is_buffer_resource, hk])
    obtain ⟨v, hv, -⟩ := id hcl
    simp only []
    rw [update_buffer_clean _ t hcl]
    simp only [hv]
    split
    · exact ⟨_, rfl, rfl⟩
    · exact ⟨[], by simp, rfl⟩
  | TEXTURE =>
    rw [hk] at h
    simp only [] at h ⊢
    cases hv : s.vars[sr.variable_ptr]? with
    | none => rw [hv] at h; simp at h
    | some v0 =>
      rw [hv] at h
      simp only [] at h
      obtain ⟨w0, hw0, hb0, -, -, -, -, -, htex, -⟩ := without_flags_some ht _ v0 hv
      rw [hw0]
      simp only [hb0, htex]
      cases htg : (if v0.basetype = D3D10_SVT.SAMPLER then v0.texture
          else some sr.variable_ptr) with
      | none => rw [htg] at h; simp at h
      | some a =>
        rw [htg] at h
        simp only [] at h ⊢
        cases hva : s.vars[a]? with
        | none => rw [hva] at h; simp at h
        | some v =>
          obtain ⟨w, hw, -⟩ := without_flags_some ht _ v hva
          rw [hw]
          simp only []
          split
          · exact ⟨_, rfl, rfl⟩
          · exact ⟨[], by simp, rfl⟩
  | SAMPLER =>
    rw [hk] at h
    simp only [] at h ⊢
    cases hv : s.vars[sr.variable_ptr]? with
    | none => rw [hv] at h; simp at h
    | some v =>
      rw [hv] at h
      simp only [] at h
      obtain ⟨w, hw, -, hec, -, -, -, hsam, -, hel⟩ := without_flags_some ht _ v hv
      rw [hw]
      simp only [hec, hsam, hel]
      split
      · rename_i h0
        obtain ⟨cs, hcs, hu⟩ := set_sampler_eq basetype v.sampler sr.bind_point t
        exact ⟨cs, by rw [hcs], hu⟩
      · rename_i h0
        rw [if_neg h0] at h
        exact set_sampler_array_eq basetype v.elements sr.bind_point sr.bind_count 0 s s1 h t
  | OTHER =>
    exact ⟨[], by simp, rfl⟩

theorem apply_shader_resources_first (basetype : D3D10_SVT) :
    ∀ (rs : List d3d10_effect_shader_resource) (s s1 : apply_state),
      apply_shader_resources basetype rs s = .ok s1 →
      flags_only_cleared s s1 ∧
      ∀ sr ∈ rs, is_buffer_resource sr = true → is_clean s1.vars sr.variable_ptr
  | [], s, s1, h => by
    simp only [apply_shader_resources, Except.ok.injEq] at h
    subst h
    exact ⟨flags_only_cleared_refl s, fun _ hm => absurd hm (List.not_mem_nil _)⟩
  | sr :: rest, s, s1, h => by
    rw [apply_shader_resources] at h
    cases h0 : apply_shader_resource basetype sr s with
    | error f => rw [h0] at h; simp at h
    | ok s0 =>
      rw [h0] at h
      simp only [] at h
      obtain ⟨f0, c0⟩ := apply_shader_resource_first basetype sr s s0 h0
      obtain ⟨f1, c1⟩ := apply_shader_resources_first basetype rest s0 s1 h
      refine ⟨flags_only_cleared_trans f0 f1, ?_⟩
      intro x hx hb
      rcases List.mem_cons.1 hx with hx | hx
      · subst hx
        exact f1.2.1 _ (c0 hb)
      · exact c1 x hx hb

theorem apply_shader_resources_again (basetype : D3D10_SVT) :
    ∀ (rs : List d3d10_effect_shader_resource) (s s1 : apply_state),
      apply_shader_resources basetype rs s = .ok s1 → ∀ t : apply_state,
      without_flags t.vars = without_flags s.vars →
      (∀ sr ∈ rs, is_buffer_resource sr = true → is_clean t.vars sr.variable_ptr) →
      runs_without_upload (apply_shader_resources basetype rs) t
  | [], _, _, _, t, _, _ => ⟨[], by simp [apply_shader_resources], rfl⟩
  | sr :: rest, s, s1, h, t, ht, hc => by
    rw [apply_shader_resources] at h
    cases h0 : apply_shader_resource basetype sr s with
    | error f => rw [h0] at h; simp at h
    | ok s0 =>
      rw [h0] at h
      simp only [] at h
      obtain ⟨cs0, r0, u0⟩ := apply_shader_resource_again basetype sr s s0 h0 t ht
        (hc sr (List.mem_cons_self _ _))
      have f0 := (apply_shader_resource_first basetype sr s s0 h0).1
      obtain ⟨cs1, r1, u1⟩ := apply_shader_resources_again basetype rest s0 s1 h
        { vars := t.vars, cmds := t.cmds ++ cs0 } (ht.trans f0.1.symm)
        (fun x hx => hc x (List.mem_cons_of_mem _ hx))
      unfold runs_without_upload
      rw [apply_shader_resources, r0]
      simp only []
      rw [r1]
      refine ⟨cs0 ++ cs1, by simp [List.append_assoc], ?_⟩
      unfold upload_count at *
      rw [List.countP_append]
      omega

theorem apply_stage_first (shader_desc : d3d10_effect_pass_shader_desc) (s s1 : apply_state)
    (h : apply_stage shader_desc s = .ok s1) :
    flags_only_cleared s s1 ∧
    ∀ sr ∈ stage_resources shader_desc, is_buffer_resource sr = true →
      is_clean s1.vars sr.variable_ptr := by
  unfold apply_stage at h
  split at h
  · rename_i hn
    simp only [Except.ok.injEq] at h
    subst h
    refine ⟨flags_only_cleared_refl s, ?_⟩
    intro sr hsr
    unfold stage_resources at hsr
    rw [hn] at hsr
    simp [d3d10_array_get_element] at hsr
  · unfold d3d10_effect_pass_set_shader at h
    unfold stage_resources
    cases hg : d3d10_array_get_element shader_desc.shader shader_desc.index with
    | error f => rw [hg] at h; simp at h
    | ok v =>
      rw [hg] at h
      simp only [] at h ⊢
      obtain ⟨f1, c1⟩ := apply_shader_resources_first _ _ _ _ h
      refine ⟨flags_only_cleared_trans ?_ f1, c1⟩
      split
      · exact flags_only_cleared_cmds s _ rfl
      · exact flags_only_cleared_refl s

theorem apply_stage_again (shader_desc : d3d10_effect_pass_shader_desc) (s s1 : apply_state)
    (h : apply_stage shader_desc s = .ok s1) (t : apply_state)
    (ht : without_flags t.vars = without_flags s.vars)
    (hc : ∀ sr ∈ stage_resources shader_desc, is_buffer_resource sr = true →
      is_clean t.vars sr.variable_ptr) :
    runs_without_upload (apply_stage shader_desc) t := by
  unfold runs_without_upload
  unfold apply_stage at h ⊢
  split
  · exact ⟨[], by simp, rfl⟩
  · rename_i hn
    rw [if_neg hn] at h
    unfold d3d10_effect_pass_set_shader at h ⊢
    unfold stage_resources at hc
    cases hg : d3d10_array_get_element shader_desc.shader shader_desc.index with
    | error f => rw [hg] at h; simp at h
    | ok v =>
      rw [hg] at h hc
      simp only [] at h hc ⊢
      by_cases hs : is_shader_stage v.basetype = true
      · rw [if_pos hs] at h ⊢
        obtain ⟨cs, r, u⟩ := apply_shader_resources_again _ _ _ _ h
          { vars := t.vars, cmds := t.cmds ++ [.SetShader v.basetype v.shader] } ht hc
        rw [show ({ t with cmds := t.cmds ++ [device_cmd.SetShader v.basetype v.shader] }
            : apply_state) = { vars := t.vars, cmds := t.cmds ++ [.SetShader v.basetype v.shader] }
          from rfl, r]
        refine ⟨[.SetShader v.basetype v.shader] ++ cs, by simp [List.append_assoc], ?_⟩
        have hu1 : upload_count [device_cmd.SetShader v.basetype v.shader] = 0 := rfl
        unfold upload_count at *
        rw [List.countP_append]
        omega
      · rw [if_neg hs] at h ⊢
        exact apply_shader_resources_again _ _ _ _ h t ht hc

theorem apply_fixed_state_eq (pass : d3d10_effect_pass) (t : apply_state) :
    ∃ cs, apply_fixed_state pass t = { vars := t.vars, cmds := t.cmds ++ cs } ∧
      upload_count cs = 0 := by
  unfold apply_fixed_state
  refine ⟨_, by simp only [List.append_assoc]; rfl, ?_⟩
  unfold upload_count
  rw [List.countP_append, List.countP_append]
  cases pass.rasterizer <;> cases pass.depth_stencil <;> cases pass.blend <;> rfl

/-- The first of two `Apply` calls: apart from device calls it only clears dirty flags,
every upload clears one, and afterwards every buffer bound by the pass is clean. -/
theorem apply_first (iface : pass_ref) (flags : Nat) (st st1 : apply_state) (hr : HRESULT)
    (h : d3d10_effect_pass_Apply iface flags st = .ok (hr, st1)) :
    hr = S_OK ∧ flags_only_cleared st st1 ∧
    ∀ sr ∈ stage_resources iface.deref.vs ++ stage_resources iface.deref.gs
        ++ stage_resources iface.deref.ps,
      is_buffer_resource sr = true → is_clean st1.vars sr.variable_ptr := by
  unfold d3d10_effect_pass_Apply at h
  simp only [] at h
  split at h
  · simp at h
  · simp at h
  · cases h1 : apply_stage iface.deref.vs st with
    | error f => rw [h1] at h; simp at h
    | ok s1 =>
      rw [h1] at h
      simp only [] at h
      cases h2 : apply_stage iface.deref.gs s1 with
      | error f => rw [h2] at h; simp at h
      | ok s2 =>
        rw [h2] at h
        simp only [] at h
        cases h3 : apply_stage iface.deref.ps s2 with
        | error f => rw [h3] at h; simp at h
        | ok s3 =>
          rw [h3] at h
          simp only [Except.ok.injEq, Prod.mk.injEq] at h
          obtain ⟨rfl, rfl⟩ := h
          obtain ⟨f1, c1⟩ := apply_stage_first _ _ _ h1
          obtain ⟨f2, c2⟩ := apply_stage_first _ _ _ h2
          obtain ⟨f3, c3⟩ := apply_stage_first _ _ _ h3
          obtain ⟨cs, hcs, hu⟩ := apply_fixed_state_eq iface.deref s3
          have f4 : flags_only_cleared s3 (apply_fixed_state iface.deref s3) :=
            flags_only_cleared_of_cmds _ _ cs hcs hu
          refine ⟨rfl, flags_only_cleared_trans f1
            (flags_only_cleared_trans f2 (flags_only_cleared_trans f3 f4)), ?_⟩
          intro sr hsr hb
          rcases List.mem_append.1 hsr with hsr | hsr
          · rcases List.mem_append.1 hsr with hsr | hsr
            · exact f4.2.1 _ (f3.2.1 _ (f2.2.1 _ (c1 sr hsr hb)))
            · exact f4.2.1 _ (f3.2.1 _ (c2 sr hsr hb))
          · exact f4.2.1 _ (c3 sr hsr hb)

/-- The second of two `Apply` calls with no write in between succeeds and makes no upload. -/
theorem apply_again (iface : pass_ref) (flags : Nat) (st st1 : apply_state) (hr : HRESULT)
    (h : d3d10_effect_pass_Apply iface flags st = .ok (hr, st1)) :
    ∃ cs, d3d10_effect_pass_Apply iface flags st1
        = .ok (S_OK, { vars := st1.vars, cmds := st1.cmds ++ cs }) ∧ upload_count cs = 0 := by
  obtain ⟨-, ff, cc⟩ := apply_first iface flags st st1 hr h
  unfold d3d10_effect_pass_Apply at h ⊢
  simp only [] at h ⊢
  split
  · rename_i hl; rw [hl] at h; simp at h
  · rename_i hl; rw [hl] at h; simp at h
  · rename_i dev hl
    rw [hl] at h
    simp only [] at h
    cases h1 : apply_stage iface.deref.vs st with
    | error f => rw [h1] at h; simp at h
    | ok s1 =>
      rw [h1] at h
      simp only [] at h
      cases h2 : apply_stage iface.deref.gs s1 with
      | error f => rw [h2] at h; simp at h
      | ok s2 =>
        rw [h2] at h
        simp only [] at h
        cases h3 : apply_stage iface.deref.ps s2 with
        | error f => rw [h3] at h; simp at h
        | ok s3 =>
          rw [h3] at h
          simp only [Except.ok.injEq, Prod.mk.injEq] at h
          have f1 := (apply_stage_first _ _ _ h1).1
          have f2 := (apply_stage_first _ _ _ h2).1
          obtain ⟨cs1, r1, u1⟩ := apply_stage_again _ _ _ h1 st1 ff.1
            (fun sr hsr => cc sr (List.mem_append_left _ (List.mem_append_left _ hsr)))
          rw [r1]
          simp only []
          obtain ⟨cs2, r2, u2⟩ := apply_stage_again _ _ _ h2
            { vars := st1.vars, cmds := st1.cmds ++ cs1 } (ff.1.trans f1.1.symm)
            (fun sr hsr => cc sr (List.mem_append_left _ (List.mem_append_right _ hsr)))
          rw [r2]
          simp only []
          obtain ⟨cs3, r3, u3⟩ := apply_stage_again _ _ _ h3
            { vars := st1.vars, cmds := st1.cmds ++ cs1 ++ cs2 }
            (ff.1.trans (f2.1.trans f1.1).symm)
            (fun sr hsr => cc sr (List.mem_append_right _ hsr))
          rw [r3]
          simp only []
          obtain ⟨cs4, r4, u4⟩ := apply_fixed_state_eq iface.deref
            { vars := st1.vars, cmds := st1.cmds ++ cs1 ++ cs2 ++ cs3 }
          rw [r4]
          refine ⟨cs1 ++ cs2 ++ cs3 ++ cs4, by simp [List.append_assoc], ?_⟩
          unfold upload_count at *
          simp only [List.countP_append]
          omega

/-- **C20**. Every typed write that stores into the backing store of a buffer sets the
dirty flag of that buffer: this holds for each of the four functions that write to a backing
store, `write_variable_to_buffer`, `write_variable_array_to_buffer`,
`write_matrix_variable_to_buffer` and `write_matrix_variable_array_to_buffer` (the array
writers store nothing when the offset is not below the element count of an array).
`update_buffer` uploads the backing store exactly when the flag
is set, and then clears it. For every pass and every `Apply` call that returns: the call
returns `S_OK`, changes nothing of the variables but dirty flags, which it only clears,
and every upload it issues clears the flag of one buffer (so it issues at most one upload
per buffer, however many writes came before); a second `Apply` call with no write in
between returns `S_OK` as well and issues no upload. -/
theorem dirty_flag_debounces_uploads (iface : pass_ref) (flags : Nat) (st st1 : apply_state)
    (hr : HRESULT) (h : d3d10_effect_pass_Apply iface flags st = .ok (hr, st1)) :
    (∀ var buffer src src_type buffer1,
      write_variable_to_buffer var buffer src src_type = .ok buffer1 →
      buffer1.changed = true) ∧
    (∀ var buffer src src_type offset count buffer1,
      write_variable_array_to_buffer var buffer src src_type offset count = .ok buffer1 →
      var.type.element_count = 0 ∨ offset < var.type.element_count →
      buffer1.changed = true) ∧
    (∀ var buffer src_data transpose buffer1,
      write_matrix_variable_to_buffer var buffer src_data transpose = .ok buffer1 →
      buffer1.changed = true) ∧
    (∀ var buffer src_data offset count transpose buffer1,
      write_matrix_variable_array_to_buffer var buffer src_data offset count transpose
        = .ok buffer1 →
      var.type.element_count = 0 ∨ offset < var.type.element_count →
      buffer1.changed = true) ∧
    (∀ a (s : apply_state) v, s.vars[a]? = some v →
      update_buffer a s = .ok (if v.changed then
        { vars := s.vars.set a { v with changed := false },
          cmds := s.cmds ++ [.UpdateSubresource v.buffer v.local_buffer v.data_size] }
        else s)) ∧
    hr = S_OK ∧ flags_only_cleared st st1 ∧
    (∃ cs, st1.cmds = st.cmds ++ cs ∧
      upload_count cs + dirty_count st1.vars = dirty_count st.vars ∧
      upload_count cs ≤ st.vars.length) ∧
    (∃ cs, d3d10_effect_pass_Apply iface flags st1
        = .ok (S_OK, { vars := st1.vars, cmds := st1.cmds ++ cs }) ∧ upload_count cs = 0) := by
  obtain ⟨h1, h2, -⟩ := apply_first iface flags st st1 hr h
  refine ⟨?_, ?_, ?_, ?_, update_buffer_eq, h1, h2, ?_, apply_again iface flags st st1 hr h⟩
  · intro var buffer src src_type buffer1 hw
    exact write_local_buffer_changed _ _ _ hw
  · intro var buffer src src_type offset count buffer1 hw hn
    unfold write_variable_array_to_buffer at hw
    by_cases hn0 : var.type.element_count = 0
    · rw [if_pos hn0] at hw
      exact write_local_buffer_changed _ _ _ hw
    · rw [if_neg hn0] at hw
      have hlt : ¬ var.type.element_count ≤ offset := by omega
      rw [if_neg hlt] at hw
      dsimp only at hw
      cases he : var.type.elementtype with
      | none => rw [he] at hw; simp at hw
      | some e =>
        rw [he] at hw
        exact write_local_buffer_changed _ _ _ hw
  · intro var buffer src_data transpose buffer1 hw
    exact write_local_buffer_changed _ _ _ hw
  · intro var buffer src_data offset count transpose buffer1 hw hn
    unfold write_matrix_variable_array_to_buffer at hw
    by_cases hn0 : var.type.element_count = 0
    · rw [if_pos hn0] at hw
      exact write_local_buffer_changed _ _ _ hw
    · rw [if_neg hn0] at hw
      have hlt : ¬ var.type.element_count ≤ offset := by omega
      rw [if_neg hlt] at hw
      exact write_local_buffer_changed _ _ _ hw
  · obtain ⟨-, -, cs, hc, hu⟩ := h2
    refine ⟨cs, hc, hu, ?_⟩
    have : dirty_count st.vars ≤ st.vars.length := List.countP_le_length _
    omega

/-- **C20**, witness: with one dirty constant buffer bound to the vertex shader of the
pass, the first `Apply` binds the shader, uploads the buffer and binds it; the second
`Apply` binds the shader and the buffer without an upload. -/
theorem dirty_flag_debounces_uploads_witness :
    d3d10_effect_pass_Apply (.obj pass_with_cbuffer) 0 state_one_dirty_buffer
      = .ok (S_OK, state_after_first_apply) ∧
    ∃ cs, d3d10_effect_pass_Apply (.obj pass_with_cbuffer) 0 state_after_first_apply
        = .ok (S_OK, { vars := state_after_first_apply.vars,
                       cmds := state_after_first_apply.cmds ++ cs }) ∧
      upload_count cs = 0 :=
  ⟨by rfl,
    (dirty_flag_debounces_uploads (.obj pass_with_cbuffer) 0 state_one_dirty_buffer
      state_after_first_apply S_OK (by rfl)).2.2.2.2.2.2.2.2⟩

theorem without_flags_length {vars vars1 : List resource_variable}
    (h : without_flags vars1 = without_flags vars) : vars1.length = vars.length := by
  have := congrArg List.length h
  simpa [without_flags] using this

theorem without_flags_none {vars vars1 : List resource_variable}
    (h : without_flags vars1 = without_flags vars) (a : Nat) (hv : vars[a]? = none) :
    vars1[a]? = none := by
  rw [List.getElem?_eq_none_iff] at hv ⊢
  rw [without_flags_length h]
  exact hv

theorem binding_calls_append (a b : List device_cmd) :
    binding_calls (a ++ b) = binding_calls a ++ binding_calls b := by
  simp [binding_calls]

theorem set_sampler_array_binding (stage : D3D10_SVT) (hs : is_shader_stage stage = true)
    (elements : List (Option Nat)) (bind_point : Nat) :
    ∀ (n j : Nat) (s : apply_state), j + n ≤ elements.length →
      set_sampler_array stage elements bind_point n j s
        = .ok { vars := s.vars, cmds := s.cmds ++ (List.range n).map fun i =>
            .SetSamplers stage (bind_point + (j + i)) (elements.getD (j + i) none) } := by
  intro n
  induction n with
  | zero => intro j s _; simp [set_sampler_array]
  | succ n ih =>
    intro j s hj
    have hlt : j < elements.length := by omega
    rw [set_sampler_array, List.getElem?_eq_getElem hlt]
    simp only
    rw [ih (j + 1) _ (by omega)]
    simp only [set_sampler, hs, if_true, List.range_succ_eq_map, List.map_cons, List.map_map,
      List.append_assoc, List.singleton_append, Nat.add_zero]
    congr 3
    simp [List.getD_eq_getElem?_getD, List.getElem?_eq_getElem hlt]
    intro i _
    rw [show j + 1 + i = j + (i + 1) by omega]
    exact ⟨rfl, rfl⟩

theorem apply_shader_resource_binding (stage : D3D10_SVT) (hs : is_shader_stage stage = true)
    (sr : d3d10_effect_shader_resource) (s : apply_state) (vars0 : List resource_variable)
    (h0 : without_flags s.vars = without_flags vars0) (hv : resource_valid vars0 sr = true) :
    ∃ s1 cs, apply_shader_resource stage sr s = .ok s1 ∧
      without_flags s1.vars = without_flags vars0 ∧ s1.cmds = s.cmds ++ cs ∧
      binding_calls cs = resource_binding stage vars0 sr := by
  unfold resource_valid at hv
  unfold apply_shader_resource resource_binding
  cases hk : sr.in_type with
  | CBUFFER =>
    rw [hk] at hv
    simp only [decide_eq_true_eq] at hv
    obtain ⟨v, hv1, -, -, hbuf, -⟩ :=
      without_flags_some h0 sr.variable_ptr _ (List.getElem?_eq_getElem hv)
    simp only [List.getElem?_eq_getElem hv, update_buffer_eq _ _ _ hv1, hs, if_true]
    cases hc : v.changed
    · simp only [Bool.false_eq_true, if_false, hv1]
      exact ⟨_, _, rfl, h0, rfl, by simp [binding_calls, is_upload, hbuf]⟩
    · simp only [if_true]
      have hlt : sr.variable_ptr < s.vars.length := by
        rw [without_flags_length h0]; exact hv
      simp only [List.getElem?_set_self hlt]
      refine ⟨_, [.UpdateSubresource v.buffer v.local_buffer v.data_size,
        .SetConstantBuffers stage sr.bind_point v.buffer], rfl, ?_, by simp, ?_⟩
      · show without_flags (s.vars.set _ _) = _
        rw [without_flags_set _ _ _ hv1, h0]
      · simp [binding_calls, is_upload, hbuf]
  | TBUFFER =>
    rw [hk] at hv
    simp only [decide_eq_true_eq] at hv
    obtain ⟨v, hv1, -, -, -, hview, -⟩ :=
      without_flags_some h0 sr.variable_ptr _ (List.getElem?_eq_getElem hv)
    simp only [List.getElem?_eq_getElem hv, update_buffer_eq _ _ _ hv1, hs, if_true]
    cases hc : v.changed
    · simp only [Bool.false_eq_true, if_false, hv1]
      exact ⟨_, _, rfl, h0, rfl, by simp [binding_calls, is_upload, hview]⟩
    · simp only [if_true]
      have hlt : sr.variable_ptr < s.vars.length := by
        rw [without_flags_length h0]; exact hv
      simp only [List.getElem?_set_self hlt]
      refine ⟨_, [.UpdateSubresource v.buffer v.local_buffer v.data_size,
        .SetShaderResources stage sr.bind_point sr.bind_count [v.resource_view]], rfl, ?_,
        by simp, ?_⟩
      · show without_flags (s.vars.set _ _) = _
        rw [without_flags_set _ _ _ hv1, h0]
      · simp [binding_calls, is_upload, hview]
  | TEXTURE =>
    rw [hk] at hv
    cases hg : vars0[sr.variable_ptr]? with
    | none => rw [hg] at hv; simp at hv
    | some v0 =>
      rw [hg] at hv
      obtain ⟨v, hv1, hbt, -, -, -, hsrv, -, htex, -⟩ := without_flags_some h0 sr.variable_ptr _ hg
      simp only [hv1, hbt, htex, hs, if_true]
      by_cases hsam : v0.basetype = .SAMPLER
      · simp only [hsam, if_true] at hv ⊢
        cases ht : v0.texture with
        | none => rw [ht] at hv; simp at hv
        | some a =>
          rw [ht] at hv
          simp only [decide_eq_true_eq] at hv
          obtain ⟨t, ht1, -, -, -, -, hsrv1, -⟩ :=
            without_flags_some h0 a _ (List.getElem?_eq_getElem hv)
          simp only [ht1, Option.some_bind, List.getElem?_eq_getElem hv]
          exact ⟨_, _, rfl, h0, rfl, by simp [binding_calls, is_upload, hsrv1]⟩
      · simp only [hsam, if_false, hv1]
        exact ⟨_, _, rfl, h0, rfl, by simp [binding_calls, is_upload, hsrv]⟩
  | SAMPLER =>
    rw [hk] at hv
    cases hg : vars0[sr.variable_ptr]? with
    | none => rw [hg] at hv; simp at hv
    | some v0 =>
      rw [hg] at hv
      obtain ⟨v, hv1, -, hec, -, -, -, hsam, -, hel⟩ := without_flags_some h0 sr.variable_ptr _ hg
      simp only [hv1, hec, hsam, hel]
      by_cases hz : v0.element_count = 0
      · simp only [hz, if_true, set_sampler, hs]
        exact ⟨_, _, rfl, h0, rfl, by simp [binding_calls, is_upload]⟩
      · simp only [hz, if_false, decide_False, Bool.false_or, decide_eq_true_eq] at hv ⊢
        rw [set_sampler_array_binding stage hs _ _ _ 0 s (by omega)]
        refine ⟨_, _, rfl, h0, rfl, ?_⟩
        simp only [binding_calls, Nat.zero_add]
        rw [List.filter_eq_self]
        intro c hc
        simp only [List.mem_map] at hc
        obtain ⟨i, -, rfl⟩ := hc
        rfl
  | OTHER =>
    cases hg : vars0[sr.variable_ptr]? <;>
      exact ⟨s, [], rfl, h0, by simp, by simp [binding_calls]⟩

theorem resource_valid_congr {vars vars0 : List resource_variable}
    (h : without_flags vars = without_flags vars0) (sr : d3d10_effect_shader_resource) :
    resource_valid vars sr = resource_valid vars0 sr := by
  unfold resource_valid
  rw [without_flags_length h]
  cases hg : vars0[sr.variable_ptr]? with
  | none =>
    rw [without_flags_none h _ hg]
  | some v0 =>
    obtain ⟨v, hv1, hbt, hec, -, -, -, -, htex, hel⟩ := without_flags_some h sr.variable_ptr _ hg
    rw [hv1]
    simp only [hbt, hec, htex, hel]

theorem apply_shader_resources_binding (stage : D3D10_SVT) (hs : is_shader_stage stage = true)
    (vars0 : List resource_variable) :
    ∀ (rs : List d3d10_effect_shader_resource) (s : apply_state),
      without_flags s.vars = without_flags vars0 → rs.all (resource_valid vars0) = true →
      ∃ s1 cs, apply_shader_resources stage rs s = .ok s1 ∧
        without_flags s1.vars = without_flags vars0 ∧ s1.cmds = s.cmds ++ cs ∧
        binding_calls cs = (rs.map (resource_binding stage vars0)).flatten
  | [], s, h0, _ => ⟨s, [], rfl, h0, by simp, by simp [binding_calls]⟩
  | sr :: rest, s, h0, hv => by
    simp only [List.all_cons, Bool.and_eq_true] at hv
    obtain ⟨s1, cs1, h1, hw1, hc1, hb1⟩ := apply_shader_resource_binding stage hs sr s vars0 h0 hv.1
    obtain ⟨s2, cs2, h2, hw2, hc2, hb2⟩ := apply_shader_resources_binding stage hs vars0 rest s1 hw1 hv.2
    refine ⟨s2, cs1 ++ cs2, ?_, hw2, ?_, ?_⟩
    · rw [apply_shader_resources, h1]
      exact h2
    · rw [hc2, hc1, List.append_assoc]
    · rw [binding_calls_append, hb1, hb2]
      simp

theorem apply_stage_binding (stage : D3D10_SVT) (hs : is_shader_stage stage = true)
    (vars0 : List resource_variable) (shader_desc : d3d10_effect_pass_shader_desc)
    (s : apply_state) (h0 : without_flags s.vars = without_flags vars0)
    (hv : stage_valid stage vars0 shader_desc = true) :
    ∃ s1 cs, apply_stage shader_desc s = .ok s1 ∧
      without_flags s1.vars = without_flags vars0 ∧ s1.cmds = s.cmds ++ cs ∧
      binding_calls cs = stage_binding stage vars0 shader_desc := by
  unfold apply_stage stage_binding
  by_cases hn : shader_desc.shader = .null_shader_variable
  · simp only [hn, if_true]
    exact ⟨s, [], rfl, h0, by simp, by simp [binding_calls]⟩
  · simp only [hn, if_false]
    unfold stage_valid at hv
    simp only [hn, decide_False, Bool.false_or] at hv
    unfold d3d10_effect_pass_set_shader
    cases hg : d3d10_array_get_element shader_desc.shader shader_desc.index with
    | error f => rw [hg] at hv; simp at hv
    | ok v =>
      rw [hg] at hv
      simp only [Bool.and_eq_true, decide_eq_true_eq] at hv
      obtain ⟨hbt, hres⟩ := hv
      simp only [hbt, hs, if_true]
      obtain ⟨s1, cs, h1, hw, hc, hb⟩ := apply_shader_resources_binding stage hs vars0
        v.resources { s with cmds := s.cmds ++ [.SetShader stage v.shader] } h0 hres
      refine ⟨s1, .SetShader stage v.shader :: cs, h1, hw, ?_, ?_⟩
      · rw [hc]; simp
      · rw [show (device_cmd.SetShader stage v.shader :: cs) = [.SetShader stage v.shader] ++ cs
          from rfl, binding_calls_append, hb]
        rfl

theorem apply_fixed_state_binding (pass : d3d10_effect_pass) (s : apply_state) :
    apply_fixed_state pass s = { vars := s.vars, cmds := s.cmds ++ fixed_state_binding pass } ∧
    binding_calls (fixed_state_binding pass) = fixed_state_binding pass := by
  unfold apply_fixed_state fixed_state_binding
  cases pass.rasterizer <;> cases pass.depth_stencil <;> cases pass.blend <;>
    simp [binding_calls, is_upload]

/-- **C21**. For every valid pass (it belongs to an effect with a device, each of its three
shader descriptions refers to the static `null_shader_variable` or to a shader of the stage,
and the variables of the reflected resources exist), `Apply` returns `S_OK`, changes nothing
of the resource variables but dirty flags and appends device calls which, uploads of
backing stores left aside, are in this order: for the vertex, then the geometry, then the
pixel stage, unless the shader of the stage is the null sentinel, the shader of the stage
followed by the bindings of its reflected resources in order; then the rasterizer state if
present, the depth-stencil state with the stencil reference of the pass if present, and
the blend state with the blend factor and the sample mask of the pass if present. -/
theorem apply_binds_stages_in_order (iface : pass_ref) (flags : Nat) (st : apply_state)
    (hv : pass_valid st.vars iface.deref = true) :
    ∃ st1 cs, d3d10_effect_pass_Apply iface flags st = .ok (S_OK, st1) ∧
      without_flags st1.vars = without_flags st.vars ∧ st1.cmds = st.cmds ++ cs ∧
      binding_calls cs =
        stage_binding .VERTEXSHADER st.vars iface.deref.vs ++
        stage_binding .GEOMETRYSHADER st.vars iface.deref.gs ++
        stage_binding .PIXELSHADER st.vars iface.deref.ps ++
        ((match iface.deref.rasterizer with
          | some o => [.RSSetState o]
          | none => []) ++
        (match iface.deref.depth_stencil with
          | some o => [.OMSetDepthStencilState o iface.deref.stencil_ref]
          | none => []) ++
        (match iface.deref.blend with
          | some o => [.OMSetBlendState o iface.deref.blend_factor iface.deref.sample_mask]
          | none => [])) := by
  unfold pass_valid at hv
  simp only [Bool.and_eq_true] at hv
  obtain ⟨⟨⟨ht, hvs⟩, hgs⟩, hps⟩ := hv
  obtain ⟨s1, c1, h1, hw1, hc1, hb1⟩ :=
    apply_stage_binding .VERTEXSHADER rfl st.vars iface.deref.vs st rfl hvs
  obtain ⟨s2, c2, h2, hw2, hc2, hb2⟩ :=
    apply_stage_binding .GEOMETRYSHADER rfl st.vars iface.deref.gs s1 hw1 hgs
  obtain ⟨s3, c3, h3, hw3, hc3, hb3⟩ :=
    apply_stage_binding .PIXELSHADER rfl st.vars iface.deref.ps s2 hw2 hps
  obtain ⟨hf, hbf⟩ := apply_fixed_state_binding iface.deref s3
  refine ⟨apply_fixed_state iface.deref s3, c1 ++ c2 ++ c3 ++ fixed_state_binding iface.deref,
    ?_, ?_, ?_, ?_⟩
  · unfold d3d10_effect_pass_Apply
    cases htq : iface.deref.technique with
    | none => rw [htq] at ht; simp at ht
    | some l =>
      cases l with
      | none => rw [htq] at ht; simp at ht
      | some d =>
        simp only [h1, h2, h3]
        rw [htq]
  · rw [hf]; exact hw3
  · rw [hf]
    simp only [hc3, hc2, hc1, List.append_assoc]
  · rw [binding_calls_append, binding_calls_append, binding_calls_append, hb1, hb2, hb3, hbf]
    rfl

set_option maxRecDepth 100000 in
/-- **C21**, witness: the pass `pass_all_stages` binds the vertex shader 7 with its constant
buffer and its two samplers, the geometry shader 9 (element 1 of an array), the pixel
shader 10 with the texture attached to its sampler and its texture buffer, then the three
state objects. The only other call is the upload of the dirty buffer. -/
theorem apply_binds_stages_in_order_witness :
    (∃ st1 cs, d3d10_effect_pass_Apply (.obj pass_all_stages) 0 ⟨vars_all_stages, []⟩
        = .ok (S_OK, st1) ∧
      without_flags st1.vars = without_flags vars_all_stages ∧ st1.cmds = [] ++ cs ∧
      binding_calls cs =
        [.SetShader .VERTEXSHADER (some 7), .SetConstantBuffers .VERTEXSHADER 0 (some 1),
          .SetSamplers .VERTEXSHADER 2 (some 41), .SetSamplers .VERTEXSHADER 3 (some 42),
          .SetShader .GEOMETRYSHADER (some 9),
          .SetShader .PIXELSHADER (some 10), .SetShaderResources .PIXELSHADER 3 1 [some 50],
          .SetShaderResources .PIXELSHADER 4 1 [some 30],
          .RSSetState (some 20), .OMSetDepthStencilState (some 21) 5,
          .OMSetBlendState none [0, 0, 0, 0x3f800000] 0xffff]) ∧
    (d3d10_effect_pass_Apply (.obj pass_all_stages) 0 ⟨vars_all_stages, []⟩).map
        (fun r => r.2.cmds.map is_upload)
      = .ok [false, true, false, false, false, false, false, false, false, false, false,
          false] :=
  ⟨apply_binds_stages_in_order (.obj pass_all_stages) 0 ⟨vars_all_stages, []⟩ (by decide),
    by decide⟩

/-! ## Stream output declarations -/

theorem c_string_from_append (post : List Nat) :
    ∀ (s : List Nat) (i : Nat), 0 ∉ s → c_string_from (s ++ 0 :: post) i = .ok s
  | [], _, _ => by simp [c_string_from]
  | c :: rest, i, h => by
    have hc : c ≠ 0 := fun h0 => h (by simp [h0])
    have hr : 0 ∉ rest := fun h0 => h (by simp [h0])
    have ih := c_string_from_append post rest (i + 1) hr
    rw [List.cons_append, c_string_from, if_neg hc, ih]

theorem c_string_of_str_at {buf : List Nat} {p : Nat} {s : List Nat} (h : str_at buf p s) :
    c_string buf p = .ok s := by
  obtain ⟨h0, post, hd⟩ := h
  rw [c_string, hd]
  exact c_string_from_append post s p h0

theorem str_at_drop {buf : List Nat} {p : Nat} {s : List Nat} (h : str_at buf p s) (j : Nat)
    (hj : j ≤ s.length) : str_at buf (p + j) (s.drop j) := by
  obtain ⟨h0, post, hd⟩ := h
  refine ⟨fun hm => h0 (List.mem_of_mem_drop hm), post, ?_⟩
  rw [← List.drop_drop, hd, List.drop_append_of_le_length hj]

theorem str_at_getElem {buf : List Nat} {p : Nat} {s : List Nat} (h : str_at buf p s) (i : Nat)
    (hi : i < s.length) : buf[p + i]? = some s[i] := by
  obtain ⟨-, post, hd⟩ := h
  rw [← List.getElem?_drop, hd, List.getElem?_append_left hi, List.getElem?_eq_getElem hi]

theorem str_at_nul {buf : List Nat} {p : Nat} {s : List Nat} (h : str_at buf p s) :
    buf[p + s.length]? = some 0 := by
  obtain ⟨-, post, hd⟩ := h
  rw [← List.getElem?_drop, hd, List.getElem?_append_right (Nat.le_refl _)]
  simp

theorem str_at_lt {buf : List Nat} {p : Nat} {s : List Nat} (h : str_at buf p s) :
    p + s.length < buf.length := by
  have := str_at_nul h
  by_contra hge
  rw [List.getElem?_eq_none (by omega)] at this
  simp at this

theorem str_at_set_cut {buf : List Nat} {p : Nat} {s : List Nat} (h : str_at buf p s) (k : Nat)
    (hk : k ≤ s.length) : str_at (buf.set (p + k) 0) p (s.take k) := by
  obtain ⟨h0, post, hd⟩ := h
  refine ⟨fun hm => h0 (List.mem_of_mem_take hm), ?_⟩
  rw [List.drop_set, if_neg (by omega), hd, Nat.add_sub_cancel_left]
  by_cases hlt : k < s.length
  · rw [List.set_append_left _ _ hlt, List.set_eq_take_append_cons_drop, if_pos hlt]
    exact ⟨s.drop (k + 1) ++ 0 :: post, by simp⟩
  · have hke : k = s.length := by omega
    subst hke
    rw [List.set_append_right _ _ (Nat.le_refl _)]
    exact ⟨post, by simp⟩

theorem str_at_set_before {buf : List Nat} {q : Nat} {r : List Nat} (h : str_at buf q r)
    (w : Nat) (hw : w < q) : str_at (buf.set w 0) q r := by
  obtain ⟨h0, post, hd⟩ := h
  exact ⟨h0, post, by rw [List.drop_set_of_lt _ _ hw, hd]⟩

theorem str_at_unique {buf : List Nat} {p : Nat} {s t : List Nat} (hs : str_at buf p s)
    (ht : str_at buf p t) : s = t := by
  have h1 := c_string_of_str_at hs
  rw [c_string_of_str_at ht] at h1
  simpa using h1.symm

theorem read_char_of_str_at {buf : List Nat} {p : Nat} {s : List Nat} (h : str_at buf p s)
    (i : Nat) : read_char buf (p + i) =
      if i < s.length then .ok (s.getD i 0) else if i = s.length then .ok 0
      else read_char buf (p + i) := by
  by_cases hi : i < s.length
  · rw [if_pos hi, read_char, str_at_getElem h i hi]
    simp [List.getD_eq_getElem?_getD, List.getElem?_eq_getElem hi]
  · rw [if_neg hi]
    by_cases he : i = s.length
    · rw [if_pos he, he, read_char, str_at_nul h]
    · rw [if_neg he]

theorem write_char_of_str_at {buf : List Nat} {p : Nat} {s : List Nat} (h : str_at buf p s)
    (k : Nat) (hk : k ≤ s.length) : write_char buf (p + k) 0 = .ok (buf.set (p + k) 0) := by
  have := str_at_lt h
  rw [write_char, if_pos (by omega)]

theorem index_of_spec (c : Nat) : ∀ (s : List Nat),
    (index_of c s = none ∧ c ∉ s) ∨
    (∃ j, index_of c s = some j ∧ j < s.length ∧ s.getD j 0 = c ∧ c ∉ s.take j)
  | [] => Or.inl ⟨rfl, by simp⟩
  | b :: rest => by
    by_cases hb : b = c
    · right
      exact ⟨0, by simp [index_of, hb], by simp, by simp [hb], by simp⟩
    · rcases index_of_spec c rest with ⟨h1, h2⟩ | ⟨j, h1, h2, h3, h4⟩
      · left
        refine ⟨by simp [index_of, hb, h1], ?_⟩
        simp only [List.mem_cons, not_or]
        exact ⟨fun h => hb h.symm, h2⟩
      · right
        refine ⟨j + 1, by simp [index_of, hb, h1], by simp; omega, by simpa using h3, ?_⟩
        simp only [List.take_succ_cons, List.mem_cons, not_or]
        exact ⟨fun h => hb h.symm, h4⟩

theorem so_trim_leading_eq (buf : List Nat) :
    ∀ (len p : Nat) (s : List Nat), str_at buf p s → len ≤ s.length →
      so_trim_leading buf p len
        = .ok (p + ((s.take len).takeWhile isspace).length,
            len - ((s.take len).takeWhile isspace).length) := by
  intro len
  induction len with
  | zero => intro p s _ _; simp [so_trim_leading]
  | succ len ih =>
    intro p s h hl
    cases s with
    | nil => simp at hl
    | cons c rest =>
      have hr : read_char buf p = .ok c := by
        have := str_at_getElem h 0 (by simp)
        rw [Nat.add_zero] at this
        rw [read_char, this]
        rfl
      have h1 : str_at buf (p + 1) rest := by simpa using str_at_drop h 1 (by simp)
      rw [so_trim_leading, hr]
      simp only [List.take_succ_cons, List.takeWhile_cons]
      by_cases hc : isspace c = true
      · rw [if_pos hc, if_pos hc, ih (p + 1) rest h1 (by simpa using hl)]
        simp only [List.length_cons]
        congr 2
        · omega
        · omega
      · rw [if_neg hc, if_neg hc]
        simp

theorem take_succ_reverse (s : List Nat) (len : Nat) (h : len < s.length) :
    (s.take (len + 1)).reverse = s.getD len 0 :: (s.take len).reverse := by
  rw [List.take_succ, List.reverse_append, List.getElem?_eq_getElem h]
  simp [List.getD_eq_getElem?_getD, List.getElem?_eq_getElem h]

theorem so_trim_trailing_eq (buf : List Nat) (p : Nat) (s : List Nat) (h : str_at buf p s) :
    ∀ (len : Nat), len ≤ s.length →
      so_trim_trailing buf p len
        = .ok (len - ((s.take len).reverse.takeWhile isspace).length) := by
  intro len
  induction len with
  | zero => intro _; simp [so_trim_trailing]
  | succ len ih =>
    intro hl
    have hr : read_char buf (p + len) = .ok (s.getD len 0) := by
      rw [read_char_of_str_at h, if_pos (by omega)]
    rw [so_trim_trailing, hr, take_succ_reverse s len (by omega)]
    simp only [List.takeWhile_cons]
    by_cases hc : isspace (s.getD len 0) = true
    · rw [if_pos hc, if_pos hc, ih (by omega)]
      simp only [List.length_cons]
      congr 1
      omega
    · rw [if_neg hc, if_neg hc]
      simp

theorem so_slot_digits_eq (post : List Nat) :
    ∀ (s : List Nat) (ptr : Nat), 0 ∉ s →
      so_slot_digits (s ++ 0 :: post) ptr = .ok (s.all isdigit)
  | [], _, _ => by simp [so_slot_digits]
  | c :: rest, ptr, h => by
    have hc : c ≠ 0 := fun h0 => h (by simp [h0])
    have hr : 0 ∉ rest := fun h0 => h (by simp [h0])
    have ih := so_slot_digits_eq post rest (ptr + 1) hr
    rw [List.cons_append, so_slot_digits, if_neg hc]
    by_cases hd : isdigit c = true
    · rw [if_neg (by simp [hd]), ih]
      simp [hd]
    · rw [if_pos (by simpa using hd)]
      simp [hd]

theorem so_index_digits_eq (buf : List Nat) (p : Nat) (s : List Nat) (h : str_at buf p s)
    (hbuf : buf.length ≤ 0xffffffff) :
    ∀ (len rounds : Nat), len ≤ s.length → len < rounds →
      so_index_digits buf p rounds len
        = if (s.take len).all isdigit then .error (.oob_read (p + 0xffffffff))
          else .ok (len - ((s.take len).reverse.takeWhile isdigit).length) := by
  intro len
  induction len with
  | zero =>
    intro rounds _ hr
    cases rounds with
    | zero => omega
    | succ r =>
      rw [so_index_digits]
      have : read_char buf (p + (0 + (2 ^ 32 - 1)) % 2 ^ 32) = .error (.oob_read (p + 0xffffffff)) := by
        rw [read_char, List.getElem?_eq_none (by
          show buf.length ≤ p + (0 + (2 ^ 32 - 1)) % 2 ^ 32
          have : (0 + (2 ^ 32 - 1)) % 2 ^ 32 = 0xffffffff := by norm_num
          omega)]
        rfl
      rw [this]
      simp
  | succ len ih =>
    intro rounds hl hr
    cases rounds with
    | zero => omega
    | succ r =>
      have hs := str_at_lt h
      have hidx : (len + 1 + (2 ^ 32 - 1)) % 2 ^ 32 = len := by
        have : len + 1 + (2 ^ 32 - 1) = len + 2 ^ 32 := by omega
        rw [this, Nat.add_mod_right]
        exact Nat.mod_eq_of_lt (by omega)
      have hrd : read_char buf (p + len) = .ok (s.getD len 0) := by
        rw [read_char_of_str_at h, if_pos (by omega)]
      rw [so_index_digits, hidx, hrd, take_succ_reverse s len (by omega)]
      have hall : (s.take (len + 1)).all isdigit
          = (isdigit (s.getD len 0) && (s.take len).all isdigit) := by
        rw [← List.all_reverse, take_succ_reverse s len (by omega), List.all_cons,
          List.all_reverse]
      rw [hall]
      simp only [List.takeWhile_cons]
      by_cases hc : isdigit (s.getD len 0) = true
      · rw [if_pos hc, if_pos hc, ih r (by omega) (by omega)]
        simp only [hc, Bool.true_and, List.length_cons]
        split
        · rfl
        · rw [Nat.add_sub_add_right]
      · rw [if_neg hc, if_neg hc]
        have hc1 : isdigit (s.getD len 0) = false := by simpa using hc
        rw [hc1]
        simp

theorem index_of_eq (c : Nat) : ∀ (s : List Nat),
    index_of c s = if (s.takeWhile fun b => b != c).length < s.length
      then some (s.takeWhile fun b => b != c).length else none
  | [] => by simp [index_of]
  | b :: rest => by
    rw [index_of, index_of_eq c rest]
    by_cases hb : b = c
    · simp [hb]
    · have hbne : (b != c) = true := by simpa using hb
      simp only [hb, if_false, List.takeWhile_cons, hbne, if_true, List.length_cons]
      split
      · rw [if_pos (by omega)]
        rfl
      · rw [if_neg (by omega)]
        rfl

theorem takeWhile_eq_take_length (q : Nat → Bool) (s : List Nat) :
    s.takeWhile q = s.take (s.takeWhile q).length ∧
    s.dropWhile q = s.drop (s.takeWhile q).length := by
  induction s with
  | nil => simp
  | cons c rest ih =>
    by_cases hc : q c = true
    · simp only [List.takeWhile_cons, hc, if_true, List.length_cons, List.take_succ_cons,
        List.dropWhile_cons, List.drop_succ_cons]
      exact ⟨by rw [← ih.1], ih.2⟩
    · simp [List.takeWhile_cons, List.dropWhile_cons, hc]

theorem take_sub_trailing (q : Nat → Bool) (t : List Nat) :
    t.take (t.length - (t.reverse.takeWhile q).length) = (t.reverse.dropWhile q).reverse := by
  have h := takeWhile_eq_take_length q t.reverse
  rw [h.2, List.drop_reverse, List.reverse_reverse]

theorem drop_sub_trailing (q : Nat → Bool) (t : List Nat) :
    t.drop (t.length - (t.reverse.takeWhile q).length) = (t.reverse.takeWhile q).reverse := by
  have h := takeWhile_eq_take_length q t.reverse
  conv => rhs; rw [h.1]
  rw [List.take_reverse, List.reverse_reverse]

theorem same_beyond_refl (buf : List Nat) (n : Nat) : same_beyond buf buf n :=
  ⟨rfl, fun _ _ _ h => h⟩

theorem same_beyond_set (buf : List Nat) (w n : Nat) (h : w < n) :
    same_beyond buf (buf.set w 0) n :=
  ⟨by simp, fun _ _ hq hs => str_at_set_before hs w (by omega)⟩

theorem same_beyond_trans {a b c : List Nat} {n m : Nat} (h1 : same_beyond a b n)
    (h2 : same_beyond b c m) (hm : m ≤ n) : same_beyond a c n :=
  ⟨h2.1.trans h1.1, fun q r hq hs => h2.2 q r (by omega) (h1.2 q r hq hs)⟩

theorem strchr_of_str_at {buf : List Nat} {p : Nat} {s : List Nat} (h : str_at buf p s)
    (c : Nat) : strchr buf p c = .ok ((index_of c s).map (p + ·)) := by
  rw [strchr, c_string_of_str_at h]

theorem strlen_of_str_at {buf : List Nat} {p : Nat} {s : List Nat} (h : str_at buf p s) :
    strlen buf p = .ok s.length := by
  rw [strlen, c_string_of_str_at h]

theorem so_first_piece_length_le (s : List Nat) : (so_first_piece s).length ≤ s.length := by
  have := (takeWhile_eq_take_length (fun c => c != 59) s).1
  unfold so_first_piece
  rw [this, List.length_take]
  exact Nat.min_le_right _ _

theorem so_rest_eq (s : List Nat) : so_rest s = s.drop ((so_first_piece s).length + 1) := by
  unfold so_rest so_first_piece
  rw [(takeWhile_eq_take_length (fun c => c != 59) s).2, List.drop_drop]

theorem so_first_piece_eq (s : List Nat) : so_first_piece s = s.take (so_first_piece s).length :=
  (takeWhile_eq_take_length (fun c => c != 59) s).1

theorem so_entry_extent_eq (buf : List Nat) (p : Nat) (s : List Nat) (h : str_at buf p s) :
    ∃ next p1 buf1, so_entry_extent buf p = .ok (next, p1, buf1) ∧
      buf1.length = buf.length ∧ str_at buf1 p1 (so_trim (so_first_piece s)) ∧
      str_at buf1 next (so_rest s) ∧ p1 + (so_trim (so_first_piece s)).length ≤ next ∧
      (s ≠ [] → (so_rest s).length < s.length) := by
  have hk := so_first_piece_length_le s
  have hpiece := so_first_piece_eq s
  generalize hkd : (so_first_piece s).length = k at hk hpiece
  -- the first two steps
  have hstep : (match strchr buf p 59 with
      | .error f => (.error f : Except Fault (Nat × Nat))
      | .ok e_nd =>
        match e_nd with
        | some e => .ok (e + 1, e + 1 - p - 1)
        | none =>
          match strlen buf p with
          | .error f => .error f
          | .ok l => .ok (p + l, p + l - p))
      = .ok (if k < s.length then p + k + 1 else p + k, k) := by
    rw [strchr_of_str_at h, index_of_eq]
    have : (List.takeWhile (fun b => b != 59) s).length = k := hkd
    rw [this]
    by_cases hlt : k < s.length
    · simp only [hlt, if_true, Option.map_some']
      congr 2
      omega
    · simp only [hlt, if_false, Option.map_none', strlen_of_str_at h]
      have : k = s.length := by omega
      congr 2
      · omega
      · omega
  -- trimming
  let lead := ((s.take k).takeWhile isspace).length
  have hlead : lead ≤ k := by
    have := (takeWhile_eq_take_length isspace (s.take k)).1
    have h2 : lead = ((s.take k).take lead).length := by
      show ((s.take k).takeWhile isspace).length = _
      rw [← this]
    rw [List.length_take, List.length_take] at h2
    omega
  have h1 := so_trim_leading_eq buf k p s h hk
  have hd : str_at buf (p + lead) (s.drop lead) := str_at_drop h lead (by omega)
  have h2 := so_trim_trailing_eq buf (p + lead) (s.drop lead) hd (k - lead)
    (by rw [List.length_drop]; omega)
  have ht1 : (s.drop lead).take (k - lead) = (so_first_piece s).dropWhile isspace := by
    rw [← List.drop_take, (takeWhile_eq_take_length isspace (so_first_piece s)).2, hpiece]
  rw [ht1] at h2
  generalize hlen2 : k - lead - (((so_first_piece s).dropWhile isspace).reverse.takeWhile
    isspace).length = len2 at h2
  have ht1len : ((so_first_piece s).dropWhile isspace).length = k - lead := by
    rw [← ht1, List.length_take, List.length_drop]
    omega
  have htrim : (s.drop lead).take len2 = so_trim (so_first_piece s) := by
    unfold so_trim
    rw [← take_sub_trailing, ht1len, hlen2, ← ht1, List.take_take]
    congr 1
    omega
  have hw := write_char_of_str_at hd len2 (by rw [List.length_drop]; omega)
  have hcut := str_at_set_cut hd len2 (by rw [List.length_drop]; omega)
  rw [htrim] at hcut
  refine ⟨if k < s.length then p + k + 1 else p + k, p + lead, buf.set (p + lead + len2) 0,
    ?_, by simp, hcut, ?_, ?_, ?_⟩
  · unfold so_entry_extent
    have hstep2 : (match strchr buf p 59 with
        | .error f => (.error f : Except Fault (Nat × Nat × List Nat))
        | .ok e_nd =>
          match (match e_nd with
            | some e => (.ok (e + 1, e + 1 - p - 1) : Except Fault (Nat × Nat))
            | none =>
              match strlen buf p with
              | .error f => .error f
              | .ok l => .ok (p + l, p + l - p)) with
          | .error f => .error f
          | .ok (next, len) =>
            match so_trim_leading buf p len with
            | .error f => .error f
            | .ok (p, len) =>
              match so_trim_trailing buf p len with
              | .error f => .error f
              | .ok len =>
                match write_char buf (p + len) 0 with
                | .error f => .error f
                | .ok buf => .ok (next, p, buf))
        = match (match strchr buf p 59 with
            | .error f => (.error f : Except Fault (Nat × Nat))
            | .ok e_nd =>
              match e_nd with
              | some e => .ok (e + 1, e + 1 - p - 1)
              | none =>
                match strlen buf p with
                | .error f => .error f
                | .ok l => .ok (p + l, p + l - p)) with
          | .error f => .error f
          | .ok (next, len) =>
            match so_trim_leading buf p len with
            | .error f => .error f
            | .ok (p, len) =>
              match so_trim_trailing buf p len with
              | .error f => .error f
              | .ok len =>
                match write_char buf (p + len) 0 with
                | .error f => .error f
                | .ok buf => .ok (next, p, buf) := by
      cases strchr buf p 59 <;> rfl
    rw [hstep2, hstep]
    simp only [h1, h2, hw]
  · rw [so_rest_eq, hkd]
    by_cases hlt : k < s.length
    · rw [if_pos hlt]
      have := str_at_drop h (k + 1) (by omega)
      rw [← Nat.add_assoc] at this
      exact str_at_set_before this _ (by omega)
    · rw [if_neg hlt]
      have hke : k = s.length := by omega
      have hnil : s.drop (k + 1) = [] := List.drop_eq_nil_of_le (by omega)
      have hdk : str_at buf (p + k) [] := by
        have := str_at_drop h k (by omega)
        rwa [List.drop_eq_nil_of_le (by omega)] at this
      rw [hnil]
      by_cases hwq : p + lead + len2 < p + k
      · exact str_at_set_before hdk _ hwq
      · have hwe : p + lead + len2 = p + k := by omega
        rw [hwe]
        have := str_at_set_cut hdk 0 (by simp)
        simpa using this
  · have : (so_trim (so_first_piece s)).length = len2 := by
      rw [← htrim, List.length_take, List.length_drop]
      omega
    rw [this]
    split <;> omega
  · intro hne
    rw [so_rest_eq, hkd, List.length_drop]
    have : 0 < s.length := List.length_pos.mpr hne
    omega

theorem atoi_of_digits {buf : List Nat} {p : Nat} {s : List Nat} (h : str_at buf p s)
    (hd : s.all isdigit = true) : atoi buf p = .ok (decimal_value s) := by
  rw [atoi, c_string_of_str_at h]
  have : s.takeWhile isdigit = s := by
    rw [List.takeWhile_eq_self_iff]
    simpa using hd
  simp only [this]

theorem so_output_slot_eq (to_slot : Nat → Nat) (buf : List Nat) (p : Nat) (t : List Nat)
    (h : str_at buf p t) :
    (index_of 58 t = none → so_output_slot to_slot buf p = .ok (some (0, buf, p))) ∧
    (∀ j, index_of 58 t = some j → (t.take j).all isdigit = false →
      so_output_slot to_slot buf p = .ok none) ∧
    (∀ j, index_of 58 t = some j → (t.take j).all isdigit = true →
      so_output_slot to_slot buf p
        = .ok (some (to_slot (decimal_value (t.take j)), buf.set (p + j) 0, p + j + 1)) ∧
      str_at (buf.set (p + j) 0) (p + j + 1) (t.drop (j + 1)) ∧
      same_beyond buf (buf.set (p + j) 0) (p + t.length)) := by
  have hfound : ∀ j, index_of 58 t = some j → j < t.length := by
    intro j hj
    rcases index_of_spec 58 t with ⟨h1, -⟩ | ⟨j1, h1, h2, -⟩
    · rw [h1] at hj; simp at hj
    · rw [h1] at hj
      simp only [Option.some.injEq] at hj
      omega
  have hdigits : ∀ j, j < t.length →
      so_slot_digits ((buf.set (p + j) 0).drop p) p = .ok ((t.take j).all isdigit) := by
    intro j hj
    obtain ⟨h0, post, hd⟩ := str_at_set_cut h j (by omega)
    rw [hd]
    exact so_slot_digits_eq post _ p h0
  refine ⟨?_, ?_, ?_⟩
  · intro hn
    rw [so_output_slot, strchr_of_str_at h, hn]
    rfl
  · intro j hj hd
    have hlt := hfound j hj
    rw [so_output_slot, strchr_of_str_at h, hj]
    simp only [Option.map_some', write_char_of_str_at h j (by omega), hdigits j hlt, hd]
  · intro j hj hd
    have hlt := hfound j hj
    refine ⟨?_, ?_, same_beyond_set buf _ _ (by omega)⟩
    · rw [so_output_slot, strchr_of_str_at h, hj]
      simp only [Option.map_some', write_char_of_str_at h j (by omega), hdigits j hlt, hd,
        atoi_of_digits (str_at_set_cut h j (by omega)) hd]
    · have := str_at_drop h (j + 1) (by omega)
      rw [← Nat.add_assoc] at this
      exact str_at_set_before this _ (by omega)

theorem so_component_mask_eq (buf : List Nat) (p : Nat) (b : List Nat) (h : str_at buf p b) :
    (index_of 46 b = none → so_component_mask buf p = .ok (some (0, 4, buf))) ∧
    (∀ m, index_of 46 b = some m →
      so_component_mask buf p
        = .ok ((so_mask_start (b.drop (m + 1))).map fun k =>
            (k, (b.drop (m + 1)).length, buf.set (p + m) 0)) ∧
      str_at (buf.set (p + m) 0) p (b.take m) ∧
      same_beyond buf (buf.set (p + m) 0) (p + b.length)) := by
  refine ⟨?_, ?_⟩
  · intro hn
    rw [so_component_mask, strchr_of_str_at h, hn]
    rfl
  · intro m hm
    have hlt : m < b.length := by
      rcases index_of_spec 46 b with ⟨h1, -⟩ | ⟨j1, h1, h2, -⟩
      · rw [h1] at hm; simp at hm
      · rw [h1] at hm
        simp only [Option.some.injEq] at hm
        omega
    have hmask : str_at (buf.set (p + m) 0) (p + m + 1) (b.drop (m + 1)) := by
      have := str_at_drop h (m + 1) (by omega)
      rw [← Nat.add_assoc] at this
      exact str_at_set_before this _ (by omega)
    refine ⟨?_, str_at_set_cut h m (by omega), same_beyond_set buf _ _ (by omega)⟩
    rw [so_component_mask, strchr_of_str_at h, hm]
    simp only [Option.map_some', write_char_of_str_at h m (by omega),
      c_string_of_str_at hmask]
    unfold so_mask_start
    cases strstr xyzw (b.drop (m + 1)) with
    | some k => rfl
    | none =>
      simp only
      cases strstr rgba (b.drop (m + 1)) <;> rfl

theorem trailing_digits_le (s : List Nat) : trailing_digits s ≤ s.length := by
  unfold trailing_digits
  have := (takeWhile_eq_take_length isdigit s.reverse).1
  have h2 := congrArg List.length this
  rw [List.length_take, List.length_reverse] at h2
  omega

theorem isdigit_ne_zero (c : Nat) (h : isdigit c = true) : c ≠ 0 := by
  unfold isdigit at h
  simp only [Bool.and_eq_true, decide_eq_true_eq] at h
  omega

theorem so_semantic_eq (buf : List Nat) (p : Nat) (n0 : List Nat) (h : str_at buf p n0)
    (hbuf : buf.length ≤ 0xffffffff) :
    (n0.all isdigit = true → so_semantic buf p = .error (.oob_read (p + 0xffffffff))) ∧
    (n0.all isdigit = false → ∃ buf1,
      so_semantic buf p
        = .ok (decimal_value (n0.drop (n0.length - trailing_digits n0)),
            (if (n0.take (n0.length - trailing_digits n0)).map tolower
                = (cstr "$SKIP").map tolower then none
              else some (n0.take (n0.length - trailing_digits n0))), buf1) ∧
      same_beyond buf buf1 (p + n0.length)) := by
  have hidx := so_index_digits_eq buf p n0 h hbuf n0.length (n0.length + 1) (Nat.le_refl _)
    (by omega)
  rw [List.take_length] at hidx
  refine ⟨?_, ?_⟩
  · intro hall
    rw [so_semantic, strlen_of_str_at h]
    simp only [hidx, hall, if_true]
  · intro hall
    have htd := trailing_digits_le n0
    have hidx1 : so_index_digits buf p (n0.length + 1) n0.length
        = .ok (n0.length - trailing_digits n0) := by
      rw [hidx, if_neg (by simp [hall])]
      rfl
    generalize hk : n0.length - trailing_digits n0 = k at hidx1
    have hkle : k ≤ n0.length := by omega
    have hdrop : n0.drop k = (n0.reverse.takeWhile isdigit).reverse := by
      rw [← hk]
      exact drop_sub_trailing isdigit n0
    have hdig : (n0.drop k).all isdigit = true := by
      rw [hdrop, List.all_reverse, List.all_eq_true]
      intro x hx
      exact (List.mem_takeWhile_imp hx)
    by_cases hz : k = n0.length
    · -- no index digits
      have hread : read_char buf (p + k) = .ok 0 := by
        rw [read_char_of_str_at h, if_neg (by omega), if_pos hz]
      refine ⟨buf, ?_, same_beyond_refl _ _⟩
      rw [so_semantic, strlen_of_str_at h]
      simp only [hidx1, hread, ne_eq, not_true_eq_false, if_false, c_string_of_str_at h]
      rw [hz, List.drop_length, List.take_length]
      rfl
    · have hlt : k < n0.length := by omega
      have hc : isdigit (n0.getD k 0) = true := by
        have hmem : n0.getD k 0 ∈ n0.drop k := by
          rw [List.getD_eq_getElem?_getD, List.getElem?_eq_getElem hlt]
          simp only [Option.getD_some]
          rw [List.mem_drop_iff_getElem]
          exact ⟨0, by simpa using hlt, by simp⟩
        exact (List.all_eq_true.mp hdig) _ hmem
      have hread : read_char buf (p + k) = .ok (n0.getD k 0) := by
        rw [read_char_of_str_at h, if_pos hlt]
      have hat : atoi buf (p + k) = .ok (decimal_value (n0.drop k)) :=
        atoi_of_digits (str_at_drop h k hkle) hdig
      refine ⟨buf.set (p + k) 0, ?_, same_beyond_set buf _ _ (by omega)⟩
      rw [so_semantic, strlen_of_str_at h]
      simp only [hidx1, hread, ne_eq, isdigit_ne_zero _ hc, not_false_eq_true, if_true, hat,
        write_char_of_str_at h k hkle, c_string_of_str_at (str_at_set_cut h k hkle)]

theorem so_entry_tail_eq (OutputSlot : Nat) (next : Nat) (buf : List Nat) (p : Nat)
    (body : List Nat) (h : str_at buf p body) (hbuf : buf.length ≤ 0xffffffff) :
    match so_entry_of_body OutputSlot body with
    | none => ∃ f, so_mask_and_semantic OutputSlot next buf p = .error f
    | some none => so_mask_and_semantic OutputSlot next buf p = .ok none
    | some (some e) => ∃ buf1,
      so_mask_and_semantic OutputSlot next buf p = .ok (some (e, buf1, next)) ∧
      same_beyond buf buf1 (p + body.length) := by
  unfold so_mask_and_semantic
  obtain ⟨hC1, hC2⟩ := so_component_mask_eq buf p body h
  unfold so_entry_of_body so_mask so_indexed_name
  cases h46 : index_of 46 body with
  | none =>
    rw [hC1 h46]
    simp only [Option.map_none', Option.any_none, Bool.false_eq_true, if_false]
    obtain ⟨hD1, hD2⟩ := so_semantic_eq buf p body h hbuf
    cases hall : body.all isdigit with
    | true =>
      simp only [if_true, hD1 hall]
      exact ⟨_, rfl⟩
    | false =>
      obtain ⟨buf1, hs, hsame⟩ := hD2 hall
      simp only [Bool.false_eq_true, if_false, hs]
      exact ⟨buf1, rfl, hsame⟩
  | some m =>
    obtain ⟨hC, hstr, hsame⟩ := hC2 m h46
    rw [hC]
    simp only [Option.map_some', Option.any_some]
    cases hstart : so_mask_start (body.drop (m + 1)) with
    | none => simp
    | some k =>
      simp only [Option.map_some', Option.isNone_some, Bool.false_eq_true, if_false,
        Option.getD_some]
      have hbuf1 : (buf.set (p + m) 0).length ≤ 0xffffffff := by simpa using hbuf
      obtain ⟨hD1, hD2⟩ := so_semantic_eq (buf.set (p + m) 0) p (body.take m) hstr hbuf1
      have hmle : (body.take m).length ≤ body.length := by
        rw [List.length_take]; exact Nat.min_le_right _ _
      cases hall : (body.take m).all isdigit with
      | true =>
        simp only [if_true, hD1 hall]
        exact ⟨_, rfl⟩
      | false =>
        obtain ⟨buf1, hs, hsame1⟩ := hD2 hall
        simp only [Bool.false_eq_true, if_false, hs]
        refine ⟨buf1, rfl, ?_⟩
        exact same_beyond_trans hsame hsame1 (by omega)

theorem so_decl_entry_eq (to_slot : Nat → Nat) (buf : List Nat) (p : Nat) (s : List Nat)
    (h : str_at buf p s) (hbuf : buf.length ≤ 0xffffffff) :
    match so_entry_of_piece to_slot (so_first_piece s) with
    | none => ∃ f, so_decl_entry to_slot buf p = .error f
    | some none => so_decl_entry to_slot buf p = .ok none
    | some (some e) => ∃ buf1 next,
      so_decl_entry to_slot buf p = .ok (some (e, buf1, next)) ∧
      buf1.length = buf.length ∧ str_at buf1 next (so_rest s) := by
  obtain ⟨next, p1, buf1, hA, hlen1, ht, hrest, hle, -⟩ := so_entry_extent_eq buf p s h
  have hbuf1 : buf1.length ≤ 0xffffffff := by omega
  unfold so_entry_of_piece so_slot_text so_body
  generalize so_trim (so_first_piece s) = t at ht hle
  obtain ⟨hB1, hB2, hB3⟩ := so_output_slot_eq to_slot buf1 p1 t ht
  unfold so_decl_entry
  rw [hA]
  simp only
  cases h58 : index_of 58 t with
  | none =>
    rw [hB1 h58]
    simp only [Option.map_none', Option.any_none, Bool.false_eq_true, if_false]
    have htail := so_entry_tail_eq 0 next buf1 p1 t ht hbuf1
    cases hspec : so_entry_of_body 0 t with
    | none =>
      rw [hspec] at htail
      exact htail
    | some r =>
      cases r with
      | none =>
        rw [hspec] at htail
        exact htail
      | some e =>
        rw [hspec] at htail
        obtain ⟨buf2, h2, hsame⟩ := htail
        exact ⟨buf2, next, h2, hsame.1.trans hlen1, hsame.2 _ _ hle hrest⟩
  | some j =>
    simp only [Option.map_some', Option.any_some]
    cases hd : (t.take j).all isdigit with
    | false =>
      rw [hB2 j h58 hd]
      simp
    | true =>
      obtain ⟨hB, hstr, hsame0⟩ := hB3 j h58 hd
      rw [hB]
      simp only [Bool.not_true, Bool.false_eq_true, if_false]
      have hjlt : j < t.length := by
        rcases index_of_spec 58 t with ⟨h1, -⟩ | ⟨j1, h1, h2, -⟩
        · rw [h1] at h58; simp at h58
        · rw [h1] at h58
          simp only [Option.some.injEq] at h58
          omega
      have hbuf2 : (buf1.set (p1 + j) 0).length ≤ 0xffffffff := by simpa using hbuf1
      have htail := so_entry_tail_eq (to_slot (decimal_value (t.take j))) next
        (buf1.set (p1 + j) 0) (p1 + j + 1) (t.drop (j + 1)) hstr hbuf2
      have hlen : p1 + j + 1 + (t.drop (j + 1)).length = p1 + t.length := by
        rw [List.length_drop]; omega
      cases hspec : so_entry_of_body (to_slot (decimal_value (t.take j))) (t.drop (j + 1)) with
      | none =>
        rw [hspec] at htail
        exact htail
      | some r =>
        cases r with
        | none =>
          rw [hspec] at htail
          exact htail
        | some e =>
          rw [hspec] at htail
          obtain ⟨buf2, h2, hsame⟩ := htail
          refine ⟨buf2, next, h2, ?_, ?_⟩
          · rw [hsame.1]
            simpa using hlen1
          · exact hsame.2 _ _ (by omega) (hsame0.2 _ _ hle hrest)

theorem so_rest_length_le (s : List Nat) : (so_rest s).length ≤ s.length - 1 := by
  rw [so_rest_eq, List.length_drop]
  omega

theorem so_pieces_upto_eq : ∀ (n m : Nat) (s : List Nat), s.length ≤ n → s.length ≤ m →
    so_pieces_upto n s = so_pieces_upto m s
  | 0, m, s, hn, _ => by
    have : s = [] := List.length_eq_zero.mp (by omega)
    subst this
    cases m <;> simp [so_pieces_upto]
  | n + 1, 0, s, _, hm => by
    have : s = [] := List.length_eq_zero.mp (by omega)
    subst this
    simp [so_pieces_upto]
  | n + 1, m + 1, s, hn, hm => by
    rw [so_pieces_upto, so_pieces_upto]
    have := so_rest_length_le s
    rw [so_pieces_upto_eq n m (so_rest s) (by omega) (by omega)]

theorem so_pieces_nil : so_pieces [] = [] := rfl

theorem so_pieces_cons (s : List Nat) (h : s ≠ []) :
    so_pieces s = so_first_piece s :: so_pieces (so_rest s) := by
  unfold so_pieces
  have hpos : 0 < s.length := List.length_pos.mpr h
  obtain ⟨n, hn⟩ : ∃ n, s.length = n + 1 := ⟨s.length - 1, by omega⟩
  rw [hn, so_pieces_upto, if_neg h]
  have := so_rest_length_le s
  rw [so_pieces_upto_eq n (so_rest s).length (so_rest s) (by omega) (Nat.le_refl _)]

theorem so_decl_loop_eq (to_slot : Nat → Nat) :
    ∀ (n : Nat) (s buf : List Nat) (p rounds : Nat) (so_decl : d3d10_effect_so_decl),
      s.length ≤ n → str_at buf p s → buf.length ≤ 0xffffffff → s.length < rounds →
      so_decl.count = so_decl.entries.length →
      so_decl_view (so_decl_loop to_slot rounds buf p so_decl)
        = (so_decl_of_pieces to_slot (so_pieces s) so_decl.entries so_decl.stride).map
            fun r => (r.1, r.2.1, r.2.1.length, r.2.2) := by
  intro n
  induction n with
  | zero =>
    intro s buf p rounds so_decl hn h hbuf hr hc
    have hs : s = [] := List.length_eq_zero.mp (by omega)
    subst hs
    cases rounds with
    | zero => simp at hr
    | succ r =>
      have hread : read_char buf p = .ok 0 := by
        have := str_at_nul h
        rw [List.length_nil, Nat.add_zero] at this
        rw [read_char, this]
      rw [so_decl_loop, hread, so_pieces_nil]
      simp [so_decl_view, so_decl_of_pieces, hc]
  | succ n ih =>
    intro s buf p rounds so_decl hn h hbuf hr hc
    cases rounds with
    | zero => omega
    | succ r =>
      cases s with
      | nil =>
        have hread : read_char buf p = .ok 0 := by
          have := str_at_nul h
          rw [List.length_nil, Nat.add_zero] at this
          rw [read_char, this]
        rw [so_decl_loop, hread, so_pieces_nil]
        simp [so_decl_view, so_decl_of_pieces, hc]
      | cons c rest =>
        have hc0 : c ≠ 0 := fun h0 => h.1 (by simp [h0])
        have hread : read_char buf p = .ok c := by
          have := str_at_getElem h 0 (by simp)
          rw [Nat.add_zero] at this
          rw [read_char, this]
          rfl
        have hentry := so_decl_entry_eq to_slot buf p (c :: rest) h hbuf
        have hshort := so_rest_length_le (c :: rest)
        rw [so_decl_loop, hread, so_pieces_cons _ (by simp), so_decl_of_pieces]
        simp only [hc0, if_false]
        cases hspec : so_entry_of_piece to_slot (so_first_piece (c :: rest)) with
        | none =>
          rw [hspec] at hentry
          obtain ⟨f, hf⟩ := hentry
          rw [hf]
          rfl
        | some o =>
          cases o with
          | none =>
            rw [hspec] at hentry
            rw [hentry]
            rfl
          | some e =>
            rw [hspec] at hentry
            obtain ⟨buf1, next, he, hlen1, hstr⟩ := hentry
            rw [he]
            simp only
            have := ih (so_rest (c :: rest)) buf1 next r
              { entries := so_decl.entries ++ [e], count := so_decl.count + 1,
                stride := if e.OutputSlot = 0
                  then (so_decl.stride + e.ComponentCount * 4) % 2 ^ 32 else so_decl.stride,
                decl := some buf1 }
              (by simp only [List.length_cons] at hn hshort ⊢; omega) hstr (by omega)
              (by simp only [List.length_cons] at hr hshort ⊢; omega)
              (by simp [hc])
            exact this

theorem parse_stream_output_declaration_eq (to_slot : Nat → Nat) (decl : List Nat)
    (h0 : 0 ∉ decl) (hlen : decl.length < 2 ^ 32 - 1) :
    so_decl_view (d3d10_effect_parse_stream_output_declaration to_slot decl)
      = (so_decl_of_pieces to_slot (so_pieces decl) [] 0).map
          fun r => (r.1, r.2.1, r.2.1.length, r.2.2) := by
  have hbuf : (decl ++ [0]).take ((decl.length % 2 ^ 32 + 1) % 2 ^ 32) = decl ++ [0] := by
    apply List.take_of_length_le
    rw [Nat.mod_eq_of_lt (by omega), Nat.mod_eq_of_lt (by omega)]
    simp
  unfold d3d10_effect_parse_stream_output_declaration
  simp only [hbuf]
  exact so_decl_loop_eq to_slot decl.length decl (decl ++ [0]) 0 _ _ (Nat.le_refl _)
    ⟨h0, [], by simp⟩ (by simp; omega) (by simp) rfl


theorem strstr_eq_none_iff : ∀ (haystack needle : List Nat),
    strstr haystack needle = none ↔ ¬ needle <:+: haystack
  | [], needle => by
    rw [strstr, List.infix_nil]
    by_cases h : needle = [] <;> simp [h]
  | h :: rest, needle => by
    rw [strstr, List.infix_cons_iff]
    by_cases hp : needle.isPrefixOf (h :: rest) = true
    · rw [if_pos hp]
      have := List.isPrefixOf_iff_prefix.mp hp
      simp [this]
    · rw [if_neg hp]
      have : ¬ needle <+: h :: rest := fun hh => hp (List.isPrefixOf_iff_prefix.mpr hh)
      simp only [Option.map_eq_none', strstr_eq_none_iff rest needle, this, false_or]

theorem so_mask_start_eq_none_iff (mask : List Nat) :
    so_mask_start mask = none ↔ ¬ mask <:+: xyzw ∧ ¬ mask <:+: rgba := by
  unfold so_mask_start
  cases h : strstr xyzw mask with
  | some k =>
    have : ¬ (¬ mask <:+: xyzw) := fun hh => by
      rw [(strstr_eq_none_iff _ _).mpr hh] at h
      cases h
    simp [this]
  | none =>
    simp only [(strstr_eq_none_iff _ _).mp h, not_false_eq_true, true_and]
    exact strstr_eq_none_iff _ _

theorem so_entry_of_piece_malformed (to_slot : Nat → Nat) (piece : List Nat)
    (h : (∃ d, so_slot_text piece = some d ∧ ∃ c ∈ d, isdigit c = false) ∨
      (∃ m, so_mask (so_body piece) = some m ∧ ¬ m <:+: xyzw ∧ ¬ m <:+: rgba)) :
    so_entry_of_piece to_slot piece = some none := by
  unfold so_entry_of_piece
  split
  · rfl
  · rename_i hpre
    rcases h with ⟨d, hd, c, hc, hcd⟩ | ⟨m, hm, hx⟩
    · exfalso
      apply hpre
      rw [hd]
      simp only [Option.any_some, Bool.not_eq_true', List.all_eq_false]
      exact ⟨c, hc, by simp [hcd]⟩
    · unfold so_entry_of_body
      rw [if_pos]
      rw [hm]
      simp [(so_mask_start_eq_none_iff m).mpr hx]

theorem so_entry_of_piece_named (to_slot : Nat → Nat) (piece : List Nat)
    (h : ∃ c ∈ so_indexed_name (so_body piece), isdigit c = false) :
    so_entry_of_piece to_slot piece ≠ none := by
  obtain ⟨c, hc, hcd⟩ := h
  have hall : ¬ (so_indexed_name (so_body piece)).all isdigit = true := by
    simp only [List.all_eq_true, not_forall]
    exact ⟨c, hc, by simp [hcd]⟩
  unfold so_entry_of_piece
  split
  · simp
  · unfold so_entry_of_body
    split
    · simp
    · intro h
      cases h

theorem so_decl_of_pieces_failed (to_slot : Nat → Nat) :
    ∀ (pieces : List (List Nat)) (entries : List D3D10_SO_DECLARATION_ENTRY) (stride i : Nat)
      (piece : List Nat), pieces[i]? = some piece →
      so_entry_of_piece to_slot piece = some none →
      (∀ j q, j < i → pieces[j]? = some q → so_entry_of_piece to_slot q ≠ none) →
      so_decl_of_pieces to_slot pieces entries stride = some (E_FAIL, [], 0)
  | [], _, _, i, piece, hi, _, _ => by simp at hi
  | first :: rest, entries, stride, 0, piece, hi, hbad, _ => by
    simp only [List.getElem?_cons_zero, Option.some.injEq] at hi
    subst hi
    rw [so_decl_of_pieces, hbad]
  | first :: rest, entries, stride, i + 1, piece, hi, hbad, hearlier => by
    rw [so_decl_of_pieces]
    have h0 := hearlier 0 first (Nat.succ_pos i) (List.getElem?_cons_zero ..)
    cases hf : so_entry_of_piece to_slot first with
    | none => exact absurd hf h0
    | some o =>
      cases o with
      | none => rfl
      | some e =>
        exact so_decl_of_pieces_failed to_slot rest _ _ i piece
          (by simpa using hi) hbad
          (fun j q hj hq => hearlier (j + 1) q (by omega) (by simpa using hq))

theorem so_decl_of_pieces_ok (to_slot : Nat → Nat) :
    ∀ (pieces : List (List Nat)) (entries0 : List D3D10_SO_DECLARATION_ENTRY) (stride0 : Nat)
      (entries : List D3D10_SO_DECLARATION_ENTRY) (stride : Nat),
      so_decl_of_pieces to_slot pieces entries0 stride0 = some (S_OK, entries, stride) →
      ∃ es, entries = entries0 ++ es ∧
        List.Forall₂ (fun piece e => so_entry_of_piece to_slot piece = some (some e)) pieces es ∧
        stride = so_stride_from stride0 es
  | [], entries0, stride0, entries, stride, h => by
    simp only [so_decl_of_pieces, Option.some.injEq, Prod.mk.injEq, true_and] at h
    exact ⟨[], by simp [h.1], List.Forall₂.nil, by simp [so_stride_from, h.2]⟩
  | first :: rest, entries0, stride0, entries, stride, h => by
    rw [so_decl_of_pieces] at h
    cases hf : so_entry_of_piece to_slot first with
    | none => rw [hf] at h; cases h
    | some o =>
      cases o with
      | none =>
        rw [hf] at h
        simp only [Option.some.injEq, Prod.mk.injEq] at h
        exact absurd h.1 (by decide)
      | some e =>
        rw [hf] at h
        obtain ⟨es, he, hall, hs⟩ := so_decl_of_pieces_ok to_slot rest _ _ _ _ h
        exact ⟨e :: es, by simp [he], List.Forall₂.cons hf hall, by
          simp only [so_stride_from, List.foldl_cons] at hs ⊢
          exact hs⟩

theorem forall2_at_index {α β : Type} {R : α → β → Prop} :
    ∀ {l1 : List α} {l2 : List β}, List.Forall₂ R l1 l2 →
      ∀ (i : Nat) (a : α) (b : β), l1[i]? = some a → l2[i]? = some b → R a b
  | _, _, .nil, i, a, b, h1, _ => by simp at h1
  | _, _, .cons h _, 0, a, b, h1, h2 => by
    simp only [List.getElem?_cons_zero, Option.some.injEq] at h1 h2
    subst h1 h2
    exact h
  | _, _, .cons _ hrest, i + 1, a, b, h1, h2 =>
    forall2_at_index hrest i a b (by simpa using h1) (by simpa using h2)

/-- **C23** (`d3d10_effect_parse_stream_output_declaration`): when the `i`-th entry of a
declaration string (a C string of fewer than 2^32 - 1 characters) has a character other than
a digit in its output slot prefix, or a component mask that is a contiguous substring neither
of "xyzw" nor of "rgba", the parser returns `E_FAIL` and leaves no entries, the count 0
and the stride 0, whatever the number of entries before it; each of those has a semantic
name with a character other than a digit, and may be malformed itself. -/
theorem malformed_so_entry_fails (to_slot : Nat → Nat) (decl : List Nat)
    (h0 : 0 ∉ decl) (hlen : decl.length < 2 ^ 32 - 1) (i : Nat) (piece : List Nat)
    (hi : (so_pieces decl)[i]? = some piece)
    (hbad : (∃ d, so_slot_text piece = some d ∧ ∃ c ∈ d, isdigit c = false) ∨
      (∃ m, so_mask (so_body piece) = some m ∧ ¬ m <:+: xyzw ∧ ¬ m <:+: rgba))
    (hearlier : ∀ (j : Nat) (q : List Nat), j < i → (so_pieces decl)[j]? = some q →
      ∃ c ∈ so_indexed_name (so_body q), isdigit c = false) :
    ∃ so_decl, d3d10_effect_parse_stream_output_declaration to_slot decl
        = .ok (E_FAIL, so_decl) ∧
      so_decl.entries = [] ∧ so_decl.count = 0 ∧ so_decl.stride = 0 := by
  have hview := parse_stream_output_declaration_eq to_slot decl h0 hlen
  rw [so_decl_of_pieces_failed to_slot (so_pieces decl) [] 0 i piece hi
    (so_entry_of_piece_malformed to_slot piece hbad)
    (fun j q hj hq => so_entry_of_piece_named to_slot q (hearlier j q hj hq))] at hview
  cases hres : d3d10_effect_parse_stream_output_declaration to_slot decl with
  | error f => rw [hres] at hview; cases hview
  | ok r =>
    obtain ⟨hr, so_decl⟩ := r
    rw [hres] at hview
    simp only [so_decl_view, Option.map_some', Option.some.injEq, Prod.mk.injEq,
      List.length_nil] at hview
    obtain ⟨hhr, hentries, hcount, hstride⟩ := hview
    exact ⟨so_decl, by rw [hhr], hentries, hcount, hstride⟩

set_option maxRecDepth 100000 in
/-- Witness for `malformed_so_entry_fails`: in "0:A.xyzw;1:B;x:C.q" the third entry has the
output slot prefix "x" (and the mask "q"), after two valid entries. -/
theorem malformed_so_entry_fails_witness :
    (so_pieces (cstr "0:A.xyzw;1:B;x:C.q"))[2]? = some (cstr "x:C.q") ∧
    so_slot_text (cstr "x:C.q") = some (cstr "x") ∧
    d3d10_effect_parse_stream_output_declaration to_byte (cstr "0:A.xyzw;1:B;x:C.q")
      = .ok (E_FAIL, .zero) ∧
    ∃ so_decl, d3d10_effect_parse_stream_output_declaration to_byte
        (cstr "0:A.xyzw;1:B;x:C.q") = .ok (E_FAIL, so_decl) ∧
      so_decl.entries = [] ∧ so_decl.count = 0 ∧ so_decl.stride = 0 :=
  ⟨by rfl, by rfl, by rfl,
    malformed_so_entry_fails to_byte (cstr "0:A.xyzw;1:B;x:C.q") (by decide) (by decide) 2
      (cstr "x:C.q") (by rfl) (Or.inl ⟨cstr "x", by rfl, 120, by decide, by decide⟩)
      (fun j q hj hq =>
        match j, hj with
        | 0, _ => by
          have : q = cstr "0:A.xyzw" := (Option.some.inj hq).symm
          subst this
          exact ⟨65, by decide, by decide⟩
        | 1, _ => by
          have : q = cstr "1:B" := (Option.some.inj hq).symm
          subst this
          exact ⟨66, by decide, by decide⟩)⟩

/-! ## The string reader -/

theorem takeWhile_length_spec (p : Nat → Bool) :
    ∀ (L : List Nat), (L.takeWhile p).length ≤ L.length ∧
      (∀ k, k < (L.takeWhile p).length → p (L.getD k 0) = true) ∧
      ((L.takeWhile p).length < L.length → p (L.getD (L.takeWhile p).length 0) = false) ∧
      L.takeWhile p = L.take (L.takeWhile p).length
  | [] => by simp
  | x :: rest => by
    obtain ⟨h1, h2, h3, h4⟩ := takeWhile_length_spec p rest
    cases hx : p x
    · simp [List.takeWhile_cons, hx]
    · simp only [List.takeWhile_cons, hx, if_true, List.length_cons, List.take_succ_cons]
      refine ⟨by omega, ?_, ?_, by rw [← h4]⟩
      · intro k hk
        cases k with
        | zero => simpa using hx
        | succ k => simpa using h2 k (by omega)
      · intro hlt
        simpa using h3 (by omega)

theorem strnlen_spec (data : List Nat) (offset : Nat) (h : offset ≤ data.length) :
    strnlen (data.drop offset) (data.length - offset) ≤ data.length - offset ∧
    (∀ k, k < strnlen (data.drop offset) (data.length - offset) →
      byte_at data (offset + k) ≠ 0) ∧
    (strnlen (data.drop offset) (data.length - offset) < data.length - offset →
      byte_at data (offset + strnlen (data.drop offset) (data.length - offset)) = 0) ∧
    ((data.drop offset).take (strnlen (data.drop offset) (data.length - offset))).map (· % 256)
      = (List.range (strnlen (data.drop offset) (data.length - offset))).map
          fun k => byte_at data (offset + k) := by
  have htake : (data.drop offset).take (data.length - offset) = data.drop offset := by
    apply List.take_of_length_le
    simp
  obtain ⟨h1, h2, h3, h4⟩ := takeWhile_length_spec (fun b => b % 256 != 0) (data.drop offset)
  have hlen : (data.drop offset).length = data.length - offset := by simp
  have hget : ∀ k, (data.drop offset).getD k 0 = data.getD (offset + k) 0 := by
    intro k
    simp [List.getD_eq_getElem?_getD, List.getElem?_drop]
  unfold strnlen
  rw [htake]
  refine ⟨by omega, ?_, ?_, ?_⟩
  · intro k hk
    have := h2 k hk
    rw [hget] at this
    simpa [byte_at] using this
  · intro hlt
    have := h3 (by omega)
    rw [hget] at this
    simpa [byte_at] using this
  · apply List.ext_getElem
    · simp
      omega
    · intro k hk1 hk2
      simp only [List.getElem_map, List.getElem_take, List.getElem_drop, List.getElem_range,
        byte_at]
      have hk : offset + k < data.length := by
        simp at hk1
        omega
      simp [List.getD_eq_getElem?_getD, List.getElem?_eq_getElem hk]

theorem fx10_get_string_cases (data : List Nat) (offset : Nat) :
    (data.length ≤ offset ∧ fx10_get_string data offset = none) ∨
    (offset < data.length ∧ byte_at data offset = 0 ∧
      fx10_get_string data offset = some (none, 0)) ∨
    (offset < data.length ∧ (∀ i, offset ≤ i → i < data.length → byte_at data i ≠ 0) ∧
      fx10_get_string data offset = none) ∨
    (offset < data.length ∧ ∃ n, 0 < n ∧ offset + n < data.length ∧
      (∀ k, k < n → byte_at data (offset + k) ≠ 0) ∧ byte_at data (offset + n) = 0 ∧
      fx10_get_string data offset
        = some (some ((List.range n).map fun k => byte_at data (offset + k)), n + 1)) := by
  by_cases ho : data.length ≤ offset
  · exact Or.inl ⟨ho, by simp [fx10_get_string, ho]⟩
  · right
    have hlt : offset < data.length := by omega
    obtain ⟨h1, h2, h3, h4⟩ := strnlen_spec data offset (by omega)
    generalize hn : strnlen (data.drop offset) (data.length - offset) = n at h1 h2 h3 h4
    have hval : fx10_get_string data offset =
        if n = 0 then some (none, 0)
        else if n = data.length - offset then none
        else some (some (((data.drop offset).take n).map (· % 256)), n + 1) := by
      simp only [fx10_get_string, ho, if_false, hn]
    by_cases hz : n = 0
    · left
      subst hz
      exact ⟨hlt, by simpa using h3 (by omega), by rw [hval]; rfl⟩
    · right
      by_cases hm : n = data.length - offset
      · left
        refine ⟨hlt, ?_, by rw [hval, if_neg hz, if_pos hm]⟩
        intro i hi1 hi2
        have := h2 (i - offset) (by omega)
        rwa [show offset + (i - offset) = i by omega] at this
      · right
        refine ⟨hlt, n, by omega, by omega, h2, h3 (by omega), ?_⟩
        rw [hval, if_neg hz, if_neg hm, h4]

/-- **C28**, counterexample. In the blob that starts with the bytes of "ab" and a NUL, the
string reference with offset zero resolves to the string "ab" of length 3, not to "no
string"; in the empty blob the reference with offset zero fails. -/
theorem string_reference_zero_reads_blob :
    fx10_get_string blob_string_at_zero 0 = some (some (cstr "ab"), 3) ∧
    fx10_copy_string blob_string_at_zero 0 = some (some (cstr "ab")) ∧
    fx10_get_string [] 0 = none ∧
    fx10_get_string (cstr "ab") 0 = none := by
  refine ⟨by decide, by decide, by decide, by decide⟩

/-- **C28**, amended. For every blob, the string reference with offset zero resolves to "no
string" (a null name, length 0) exactly when the blob is not empty and its byte 0 is NUL;
this does not depend on the bytes after byte 0. -/
theorem string_reference_zero (data : List Nat) :
    (fx10_get_string data 0 = some (none, 0) ↔ 0 < data.length ∧ byte_at data 0 = 0) ∧
    (fx10_copy_string data 0 = some none ↔ 0 < data.length ∧ byte_at data 0 = 0) := by
  have hcopy : fx10_copy_string data 0 = some none ↔ fx10_get_string data 0 = some (none, 0) := by
    unfold fx10_copy_string
    rcases fx10_get_string_cases data 0 with ⟨-, h⟩ | ⟨-, -, h⟩ | ⟨-, -, h⟩ | ⟨-, n, -, -, -, -, h⟩ <;>
      rw [h] <;> simp
  rw [hcopy]
  refine ⟨?_, ?_⟩ <;>
  · constructor
    · intro h
      rcases fx10_get_string_cases data 0 with ⟨-, h1⟩ | ⟨h0, hb, -⟩ | ⟨-, -, h1⟩ |
          ⟨-, n, -, -, -, -, h1⟩
      · rw [h1] at h; simp at h
      · exact ⟨h0, hb⟩
      · rw [h1] at h; simp at h
      · rw [h1] at h; simp at h
    · rintro ⟨h0, hb⟩
      rcases fx10_get_string_cases data 0 with ⟨h1, -⟩ | ⟨-, -, h1⟩ | ⟨-, hall, -⟩ |
          ⟨-, n, hn, -, hk, -, -⟩
      · omega
      · exact h1
      · exact absurd hb (hall 0 (Nat.le_refl 0) h0)
      · exact absurd hb (by simpa using hk 0 hn)

/-- **C29**. `fx10_get_string` succeeds if and only if `offset < data_size` and a NUL byte
occurs in `data[offset, data_size)`. On success it yields no string and the length 0 when
`data[offset]` is NUL, and otherwise the `n` bytes from `offset` up to the first NUL
together with the length `n + 1`; the string with its NUL ends inside the blob. -/
theorem fx10_get_string_contract (data : List Nat) (offset : Nat) :
    ((fx10_get_string data offset).isSome = true ↔
      offset < data.length ∧ ∃ i, offset ≤ i ∧ i < data.length ∧ byte_at data i = 0) ∧
    (∀ s l, fx10_get_string data offset = some (s, l) →
      (byte_at data offset = 0 → s = none ∧ l = 0) ∧
      (byte_at data offset ≠ 0 → ∃ n, 0 < n ∧
        s = some ((List.range n).map fun k => byte_at data (offset + k)) ∧ l = n + 1 ∧
        (∀ k, k < n → byte_at data (offset + k) ≠ 0) ∧ byte_at data (offset + n) = 0 ∧
        offset + l ≤ data.length)) := by
  rcases fx10_get_string_cases data offset with ⟨h0, h⟩ | ⟨h0, hb, h⟩ | ⟨h0, hall, h⟩ |
      ⟨h0, n, hn, hin, hk, hz, h⟩
  · rw [h]
    refine ⟨⟨fun hs => by simp at hs, fun ⟨hlt, _⟩ => by omega⟩, fun s l hs => by simp at hs⟩
  · rw [h]
    refine ⟨⟨fun _ => ⟨h0, offset, Nat.le_refl _, h0, hb⟩, fun _ => rfl⟩, ?_⟩
    intro s l hs
    simp only [Option.some.injEq, Prod.mk.injEq] at hs
    exact ⟨fun _ => ⟨hs.1.symm, hs.2.symm⟩, fun hne => absurd hb hne⟩
  · rw [h]
    refine ⟨⟨fun hs => by simp at hs, ?_⟩, fun s l hs => by simp at hs⟩
    rintro ⟨-, i, hi1, hi2, hi3⟩
    exact absurd hi3 (hall i hi1 hi2)
  · rw [h]
    refine ⟨⟨fun _ => ⟨h0, offset + n, by omega, hin, hz⟩, fun _ => rfl⟩, ?_⟩
    intro s l hs
    simp only [Option.some.injEq, Prod.mk.injEq] at hs
    refine ⟨fun hb => absurd hb (by simpa using hk 0 hn), fun _ => ?_⟩
    exact ⟨n, hn, hs.1.symm, hs.2.symm, hk, hz, by rw [← hs.2]; omega⟩

/-- **C29**, witness: in the blob `\0ab\0` the reference 1 resolves to the two bytes of
"ab" with the length 3, and 1 + 3 does not exceed the size 4 of the blob. -/
theorem fx10_get_string_contract_witness :
    (byte_at blob_nul_at_zero 1 = 0 → some (cstr "ab") = none ∧ 3 = 0) ∧
    (byte_at blob_nul_at_zero 1 ≠ 0 → ∃ n, 0 < n ∧
      some (cstr "ab") = some ((List.range n).map fun k => byte_at blob_nul_at_zero (1 + k)) ∧
      3 = n + 1 ∧ (∀ k, k < n → byte_at blob_nul_at_zero (1 + k) ≠ 0) ∧
      byte_at blob_nul_at_zero (1 + n) = 0 ∧ 1 + 3 ≤ blob_nul_at_zero.length) :=
  (fx10_get_string_contract blob_nul_at_zero 1).2 (some (cstr "ab")) 3 (by decide)

/-! ## Property assignments -/

theorem read_four_dwords (data : List Nat) (ptr : Nat) (h : ptr + 16 ≤ data.length) :
    read_dword data ptr = .ok (dword_at data ptr, ptr + 4) ∧
    read_dword data (ptr + 4) = .ok (dword_at data (ptr + 4), ptr + 8) ∧
    read_dword data (ptr + 8) = .ok (dword_at data (ptr + 8), ptr + 12) ∧
    read_dword data (ptr + 12) = .ok (dword_at data (ptr + 12), ptr + 16) := by
  unfold read_dword
  refine ⟨?_, ?_, ?_, ?_⟩ <;> rw [if_pos (by omega)]

theorem property_assignment_checks (K : effect_object_operations) (P : assignment_parts)
    (data : List Nat) (ptr : Nat) (container_type : d3d10_effect_container_type)
    (effect : d3d10_effect) (container : property_container)
    (info : d3d10_effect_state_property_info) (hin : ptr + 16 ≤ data.length)
    (hinfo : property_infos[dword_at data ptr]? = some info) :
    (info.container_type ≠ container_type ∨ info.count ≤ dword_at data (ptr + 4) →
      parse_fx10_property_assignment K P data ptr container_type effect container
        = .ok (E_FAIL, ptr + 16, effect, container)) ∧
    (info.container_type = container_type → dword_at data (ptr + 4) < info.count →
      info.offset = none →
      parse_fx10_property_assignment K P data ptr container_type effect container
        = .ok (E_NOTIMPL, ptr + 16, effect, container)) := by
  obtain ⟨h1, h2, h3, h4⟩ := read_four_dwords data ptr hin
  unfold parse_fx10_property_assignment
  simp only [h1, h2, h3, h4, hinfo]
  constructor
  · rintro (hc | hc)
    · rw [if_pos hc]
    · by_cases hc1 : info.container_type ≠ container_type
      · rw [if_pos hc1]
      · rw [if_neg hc1, if_pos hc]
  · intro hc hi ho
    rw [if_neg (by simpa using hc), if_neg (by omega), ho]

/-- **C24**, counterexample. An assignment from a pass to the property 4
(`Pass.DepthStencilView`, no backing offset, count 1) with the repeat index 1 fails with
`E_FAIL`, not with `E_NOTIMPL`; so does an assignment to the property 3
(`Pass.RenderTargets`, count 8) with the index 8, and every assignment to the property 5
(`Pass.Unknown5`), whose count is 0. With the index 0 the properties 3 and 4 give
`E_NOTIMPL`. -/
theorem unsupported_property_index_checked_first :
    example_assignment .D3D10_C_PASS 4 1 2 1 = .ok (E_FAIL, []) ∧
    example_assignment .D3D10_C_PASS 3 8 2 1 = .ok (E_FAIL, []) ∧
    example_assignment .D3D10_C_PASS 5 0 2 1 = .ok (E_FAIL, []) ∧
    example_assignment .D3D10_C_PASS 4 0 2 1 = .ok (E_NOTIMPL, []) ∧
    example_assignment .D3D10_C_PASS 3 0 2 1 = .ok (E_NOTIMPL, []) ∧
    E_FAIL ≠ E_NOTIMPL ∧
    (property_infos.filter fun i => i.offset.isNone).map (fun i => (i.id, i.count))
      = [(3, 8), (4, 1), (5, 0)] := by
  refine ⟨by rfl, by rfl, by rfl, by rfl, by rfl, by decide, by decide⟩

/-- **C24**, amended. For every property id whose table entry has no direct backing offset
(the ids 3, 4 and 5), a property assignment that targets it from the container kind of the
property fails with `E_NOTIMPL` when the repeat index is below the count of the entry, and
with `E_FAIL` when it is not, for every operation, value offset, effect and container; the
container and the effect are unchanged and the four words of the record are consumed. -/
theorem unsupported_property_not_implemented (K : effect_object_operations)
    (P : assignment_parts) (data : List Nat) (ptr : Nat) (effect : d3d10_effect)
    (container : property_container) (info : d3d10_effect_state_property_info)
    (hin : ptr + 16 ≤ data.length)
    (hinfo : property_infos[dword_at data ptr]? = some info) (hoff : info.offset = none) :
    parse_fx10_property_assignment K P data ptr info.container_type effect container
      = .ok (if dword_at data (ptr + 4) < info.count then E_NOTIMPL else E_FAIL,
          ptr + 16, effect, container) ∧
    (dword_at data ptr = 3 ∨ dword_at data ptr = 4 ∨ dword_at data ptr = 5) ∧
    E_NOTIMPL ≠ E_FAIL ∧ E_NOTIMPL ≠ S_OK := by
  obtain ⟨h1, h2⟩ := property_assignment_checks K P data ptr info.container_type effect
    container info hin hinfo
  refine ⟨?_, ?_, by decide, by decide⟩
  · by_cases hi : dword_at data (ptr + 4) < info.count
    · rw [if_pos hi]
      exact h2 rfl hi hoff
    · rw [if_neg hi]
      exact h1 (Or.inr (by omega))
  · have hlt : dword_at data ptr < property_infos.length := by
      by_contra hge
      rw [List.getElem?_eq_none (by omega)] at hinfo
      simp at hinfo
    have hall : ∀ i, i < 56 → ∀ x, property_infos[i]? = some x → x.offset = none →
        i = 3 ∨ i = 4 ∨ i = 5 := by decide
    exact hall _ hlt info hinfo hoff

/-- **C24**, witness: the record (3, 7, 1, 0) at the start of a buffer, assigned from a
pass, gives `E_NOTIMPL` for property 3 with index 7 and the operation 1. -/
theorem unsupported_property_not_implemented_witness :
    parse_fx10_property_assignment example_operations example_parts
        (assignment_record 3 7 1 0) 0 .D3D10_C_PASS assignment_effect []
      = .ok (if dword_at (assignment_record 3 7 1 0) (0 + 4) < 8 then E_NOTIMPL else E_FAIL,
          0 + 16, assignment_effect, []) ∧
    (dword_at (assignment_record 3 7 1 0) 0 = 3 ∨ dword_at (assignment_record 3 7 1 0) 0 = 4
      ∨ dword_at (assignment_record 3 7 1 0) 0 = 5) ∧
    E_NOTIMPL ≠ E_FAIL ∧ E_NOTIMPL ≠ S_OK :=
  unsupported_property_not_implemented example_operations example_parts
    (assignment_record 3 7 1 0) 0 assignment_effect []
    ⟨0x03, "Pass.RenderTargets", .RENDERTARGETVIEW, 1, 8, .D3D10_C_PASS, none, none⟩
    (by decide) (by decide) rfl

/-! ## Types and the type registry -/

set_option maxRecDepth 100000 in
theorem parse_self_referential_struct (G : Nat) (get : type_resolver) (types : type_registry) :
    parse_fx10_type G get blob_self_referential_struct 4 4 types =
      match get types 4 with
      | .out_of_fuel => .out_of_fuel
      | .fault f => .fault f
      | .returned (none, types1) => .returned (E_FAIL, none, types1)
      | .returned (some type, types1) =>
        .returned (S_OK, some (parse_fx10_type_elementtype (.mk (some (cstr "s")) .VOID .STRUCT
          4 0 16 16 16 0 0 0 none [.mk (some (cstr "s")) none 0 type])), types1) := by
  have h : parse_fx10_type G get blob_self_referential_struct 4 4 types =
      match parse_fx10_type_members get blob_self_referential_struct 1 32 types with
      | .out_of_fuel => .out_of_fuel
      | .fault f => .fault f
      | .returned (hr, members, types1) =>
        if hr ≠ S_OK then .returned (hr, none, types1)
        else
          .returned (S_OK, some (parse_fx10_type_elementtype (.mk (some (cstr "s")) .VOID .STRUCT
            4 0 16 16 16 0 0 0 none members)), types1) := by rfl
  have h2 : parse_fx10_type_members get blob_self_referential_struct 1 32 types =
      match get types 4 with
      | .out_of_fuel => .out_of_fuel
      | .fault f => .fault f
      | .returned (none, types1) => .returned (E_FAIL, [], types1)
      | .returned (some type, types1) =>
        .returned (S_OK, [.mk (some (cstr "s")) none 0 type], types1) := by
    have : parse_fx10_type_members get blob_self_referential_struct 1 32 types =
      match get types 4 with
      | .out_of_fuel => .out_of_fuel
      | .fault f => .fault f
      | .returned (none, types1) => .returned (E_FAIL, [], types1)
      | .returned (some type, types1) =>
        match parse_fx10_type_members get blob_self_referential_struct 0 48 types1 with
        | .out_of_fuel => .out_of_fuel
        | .fault f => .fault f
        | .returned (hr, rest, types2) =>
          .returned (hr, .mk (some (cstr "s")) none 0 type :: rest, types2) := by rfl
    rw [this]
    cases get types 4 with
    | out_of_fuel => rfl
    | fault f => rfl
    | returned r =>
      obtain ⟨t, types1⟩ := r
      cases t <;> rfl
  rw [h, h2]
  cases get types 4 with
  | out_of_fuel => rfl
  | fault f => rfl
  | returned r =>
    obtain ⟨t, types1⟩ := r
    cases t <;> rfl

theorem self_referential_struct_out_of_fuel (G : Nat) :
    ∀ (fuel : Nat) (types : type_registry), wine_rb_get types 4 = none →
      get_fx10_type G fuel types blob_self_referential_struct 4 = .out_of_fuel
  | 0, _, _ => rfl
  | fuel + 1, types, h => by
    rw [get_fx10_type, h]
    simp only
    rw [parse_self_referential_struct, self_referential_struct_out_of_fuel G fuel types h]

set_option maxRecDepth 100000 in
theorem parse_two_structs_in_a_cycle (G : Nat) (get : type_resolver) (types : type_registry) :
    (parse_fx10_type G get blob_two_structs_in_a_cycle 4 4 types =
      match get types 48 with
      | .out_of_fuel => .out_of_fuel
      | .fault f => .fault f
      | .returned (none, types1) => .returned (E_FAIL, none, types1)
      | .returned (some type, types1) =>
        .returned (S_OK, some (parse_fx10_type_elementtype (.mk (some (cstr "s")) .VOID .STRUCT
          4 0 16 16 16 0 0 0 none [.mk (some (cstr "s")) none 0 type])), types1)) ∧
    (parse_fx10_type G get blob_two_structs_in_a_cycle 48 48 types =
      match get types 4 with
      | .out_of_fuel => .out_of_fuel
      | .fault f => .fault f
      | .returned (none, types1) => .returned (E_FAIL, none, types1)
      | .returned (some type, types1) =>
        .returned (S_OK, some (parse_fx10_type_elementtype (.mk (some (cstr "s")) .VOID .STRUCT
          48 0 16 16 16 0 0 0 none [.mk (some (cstr "s")) none 0 type])), types1)) := by
  have h : ∀ o o1, (o = 4 ∧ o1 = 48) ∨ (o = 48 ∧ o1 = 4) →
      parse_fx10_type G get blob_two_structs_in_a_cycle o o types =
      match get types o1 with
      | .out_of_fuel => .out_of_fuel
      | .fault f => .fault f
      | .returned (none, types1) =>
        match (outcome.returned (E_FAIL, [], types1) :
            outcome (HRESULT × List d3d10_effect_type_member × type_registry)) with
        | .out_of_fuel => .out_of_fuel
        | .fault f => .fault f
        | .returned (hr, members, types1) =>
          if hr ≠ S_OK then .returned (hr, none, types1)
          else
            .returned (S_OK, some (parse_fx10_type_elementtype (.mk (some (cstr "s")) .VOID
              .STRUCT o 0 16 16 16 0 0 0 none members)), types1)
      | .returned (some type, types1) =>
        match (outcome.returned (S_OK, [.mk (some (cstr "s")) none 0 type], types1) :
            outcome (HRESULT × List d3d10_effect_type_member × type_registry)) with
        | .out_of_fuel => .out_of_fuel
        | .fault f => .fault f
        | .returned (hr, members, types1) =>
          if hr ≠ S_OK then .returned (hr, none, types1)
          else
            .returned (S_OK, some (parse_fx10_type_elementtype (.mk (some (cstr "s")) .VOID
              .STRUCT o 0 16 16 16 0 0 0 none members)), types1) := by
    intro o o1 ho
    have hm : ∀ p, p = 32 ∨ p = 76 →
        parse_fx10_type_members get blob_two_structs_in_a_cycle 1 p types =
        match get types (dword_at blob_two_structs_in_a_cycle (p + 12)) with
        | .out_of_fuel => .out_of_fuel
        | .fault f => .fault f
        | .returned (none, types1) => .returned (E_FAIL, [], types1)
        | .returned (some type, types1) =>
          .returned (S_OK, [.mk (some (cstr "s")) none 0 type], types1) := by
      intro p hp
      rcases hp with rfl | rfl
      · have : parse_fx10_type_members get blob_two_structs_in_a_cycle 1 32 types =
            match get types 48 with
            | .out_of_fuel => .out_of_fuel
            | .fault f => .fault f
            | .returned (none, types1) => .returned (E_FAIL, [], types1)
            | .returned (some type, types1) =>
              match parse_fx10_type_members get blob_two_structs_in_a_cycle 0 48 types1 with
              | .out_of_fuel => .out_of_fuel
              | .fault f => .fault f
              | .returned (hr, rest, types2) =>
                .returned (hr, .mk (some (cstr "s")) none 0 type :: rest, types2) := by rfl
        rw [this, show dword_at blob_two_structs_in_a_cycle (32 + 12) = 48 by decide]
        cases get types 48 with
        | out_of_fuel => rfl
        | fault f => rfl
        | returned r =>
          obtain ⟨t, types1⟩ := r
          cases t <;> rfl
      · have : parse_fx10_type_members get blob_two_structs_in_a_cycle 1 76 types =
            match get types 4 with
            | .out_of_fuel => .out_of_fuel
            | .fault f => .fault f
            | .returned (none, types1) => .returned (E_FAIL, [], types1)
            | .returned (some type, types1) =>
              match parse_fx10_type_members get blob_two_structs_in_a_cycle 0 92 types1 with
              | .out_of_fuel => .out_of_fuel
              | .fault f => .fault f
              | .returned (hr, rest, types2) =>
                .returned (hr, .mk (some (cstr "s")) none 0 type :: rest, types2) := by rfl
        rw [this, show dword_at blob_two_structs_in_a_cycle (76 + 12) = 4 by decide]
        cases get types 4 with
        | out_of_fuel => rfl
        | fault f => rfl
        | returned r =>
          obtain ⟨t, types1⟩ := r
          cases t <;> rfl
    rcases ho with ⟨rfl, rfl⟩ | ⟨rfl, rfl⟩
    · have h0 : parse_fx10_type G get blob_two_structs_in_a_cycle 4 4 types =
          match parse_fx10_type_members get blob_two_structs_in_a_cycle 1 32 types with
          | .out_of_fuel => .out_of_fuel
          | .fault f => .fault f
          | .returned (hr, members, types1) =>
            if hr ≠ S_OK then .returned (hr, none, types1)
            else
              .returned (S_OK, some (parse_fx10_type_elementtype (.mk (some (cstr "s")) .VOID
                .STRUCT 4 0 16 16 16 0 0 0 none members)), types1) := by rfl
      rw [h0, hm 32 (Or.inl rfl), show dword_at blob_two_structs_in_a_cycle (32 + 12) = 48
        by decide]
      cases get types 48 with
      | out_of_fuel => rfl
      | fault f => rfl
      | returned r =>
        obtain ⟨t, types1⟩ := r
        cases t <;> rfl
    · have h0 : parse_fx10_type G get blob_two_structs_in_a_cycle 48 48 types =
          match parse_fx10_type_members get blob_two_structs_in_a_cycle 1 76 types with
          | .out_of_fuel => .out_of_fuel
          | .fault f => .fault f
          | .returned (hr, members, types1) =>
            if hr ≠ S_OK then .returned (hr, none, types1)
            else
              .returned (S_OK, some (parse_fx10_type_elementtype (.mk (some (cstr "s")) .VOID
                .STRUCT 48 0 16 16 16 0 0 0 none members)), types1) := by rfl
      rw [h0, hm 76 (Or.inr rfl), show dword_at blob_two_structs_in_a_cycle (76 + 12) = 4
        by decide]
      cases get types 4 with
      | out_of_fuel => rfl
      | fault f => rfl
      | returned r =>
        obtain ⟨t, types1⟩ := r
        cases t <;> rfl
  constructor
  · rw [h 4 48 (Or.inl ⟨rfl, rfl⟩)]
    cases get types 48 with
    | out_of_fuel => rfl
    | fault f => rfl
    | returned r =>
      obtain ⟨t, types1⟩ := r
      cases t <;> rfl
  · rw [h 48 4 (Or.inr ⟨rfl, rfl⟩)]
    cases get types 4 with
    | out_of_fuel => rfl
    | fault f => rfl
    | returned r =>
      obtain ⟨t, types1⟩ := r
      cases t <;> rfl

theorem two_structs_in_a_cycle_out_of_fuel (G : Nat) :
    ∀ (fuel : Nat) (types : type_registry), wine_rb_get types 4 = none →
      wine_rb_get types 48 = none →
      get_fx10_type G fuel types blob_two_structs_in_a_cycle 4 = .out_of_fuel ∧
      get_fx10_type G fuel types blob_two_structs_in_a_cycle 48 = .out_of_fuel
  | 0, _, _, _ => ⟨rfl, rfl⟩
  | fuel + 1, types, h4, h48 => by
    obtain ⟨ih4, ih48⟩ := two_structs_in_a_cycle_out_of_fuel G fuel types h4 h48
    constructor
    · rw [get_fx10_type, h4]
      simp only
      rw [(parse_two_structs_in_a_cycle G _ types).1, ih48]
    · rw [get_fx10_type, h48]
      simp only
      rw [(parse_two_structs_in_a_cycle G _ types).2, ih4]

set_option maxRecDepth 100000 in
/-- **C25**. The resolution of a structure type whose member has the offset of the structure
itself as its type offset does not return: whatever the nesting budget, the run of
`get_fx10_type` on `blob_self_referential_struct` (from the empty registry, at offset 4)
uses it up. The same holds for two structures each of which has a member of the type of the
other, from either offset. A structure whose member types are numeric (`blob_types`, offset
88) is resolved within two nested calls. -/
theorem cyclic_struct_type_never_resolves (G fuel : Nat) :
    get_fx10_type G fuel [] blob_self_referential_struct 4 = .out_of_fuel ∧
    get_fx10_type G fuel [] blob_two_structs_in_a_cycle 4 = .out_of_fuel ∧
    get_fx10_type G fuel [] blob_two_structs_in_a_cycle 48 = .out_of_fuel ∧
    ((get_fx10_type G 2 [] blob_types 88).value.map fun r =>
        (r.1.map fun t => (t.id, t.type_class, t.members.length), r.2.map fun t => t.id))
      = some (some (88, .STRUCT, 2), [4, 32, 88]) :=
  ⟨self_referential_struct_out_of_fuel G fuel [] rfl,
    (two_structs_in_a_cycle_out_of_fuel G fuel [] rfl rfl).1,
    (two_structs_in_a_cycle_out_of_fuel G fuel [] rfl rfl).2, by rfl⟩

theorem wine_rb_get_id (types : type_registry) (offset : Nat) (t : d3d10_effect_type)
    (h : wine_rb_get types offset = some t) : t.id = offset := by
  unfold wine_rb_get at h
  have := List.find?_some h
  simpa using this

theorem wine_rb_get_append (types ext : type_registry) (offset : Nat) (t : d3d10_effect_type)
    (h : wine_rb_get types offset = some t) : wine_rb_get (types ++ ext) offset = some t := by
  unfold wine_rb_get at h ⊢
  rw [List.find?_append, h]
  rfl

theorem parse_fx10_type_elementtype_id (t : d3d10_effect_type) :
    (parse_fx10_type_elementtype t).id = t.id := by
  cases t
  rw [parse_fx10_type_elementtype]
  split <;> rfl

theorem parse_fx10_type_returned (G : Nat) (get : type_resolver) (data : List Nat)
    (offset id : Nat) (types types1 : type_registry) (hr : HRESULT)
    (r : Option d3d10_effect_type)
    (h : parse_fx10_type G get data offset id types = .returned (hr, r, types1)) :
    (types1 = types ∨ ∃ n ptr hr1 ms,
      parse_fx10_type_members get data n ptr types = .returned (hr1, ms, types1)) ∧
    (∀ t, r = some t → hr = S_OK ∧ ∃ t0 name_offset, t = parse_fx10_type_elementtype t0 ∧
      t0.id = id ∧ fx10_copy_string data name_offset = some t0.name) := by
  unfold parse_fx10_type at h
  repeat' split at h
  all_goals first
    | (simp at h; done)
    | (simp only [outcome.returned.injEq, Prod.mk.injEq] at h
       obtain ⟨h1, h2, h3⟩ := h
       subst h3
       refine ⟨?_, ?_⟩
       · first
           | exact Or.inl rfl
           | exact Or.inr ⟨_, _, _, _, by assumption⟩
       · intro t ht
         subst ht
         first
           | (simp at h2; done)
           | (simp only [Option.some.injEq] at h2
              subst h2
              exact ⟨h1.symm, _, _, rfl, rfl, by assumption⟩))

theorem parse_fx10_type_members_extends (get : type_resolver) (data : List Nat)
    (hget : ∀ types offset r types1, get types offset = .returned (r, types1) →
      ∃ ext, types1 = types ++ ext) :
    ∀ (n ptr : Nat) (types types1 : type_registry) (hr : HRESULT)
      (ms : List d3d10_effect_type_member),
      parse_fx10_type_members get data n ptr types = .returned (hr, ms, types1) →
      ∃ ext, types1 = types ++ ext := by
  intro n
  induction n with
  | zero =>
    intro ptr types types1 hr ms h
    simp only [parse_fx10_type_members, outcome.returned.injEq, Prod.mk.injEq] at h
    exact ⟨[], by simp [h.2.2]⟩
  | succ n ih =>
    intro ptr types types1 hr ms h
    rw [parse_fx10_type_members] at h
    repeat' split at h
    all_goals first
      | (simp at h; done)
      | (simp only [outcome.returned.injEq, Prod.mk.injEq] at h
         obtain ⟨-, -, h3⟩ := h
         subst h3
         first
           | exact ⟨[], (List.append_nil _).symm⟩
           | (rename_i hg
              exact hget _ _ _ _ hg)
           | (rename_i hg _ _ _ _ hm
              obtain ⟨e1, he1⟩ := hget _ _ _ _ hg
              obtain ⟨e2, he2⟩ := ih _ _ _ _ _ hm
              exact ⟨e1 ++ e2, by rw [he2, he1, List.append_assoc]⟩))

theorem get_fx10_type_extends (G : Nat) (data : List Nat) :
    ∀ (fuel : Nat) (types : type_registry) (offset : Nat) (r : Option d3d10_effect_type)
      (types1 : type_registry),
      get_fx10_type G fuel types data offset = .returned (r, types1) →
      ∃ ext, types1 = types ++ ext := by
  intro fuel
  induction fuel with
  | zero => intro types offset r types1 h; simp [get_fx10_type] at h
  | succ fuel ih =>
    intro types offset r types1 h
    rw [get_fx10_type] at h
    split at h
    · simp only [outcome.returned.injEq, Prod.mk.injEq] at h
      exact ⟨[], by rw [← h.2]; simp⟩
    · have hparse : ∀ hr r0 typesP,
          parse_fx10_type G (fun types1 offset1 => get_fx10_type G fuel types1 data offset1)
            data offset offset types = .returned (hr, r0, typesP) →
          ∃ ext, typesP = types ++ ext := by
        intro hr r0 typesP hp
        rcases (parse_fx10_type_returned G _ data offset offset types typesP hr r0 hp).1 with
          h1 | ⟨n, ptr, hr1, ms, hm⟩
        · exact ⟨[], by rw [h1]; simp⟩
        · exact parse_fx10_type_members_extends _ data (fun a b c d => ih a b c d) n ptr types
            typesP hr1 ms hm
      split at h
      · simp at h
      · simp at h
      · rename_i hp
        simp only [outcome.returned.injEq, Prod.mk.injEq] at h
        rw [← h.2]
        exact hparse _ _ _ hp
      · rename_i hp
        obtain ⟨e1, he1⟩ := hparse _ _ _ hp
        split at h
        · simp only [outcome.returned.injEq, Prod.mk.injEq] at h
          rw [← h.2]
          exact ⟨e1, he1⟩
        · split at h
          · simp only [outcome.returned.injEq, Prod.mk.injEq] at h
            rw [← h.2]
            exact ⟨e1, he1⟩
          · rename_i hput
            simp only [outcome.returned.injEq, Prod.mk.injEq] at h
            rw [← h.2]
            unfold wine_rb_put at hput
            split at hput
            · simp at hput
            · simp only [Option.some.injEq] at hput
              exact ⟨e1 ++ [_], by rw [← hput, he1, List.append_assoc]⟩

theorem get_fx10_type_some (G : Nat) (data : List Nat) (fuel : Nat) (types : type_registry)
    (offset : Nat) (t : d3d10_effect_type) (types1 : type_registry)
    (h : get_fx10_type G fuel types data offset = .returned (some t, types1)) :
    t.id = offset ∧ wine_rb_get types1 offset = some t ∧
    ((wine_rb_get types offset = some t ∧ types1 = types) ∨
      (wine_rb_get types offset = none ∧ ∃ fuel1 typesP,
        fuel = fuel1 + 1 ∧ types1 = typesP ++ [t] ∧
        parse_fx10_type G (fun types1 offset1 => get_fx10_type G fuel1 types1 data offset1)
          data offset offset types = .returned (S_OK, some t, typesP))) := by
  cases fuel with
  | zero => simp [get_fx10_type] at h
  | succ fuel =>
    rw [get_fx10_type] at h
    split at h
    · rename_i type hg
      simp only [outcome.returned.injEq, Prod.mk.injEq, Option.some.injEq] at h
      obtain ⟨h1, h2⟩ := h
      subst h1 h2
      exact ⟨wine_rb_get_id _ _ _ hg, hg, Or.inl ⟨hg, rfl⟩⟩
    · rename_i hg
      split at h
      · simp at h
      · simp at h
      · simp at h
      · rename_i hr type typesP hp
        split at h
        · simp at h
        · split at h
          · simp at h
          · rename_i types2 hput
            simp only [outcome.returned.injEq, Prod.mk.injEq, Option.some.injEq] at h
            obtain ⟨h1, h2⟩ := h
            subst h1 h2
            obtain ⟨hS, t0, no, ht0, hid, -⟩ :=
              (parse_fx10_type_returned G _ data offset offset types typesP hr (some type) hp).2
                type rfl
            have hidt : type.id = offset := by
              rw [ht0, parse_fx10_type_elementtype_id, hid]
            unfold wine_rb_put at hput
            split at hput
            · simp at hput
            · rename_i hnone
              simp only [Option.some.injEq] at hput
              subst hput
              refine ⟨hidt, ?_, Or.inr ⟨hg, fuel, typesP, rfl, rfl, by rw [← hS]; exact hp⟩⟩
              unfold wine_rb_get at hnone ⊢
              rw [List.find?_append, hnone]
              simp [hidt]

/-- **C26**. The type registry deduplicates by offset only. When `get_fx10_type` has
returned the type `t` for an offset, `t` has that offset as its id and is registered under
it; every call of `get_fx10_type` only appends to the registry, so `t` stays registered;
with `t` registered, from whatever registry the earlier one has grown into, a call with the
same offset returns `t` and leaves the registry unchanged; and a call with another offset
that returns a type returns a type with that other offset as its id, hence a record
different from `t`, whatever the bytes at the two offsets are. -/
theorem type_registry_dedups_by_offset (G : Nat) (data : List Nat) (fuel : Nat)
    (types : type_registry) (offset : Nat) (t : d3d10_effect_type) (types1 : type_registry)
    (h : get_fx10_type G fuel types data offset = .returned (some t, types1)) :
    t.id = offset ∧ wine_rb_get types1 offset = some t ∧
    (∀ fuel1 types2 offset1 r types3,
      get_fx10_type G fuel1 types2 data offset1 = .returned (r, types3) →
      ∃ ext, types3 = types2 ++ ext) ∧
    (∀ ext fuel1, get_fx10_type G (fuel1 + 1) (types1 ++ ext) data offset
      = .returned (some t, types1 ++ ext)) ∧
    (∀ fuel1 types2 offset1 t1 types3, offset1 ≠ offset →
      get_fx10_type G fuel1 types2 data offset1 = .returned (some t1, types3) →
      t1.id = offset1 ∧ t1 ≠ t) := by
  obtain ⟨hid, hreg, -⟩ := get_fx10_type_some G data fuel types offset t types1 h
  refine ⟨hid, hreg, get_fx10_type_extends G data, ?_, ?_⟩
  · intro ext fuel1
    rw [get_fx10_type, wine_rb_get_append types1 ext offset t hreg]
  · intro fuel1 types2 offset1 t1 types3 hne h1
    obtain ⟨hid1, -, -⟩ := get_fx10_type_some G data fuel1 types2 offset1 t1 types3 h1
    refine ⟨hid1, ?_⟩
    intro heq
    rw [heq, hid] at hid1
    exact hne hid1.symm

set_option maxRecDepth 100000 in
/-- **C26**, witness: in `blob_types` the same record stands at the offsets 4 and 32. The
first resolution of offset 4 registers a type with the id 4; the resolution of offset 32
then registers a second type, which differs from the first one in its id only; a further
resolution of offset 4 returns the first type and leaves the registry of two types
unchanged. -/
theorem type_registry_dedups_by_offset_witness :
    ((float4_type_at 4).id = 4 ∧ wine_rb_get [float4_type_at 4] 4 = some (float4_type_at 4) ∧
      (∀ fuel1 types2 offset1 r types3,
        get_fx10_type 1 fuel1 types2 blob_types offset1 = .returned (r, types3) →
        ∃ ext, types3 = types2 ++ ext) ∧
      (∀ ext fuel1, get_fx10_type 1 (fuel1 + 1) ([float4_type_at 4] ++ ext) blob_types 4
        = .returned (some (float4_type_at 4), [float4_type_at 4] ++ ext)) ∧
      (∀ fuel1 types2 offset1 t1 types3, offset1 ≠ 4 →
        get_fx10_type 1 fuel1 types2 blob_types offset1 = .returned (some t1, types3) →
        t1.id = offset1 ∧ t1 ≠ float4_type_at 4)) ∧
    get_fx10_type 1 1 [float4_type_at 4] blob_types 32
      = .returned (some (float4_type_at 32), [float4_type_at 4, float4_type_at 32]) ∧
    get_fx10_type 1 1 [float4_type_at 4, float4_type_at 32] blob_types 4
      = .returned (some (float4_type_at 4), [float4_type_at 4, float4_type_at 32]) :=
  ⟨type_registry_dedups_by_offset 1 blob_types 1 [] 4 (float4_type_at 4) [float4_type_at 4]
    (by rfl), by rfl, by rfl⟩

theorem fx10_copy_string_not_empty (data : List Nat) (offset : Nat) (name : Option cstring)
    (h : fx10_copy_string data offset = some name) : name ≠ some [] := by
  unfold fx10_copy_string at h
  rcases fx10_get_string_cases data offset with ⟨-, h1⟩ | ⟨-, -, h1⟩ | ⟨-, -, h1⟩ |
      ⟨-, n, hn, -, -, -, h1⟩
  · rw [h1] at h; simp at h
  · rw [h1] at h
    simp only [Option.some.injEq] at h
    rw [← h]
    simp
  · rw [h1] at h; simp at h
  · rw [h1] at h
    simp only [Option.some.injEq] at h
    rw [← h]
    simp only [ne_eq, Option.some.injEq, List.map_eq_nil_iff, List.range_eq_nil]
    omega

theorem copy_name_of_not_empty (name : Option cstring) (h : name ≠ some []) :
    copy_name name none = name := by
  unfold copy_name
  split
  · rfl
  · exact absurd rfl h
  · rfl

theorem parse_fx10_type_elementtype_spec (t0 : d3d10_effect_type) :
    (parse_fx10_type_elementtype t0).name = t0.name ∧
    (parse_fx10_type_elementtype t0).basetype = t0.basetype ∧
    (parse_fx10_type_elementtype t0).type_class = t0.type_class ∧
    (parse_fx10_type_elementtype t0).element_count = t0.element_count ∧
    (parse_fx10_type_elementtype t0).size_unpacked = t0.size_unpacked ∧
    (parse_fx10_type_elementtype t0).stride = t0.stride ∧
    (parse_fx10_type_elementtype t0).size_packed = t0.size_packed ∧
    (parse_fx10_type_elementtype t0).column_count = t0.column_count ∧
    (parse_fx10_type_elementtype t0).row_count = t0.row_count ∧
    (parse_fx10_type_elementtype t0).members = t0.members ∧
    (t0.element_count ≠ 0 → (parse_fx10_type_elementtype t0).elementtype =
      some (.mk (copy_name t0.name none) t0.basetype t0.type_class 0 0
        (t0.size_packed / t0.element_count) t0.stride (t0.size_packed / t0.element_count)
        t0.column_count t0.row_count 0 none t0.members)) := by
  cases t0 with
  | mk name basetype type_class id element_count size_unpacked stride size_packed column_count
      row_count flags elementtype members =>
    rw [parse_fx10_type_elementtype]
    by_cases hn : element_count = 0
    · rw [if_neg (by simpa using hn)]
      exact ⟨rfl, rfl, rfl, rfl, rfl, rfl, rfl, rfl, rfl, rfl, fun h => absurd hn h⟩
    · rw [if_pos hn]
      exact ⟨rfl, rfl, rfl, rfl, rfl, rfl, rfl, rfl, rfl, rfl, fun _ => rfl⟩

set_option maxRecDepth 100000 in
/-- **C27**, counterexample. The type at offset 60 of `blob_types` is an array of 2
elements with the unpacked size 32 and the packed size 24. Its element type has the
unpacked size 12, which is the packed size divided by 2, and not 16, the unpacked size
divided by 2. -/
theorem element_type_unpacked_size_from_packed :
    ((get_fx10_type 1 1 [] blob_types 60).value.bind fun r => r.1.map fun t =>
        (t.element_count, t.size_unpacked, t.size_packed,
          t.elementtype.map fun e => (e.element_count, e.size_unpacked, e.size_packed)))
      = some (2, 32, 24, some (0, 12, 12)) ∧
    32 / 2 ≠ 12 := by
  refine ⟨by rfl, by decide⟩

/-- **C27**, amended. For every type that `parse_fx10_type` has parsed with an element
count `n > 0`, the element type is a clone of the array type: same name, base type, class,
rows, columns, members and stride, with the element count 0 and with both the unpacked
and the packed size equal to the packed size of the array type divided by `n`. -/
theorem element_type_is_clone (G : Nat) (get : type_resolver) (data : List Nat)
    (offset id : Nat) (types types1 : type_registry) (hr : HRESULT) (t : d3d10_effect_type)
    (h : parse_fx10_type G get data offset id types = .returned (hr, some t, types1))
    (hn : t.element_count ≠ 0) :
    ∃ e, t.elementtype = some e ∧ e.name = t.name ∧ e.basetype = t.basetype ∧
      e.type_class = t.type_class ∧ e.row_count = t.row_count ∧
      e.column_count = t.column_count ∧ e.members = t.members ∧ e.stride = t.stride ∧
      e.element_count = 0 ∧ e.size_unpacked = t.size_packed / t.element_count ∧
      e.size_packed = t.size_packed / t.element_count := by
  obtain ⟨-, t0, name_offset, ht0, -, hname⟩ :=
    (parse_fx10_type_returned G get data offset id types types1 hr (some t) h).2 t rfl
  obtain ⟨h1, h2, h3, h4, -, h6, h7, h8, h9, h10, h11⟩ := parse_fx10_type_elementtype_spec t0
  subst ht0
  rw [h4] at hn
  refine ⟨_, h11 hn, ?_, ?_, ?_, ?_, ?_, ?_, ?_, rfl, ?_, ?_⟩
  · rw [h1]
    exact copy_name_of_not_empty _ (fx10_copy_string_not_empty data name_offset _ hname)
  · rw [h2]; rfl
  · rw [h3]; rfl
  · rw [h9]; rfl
  · rw [h8]; rfl
  · rw [h10]; rfl
  · rw [h6]; rfl
  · rw [h7, h4]; rfl
  · rw [h7, h4]; rfl

set_option maxRecDepth 100000 in
/-- **C27**, witness: the array type at offset 60 of `blob_types`, parsed with a resolver
that is never called. -/
theorem element_type_is_clone_witness :
    ∃ t, parse_fx10_type 1 (fun types _ => .returned (none, types)) blob_types 60 60 []
        = .returned (S_OK, some t, []) ∧ t.element_count = 2 ∧
      ∃ e, t.elementtype = some e ∧ e.name = t.name ∧ e.basetype = t.basetype ∧
        e.type_class = t.type_class ∧ e.row_count = t.row_count ∧
        e.column_count = t.column_count ∧ e.members = t.members ∧ e.stride = t.stride ∧
        e.element_count = 0 ∧ e.size_unpacked = t.size_packed / t.element_count ∧
        e.size_packed = t.size_packed / t.element_count :=
  ⟨.mk (some (cstr "f")) .FLOAT .VECTOR 60 2 32 16 24 4 1 0
      (some (.mk (some (cstr "f")) .FLOAT .VECTOR 0 0 12 16 12 4 1 0 none [])) [],
    by rfl, rfl,
    element_type_is_clone 1 (fun types _ => .returned (none, types)) blob_types 60 60 [] []
      S_OK _ (by rfl) (by decide)⟩

theorem object_assignable_eq (info : d3d10_effect_state_property_info)
    (v : d3d10_effect_variable) (h : is_object_property info = true)
    (h0 : v.type.element_count = 0) :
    object_assignable info v = is_object_property_type_matching info v := by
  unfold object_assignable is_object_property_type_matching dimensioned_texture
  rw [h, h0]
  by_cases heq : info.type = v.type.basetype
  · simp [heq]
  · have hne : ¬ v.type.basetype = info.type := fun h => heq h.symm
    simp only [heq, hne, if_false, decide_True, decide_False, Bool.true_and, Bool.false_or]
    cases v.type.basetype <;> simp

theorem slot_value_store_slot (container : property_container) (field : String) (idx : Nat)
    (value : property_value) :
    slot_value (store_slot container field idx value) field idx = some value := by
  simp [slot_value, store_slot]

/-- **C30**, counterexample. The name "rt" resolves to a render target view that is not an
array, and the property 3 (`Pass.RenderTargets`) is an object property of that type, yet
the named-variable assignment fails, with `E_NOTIMPL`; the assignment of the rasterizer
state "rs" to the property 0 (`Pass.RasterizerState`) succeeds with the repeat index 0 but
fails with the repeat index 1 or from a container other than a pass; and when the value
offset refers to an empty string the lookup is entered with a NULL name and passes it to
`strcmp`. -/
theorem named_assignment_needs_more_than_matching :
    resolved_variable assignment_effect (assignment_blob 3 0 2 1) 1
      = assignment_effect.local_variables[0]? ∧
    (assignment_effect.local_variables[0]?.map fun v =>
      (v.type.element_count, v.type.basetype)) = some (0, .RENDERTARGETVIEW) ∧
    (property_infos[3]?.map fun i => (i.type, is_object_property i))
      = some (.RENDERTARGETVIEW, true) ∧
    example_assignment .D3D10_C_PASS 3 0 2 1 = .ok (E_NOTIMPL, []) ∧
    (example_assignment .D3D10_C_PASS 0 0 2 4).map (fun r => r.1) = .ok S_OK ∧
    example_assignment .D3D10_C_PASS 0 1 2 4 = .ok (E_FAIL, []) ∧
    example_assignment .D3D10_C_RASTERIZER 0 0 2 4 = .ok (E_FAIL, []) ∧
    example_assignment .D3D10_C_PASS 0 0 2 0 = .error .null_deref := by
  refine ⟨by rfl, by rfl, by rfl, by rfl, by rfl, by rfl, by rfl, by rfl⟩

/-- **C30**, amended. Let a property assignment with the operation `D3D10_EOO_VAR` pass the
checks made before the operation is looked at (known property id, container kind of the
property, repeat index below the count, a backing offset), and let its value offset not
refer to an empty string. Then it succeeds and stores the resolved variable in the slot of
the property exactly when the property is of object kind and the name resolves (in the
effect or its pool) to a variable that is not an array and whose base type equals the type
of the property, or is a dimensioned texture type when the property is of the generic
texture type; in every other case, such as an unreadable or unknown name or a numeric
property, it returns `E_FAIL` and the container is unchanged. -/
theorem named_variable_assignment (K : effect_object_operations) (P : assignment_parts)
    (data : List Nat) (ptr : Nat) (effect : d3d10_effect) (container : property_container)
    (info : d3d10_effect_state_property_info) (dst : String)
    (hin : ptr + 16 ≤ data.length)
    (hinfo : property_infos[dword_at data ptr]? = some info)
    (hidx : dword_at data (ptr + 4) < info.count) (hoff : info.offset = some dst)
    (hop : dword_at data (ptr + 8) = K.D3D10_EOO_VAR)
    (hlabel : K.D3D10_EOO_VAR ≠ K.D3D10_EOO_CONST)
    (hname : fx10_get_string data (dword_at data (ptr + 12)) ≠ some (none, 0)) :
    parse_fx10_property_assignment K P data ptr info.container_type effect container
      = .ok (match resolved_variable effect data (dword_at data (ptr + 12)) with
          | some v =>
            if object_assignable info v then
              (S_OK, ptr + 16, effect,
                store_slot container dst (dword_at data (ptr + 4)) (.variable_ptr v))
            else (E_FAIL, ptr + 16, effect, container)
          | none => (E_FAIL, ptr + 16, effect, container)) ∧
    (∀ v, slot_value (store_slot container dst (dword_at data (ptr + 4)) (.variable_ptr v))
      dst (dword_at data (ptr + 4)) = some (.variable_ptr v)) ∧
    (is_object_property info = false → ∀ v, object_assignable info v = false) := by
  refine ⟨?_, fun v => slot_value_store_slot _ _ _ _, fun h v => by
    simp [object_assignable, h]⟩
  obtain ⟨h1, h2, h3, h4⟩ := read_four_dwords data ptr hin
  unfold parse_fx10_property_assignment resolved_variable
  simp only [h1, h2, h3, h4, hinfo, hoff, hop, ne_eq, not_true_eq_false, if_false]
  rw [if_neg (by omega), if_neg hlabel]
  simp only [if_true]
  rcases fx10_get_string_cases data (dword_at data (ptr + 12)) with ⟨-, h⟩ | ⟨-, -, h⟩ |
      ⟨-, -, h⟩ | ⟨-, n, -, -, -, -, h⟩
  · rw [h]
  · exact absurd h hname
  · rw [h]
  · rw [h]
    simp only [get_variable_by_name_eq_find]
    cases hf : (all_variables effect).find? (has_name _) with
    | none => rfl
    | some v =>
      simp only
      by_cases hobj : is_object_property info = true
      · rw [if_pos hobj]
        by_cases h0 : v.type.element_count = 0
        · rw [if_neg (by simpa using h0), object_assignable_eq info v hobj h0]
          cases is_object_property_type_matching info v <;> simp
        · rw [if_pos (by simpa using h0)]
          simp [object_assignable, h0]
      · rw [if_neg hobj]
        simp [object_assignable, hobj]

/-- **C30**, witness: the assignment of the 2D texture "tex" to the property 0x37
(`SamplerState.Texture`, of the generic texture type) of a sampler succeeds and stores the
variable in the slot `texture`. -/
theorem named_variable_assignment_witness :
    parse_fx10_property_assignment example_operations example_parts
        (assignment_blob 0x37 0 2 7) 16 .D3D10_C_SAMPLER assignment_effect []
      = .ok (match resolved_variable assignment_effect (assignment_blob 0x37 0 2 7)
            (dword_at (assignment_blob 0x37 0 2 7) (16 + 12)) with
          | some v =>
            if object_assignable
                ⟨0x37, "SamplerState.Texture", .TEXTURE, 1, 1, .D3D10_C_SAMPLER, some "texture",
                  none⟩ v then
              (S_OK, 16 + 16, assignment_effect,
                store_slot [] "texture" (dword_at (assignment_blob 0x37 0 2 7) (16 + 4))
                  (.variable_ptr v))
            else (E_FAIL, 16 + 16, assignment_effect, [])
          | none => (E_FAIL, 16 + 16, assignment_effect, [])) ∧
    (parse_fx10_property_assignment example_operations example_parts
        (assignment_blob 0x37 0 2 7) 16 .D3D10_C_SAMPLER assignment_effect []).map
        (fun r => (r.1, r.2.2.2.map fun s => (s.field, s.index)))
      = .ok (S_OK, [("texture", 0)]) :=
  ⟨(named_variable_assignment example_operations example_parts (assignment_blob 0x37 0 2 7) 16
    assignment_effect []
    ⟨0x37, "SamplerState.Texture", .TEXTURE, 1, 1, .D3D10_C_SAMPLER, some "texture", none⟩
    "texture" (by decide) (by decide) (by decide) rfl (by decide) (by decide) (by decide)).1,
    by rfl⟩

/-! ## Constant-index assignments -/

theorem shader_property_has_index_field :
    ∀ i, i < 56 → ∀ x, property_infos[i]? = some x →
      x.type = .VERTEXSHADER ∨ x.type = .PIXELSHADER ∨ x.type = .GEOMETRYSHADER →
      x.index_offset.isSome = true ∧ x.index_offset ≠ x.offset := by decide

/-- **C31** (`parse_fx10_property_assignment`, case `D3D10_EOO_CONST_INDEX`): when a
constant-index assignment returns `S_OK`, the property is known, assigned from its own
container kind with a repeat index below its count, the value offset holds a name
reference and a literal index, the name resolves to a variable that is an array with more
elements than the literal index, and the property is an object property whose type the
variable matches. For a property of a shader type the container then holds the array
variable itself in the slot of the property and the literal index in the separate index
field of the pass; for every other object property it holds a pointer to the element at
the literal index. The effect is unchanged and the record is consumed. -/
theorem const_index_assignment (K : effect_object_operations) (P : assignment_parts)
    (data : List Nat) (ptr : Nat) (container_type : d3d10_effect_container_type)
    (effect effect1 : d3d10_effect) (container container1 : property_container) (ptr1 : Nat)
    (hin : ptr + 16 ≤ data.length)
    (hop : dword_at data (ptr + 8) = K.D3D10_EOO_CONST_INDEX)
    (hconst : K.D3D10_EOO_CONST_INDEX ≠ K.D3D10_EOO_CONST)
    (hvar : K.D3D10_EOO_CONST_INDEX ≠ K.D3D10_EOO_VAR)
    (hres : parse_fx10_property_assignment K P data ptr container_type effect container
      = .ok (S_OK, ptr1, effect1, container1)) :
    ∃ info dst name name_len v,
      property_infos[dword_at data ptr]? = some info ∧
      info.container_type = container_type ∧ dword_at data (ptr + 4) < info.count ∧
      info.offset = some dst ∧
      dword_at data (ptr + 12) + 8 ≤ data.length ∧
      fx10_get_string data (dword_at data (dword_at data (ptr + 12))) = some (name, name_len) ∧
      d3d10_effect_get_variable_by_name effect name = .ok (some v) ∧
      v.type.element_count ≠ 0 ∧
      dword_at data (dword_at data (ptr + 12) + 4) < v.type.element_count ∧
      is_object_property info = true ∧ is_object_property_type_matching info v = true ∧
      ptr1 = ptr + 16 ∧ effect1 = effect ∧
      (info.type = .VERTEXSHADER ∨ info.type = .PIXELSHADER ∨ info.type = .GEOMETRYSHADER →
        ∃ index_field, info.index_offset = some index_field ∧ index_field ≠ dst ∧
          container1 = store_slot (store_slot container dst (dword_at data (ptr + 4))
              (.variable_ptr v))
            index_field 0 (.shader_index (dword_at data (dword_at data (ptr + 12) + 4)))) ∧
      (¬ (info.type = .VERTEXSHADER ∨ info.type = .PIXELSHADER ∨ info.type = .GEOMETRYSHADER) →
        container1 = store_slot container dst (dword_at data (ptr + 4))
          (.element_ptr v (dword_at data (dword_at data (ptr + 12) + 4)))) := by
  obtain ⟨h1, h2, h3, h4⟩ := read_four_dwords data ptr hin
  unfold parse_fx10_property_assignment at hres
  simp only [h1, h2, h3, h4, hop] at hres
  cases hinfo : property_infos[dword_at data ptr]? with
  | none => rw [hinfo] at hres; simp [E_FAIL, S_OK] at hres
  | some info =>
  rw [hinfo] at hres
  simp only at hres
  by_cases hct : info.container_type ≠ container_type
  · rw [if_pos hct] at hres; simp [E_FAIL, S_OK] at hres
  rw [if_neg hct] at hres
  by_cases hidx : info.count ≤ dword_at data (ptr + 4)
  · rw [if_pos hidx] at hres; simp [E_FAIL, S_OK] at hres
  rw [if_neg hidx] at hres
  cases hoff : info.offset with
  | none => rw [hoff] at hres; simp [E_NOTIMPL, S_OK] at hres
  | some dst =>
  rw [hoff] at hres
  simp only [if_neg hconst, if_neg hvar, if_true] at hres
  by_cases hsp : (decide (data.length ≤ dword_at data (ptr + 12)) ||
      !require_space (dword_at data (ptr + 12)) 2 4 data.length) = true
  · rw [if_pos hsp] at hres; simp [E_FAIL, S_OK] at hres
  rw [if_neg hsp] at hres
  simp only [Bool.or_eq_true, decide_eq_true_eq, Bool.not_eq_true', not_or, not_le,
    Bool.not_eq_false] at hsp
  have hfit : dword_at data (ptr + 12) + 8 ≤ data.length :=
    (require_space_two_dwords _ _ hsp.1).mp hsp.2
  have hr1 : read_dword data (dword_at data (ptr + 12))
      = .ok (dword_at data (dword_at data (ptr + 12)), dword_at data (ptr + 12) + 4) := by
    rw [read_dword, if_pos (by omega)]
  have hr2 : read_dword data (dword_at data (ptr + 12) + 4)
      = .ok (dword_at data (dword_at data (ptr + 12) + 4), dword_at data (ptr + 12) + 4 + 4) := by
    rw [read_dword, if_pos (by omega)]
  simp only [hr1, hr2] at hres
  cases hstr : fx10_get_string data (dword_at data (dword_at data (ptr + 12))) with
  | none => rw [hstr] at hres; simp [E_FAIL, S_OK] at hres
  | some s =>
  obtain ⟨name, name_len⟩ := s
  rw [hstr] at hres
  simp only at hres
  cases hget : d3d10_effect_get_variable_by_name effect name with
  | error f => rw [hget] at hres; cases hres
  | ok r =>
  cases r with
  | none => rw [hget] at hres; simp [E_FAIL, S_OK] at hres
  | some v =>
  rw [hget] at hres
  simp only at hres
  by_cases harr : (decide (v.type.element_count = 0) ||
      decide (v.type.element_count ≤ dword_at data (dword_at data (ptr + 12) + 4))) = true
  · rw [if_pos harr] at hres; simp [E_FAIL, S_OK] at hres
  rw [if_neg harr] at hres
  simp only [Bool.or_eq_true, beq_iff_eq, decide_eq_true_eq, not_or, not_le] at harr
  by_cases hobj : is_object_property info = true
  swap
  · rw [if_neg hobj] at hres; simp [E_FAIL, S_OK] at hres
  rw [if_pos hobj] at hres
  by_cases hmatch : is_object_property_type_matching info v = true
  swap
  · rw [if_pos (by simpa using hmatch)] at hres; simp [E_FAIL, S_OK] at hres
  rw [if_neg (by simpa using hmatch)] at hres
  have hlt : dword_at data ptr < 56 := by
    by_contra hge
    rw [List.getElem?_eq_none (by simp [property_infos]; omega)] at hinfo
    cases hinfo
  refine ⟨info, dst, name, name_len, v, rfl, by simpa using hct, by omega, hoff, hfit, rfl,
    hget, harr.1, harr.2, hobj, hmatch, ?_⟩
  by_cases hsh : info.type = .VERTEXSHADER ∨ info.type = .PIXELSHADER ∨
      info.type = .GEOMETRYSHADER
  · rw [if_pos hsh] at hres
    simp only [Except.ok.injEq, Prod.mk.injEq, true_and] at hres
    obtain ⟨hp, he, hc⟩ := hres
    refine ⟨hp.symm, he.symm, fun _ => ?_, fun hn => absurd hsh hn⟩
    obtain ⟨hsome, hne⟩ := shader_property_has_index_field _ hlt info hinfo hsh
    obtain ⟨index_field, hidxf⟩ := Option.isSome_iff_exists.mp hsome
    refine ⟨index_field, hidxf, ?_, ?_⟩
    · intro heq
      apply hne
      rw [hidxf, hoff, heq]
    · rw [← hc, hidxf]
      rfl
  · rw [if_neg hsh] at hres
    simp only [Except.ok.injEq, Prod.mk.injEq, true_and] at hres
    obtain ⟨hp, he, hc⟩ := hres
    exact ⟨hp.symm, he.symm, fun h => absurd h hsh, fun _ => hc.symm⟩

set_option maxRecDepth 100000 in
/-- Witness for `const_index_assignment`: the element 1 of the array "bl" of blend states
is assigned to `Pass.BlendState`; the assignment of the element 2 of the array "vs" of
vertex shaders to `Pass.VertexShader` stores the array and, in `vs.index`, the 2; the
index 2 is refused for the array "bl" of two elements. -/
theorem const_index_assignment_witness :
    indexed_assignment 2 0 1 1 = .ok (S_OK, [("blend", 0, 1)]) ∧
    indexed_assignment 6 0 4 2 = .ok (S_OK, [("vs.index", 0, 2), ("vs.shader", 0, -1)]) ∧
    indexed_assignment 2 0 1 2 = .ok (E_FAIL, []) ∧
    ∃ info dst name name_len v,
      property_infos[dword_at (indexed_blob 2 0 1 1) 16]? = some info ∧
      info.container_type = .D3D10_C_PASS ∧
      dword_at (indexed_blob 2 0 1 1) (16 + 4) < info.count ∧
      info.offset = some dst ∧
      dword_at (indexed_blob 2 0 1 1) (16 + 12) + 8 ≤ (indexed_blob 2 0 1 1).length ∧
      fx10_get_string (indexed_blob 2 0 1 1)
          (dword_at (indexed_blob 2 0 1 1) (dword_at (indexed_blob 2 0 1 1) (16 + 12)))
        = some (name, name_len) ∧
      d3d10_effect_get_variable_by_name indexed_effect name = .ok (some v) ∧
      v.type.element_count ≠ 0 ∧
      dword_at (indexed_blob 2 0 1 1) (dword_at (indexed_blob 2 0 1 1) (16 + 12) + 4)
        < v.type.element_count ∧
      is_object_property info = true ∧ is_object_property_type_matching info v = true ∧
      16 + 16 = 16 + 16 ∧ indexed_effect = indexed_effect ∧
      (info.type = .VERTEXSHADER ∨ info.type = .PIXELSHADER ∨ info.type = .GEOMETRYSHADER →
        ∃ index_field, info.index_offset = some index_field ∧ index_field ≠ dst ∧
          [⟨"blend", 0, .element_ptr
              (.mk .blend (some (cstr "bl")) none
                (.mk none .BLEND .OBJECT 0 2 0 0 0 0 0 0 none []) 0 0 0 0 [] [] []) 1⟩]
            = store_slot (store_slot [] dst (dword_at (indexed_blob 2 0 1 1) (16 + 4))
              (.variable_ptr v))
            index_field 0 (.shader_index
              (dword_at (indexed_blob 2 0 1 1)
                (dword_at (indexed_blob 2 0 1 1) (16 + 12) + 4)))) ∧
      (¬ (info.type = .VERTEXSHADER ∨ info.type = .PIXELSHADER ∨ info.type = .GEOMETRYSHADER) →
        [⟨"blend", 0, .element_ptr
            (.mk .blend (some (cstr "bl")) none
              (.mk none .BLEND .OBJECT 0 2 0 0 0 0 0 0 none []) 0 0 0 0 [] [] []) 1⟩]
          = store_slot [] dst (dword_at (indexed_blob 2 0 1 1) (16 + 4))
            (.element_ptr v
              (dword_at (indexed_blob 2 0 1 1)
                (dword_at (indexed_blob 2 0 1 1) (16 + 12) + 4)))) :=
  ⟨by rfl, by rfl, by rfl,
    const_index_assignment example_operations example_parts (indexed_blob 2 0 1 1) 16
      .D3D10_C_PASS indexed_effect indexed_effect []
      [⟨"blend", 0, .element_ptr
          (.mk .blend (some (cstr "bl")) none
            (.mk none .BLEND .OBJECT 0 2 0 0 0 0 0 0 none []) 0 0 0 0 [] [] []) 1⟩]
      (16 + 16) (by decide) (by decide) (by decide) (by decide) (by rfl)⟩

/-! ## Stream output declarations: the fields of an entry -/

theorem strstr_eq_some : ∀ (haystack needle : List Nat) (k : Nat),
    strstr haystack needle = some k → needle <+: haystack.drop k
  | [], needle, k, h => by
    rw [strstr] at h
    split at h
    · rename_i hn
      subst hn
      simp
    · cases h
  | c :: rest, needle, k, h => by
    rw [strstr] at h
    split at h
    · rename_i hp
      simp only [Option.some.injEq] at h
      subst h
      exact List.isPrefixOf_iff_prefix.mp hp
    · cases hr : strstr rest needle with
      | none => rw [hr] at h; cases h
      | some j =>
        rw [hr] at h
        simp only [Option.map_some', Option.some.injEq] at h
        subst h
        exact strstr_eq_some rest needle j hr

theorem so_mask_start_eq_some (mask : List Nat) (k : Nat) (h : so_mask_start mask = some k) :
    mask <+: xyzw.drop k ∨ mask <+: rgba.drop k := by
  unfold so_mask_start at h
  cases hx : strstr xyzw mask with
  | some j =>
    rw [hx] at h
    simp only [Option.some.injEq] at h
    subst h
    exact Or.inl (strstr_eq_some _ _ _ hx)
  | none =>
    rw [hx] at h
    exact Or.inr (strstr_eq_some _ _ _ h)

theorem so_mask_start_empty : so_mask_start [] = some 0 := by decide

theorem head_of_prefix_drop (c : Nat) (t l : List Nat) (k : Nat) (h : c :: t <+: l.drop k) :
    l[k]? = some c := by
  obtain ⟨post, hpost⟩ := h
  have := congrArg (fun x => x[0]?) hpost
  simpa [List.getElem?_drop] using this.symm

theorem mask_position_unique (mask : List Nat) (hne : mask ≠ []) (k1 k2 : Nat)
    (h1 : mask <+: xyzw.drop k1 ∨ mask <+: rgba.drop k1)
    (h2 : mask <+: xyzw.drop k2 ∨ mask <+: rgba.drop k2) : k1 = k2 := by
  obtain ⟨c, t, rfl⟩ := List.exists_cons_of_ne_nil hne
  have e1 : xyzw[k1]? = some c ∨ rgba[k1]? = some c :=
    h1.imp (head_of_prefix_drop c t _ k1) (head_of_prefix_drop c t _ k1)
  have e2 : xyzw[k2]? = some c ∨ rgba[k2]? = some c :=
    h2.imp (head_of_prefix_drop c t _ k2) (head_of_prefix_drop c t _ k2)
  have hk1 : k1 < 4 := by
    by_contra hge
    rcases e1 with e | e <;>
    · rw [List.getElem?_eq_none (by simp [xyzw, rgba]; omega)] at e
      cases e
  have hk2 : k2 < 4 := by
    by_contra hge
    rcases e2 with e | e <;>
    · rw [List.getElem?_eq_none (by simp [xyzw, rgba]; omega)] at e
      cases e
  interval_cases k1 <;> interval_cases k2 <;> simp [xyzw, rgba] at e1 e2 ⊢ <;> omega

theorem so_entry_of_piece_fields (to_slot : Nat → Nat) (piece : List Nat)
    (e : D3D10_SO_DECLARATION_ENTRY) (h : so_entry_of_piece to_slot piece = some (some e)) :
    (∀ m, so_mask (so_body piece) = some m →
      so_mask_start m = some e.StartComponent ∧ e.ComponentCount = m.length) ∧
    (so_mask (so_body piece) = none → e.StartComponent = 0 ∧ e.ComponentCount = 4) ∧
    e.SemanticIndex = decimal_value ((so_indexed_name (so_body piece)).drop
      ((so_indexed_name (so_body piece)).length
        - trailing_digits (so_indexed_name (so_body piece)))) ∧
    e.SemanticName =
      (if ((so_indexed_name (so_body piece)).take
            ((so_indexed_name (so_body piece)).length
              - trailing_digits (so_indexed_name (so_body piece)))).map tolower
          = (cstr "$SKIP").map tolower then none
        else some ((so_indexed_name (so_body piece)).take
          ((so_indexed_name (so_body piece)).length
            - trailing_digits (so_indexed_name (so_body piece))))) ∧
    ∃ c ∈ so_indexed_name (so_body piece), isdigit c = false := by
  unfold so_entry_of_piece at h
  split at h
  · cases h
  · unfold so_entry_of_body at h
    split at h
    · cases h
    · rename_i hmask
      split at h
      · cases h
      · rename_i hname
        simp only [Option.some.injEq] at h
        subst h
        refine ⟨?_, ?_, rfl, rfl, ?_⟩
        · intro m hm
          rw [hm] at hmask ⊢
          simp only [Option.any_some, Option.isNone_iff_eq_none] at hmask
          cases hs : so_mask_start m with
          | none => exact absurd hs (by simpa using hmask)
          | some k => exact ⟨by simp [hs], rfl⟩
        · intro hm
          rw [hm]
          exact ⟨rfl, rfl⟩
        · simp only [List.all_eq_true, not_forall] at hname
          obtain ⟨c, hc, hcd⟩ := hname
          exact ⟨c, hc, by simpa using hcd⟩

/-- **C32** (`d3d10_effect_parse_stream_output_declaration`): for every entry of a
declaration that parses successfully (a C string of fewer than 2^32 - 1 characters), made
of the `i`-th text between the semicolons: a mask, the text behind the first dot, occurs at
the position `StartComponent` of "xyzw" or of "rgba" and `ComponentCount` is its length
(the position is the only one for a mask that is not empty, and 0 for the empty mask);
without a mask `StartComponent` is 0 and `ComponentCount` is 4; `SemanticIndex` is the
value of the decimal digits at the end of the name (0 when there are none), as far as the
value fits the `int` that `atoi` returns; and `SemanticName` is the name without those
digits, or NULL when that is "$SKIP" in any letter case. -/
theorem so_entry_fields (to_slot : Nat → Nat) (decl : List Nat)
    (h0 : 0 ∉ decl) (hlen : decl.length < 2 ^ 32 - 1) (so_decl : d3d10_effect_so_decl)
    (hok : d3d10_effect_parse_stream_output_declaration to_slot decl = .ok (S_OK, so_decl))
    (i : Nat) (piece : List Nat) (e : D3D10_SO_DECLARATION_ENTRY)
    (hp : (so_pieces decl)[i]? = some piece) (he : so_decl.entries[i]? = some e)
    (hint : decimal_value ((so_indexed_name (so_body piece)).drop
      ((so_indexed_name (so_body piece)).length
        - trailing_digits (so_indexed_name (so_body piece)))) < 2 ^ 31) :
    (∀ m, so_mask (so_body piece) = some m →
      (m <+: xyzw.drop e.StartComponent ∨ m <+: rgba.drop e.StartComponent) ∧
      e.ComponentCount = m.length ∧
      (m ≠ [] → ∀ k, m <+: xyzw.drop k ∨ m <+: rgba.drop k → e.StartComponent = k) ∧
      (m = [] → e.StartComponent = 0)) ∧
    (so_mask (so_body piece) = none → e.StartComponent = 0 ∧ e.ComponentCount = 4) ∧
    e.SemanticIndex = decimal_value ((so_indexed_name (so_body piece)).drop
      ((so_indexed_name (so_body piece)).length
        - trailing_digits (so_indexed_name (so_body piece)))) ∧
    e.SemanticIndex < 2 ^ 31 ∧
    (trailing_digits (so_indexed_name (so_body piece)) = 0 → e.SemanticIndex = 0) ∧
    e.SemanticName =
      (if ((so_indexed_name (so_body piece)).take
            ((so_indexed_name (so_body piece)).length
              - trailing_digits (so_indexed_name (so_body piece)))).map tolower
          = (cstr "$SKIP").map tolower then none
        else some ((so_indexed_name (so_body piece)).take
          ((so_indexed_name (so_body piece)).length
            - trailing_digits (so_indexed_name (so_body piece))))) := by
  have hview := parse_stream_output_declaration_eq to_slot decl h0 hlen
  rw [hok] at hview
  cases hspec : so_decl_of_pieces to_slot (so_pieces decl) [] 0 with
  | none => rw [hspec] at hview; cases hview
  | some r =>
    obtain ⟨hr, entries, stride⟩ := r
    rw [hspec] at hview
    simp only [so_decl_view, Option.map_some', Option.some.injEq, Prod.mk.injEq] at hview
    obtain ⟨hhr, hentries, -, -⟩ := hview
    subst hhr
    obtain ⟨es, hes, hall, -⟩ := so_decl_of_pieces_ok to_slot _ _ _ _ _ hspec
    rw [List.nil_append] at hes
    subst hes
    rw [← hentries] at hall
    have hpiece := forall2_at_index hall i piece e hp he
    obtain ⟨hmask, hnone, hindex, hname, -⟩ := so_entry_of_piece_fields to_slot piece e hpiece
    refine ⟨?_, hnone, hindex, by rw [hindex]; exact hint, ?_, hname⟩
    · intro m hm
      obtain ⟨hstart, hcount⟩ := hmask m hm
      have hocc := so_mask_start_eq_some m _ hstart
      refine ⟨hocc, hcount, fun hne k hk => mask_position_unique m hne _ _ hocc hk, ?_⟩
      intro hempty
      subst hempty
      rw [so_mask_start_empty] at hstart
      exact (Option.some.inj hstart).symm
    · intro hz
      rw [hindex, hz, Nat.sub_zero, List.drop_length]
      rfl

set_option maxRecDepth 100000 in
/-- Witness for `so_entry_fields`: "$SKIP.xy" parses to one entry with a NULL semantic
name, the start component 0 and two components; in "0:TEXCOORD12.gb" the mask "gb"
stands at position 1 of "rgba" and the index is 12. -/
theorem so_entry_fields_witness :
    (d3d10_effect_parse_stream_output_declaration to_byte (cstr "$SKIP.xy")).map
        (fun r => (r.1, r.2.entries, r.2.count))
      = .ok (S_OK, [⟨none, 0, 0, 2, 0⟩], 1) ∧
    (d3d10_effect_parse_stream_output_declaration to_byte (cstr "0:TEXCOORD12.gb")).map
        (fun r => (r.1, r.2.entries, r.2.count))
      = .ok (S_OK, [⟨some (cstr "TEXCOORD"), 12, 1, 2, 0⟩], 1) ∧
    (∀ m, so_mask (so_body (cstr "$SKIP.xy")) = some m →
      (m <+: xyzw.drop 0 ∨ m <+: rgba.drop 0) ∧ 2 = m.length ∧
      (m ≠ [] → ∀ k, m <+: xyzw.drop k ∨ m <+: rgba.drop k → 0 = k) ∧ (m = [] → 0 = 0)) :=
  ⟨by rfl, by rfl,
    (so_entry_fields to_byte (cstr "$SKIP.xy") (by decide) (by decide)
      ⟨[⟨none, 0, 0, 2, 0⟩], 1, 8, some (cstr "$SKIP" ++ 0 :: cstr "xy" ++ [0])⟩ (by rfl) 0
      (cstr "$SKIP.xy") ⟨none, 0, 0, 2, 0⟩ (by rfl) (by rfl) (by decide)).1⟩

/-! ## Arrays of scalars -/

theorem write_array_from_zero (var : d3d10_effect_variable) (buffer : resource_variable)
    (src : List Nat) (src_type : D3D10_SVT) (count : Nat) (elementtype : d3d10_effect_type)
    (hn : var.type.element_count ≠ 0) (het : var.type.elementtype = some elementtype) :
    returning_S_OK (write_variable_array_to_buffer var buffer src src_type 0 count)
      = write_first_elements var elementtype buffer src src_type
          (min count var.type.element_count) := by
  unfold write_variable_array_to_buffer write_first_elements
  rw [if_neg hn, if_neg (by omega), het]
  simp only [Nat.sub_zero, Nat.mul_zero, Nat.zero_mod, Nat.add_zero]
  by_cases hc : var.type.element_count < count
  · rw [if_pos hc, Nat.min_eq_right (by omega)]
  · rw [if_neg hc, Nat.min_eq_left (by omega)]

theorem read_array_from_zero (var : d3d10_effect_variable) (buffer : resource_variable)
    (dst : List Nat) (dst_type : D3D10_SVT) (count : Nat) (elementtype : d3d10_effect_type)
    (hn : var.type.element_count ≠ 0) (het : var.type.elementtype = some elementtype) :
    returning_S_OK (read_variable_array_from_buffer var buffer dst dst_type 0 count)
      = read_first_elements var elementtype buffer dst dst_type
          (min count var.type.element_count) := by
  unfold read_variable_array_from_buffer read_first_elements
  rw [if_neg hn, if_neg (by omega), het]
  simp only [Nat.sub_zero, Nat.mul_zero, Nat.zero_mod, Nat.add_zero]
  by_cases hc : var.type.element_count < count
  · rw [if_pos hc, Nat.min_eq_right (by omega)]
  · rw [if_neg hc, Nat.min_eq_left (by omega)]

/-- **C33** (`d3d10_effect_scalar_variable_Set/Get{Float,Int,Bool}Array`): for an array
variable with `n > 0` elements, every offset and every count, each of the six accessors
writes or reads the elements `0 .. min(count, n) - 1`, from the base offset of the
variable with the stride of its type, and returns `S_OK` unless the access faults: the
result does not depend on the offset. -/
theorem scalar_array_offset_ignored (var : d3d10_effect_variable) (buffer : resource_variable)
    (values : List Nat) (offset count : Nat) (elementtype : d3d10_effect_type)
    (hn : var.type.element_count ≠ 0) (het : var.type.elementtype = some elementtype) :
    d3d10_effect_scalar_variable_SetFloatArray var buffer values offset count
      = write_first_elements var elementtype buffer values .FLOAT
          (min count var.type.element_count) ∧
    d3d10_effect_scalar_variable_SetIntArray var buffer values offset count
      = write_first_elements var elementtype buffer values .INT
          (min count var.type.element_count) ∧
    d3d10_effect_scalar_variable_SetBoolArray var buffer values offset count
      = write_first_elements var elementtype buffer values .BOOL
          (min count var.type.element_count) ∧
    d3d10_effect_scalar_variable_GetFloatArray var buffer values offset count
      = read_first_elements var elementtype buffer values .FLOAT
          (min count var.type.element_count) ∧
    d3d10_effect_scalar_variable_GetIntArray var buffer values offset count
      = read_first_elements var elementtype buffer values .INT
          (min count var.type.element_count) ∧
    d3d10_effect_scalar_variable_GetBoolArray var buffer values offset count
      = read_first_elements var elementtype buffer values .BOOL
          (min count var.type.element_count) ∧
    d3d10_effect_scalar_variable_SetFloatArray var buffer values offset count
      = d3d10_effect_scalar_variable_SetFloatArray var buffer values 0 count ∧
    d3d10_effect_scalar_variable_GetFloatArray var buffer values offset count
      = d3d10_effect_scalar_variable_GetFloatArray var buffer values 0 count :=
  ⟨write_array_from_zero var buffer values .FLOAT count elementtype hn het,
    write_array_from_zero var buffer values .INT count elementtype hn het,
    write_array_from_zero var buffer values .BOOL count elementtype hn het,
    read_array_from_zero var buffer values .FLOAT count elementtype hn het,
    read_array_from_zero var buffer values .INT count elementtype hn het,
    read_array_from_zero var buffer values .BOOL count elementtype hn het, rfl, rfl⟩

set_option maxRecDepth 100000 in
/-- Witness for `scalar_array_offset_ignored`: `SetFloatArray` with five values, the
offset 2 and the count 5 on an array of three floats with stride 16 writes the first three
values to the elements 0, 1 and 2; `GetFloatArray` with the offset 1 and the count 2 reads
the elements 0 and 1. -/
theorem scalar_array_offset_ignored_witness :
    d3d10_effect_scalar_variable_SetFloatArray float_array_variable
        (buffer_with (List.replicate 48 0)) (words [11, 12, 13, 14, 15]) 2 5
      = .ok (S_OK, { buffer_with (List.replicate 48 0) with
          local_buffer := some (words [11, 0, 0, 0, 12, 0, 0, 0, 13, 0, 0, 0]),
          changed := true }) ∧
    d3d10_effect_scalar_variable_GetFloatArray float_array_variable
        (buffer_with (words [11, 0, 0, 0, 12, 0, 0, 0, 13, 0, 0, 0])) (words [0, 0, 0]) 1 2
      = .ok (S_OK, words [11, 12, 0]) ∧
    d3d10_effect_scalar_variable_SetFloatArray float_array_variable
        (buffer_with (List.replicate 48 0)) (words [11, 12, 13, 14, 15]) 2 5
      = write_first_elements float_array_variable
          (.mk none .FLOAT .SCALAR 0 0 4 16 4 1 1 0 none [])
          (buffer_with (List.replicate 48 0)) (words [11, 12, 13, 14, 15]) .FLOAT
          (min 5 float_array_variable.type.element_count) :=
  ⟨by rfl, by rfl,
    (scalar_array_offset_ignored float_array_variable (buffer_with (List.replicate 48 0))
      (words [11, 12, 13, 14, 15]) 2 5 (.mk none .FLOAT .SCALAR 0 0 4 16 4 1 1 0 none [])
      (by decide) rfl).1⟩

/-! ## The description of an effect and lookup by index -/

theorem member_count_sum (lb : List d3d10_effect_variable) :
    ∀ k : Nat, k + (lb.map d3d10_effect_variable.members).flatten.length < 2 ^ 32 →
      lb.foldl (fun n v => (n + v.members.length) % 2 ^ 32) k
        = k + (lb.map d3d10_effect_variable.members).flatten.length := by
  induction lb with
  | nil => intro k _; simp
  | cons b rest ih =>
    intro k h
    simp only [List.map_cons, List.flatten_cons, List.length_append, List.foldl_cons] at h ⊢
    rw [Nat.mod_eq_of_lt (by omega), ih _ (by omega)]
    omega

theorem get_desc_global_variables (e : d3d10_effect)
    (h : (own_variables e.local_buffers e.local_variables).length < 2 ^ 32) :
    (d3d10_effect_get_desc e).GlobalVariables
      = (own_variables e.local_buffers e.local_variables).length := by
  unfold own_variables at h ⊢
  rw [List.length_append] at h ⊢
  show e.local_buffers.foldl (fun n v => (n + v.members.length) % 2 ^ 32)
    e.local_variables.length = _
  rw [member_count_sum _ _ (by omega)]
  omega

theorem var_or_null_valid_iff (k : vtbl_kind) (coll : List d3d10_effect_variable) (i : Nat) :
    (var_or_null k coll[i]?).IsValid = true ↔ i < coll.length := by
  by_cases h : i < coll.length
  · rw [List.getElem?_eq_getElem h]
    simp [var_or_null, var_ref_obj_valid, h]
  · rw [List.getElem?_eq_none (by omega)]
    simp [var_or_null, var_ref_sentinel_invalid, h]

/-- **C34** (`d3d10_effect_GetDesc`): for every effect, without a pool or with a pool
that has no pool of its own (as `D3D10CreateEffectPoolFromMemory` creates it), with fewer
than 2^32 variables, the counts that `GetDesc` reports agree with the lookups by index:
`GetVariableByIndex(i)` is valid iff `i < GlobalVariables + SharedGlobalVariables` and
`GetConstantBufferByIndex(i)` is valid iff `i < ConstantBuffers + SharedConstantBuffers`;
an index below the local count addresses the effect's own symbols (the members of the
buffers in buffer order, then the local variables), the others the pool's, counted from
the local count. -/
theorem desc_counts_agree_with_index_lookup (effect : d3d10_effect)
    (desc0 desc : D3D10_EFFECT_DESC) (i : Nat)
    (hdesc : d3d10_effect_GetDesc effect (some desc0) = (S_OK, some desc))
    (hpool : ∀ pool, effect.pool = some pool → pool.pool = none)
    (hfit : (all_variables effect).length < 2 ^ 32) :
    ((d3d10_effect_GetVariableByIndex effect i).IsValid = true
      ↔ i < desc.GlobalVariables + desc.SharedGlobalVariables) ∧
    ((d3d10_effect_GetConstantBufferByIndex effect i).IsValid = true
      ↔ i < desc.ConstantBuffers + desc.SharedConstantBuffers) ∧
    (i < desc.GlobalVariables → d3d10_effect_GetVariableByIndex effect i
      = var_or_null .variable (own_variables effect.local_buffers effect.local_variables)[i]?) ∧
    (desc.GlobalVariables ≤ i → d3d10_effect_GetVariableByIndex effect i
      = match effect.pool with
        | some pool => d3d10_effect_GetVariableByIndex pool (i - desc.GlobalVariables)
        | none => .sentinel .variable) ∧
    (i < desc.ConstantBuffers → d3d10_effect_GetConstantBufferByIndex effect i
      = var_or_null .constant_buffer effect.local_buffers[i]?) ∧
    (desc.ConstantBuffers ≤ i → d3d10_effect_GetConstantBufferByIndex effect i
      = match effect.pool with
        | some pool => d3d10_effect_GetConstantBufferByIndex pool (i - desc.ConstantBuffers)
        | none => .sentinel .constant_buffer) := by
  obtain ⟨f, lb, lv, t, u, c, pool⟩ := effect
  simp only [d3d10_effect_GetDesc, Prod.mk.injEq, true_and, Option.some.injEq] at hdesc
  subst hdesc
  simp only [d3d10_effect_GetVariableByIndex, d3d10_effect_GetConstantBufferByIndex,
    get_variable_by_index_eq, get_buffer_by_index_eq, var_or_null_valid_iff]
  cases pool with
  | none =>
    simp only [all_variables, all_buffers, d3d10_effect.pool, d3d10_effect.local_buffers,
      d3d10_effect.local_variables] at hfit ⊢
    have hg := get_desc_global_variables (.mk f lb lv t u c none) hfit
    simp only [d3d10_effect.local_buffers, d3d10_effect.local_variables] at hg
    rw [hg]
    have hb : (d3d10_effect_get_desc (.mk f lb lv t u c none)).ConstantBuffers = lb.length := rfl
    rw [hb]
    refine ⟨by simp, by simp, fun _ => trivial, fun h => ?_, fun _ => trivial, fun h => ?_⟩
    · rw [List.getElem?_eq_none h]; rfl
    · rw [List.getElem?_eq_none h]; rfl
  | some p =>
    have hp := hpool p rfl
    obtain ⟨pf, plb, plv, pt, pu, pc, ppool⟩ := p
    simp only [d3d10_effect.pool] at hp
    subst hp
    simp only [all_variables, all_buffers, d3d10_effect.pool, d3d10_effect.local_buffers,
      d3d10_effect.local_variables, List.length_append] at hfit ⊢
    have hg := get_desc_global_variables (.mk f lb lv t u c (some (.mk pf plb plv pt pu pc none)))
      (by simp only [d3d10_effect.local_buffers, d3d10_effect.local_variables]; omega)
    have hgp := get_desc_global_variables (.mk pf plb plv pt pu pc none)
      (by simp only [d3d10_effect.local_buffers, d3d10_effect.local_variables]; omega)
    simp only [d3d10_effect.local_buffers, d3d10_effect.local_variables] at hg hgp
    rw [hg, hgp]
    have hb : (d3d10_effect_get_desc
        (.mk f lb lv t u c (some (.mk pf plb plv pt pu pc none)))).ConstantBuffers
        = lb.length := rfl
    have hbp : (d3d10_effect_get_desc (.mk pf plb plv pt pu pc none)).ConstantBuffers
        = plb.length := rfl
    rw [hb, hbp]
    refine ⟨Iff.rfl, Iff.rfl, fun h => ?_, fun h => ?_, fun h => ?_, fun h => ?_⟩
    · rw [List.getElem?_append_left h]
    · rw [List.getElem?_append_right h]
    · rw [List.getElem?_append_left h]
    · rw [List.getElem?_append_right h]

set_option maxRecDepth 100000 in
/-- Witness for `desc_counts_agree_with_index_lookup`: the effect `child_x` has one buffer
with one member and its pool `pool_x` has one buffer with one member; the indices 0 and 1
are valid, the index 2 is not. -/
theorem desc_counts_agree_with_index_lookup_witness :
    d3d10_effect_GetDesc child_x (some ⟨false, 0, 0, 0, 0, 0⟩)
      = (S_OK, some ⟨true, 1, 1, 1, 1, 0⟩) ∧
    ((d3d10_effect_GetVariableByIndex child_x 1).IsValid = true ↔ 1 < 1 + 1) ∧
    d3d10_effect_GetVariableByIndex child_x 1 = .obj (float_variable "x" 16) ∧
    (d3d10_effect_GetVariableByIndex child_x 2).IsValid = false ∧
    (d3d10_effect_GetConstantBufferByIndex child_x 2).IsValid = false :=
  ⟨by rfl,
    (desc_counts_agree_with_index_lookup child_x ⟨false, 0, 0, 0, 0, 0⟩ ⟨true, 1, 1, 1, 1, 0⟩ 1
      (by rfl) (fun pool h => by
        have : pool = pool_x := (Option.some.inj h).symm
        subst this
        rfl) (by decide)).1,
    by rfl, by rfl, by rfl⟩

/-! ## The used-shader table after a parse -/

set_option maxRecDepth 100000 in
/-- **C35** (`parse_fx10_body`), evaluation. A body whose header declares `n` used shaders
and no records parses with success and leaves all `n` slots of the used-shader table NULL,
with `used_shader_current = 0`; no statement compares `used_shader_current` with
`used_shader_count` when the parse is over. The effect created from
`blob_unfilled_shader_table` has one slot, which is NULL. -/
theorem parse_leaves_used_shader_slots_empty :
    (∀ (P : fx10_record_parsers) (n : Nat),
      parse_fx10_body P { fx10_header.zero with used_shader_count := n } [0]
          (d3d10_effect.create 0 none)
        = (.ok S_OK, .mk 0 [] [] [] (List.replicate n none) 0 none)) ∧
    (∀ P : fx10_record_parsers,
      ((d3d10_create_effect P (some blob_unfilled_shader_table) none 0).2.map fun e =>
          (e.used_shaders, e.used_shader_current))
        = some ([none], 0)) ∧
    (fx10_header_at (blob_unfilled_shader_table.drop 44)).used_shader_count = 1 := by
  refine ⟨fun P n => by rfl, fun P => by rfl, by rfl⟩

/-! ## Stream output declarations: the scan for the index digits -/

set_option maxRecDepth 100000 in
/-- **C37** (`d3d10_effect_parse_stream_output_declaration`), evaluation. For the
declarations "7" and ".xy" the backward scan `while (isdigit(p[len - 1])) len--;` reaches
`len = 0` and reads `p[len - 1]` with the `unsigned int` index 0xffffffff, outside the copy
of the declaration; so it does for an entry with such a name behind another entry
("A;7") and for an empty entry (";"). -/
theorem so_index_scan_reads_outside (to_slot : Nat → Nat) :
    d3d10_effect_parse_stream_output_declaration to_slot (cstr "7")
      = .error (.oob_read 0xffffffff) ∧
    d3d10_effect_parse_stream_output_declaration to_slot (cstr ".xy")
      = .error (.oob_read 0xffffffff) ∧
    d3d10_effect_parse_stream_output_declaration to_slot (cstr "A;7")
      = .error (.oob_read (2 + 0xffffffff)) ∧
    d3d10_effect_parse_stream_output_declaration to_slot (cstr ";")
      = .error (.oob_read 0xffffffff) ∧
    (d3d10_effect_parse_stream_output_declaration to_slot (cstr "A7")).map (fun r => r.1)
      = .ok S_OK := by
  refine ⟨by rfl, by rfl, by rfl, by rfl, by rfl⟩

/-! ## `require_space` -/

/-- **C40** (`require_space`): for all natural numbers `offset <= data_size`, `count` and
`size`, `require_space(offset, count, size, data_size)` is true if and only if
`offset + count * size <= data_size` over the natural numbers. -/
theorem require_space_iff_fits (offset count size data_size : Nat) (h : offset ≤ data_size) :
    require_space offset count size data_size = true ↔ offset + count * size ≤ data_size := by
  simp only [require_space, size_t_sub, if_pos h, Bool.or_eq_true, beq_iff_eq,
    decide_eq_true_eq]
  rcases Nat.eq_zero_or_pos count with h0 | hpos
  · subst h0
    simp [h]
  · rw [Nat.le_div_iff_mul_le hpos]
    constructor
    · rintro (h0 | hle)
      · omega
      · rw [Nat.mul_comm] at hle
        omega
    · intro hle
      right
      rw [Nat.mul_comm]
      omega

/-- Witness for `require_space_iff_fits`: two words at offset 8 fit a buffer of 16 bytes,
three do not. -/
theorem require_space_iff_fits_witness :
    (require_space 8 2 4 16 = true ↔ 8 + 2 * 4 ≤ 16) ∧ require_space 8 2 4 16 = true ∧
    require_space 8 3 4 16 = false :=
  ⟨require_space_iff_fits 8 2 4 16 (by decide), by decide, by decide⟩

/-! ## The order of the type registry -/

theorem dword_to_int_neg_iff (w : Nat) (h : w < 2 ^ 32) : dword_to_int w < 0 ↔ 2 ^ 31 ≤ w := by
  unfold dword_to_int
  rw [Nat.mod_eq_of_lt h]
  split <;> constructor <;> intro h1 <;> omega

theorem dword_to_int_pos_iff (w : Nat) (h : w < 2 ^ 32) :
    0 < dword_to_int w ↔ 0 < w ∧ w < 2 ^ 31 := by
  unfold dword_to_int
  rw [Nat.mod_eq_of_lt h]
  split <;> constructor <;> intro h1 <;> omega

theorem dword_to_int_zero_iff (w : Nat) (h : w < 2 ^ 32) : dword_to_int w = 0 ↔ w = 0 := by
  unfold dword_to_int
  rw [Nat.mod_eq_of_lt h]
  split <;> constructor <;> intro h1 <;> omega

/-- **C39** (`d3d10_effect_type_compare`), evaluation. The comparison returns the 32-bit
difference of the offsets as an `int`, so its sign is that of the order only for offsets
less than 2^31 apart: the key 0x80000004 compares as smaller than the id 4, and the
offsets 4, 0x60000004 and 0xc0000004 compare as 4 < 0x60000004 < 0xc0000004 < 4. The result
is zero exactly for equal offsets; for offsets that differ by less than 2^31, in
particular for all offsets below 2^31, it is negative, zero or positive as the key is
smaller than, equal to or greater than the id. -/
theorem type_compare_wraps_around :
    d3d10_effect_type_compare 0x80000004 4 = -2147483648 ∧
    d3d10_effect_type_compare 4 0x60000004 < 0 ∧
    d3d10_effect_type_compare 0x60000004 0xc0000004 < 0 ∧
    d3d10_effect_type_compare 0xc0000004 4 < 0 ∧
    (∀ a b, a < 2 ^ 32 → b < 2 ^ 32 → (d3d10_effect_type_compare a b = 0 ↔ a = b)) ∧
    (∀ a b, a < 2 ^ 32 → b < 2 ^ 32 → a < b + 2 ^ 31 → b < a + 2 ^ 31 →
      (d3d10_effect_type_compare a b < 0 ↔ a < b) ∧
      (0 < d3d10_effect_type_compare a b ↔ b < a)) := by
  refine ⟨by decide, by decide, by decide, by decide, ?_, ?_⟩
  · intro a b ha hb
    unfold d3d10_effect_type_compare
    rw [dword_to_int_zero_iff _ (Nat.mod_lt _ (by decide)), Nat.mod_eq_of_lt ha,
      Nat.mod_eq_of_lt hb]
    omega
  · intro a b ha hb hab hba
    unfold d3d10_effect_type_compare
    rw [dword_to_int_neg_iff _ (Nat.mod_lt _ (by decide)),
      dword_to_int_pos_iff _ (Nat.mod_lt _ (by decide)), Nat.mod_eq_of_lt ha,
      Nat.mod_eq_of_lt hb]
    omega

/-! ## `d3d10_get_shader_variable` -/

theorem used_shader_position_of_first (v : Nat) :
    ∀ (used_shaders : List (Option Nat)) (p : Nat), used_shaders[p]? = some (some v) →
      (∀ q, q < p → used_shaders[q]? ≠ some (some v)) → used_shader_position v used_shaders = p
  | [], p, h, _ => by simp at h
  | slot :: rest, 0, h, _ => by
    simp only [List.getElem?_cons_zero, Option.some.injEq] at h
    rw [used_shader_position, if_pos h]
  | slot :: rest, p + 1, h, hfirst => by
    have h0 := hfirst 0 (Nat.succ_pos p)
    simp only [List.getElem?_cons_zero, ne_eq, Option.some.injEq] at h0
    rw [used_shader_position, if_neg h0,
      used_shader_position_of_first v rest p (by simpa using h)
        (fun q hq => by simpa using hfirst (q + 1) (by omega))]

/-- **C36** (`d3d10_get_shader_variable`), evaluation. In a table of two shaders the
variable at position 1 asked for the shader index 0xffffffff gets the shader at position 0,
stored before it, with `S_OK`: the sum `i + shader_index` is an `unsigned int` and wraps
around. Whenever the sum `p + k` of the position `p` of a variable that is not an array and
an index `k > 0` stays below 2^32, the call fails with `E_FAIL` for
`p + k >= used_shader_count` and returns the shader at position `p + k` otherwise. -/
theorem shader_index_wraps_around :
    d3d10_get_shader_variable [some 100, some 200] ⟨0, 200, []⟩ 0xffffffff true
      = .ok (S_OK, some 100) ∧
    (∀ (used_shaders : List (Option Nat)) (v p k : Nat) (b : Bool),
      used_shaders[p]? = some (some v) → (∀ q, q < p → used_shaders[q]? ≠ some (some v)) →
      0 < k → p + k < 2 ^ 32 →
      (used_shaders.length ≤ p + k →
        d3d10_get_shader_variable used_shaders ⟨0, v, []⟩ k b = .ok (E_FAIL, none)) ∧
      (∀ a, used_shaders[p + k]? = some (some a) →
        d3d10_get_shader_variable used_shaders ⟨0, v, []⟩ k b = .ok (S_OK, some a))) := by
  refine ⟨by decide, ?_⟩
  intro used_shaders v p k b hp hfirst hk hfit
  have hpos := used_shader_position_of_first v used_shaders p hp hfirst
  have hk0 : k ≠ 0 := by omega
  refine ⟨fun hge => ?_, fun a ha => ?_⟩
  · simp only [d3d10_get_shader_variable, array_element_address, if_true, if_neg hk0, hpos,
      Nat.mod_eq_of_lt hfit, if_pos hge]
  · have hlt : p + k < used_shaders.length := by
      by_contra hge
      rw [List.getElem?_eq_none (by omega)] at ha
      cases ha
    simp only [d3d10_get_shader_variable, array_element_address, if_true, if_neg hk0, hpos,
      Nat.mod_eq_of_lt hfit, if_neg (Nat.not_le.mpr hlt), ha]

/-! ## Records without annotations -/

/-- **C38** (`parse_fx10_annotations`), evaluation. Called with an annotation count of 0,
`parse_fx10_annotations` produces an empty list and consumes no input, but it returns the
local `hr`, which no statement has assigned: the result code is the indeterminate value.
When that value is a failure code such as `E_FAIL`, a technique record without annotations
fails to parse with it. -/
theorem annotations_count_zero_returns_indeterminate :
    (∀ (parse : record_parser_t d3d10_effect_variable) (hr_uninit : HRESULT) (data : List Nat)
      (ptr : Nat) (e : d3d10_effect),
      parse_fx10_annotations parse hr_uninit 0 data ptr e = (.ok hr_uninit, ptr, [], e)) ∧
    (∀ (parse : record_parser_t d3d10_effect_variable)
      (parse_pass : record_parser_t d3d10_effect_pass) (hr_uninit : HRESULT),
      (parse_fx10_technique (parse_fx10_annotations parse hr_uninit) parse_pass
        blob_technique_without_annotations 2 (d3d10_effect.create 0 none)).1
        = .ok (if FAILED hr_uninit then hr_uninit else S_OK)) ∧
    FAILED E_FAIL = true := by
  refine ⟨fun _ _ _ _ _ => rfl, fun parse parse_pass hr => ?_, by decide⟩
  have h1 : read_dword blob_technique_without_annotations 2 = .ok (0, 6) := by decide
  have h2 : fx10_copy_string blob_technique_without_annotations 0 = some (some (cstr "T")) := by
    decide
  have h3 : read_dword blob_technique_without_annotations 6 = .ok (0, 10) := by decide
  have h4 : read_dword blob_technique_without_annotations 10 = .ok (0, 14) := by decide
  simp only [parse_fx10_technique, h1, h2, h3, h4, parse_fx10_annotations,
    parse_fx10_annotations_loop, parse_fx10_technique_passes]
  by_cases hf : FAILED hr = true
  · simp [hf]
  · simp only [hf, Bool.false_eq_true, if_false]
    rfl

end D3D10Effect
